import Mathlib

/-!
# Baby Dragon: a shallow embedding of `game.js`

The simulation state of the game (the free-standing `let`/`const` variables of
`game.js`) is gathered in one record `State`; every function of the source that
mutates those variables becomes a function `State → State`.

Number model.  In the model of the tick JavaScript numbers are exact:
coordinates, speeds and sizes are rationals (`ℚ`) and no operation rounds; frame
counters (score, tail length, cooldowns, spawn timers) are natural numbers, and
the two counters the source decrements without a positivity guard
(`powerupDuration`, a projectile's `lifetime`) are integers.  The engine
computes in binary64, so a comparison of the source can come out differently
within one rounding of its threshold.  For `checkDragonObstacleCollision` and
`checkCircleCollision` a second embedding rounds every operation to binary64
(sections "Binary64 arithmetic", "The dragon-vs-obstacle test in binary64" and
"The collision pass in binary64") and is compared with the exact one.
`Math.random()` draws are explicit arguments.  Rendering, DOM updates and audio
playback are not part of the state; the sound cooldown table is.
-/

namespace BabyDragon

/-! ## Data model -/

/-- Values of `gameState`. -/
inductive GameState where
  | start
  | playing
  | paused
  | gameOver
deriving DecidableEq

/-- Values of `dragon.evolution`. -/
inductive Evolution where
  | baby
  | fire
  | phoenix
  | mythical
deriving DecidableEq

/-- Values of a power-up's `type`. -/
inductive PowerupType where
  | shield
  | slowmo
deriving DecidableEq

/-- Arguments of `playSound`, the keys of `soundCooldowns`. -/
inductive Sound where
  | jump
  | collect
  | crash
  | ability
deriving DecidableEq

/-- The mutable fields of the `dragon` object. -/
structure Dragon where
  x : ℚ
  y : ℚ
  velocity : ℚ
  rotation : ℚ
  evolution : Evolution
  tailLength : Nat
deriving DecidableEq

/-- Field `dragon.width`, never assigned after its initialiser. -/
def dragon_width : ℚ := 120

/-- Field `dragon.height`, never assigned after its initialiser. -/
def dragon_height : ℚ := 120

/-- Field `dragon.gravity`. -/
def dragon_gravity : ℚ := 1 / 10

/-- Field `dragon.jumpStrength`. -/
def dragon_jumpStrength : ℚ := -5

def tailSegmentSize : ℚ := 20
def tailDelay : Nat := 5
def obstacleWidth : ℚ := 80
def obstacleGap : ℚ := 300
def minObstacleGap : ℚ := 200
def obstacleSpeed : ℚ := 3
def obstacleSpawnInterval : Nat := 150
def collectibleSize : ℚ := 25
def collectibleSpawnInterval : Nat := 200
def powerupSize : ℚ := 30
def powerupSpawnInterval : Nat := 800

/-- Field `abilities.fire.maxCooldown`. -/
def fire_maxCooldown : Nat := 300

/-- Field `abilities.shield.maxCooldown`. -/
def shield_maxCooldown : Nat := 180

/-- An entry of `tailHistory`. -/
structure Point where
  x : ℚ
  y : ℚ
deriving DecidableEq

/-- An entry of `tail`. -/
structure TailSegment where
  x : ℚ
  y : ℚ
  size : ℚ
deriving DecidableEq

/-- An entry of `obstacles`. -/
structure Obstacle where
  x : ℚ
  gapY : ℚ
  gapSize : ℚ
  passed : Bool
deriving DecidableEq

/-- An entry of `collectibles`. -/
structure Collectible where
  x : ℚ
  y : ℚ
  size : ℚ
  rotation : ℚ
  collected : Bool
deriving DecidableEq

/-- An entry of `powerups`. -/
structure Powerup where
  x : ℚ
  y : ℚ
  type : PowerupType
  rotation : ℚ
  pulse : ℚ
deriving DecidableEq

/-- An entry of `fireBreaths`. -/
structure FireBreath where
  x : ℚ
  y : ℚ
  size : ℚ
  lifetime : Int
deriving DecidableEq

/-- One entry of `abilities` (without the constant `maxCooldown`). -/
structure Ability where
  unlocked : Bool
  available : Bool
  cooldown : Nat
  active : Bool
deriving DecidableEq

/-- The `abilities` object. -/
structure Abilities where
  fire : Ability
  shield : Ability
deriving DecidableEq

/-- The `soundCooldowns` object. -/
structure SoundCooldowns where
  jump : Nat
  collect : Nat
  crash : Nat
  ability : Nat
deriving DecidableEq

/-- All mutable variables of the simulation, with the canvas size. -/
@[ext] structure State where
  canvasWidth : ℚ
  canvasHeight : ℚ
  gameState : GameState
  score : Nat
  highScore : Int
  lastTime : ℚ
  gameSpeed : ℚ
  dragon : Dragon
  tail : List TailSegment
  tailHistory : List Point
  obstacles : List Obstacle
  obstacleSpawnTimer : Nat
  collectibles : List Collectible
  collectibleSpawnTimer : Nat
  powerups : List Powerup
  powerupSpawnTimer : Nat
  activePowerup : Option PowerupType
  powerupDuration : Int
  abilities : Abilities
  fireBreaths : List FireBreath
  soundCooldowns : SoundCooldowns
deriving DecidableEq

/-- The four `Math.random()` calls one tick can make, in source order:
the gap position in `spawnObstacles`, then in `spawnPowerups` the probability
gate, the height and the type. Each is a number in `[0, 1)`. -/
structure Draws where
  gap : ℚ
  gate : ℚ
  height : ℚ
  type : ℚ
deriving DecidableEq

/-! ## Sound cooldowns and game over -/

/-- State effect of `playSound(type)`: nothing while that cue is cooling down,
otherwise the cue's cooldown is set (10, 15, 30, 20). -/
def playSound (s : State) : Sound → State
  | Sound.jump =>
    if s.soundCooldowns.jump > 0 then s
    else { s with soundCooldowns := { s.soundCooldowns with jump := 10 } }
  | Sound.collect =>
    if s.soundCooldowns.collect > 0 then s
    else { s with soundCooldowns := { s.soundCooldowns with collect := 15 } }
  | Sound.crash =>
    if s.soundCooldowns.crash > 0 then s
    else { s with soundCooldowns := { s.soundCooldowns with crash := 30 } }
  | Sound.ability =>
    if s.soundCooldowns.ability > 0 then s
    else { s with soundCooldowns := { s.soundCooldowns with ability := 20 } }

/-- Function `gameOver()`. -/
def gameOver (s : State) : State :=
  playSound { s with gameState := GameState.gameOver } Sound.crash

/-! ## Evolution and abilities -/

/-- Entry `evolutionThresholds.fire`. -/
def evolutionThresholds_fire : Nat := 5

/-- Entry `evolutionThresholds.phoenix`. -/
def evolutionThresholds_phoenix : Nat := 12

/-- Entry `evolutionThresholds.mythical`. -/
def evolutionThresholds_mythical : Nat := 20

/-- The stage chosen by the descending threshold chain of `checkEvolution`. -/
def evolutionStage (tailLength : Nat) : Evolution :=
  if tailLength ≥ evolutionThresholds_mythical then Evolution.mythical
  else if tailLength ≥ evolutionThresholds_phoenix then Evolution.phoenix
  else if tailLength ≥ evolutionThresholds_fire then Evolution.fire
  else Evolution.baby

/-- Function `checkEvolution()`. -/
def checkEvolution (s : State) : State :=
  let oldEvolution := s.dragon.evolution
  let evo := evolutionStage s.dragon.tailLength
  let s1 : State := { s with dragon := { s.dragon with evolution := evo } }
  let s2 : State :=
    if (evo = Evolution.fire ∨ evo = Evolution.mythical) ∧ s1.abilities.fire.unlocked = false then
      { s1 with abilities := { s1.abilities with
          fire := { s1.abilities.fire with unlocked := true, available := true, cooldown := 0 } } }
    else s1
  let s3 : State :=
    if (evo = Evolution.phoenix ∨ evo = Evolution.mythical) ∧ s2.abilities.shield.unlocked = false then
      { s2 with abilities := { s2.abilities with
          shield := { s2.abilities.shield with unlocked := true, available := true, cooldown := 0 } } }
    else s2
  if oldEvolution ≠ evo then playSound s3 Sound.ability else s3

/-- Function `useFireBreath()`. -/
def useFireBreath (s : State) : State :=
  if s.abilities.fire.unlocked = true ∧ s.abilities.fire.available = true
      ∧ s.abilities.fire.cooldown = 0 then
    let s1 : State := { s with
      abilities := { s.abilities with
        fire := { s.abilities.fire with available := false, cooldown := fire_maxCooldown } },
      fireBreaths := s.fireBreaths ++
        [{ x := s.dragon.x + dragon_width / 2, y := s.dragon.y, size := 15, lifetime := 100 }] }
    playSound s1 Sound.ability
  else s

/-- Function `useShield()`. -/
def useShield (s : State) : State :=
  if s.abilities.shield.unlocked = true ∧ s.abilities.shield.available = true
      ∧ s.abilities.shield.cooldown = 0 then
    let s1 : State := { s with
      abilities := { s.abilities with
        shield := { s.abilities.shield with available := false, active := true, cooldown := 180 } } }
    playSound s1 Sound.ability
  else s

/-- Function `jump()`. -/
def jump (s : State) : State :=
  playSound { s with dragon := { s.dragon with velocity := dragon_jumpStrength } } Sound.jump

/-- Function `updateAbilities()`. -/
def updateAbilities (s : State) : State :=
  let fire := s.abilities.fire
  let fire1 : Ability :=
    if fire.cooldown > 0 then
      let f : Ability := { fire with cooldown := fire.cooldown - 1 }
      if f.cooldown = 0 ∧ f.unlocked = true then { f with available := true } else f
    else fire
  let shield := s.abilities.shield
  let shield1 : Ability :=
    if shield.cooldown > 0 then
      let h : Ability := { shield with cooldown := shield.cooldown - 1 }
      if h.cooldown = 0 then
        let h1 : Ability := { h with active := false }
        if h1.unlocked = true then { h1 with available := true } else h1
      else h
    else shield
  { s with abilities := { fire := fire1, shield := shield1 } }

/-- The state effect of `updateUI()`: besides writing to the page, its
cooldown-display block re-enables an unlocked ability whose cooldown is not
running (for Shield: not running, or hidden because the shield is active, and
in both cases only if the shield is not active). -/
def updateUI (s : State) : State :=
  let fire := s.abilities.fire
  let fire1 : Ability :=
    if fire.cooldown > 0 then fire
    else if fire.unlocked = true then { fire with available := true } else fire
  let shield := s.abilities.shield
  let shield1 : Ability :=
    if shield.cooldown > 0 ∧ shield.active = false then shield
    else if shield.unlocked = true ∧ shield.active = false then { shield with available := true }
    else shield
  { s with abilities := { fire := fire1, shield := shield1 } }

/-! ## Power-up effects -/

/-- Function `activatePowerup(type)`. -/
def activatePowerup (s : State) (type : PowerupType) : State :=
  let s1 : State := { s with activePowerup := some type, powerupDuration := 180 }
  match type with
  | PowerupType.shield =>
    { s1 with abilities := { s1.abilities with
        shield := { s1.abilities.shield with active := true, cooldown := 180 } } }
  | PowerupType.slowmo => { s1 with gameSpeed := 1 / 2 }

/-- Function `deactivatePowerup()`. -/
def deactivatePowerup (s : State) : State :=
  let s1 : State := if s.activePowerup = some PowerupType.slowmo then { s with gameSpeed := 1 } else s
  let s2 : State :=
    if s1.activePowerup = some PowerupType.shield then
      { s1 with abilities := { s1.abilities with
          shield := { s1.abilities.shield with active := false } } }
    else s1
  { s2 with activePowerup := none, powerupDuration := 0 }

/-! ## Geometry -/

/-- The test `Math.hypot(a, b) < r` in exact arithmetic: `Math.hypot` is the
Euclidean norm, which is never negative, so the test holds exactly when `r` is
positive and `a² + b² < r²`. -/
def hypot_lt (a b r : ℚ) : Bool :=
  decide (0 < r ∧ a * a + b * b < r * r)

/-- Function `checkCircleCollision(x1, y1, r1, x2, y2, r2)` in exact
arithmetic; `checkCircleCollision_binary64` is the same with the rounding of
the engine. -/
def checkCircleCollision (x1 y1 r1 x2 y2 r2 : ℚ) : Bool :=
  hypot_lt (x2 - x1) (y2 - y1) (r1 + r2)

/-- Function `checkDragonObstacleCollision(obstacle)` in exact arithmetic;
`checkDragonObstacleCollision_binary64` is the same with the rounding of the
engine. -/
def checkDragonObstacleCollision (d : Dragon) (obstacle : Obstacle) : Bool :=
  let collisionReduction : ℚ := 3 / 10
  let effectiveWidth := dragon_width * (1 - collisionReduction)
  let effectiveHeight := dragon_height * (1 - collisionReduction)
  if d.x + effectiveWidth / 2 > obstacle.x ∧
      d.x - effectiveWidth / 2 < obstacle.x + obstacleWidth then
    if d.y - effectiveHeight / 2 < obstacle.gapY ∨
        d.y + effectiveHeight / 2 > obstacle.gapY + obstacle.gapSize then
      true
    else false
  else false

/-- Function `checkFireObstacleCollision(fire, obstacle)`. -/
def checkFireObstacleCollision (fire : FireBreath) (obstacle : Obstacle) : Bool :=
  decide (fire.x + 15 > obstacle.x ∧ fire.x < obstacle.x + obstacleWidth ∧
    (fire.y < obstacle.gapY ∨ fire.y > obstacle.gapY + obstacle.gapSize))

/-- Function `isSafeSpawnPosition(x, y)`. -/
def isSafeSpawnPosition (s : State) (x y : ℚ) : Bool :=
  if hypot_lt (x - s.dragon.x) (y - s.dragon.y) 100 then false
  else if s.tail.any (fun segment => hypot_lt (x - segment.x) (y - segment.y) 80) then false
  else if s.obstacles.any (fun obstacle =>
      decide (|x - obstacle.x| < 100 ∧
        (y < obstacle.gapY ∨ y > obstacle.gapY + obstacle.gapSize))) then false
  else true

/-! ## Pickups and the collision pass -/

/-- Function `collectCollectible(index)`. -/
def collectCollectible (s : State) (index : Nat) : State :=
  let s1 : State := { s with
    collectibles := s.collectibles.eraseIdx index,
    score := s.score + 1,
    dragon := { s.dragon with tailLength := s.dragon.tailLength + 1 } }
  let s2 := playSound s1 Sound.collect
  if (s2.score : Int) > s2.highScore then { s2 with highScore := (s2.score : Int) } else s2

/-- Function `collectPowerup(index)`; the index is always in range at the
only call site. -/
def collectPowerup (s : State) (index : Nat) : State :=
  match s.powerups[index]? with
  | none => s
  | some powerup =>
    let s1 : State := { s with powerups := s.powerups.eraseIdx index }
    playSound (activatePowerup s1 powerup.type) Sound.collect

/-- The loop `for (let i = collectibles.length - 1; i >= 0; i--)` of
`checkCollisions`; the first argument is `i + 1`. -/
def checkCollisions_collectibles : Nat → State → State
  | 0, s => s
  | i + 1, s =>
    match s.collectibles[i]? with
    | none => checkCollisions_collectibles i s
    | some c =>
      if checkCircleCollision s.dragon.x s.dragon.y (dragon_width / 2) c.x c.y (c.size / 2) then
        checkCollisions_collectibles i (collectCollectible s i)
      else checkCollisions_collectibles i s

/-- The loop `for (let i = powerups.length - 1; i >= 0; i--)` of
`checkCollisions`; the first argument is `i + 1`. -/
def checkCollisions_powerups : Nat → State → State
  | 0, s => s
  | i + 1, s =>
    match s.powerups[i]? with
    | none => checkCollisions_powerups i s
    | some p =>
      if checkCircleCollision s.dragon.x s.dragon.y (dragon_width / 2) p.x p.y (powerupSize / 2) then
        checkCollisions_powerups i (collectPowerup s i)
      else checkCollisions_powerups i s

/-- The test of the first loop of `checkCollisions`: some obstacle overlaps the
dragon while the shield is not active (the loop then calls `gameOver()` and
returns). -/
def checkCollisions_fatal (s : State) : Bool :=
  s.obstacles.any (fun obstacle =>
    checkDragonObstacleCollision s.dragon obstacle && !s.abilities.shield.active)

/-- Function `checkCollisions()`. -/
def checkCollisions (s : State) : State :=
  if checkCollisions_fatal s then gameOver s
  else
    let s1 := checkCollisions_collectibles s.collectibles.length s
    checkCollisions_powerups s1.powerups.length s1

/-! ## Per-population updates -/

/-- Body of the loop of `updateTail` for index `i`: push the history sample
at `tailHistory.length - 1 - (i + 1) * tailDelay` when that index is in range. -/
def updateTail_step (tailHistory : List Point) (segments : List TailSegment) (i : Nat) :
    List TailSegment :=
  let n : Int := tailHistory.length
  let historyIndex : Int := n - 1 - ((i : Int) + 1) * (tailDelay : Int)
  if 0 ≤ historyIndex ∧ historyIndex < n then
    match tailHistory[historyIndex.toNat]? with
    | some p => segments ++ [{ x := p.x, y := p.y, size := tailSegmentSize }]
    | none => segments
  else segments

/-- Function `updateTail()`: the tail is emptied, then the loop body runs for
`i = 0 .. tailLength - 1`. -/
def updateTail (s : State) : State :=
  { s with tail := (List.range s.dragon.tailLength).foldl (updateTail_step s.tailHistory) [] }

/-- The loop of `updateObstacles`; the first argument is `i + 1`. -/
def updateObstacles_loop (gameSpeed : ℚ) : Nat → List Obstacle → List Obstacle
  | 0, obstacles => obstacles
  | i + 1, obstacles =>
    match obstacles[i]? with
    | none => updateObstacles_loop gameSpeed i obstacles
    | some o =>
      let o1 : Obstacle := { o with x := o.x - obstacleSpeed * gameSpeed }
      let obstacles1 := obstacles.set i o1
      if o1.x + obstacleWidth < 0 then updateObstacles_loop gameSpeed i (obstacles1.eraseIdx i)
      else updateObstacles_loop gameSpeed i obstacles1

/-- Function `updateObstacles()`. -/
def updateObstacles (s : State) : State :=
  { s with
    obstacleSpawnTimer := s.obstacleSpawnTimer + 1,
    obstacles := updateObstacles_loop s.gameSpeed s.obstacles.length s.obstacles }

/-- The loop of `updateCollectibles`; the first argument is `i + 1`. -/
def updateCollectibles_loop (gameSpeed : ℚ) : Nat → List Collectible → List Collectible
  | 0, collectibles => collectibles
  | i + 1, collectibles =>
    match collectibles[i]? with
    | none => updateCollectibles_loop gameSpeed i collectibles
    | some c =>
      let c1 : Collectible := { c with x := c.x - obstacleSpeed * gameSpeed, rotation := c.rotation + 2 }
      let collectibles1 := collectibles.set i c1
      if c1.x + collectibleSize < 0 then
        updateCollectibles_loop gameSpeed i (collectibles1.eraseIdx i)
      else updateCollectibles_loop gameSpeed i collectibles1

/-- Function `updateCollectibles()`. -/
def updateCollectibles (s : State) : State :=
  { s with
    collectibleSpawnTimer := s.collectibleSpawnTimer + 1,
    collectibles := updateCollectibles_loop s.gameSpeed s.collectibles.length s.collectibles }

/-- The loop of `updatePowerups`; the first argument is `i + 1`. -/
def updatePowerups_loop (gameSpeed : ℚ) : Nat → List Powerup → List Powerup
  | 0, powerups => powerups
  | i + 1, powerups =>
    match powerups[i]? with
    | none => updatePowerups_loop gameSpeed i powerups
    | some p =>
      let p1 : Powerup := { p with
        x := p.x - obstacleSpeed * gameSpeed, rotation := p.rotation + 3, pulse := p.pulse + 1 / 10 }
      let powerups1 := powerups.set i p1
      if p1.x + powerupSize < 0 then updatePowerups_loop gameSpeed i (powerups1.eraseIdx i)
      else updatePowerups_loop gameSpeed i powerups1

/-- Function `updatePowerups()`. -/
def updatePowerups (s : State) : State :=
  { s with
    powerupSpawnTimer := s.powerupSpawnTimer + 1,
    powerups := updatePowerups_loop s.gameSpeed s.powerups.length s.powerups }

/-- The inner loop of `updateFireBreaths` (`j` from `obstacles.length - 1` down
to 0, first argument `j + 1`): the index of the obstacle the projectile
strikes, if any. -/
def updateFireBreaths_hit (fire : FireBreath) (obstacles : List Obstacle) : Nat → Option Nat
  | 0 => none
  | j + 1 =>
    match obstacles[j]? with
    | none => updateFireBreaths_hit fire obstacles j
    | some o =>
      if checkFireObstacleCollision fire o then some j
      else updateFireBreaths_hit fire obstacles j

/-- The strike part of the body of the outer loop of `updateFireBreaths` for
the projectile `fire` at index `i`: on a strike the obstacle and the
projectile are spliced out and the ability cue plays. -/
def updateFireBreaths_strike (i : Nat) (fire : FireBreath) (s : State) : State :=
  match updateFireBreaths_hit fire s.obstacles s.obstacles.length with
  | some j =>
    playSound { s with
      obstacles := s.obstacles.eraseIdx j,
      fireBreaths := s.fireBreaths.eraseIdx i } Sound.ability
  | none => s

/-- The expiry part of the body of the outer loop of `updateFireBreaths`:
`if (fireBreaths[i] && fireBreaths[i].lifetime <= 0) fireBreaths.splice(i, 1)`.
After a strike it reads whatever now sits at index `i`, as the source does. -/
def updateFireBreaths_expire (i : Nat) (s : State) : State :=
  match s.fireBreaths[i]? with
  | some g =>
    if g.lifetime ≤ 0 then { s with fireBreaths := s.fireBreaths.eraseIdx i } else s
  | none => s

/-- The body of the outer loop of `updateFireBreaths` at index `i`. -/
def updateFireBreaths_body (i : Nat) (s : State) : State :=
  match s.fireBreaths[i]? with
  | none => s
  | some f =>
    let f1 : FireBreath := { f with x := f.x + 8, lifetime := f.lifetime - 1 }
    let s1 : State := { s with fireBreaths := s.fireBreaths.set i f1 }
    updateFireBreaths_expire i (updateFireBreaths_strike i f1 s1)

/-- The outer loop of `updateFireBreaths`; the first argument is `i + 1`. -/
def updateFireBreaths_loop : Nat → State → State
  | 0, s => s
  | i + 1, s => updateFireBreaths_loop i (updateFireBreaths_body i s)

/-- Function `updateFireBreaths()`. -/
def updateFireBreaths (s : State) : State :=
  updateFireBreaths_loop s.fireBreaths.length s

/-! ## Spawning -/

/-- Function `spawnObstacles()`, with its random draw. -/
def spawnObstacles (s : State) (r : Draws) : State :=
  if s.obstacleSpawnTimer ≥ obstacleSpawnInterval then
    let gapY := r.gap * (s.canvasHeight - obstacleGap - 100) + 50
    { s with
      obstacleSpawnTimer := 0,
      obstacles := s.obstacles ++
        [{ x := s.canvasWidth, gapY := gapY, gapSize := max obstacleGap minObstacleGap,
           passed := false }] }
  else s

/-- Function `spawnCollectibles()`. -/
def spawnCollectibles (s : State) : State :=
  if s.collectibleSpawnTimer ≥ collectibleSpawnInterval ∧ s.obstacles.length > 0 then
    let s1 : State := { s with collectibleSpawnTimer := 0 }
    match s1.obstacles[s1.obstacles.length - 1]? with
    | none => s1
    | some obstacle =>
      if isSafeSpawnPosition s1 obstacle.x (obstacle.gapY + obstacle.gapSize / 2) then
        { s1 with collectibles := s1.collectibles ++
            [{ x := obstacle.x + obstacleWidth / 2, y := obstacle.gapY + obstacle.gapSize / 2,
               size := collectibleSize, rotation := 0, collected := false }] }
      else s1
  else s

/-- The expression `types[Math.floor(Math.random() * types.length)]` with
`types = ['shield', 'slowmo']`, for a draw in `[0, 1)`: index 0 or 1. -/
def spawnPowerups_type (r : ℚ) : PowerupType :=
  if ⌊r * 2⌋ = 0 then PowerupType.shield else PowerupType.slowmo

/-- Function `spawnPowerups()`, with its random draws. -/
def spawnPowerups (s : State) (r : Draws) : State :=
  if s.powerupSpawnTimer ≥ powerupSpawnInterval ∧ r.gate < 3 / 10 ∧ s.activePowerup = none then
    let s1 : State := { s with powerupSpawnTimer := 0 }
    let y := r.height * (s1.canvasHeight - 200) + 100
    if isSafeSpawnPosition s1 s1.canvasWidth y then
      { s1 with powerups := s1.powerups ++
          [{ x := s1.canvasWidth, y := y, type := spawnPowerups_type r.type,
             rotation := 0, pulse := 0 }] }
    else s1
  else s

/-! ## Reset and the tick -/

/-- Function `resetGame()`. -/
def resetGame (s : State) : State :=
  updateUI { s with
    dragon := { x := 150, y := s.canvasHeight / 2, velocity := 0, rotation := 0,
                evolution := Evolution.baby, tailLength := 0 },
    tail := [],
    tailHistory := [],
    obstacles := [],
    collectibles := [],
    powerups := [],
    fireBreaths := [],
    score := 0,
    gameSpeed := 1,
    abilities :=
      { fire := { unlocked := false, available := false, cooldown := 0, active := false },
        shield := { unlocked := false, available := false, cooldown := 0, active := false } },
    activePowerup := none,
    powerupDuration := 0,
    obstacleSpawnTimer := 0,
    collectibleSpawnTimer := 0,
    powerupSpawnTimer := 0 }

/-- First part of `updateGame()`: the physics step and the derived rotation. -/
def updateGame_physics (s : State) : State :=
  let effectiveSpeed := s.gameSpeed
  let velocity := s.dragon.velocity + dragon_gravity * effectiveSpeed
  let y := s.dragon.y + velocity * effectiveSpeed
  { s with dragon := { s.dragon with
      velocity := velocity, y := y, rotation := min (max (velocity * 3) (-30)) 90 } }

/-- Outcome of the boundary block of `updateGame()`. -/
inductive Boundary where
  /-- The branch `gameOver(); return;` was taken. -/
  | fatal (s : State)
  /-- Control reaches the tail-history update. -/
  | proceed (s : State)
deriving DecidableEq

/-- Second part of `updateGame()`: the two screen-boundary checks. -/
def updateGame_boundary (s : State) : Boundary :=
  if s.dragon.y - dragon_height / 2 ≤ 0 ∧ s.abilities.shield.active = false then
    Boundary.fatal (gameOver s)
  else
    let s1 : State :=
      if s.dragon.y - dragon_height / 2 ≤ 0 then
        { s with dragon := { s.dragon with y := dragon_height / 2, velocity := 0 } }
      else s
    if s1.dragon.y + dragon_height / 2 ≥ s1.canvasHeight ∧ s1.abilities.shield.active = false then
      Boundary.fatal (gameOver s1)
    else if s1.dragon.y + dragon_height / 2 ≥ s1.canvasHeight then
      Boundary.proceed { s1 with dragon := { s1.dragon with
        y := s1.canvasHeight - dragon_height / 2, velocity := 0 } }
    else Boundary.proceed s1

/-- The tail-history block of `updateGame()`: push, then shift once when the
buffer is longer than `tailLength * tailDelay + tailDelay`. -/
def updateGame_history (s : State) : State :=
  let h := s.tailHistory ++ [{ x := s.dragon.x, y := s.dragon.y }]
  { s with tailHistory :=
      if h.length > s.dragon.tailLength * tailDelay + tailDelay then h.tail else h }

/-- The power-up duration block of `updateGame()`. -/
def updateGame_powerup (s : State) : State :=
  if s.activePowerup ≠ none then
    let s1 : State := { s with powerupDuration := s.powerupDuration - 1 }
    if s1.powerupDuration ≤ 0 then deactivatePowerup s1 else s1
  else s

/-- The sound cooldown block of `updateGame()`. -/
def updateGame_sounds (s : State) : State :=
  let dec (c : Nat) : Nat := if c > 0 then c - 1 else c
  { s with soundCooldowns :=
      { jump := dec s.soundCooldowns.jump, collect := dec s.soundCooldowns.collect,
        crash := dec s.soundCooldowns.crash, ability := dec s.soundCooldowns.ability } }

/-- The state just before `checkCollisions()` in a tick that passed the
boundary block: tail, populations, abilities, power-up timer, sound cooldowns. -/
def updateGame_advance (s : State) : State :=
  updateGame_sounds (updateGame_powerup (updateAbilities (updateFireBreaths
    (updatePowerups (updateCollectibles (updateObstacles (updateTail (updateGame_history s))))))))

/-- The statements of `updateGame()` from `checkCollisions()` to the end. The
`return` inside `checkCollisions` leaves only that function. -/
def updateGame_finish (s : State) (r : Draws) : State :=
  updateUI (spawnPowerups (spawnCollectibles (spawnObstacles (checkEvolution (checkCollisions s)) r)) r)

/-- Function `updateGame()`: one tick. -/
def updateGame (s : State) (r : Draws) : State :=
  match updateGame_boundary (updateGame_physics s) with
  | Boundary.fatal s1 => s1
  | Boundary.proceed s1 => updateGame_finish (updateGame_advance s1) r

/-- Whether the tick from `s` gets past the boundary block of `updateGame`
(so that the rest of the tick, `updateAbilities` included, runs). -/
def updateGame_completes (s : State) : Bool :=
  match updateGame_boundary (updateGame_physics s) with
  | Boundary.proceed _ => true
  | Boundary.fatal _ => false

/-- Successive ticks, one for each element of the list of draws. -/
def updateGame_ticks : List Draws → State → State
  | [], s => s
  | r :: rs, s => updateGame_ticks rs (updateGame s r)

/-! ## The frame loop and the input handlers -/

/-- Function `gameLoop(timestamp)`, with the draws of its tick. Outside the
playing state it returns at once; `drawGame` and the frame request do not
write to the simulation state. -/
def gameLoop (s : State) (timestamp : ℚ) (r : Draws) : State :=
  if s.gameState ≠ GameState.playing then s
  else updateGame { s with lastTime := timestamp } r

/-- Function `handleKeyDown(e)`, as a function of `e.code`. -/
def handleKeyDown (s : State) (code : String) : State :=
  if s.gameState ≠ GameState.playing then s
  else
    let s1 : State := if code = "Space" then jump s else s
    let s2 : State := if code = "KeyF" then useFireBreath s1 else s1
    if code = "KeyS" then useShield s2 else s2

/-- Function `handleClick()`. -/
def handleClick (s : State) : State :=
  if s.gameState = GameState.playing then jump s else s

/-- Function `handleVisibilityChange()`, as a function of `document.hidden`,
with the value of `performance.now()` and the draws of the tick that the call
of `gameLoop` runs on resuming. -/
def handleVisibilityChange (s : State) (hidden : Bool) (now : ℚ) (r : Draws) : State :=
  if hidden = true ∧ s.gameState = GameState.playing then
    { s with gameState := GameState.paused }
  else if hidden = false ∧ s.gameState = GameState.paused then
    gameLoop { s with gameState := GameState.playing } now r
  else s

/-! ## Concrete states -/

/-- The values the initialisers of `game.js` give the variables when the page
loads, for a window of the given size and a stored high score. -/
def initialState (width height : ℚ) (highScore : Int) : State :=
  { canvasWidth := width,
    canvasHeight := height,
    gameState := GameState.start,
    score := 0,
    highScore := highScore,
    lastTime := 0,
    gameSpeed := 1,
    dragon := { x := 150, y := 150, velocity := 0, rotation := 0,
                evolution := Evolution.baby, tailLength := 0 },
    tail := [],
    tailHistory := [],
    obstacles := [],
    obstacleSpawnTimer := 0,
    collectibles := [],
    collectibleSpawnTimer := 0,
    powerups := [],
    powerupSpawnTimer := 0,
    activePowerup := none,
    powerupDuration := 0,
    abilities :=
      { fire := { unlocked := false, available := false, cooldown := 0, active := false },
        shield := { unlocked := false, available := false, cooldown := 0, active := false } },
    fireBreaths := [],
    soundCooldowns := { jump := 0, collect := 0, crash := 0, ability := 0 } }

/-- Function `startGame()` up to its call of `gameLoop(0)`: the state is set
to playing and the run is reset. -/
def startGame_reset (s : State) : State :=
  resetGame { s with gameState := GameState.playing }

/-- A fresh run in an 800 by 600 window: the dragon is at (150, 300). -/
def freshRun : State := startGame_reset (initialState 800 600 0)

/-- A collectible as `spawnCollectibles` creates it, at the given place. -/
def gemAt (x y : ℚ) : Collectible :=
  { x := x, y := y, size := collectibleSize, rotation := 0, collected := false }

/-- A fresh run with three collectibles: two within reach of the dragon at
(150, 300), at distances 10 and 30, and one far to the right between them. -/
def threeGems : State :=
  { freshRun with collectibles := [gemAt 160 300, gemAt 700 300, gemAt 150 330] }

/-- A fresh run in which the dragon has drifted to the top edge while the
shield is active (cooldown 100), with an obstacle column over the dragon
whose gap lies lower down. -/
def shieldedAtTop : State :=
  { freshRun with
    dragon := { freshRun.dragon with y := 10 },
    abilities := { freshRun.abilities with
      shield := { unlocked := true, available := false, cooldown := 100, active := true } },
    obstacles := [{ x := 150, gapY := 250, gapSize := 300, passed := false }] }

/-- The same situation without the shield: the dragon is at the top edge and
nothing protects it. -/
def unshieldedAtTop : State :=
  { freshRun with
    dragon := { freshRun.dragon with y := 10 },
    obstacles := [{ x := 150, gapY := 250, gapSize := 300, passed := false }],
    collectibles := [gemAt 160 20] }

/-- Draws used in the concrete runs: all four in the middle of `[0, 1)`. -/
def midDraws : Draws := { gap := 1 / 2, gate := 1 / 2, height := 1 / 2, type := 1 / 2 }

/-- A fresh run after five collectible pickups and one tick: the dragon is at
stage fire and Fire is unlocked and available. -/
def fireReady : State :=
  updateGame ((fun s => collectCollectible s 0)^[5] freshRun) midDraws

/-- A fresh run after twelve collectible pickups and one tick: the dragon is
at stage phoenix and Shield is unlocked and available. -/
def shieldReady : State :=
  updateGame ((fun s => collectCollectible s 0)^[12] freshRun) midDraws

/-! ## Reference definitions -/

/-- Reference definition of the dragon-vs-obstacle test, written from the
specification: the dragon's 120 by 120 box shrunk by 30% on both axes (84 by
84, half-extent 42) overlaps the 80-wide column horizontally and is not
contained in the gap band vertically. -/
def dragonObstacleCollision_reference (x y ox gapY gapSize : ℚ) : Bool :=
  decide ((x + 42 > ox ∧ x - 42 < ox + 80) ∧ (y - 42 < gapY ∨ y + 42 > gapY + gapSize))

/-- The activation gate of `useFireBreath`. -/
def fireGate (s : State) : Prop :=
  s.abilities.fire.unlocked = true ∧ s.abilities.fire.available = true ∧
    s.abilities.fire.cooldown = 0

/-- The activation gate of `useShield`. -/
def shieldGate (s : State) : Prop :=
  s.abilities.shield.unlocked = true ∧ s.abilities.shield.available = true ∧
    s.abilities.shield.cooldown = 0

instance (s : State) : Decidable (fireGate s) := by unfold fireGate; infer_instance

instance (s : State) : Decidable (shieldGate s) := by unfold shieldGate; infer_instance

/-- The contact test of the collectible loop of `checkCollisions`, in the
words of the specification: the collectible's centre is at distance less than
`dragon.width / 2 + size / 2` from the dragon's centre. -/
def inContact (d : Dragon) (c : Collectible) : Bool :=
  hypot_lt (c.x - d.x) (c.y - d.y) (dragon_width / 2 + c.size / 2)

/-! ## Sessions and scripted runs -/

/-- The states a session can be in. `resetGame` starts a run, and while the
game is playing the frame loop runs `updateGame` (with any random draws) and
the key and click handlers run `jump`, `useFireBreath` and `useShield`: these
are the steps of a played session (`pickups = false`). With `pickups = true`
the pickup of a collectible or of a power-up of either type
(`collectCollectible`, `activatePowerup`) is a step of its own, as the
specification counts it. In the source a pickup happens inside `updateGame`,
when `checkCollisions` finds the entity in contact; as a free step it stands
for any placement of the entities. -/
inductive Session (pickups : Bool) : State → Prop where
  | reset (s : State) : Session pickups (resetGame s)
  | tick {s : State} (r : Draws) :
      Session pickups s → s.gameState = GameState.playing → Session pickups (updateGame s r)
  | jump {s : State} :
      Session pickups s → s.gameState = GameState.playing → Session pickups (jump s)
  | useFireBreath {s : State} :
      Session pickups s → s.gameState = GameState.playing → Session pickups (useFireBreath s)
  | useShield {s : State} :
      Session pickups s → s.gameState = GameState.playing → Session pickups (useShield s)
  | pickupCollectible {s : State} (index : Nat) :
      pickups = true → Session pickups s → s.gameState = GameState.playing →
      Session pickups (collectCollectible s index)
  | pickupPowerup {s : State} (type : PowerupType) :
      pickups = true → Session pickups s → s.gameState = GameState.playing →
      Session pickups (activatePowerup s type)

/-- The states of a played session: reset, ticks and commands only. -/
abbrev Played (s : State) : Prop := Session false s

/-- The states reachable from `resetGame` by ticks, commands and pickups. -/
abbrev Reachable (s : State) : Prop := Session true s

/-- A scripted player and scripted randomness. The player first jumps just
before tick `jumpFrom`, if any, and then every 99 ticks (the period of the
flight after a jump), and presses the shield key just before tick `shieldAt`,
if any. Every obstacle gap is drawn at `gap`, and the power-up gate draw is
always 1/2, so no power-up spawns. -/
structure Script where
  jumpFrom : Option Nat
  shieldAt : Option Nat
  gap : ℚ

/-- The draws of every tick under a script. -/
def Script.draws (sc : Script) : Draws :=
  { gap := sc.gap, gate := 1 / 2, height := 1 / 2, type := 0 }

/-- The jump rule of a script: whether the player jumps just before tick `t`. -/
def Script.jumps (sc : Script) (t : Nat) : Bool :=
  match sc.jumpFrom with
  | some t0 => decide (t0 ≤ t ∧ (t - t0) % 99 = 0)
  | none => false

/-- Tick `t` of a scripted run: the player's commands, then `updateGame`. -/
def Script.step (sc : Script) (t : Nat) (s : State) : State :=
  let s1 := if sc.jumps t = true then jump s else s
  let s2 := if some t = sc.shieldAt then useShield s1 else s1
  updateGame s2 sc.draws

/-- Run `n` scripted ticks starting with tick `t`; `none` if the game stops
playing before they are done. -/
def Script.run (sc : Script) : Nat → Nat → State → Option State
  | 0, _, s => some s
  | n + 1, t, s =>
    if s.gameState = GameState.playing then sc.run n (t + 1) (sc.step t s) else none

/-- History samples at the dragon's fixed `x = 150` with the given heights. -/
def samplesAt (ys : List ℚ) : List Point :=
  ys.map (fun y => { x := 150, y := y })

/-- Tail segments at `x = 150` with the given heights. -/
def segmentsAt (ys : List ℚ) : List TailSegment :=
  ys.map (fun y => { x := 150, y := y, size := tailSegmentSize })

/-- Obstacles with the gap at `gapY` and the given horizontal positions. -/
def columnsAt (gapY : ℚ) (xs : List ℚ) : List Obstacle :=
  xs.map (fun x => { x := x, gapY := gapY, gapSize := 300, passed := false })

/-- Collectibles at height `y` with the given horizontal positions and
rotations. -/
def gemsAt (y : ℚ) (xs : List (ℚ × ℚ)) : List Collectible :=
  xs.map (fun p => { x := p.1, y := y, size := collectibleSize, rotation := p.2,
                     collected := false })

/-- A fresh run in a 640 by 600 window. -/
def fresh640 : State := startGame_reset (initialState 640 600 0)

/-- The script of the run that ends on an obstacle: jumps from tick 36 on, no
shield, every gap drawn low (`gapY = 248`). -/
def collideScript : Script :=
  { jumpFrom := some 36, shieldAt := none, gap := 99 / 100 }

/-- A fresh run in which a shield power-up and then twelve collectibles have
been picked up. -/
def shieldStart : State :=
  (fun s => collectCollectible s 0)^[12] (activatePowerup freshRun PowerupType.shield)

/-- The script of the run that activates the shield under a shield power-up:
no jumps, the shield key pressed just before tick 170. -/
def shieldScript : Script :=
  { jumpFrom := none, shieldAt := some 170, gap := 1 / 2 }

/-- The state after 100 ticks of `collideScript` from `fresh640`. -/
def collideRun_100 : State :=
  { canvasWidth := 640, canvasHeight := 600, gameState := GameState.playing,
    score := 0, highScore := 0, lastTime := 0, gameSpeed := 1,
    dragon := { x := 150, y := 1273 / 5, velocity := 7 / 5, rotation := 21 / 5,
                evolution := Evolution.baby, tailLength := 0 },
    tail := [],
    tailHistory := samplesAt [1248 / 5, 2507 / 10, 2519 / 10, 1266 / 5, 1273 / 5],
    obstacles := [], obstacleSpawnTimer := 100,
    collectibles := [], collectibleSpawnTimer := 100,
    powerups := [], powerupSpawnTimer := 100,
    activePowerup := none, powerupDuration := 0,
    abilities :=
      { fire := { unlocked := false, available := false, cooldown := 0, active := false },
        shield := { unlocked := false, available := false, cooldown := 0, active := false } },
    fireBreaths := [],
    soundCooldowns := { jump := 0, collect := 0, crash := 0, ability := 0 } }

/-- The state after 200 ticks of `collideScript` from `fresh640`. -/
def collideRun_200 : State :=
  { canvasWidth := 640, canvasHeight := 600, gameState := GameState.playing,
    score := 0, highScore := 0, lastTime := 0, gameSpeed := 1,
    dragon := { x := 150, y := 2561 / 10, velocity := 3 / 2, rotation := 9 / 2,
                evolution := Evolution.baby, tailLength := 0 },
    tail := [],
    tailHistory := samplesAt [2507 / 10, 2519 / 10, 1266 / 5, 1273 / 5, 2561 / 10],
    obstacles := columnsAt 248 [490], obstacleSpawnTimer := 50,
    collectibles := gemsAt 398 [(530, 0)], collectibleSpawnTimer := 0,
    powerups := [], powerupSpawnTimer := 200,
    activePowerup := none, powerupDuration := 0,
    abilities :=
      { fire := { unlocked := false, available := false, cooldown := 0, active := false },
        shield := { unlocked := false, available := false, cooldown := 0, active := false } },
    fireBreaths := [],
    soundCooldowns := { jump := 0, collect := 0, crash := 0, ability := 0 } }

/-- The state after 299 ticks of `collideScript` from `fresh640`. -/
def collideRun_299 : State :=
  { canvasWidth := 640, canvasHeight := 600, gameState := GameState.playing,
    score := 0, highScore := 0, lastTime := 0, gameSpeed := 1,
    dragon := { x := 150, y := 2561 / 10, velocity := 3 / 2, rotation := 9 / 2,
                evolution := Evolution.baby, tailLength := 0 },
    tail := [],
    tailHistory := samplesAt [2507 / 10, 2519 / 10, 1266 / 5, 1273 / 5, 2561 / 10],
    obstacles := columnsAt 248 [193], obstacleSpawnTimer := 149,
    collectibles := gemsAt 398 [(233, 198)], collectibleSpawnTimer := 99,
    powerups := [], powerupSpawnTimer := 299,
    activePowerup := none, powerupDuration := 0,
    abilities :=
      { fire := { unlocked := false, available := false, cooldown := 0, active := false },
        shield := { unlocked := false, available := false, cooldown := 0, active := false } },
    fireBreaths := [],
    soundCooldowns := { jump := 0, collect := 0, crash := 0, ability := 0 } }

/-- The state after 90 ticks of `shieldScript` from `shieldStart`. -/
def shieldRun_90 : State :=
  { canvasWidth := 800, canvasHeight := 600, gameState := GameState.playing,
    score := 12, highScore := 12, lastTime := 0, gameSpeed := 1,
    dragon := { x := 150, y := 540, velocity := 0, rotation := 3 / 10,
                evolution := Evolution.phoenix, tailLength := 12 },
    tail := segmentsAt [540, 540, 540, 540, 1029 / 2, 483, 454, 855 / 2, 807 / 2, 382, 363,
      693 / 2],
    tailHistory := samplesAt [3351 / 10, 1689 / 5, 1703 / 5, 687 / 2, 693 / 2, 1748 / 5, 1764 / 5,
      3561 / 10, 719 / 2, 363, 1833 / 5, 3703 / 10, 3741 / 10, 378, 382, 3861 / 10, 3903 / 10,
      1973 / 5, 399, 807 / 2, 4081 / 10, 2064 / 5, 2088 / 5, 845 / 2, 855 / 2, 2163 / 5, 2189 / 5,
      4431 / 10, 897 / 2, 454, 2298 / 5, 4653 / 10, 4711 / 10, 477, 483, 4891 / 10, 4953 / 10,
      2508 / 5, 508, 1029 / 2, 5211 / 10, 2639 / 5, 2673 / 5, 540, 540, 540, 540, 540, 540, 540,
      540, 540, 540, 540, 540, 540, 540, 540, 540, 540, 540, 540, 540, 540, 540],
    obstacles := [], obstacleSpawnTimer := 90,
    collectibles := [], collectibleSpawnTimer := 90,
    powerups := [], powerupSpawnTimer := 90,
    activePowerup := some PowerupType.shield, powerupDuration := 90,
    abilities :=
      { fire := { unlocked := false, available := false, cooldown := 0, active := false },
        shield := { unlocked := true, available := true, cooldown := 0, active := true } },
    fireBreaths := [],
    soundCooldowns := { jump := 0, collect := 0, crash := 0, ability := 0 } }

/-- The state after 180 ticks of `shieldScript` from `shieldStart`. -/
def shieldRun_180 : State :=
  { canvasWidth := 800, canvasHeight := 600, gameState := GameState.playing,
    score := 12, highScore := 12, lastTime := 0, gameSpeed := 1,
    dragon := { x := 150, y := 540, velocity := 0, rotation := 3 / 10,
                evolution := Evolution.phoenix, tailLength := 12 },
    tail := segmentsAt [540, 540, 540, 540, 540, 540, 540, 540, 540, 540, 540, 540],
    tailHistory := samplesAt [540, 540, 540, 540, 540, 540, 540, 540, 540, 540, 540, 540, 540, 540,
      540, 540, 540, 540, 540, 540, 540, 540, 540, 540, 540, 540, 540, 540, 540, 540, 540, 540,
      540, 540, 540, 540, 540, 540, 540, 540, 540, 540, 540, 540, 540, 540, 540, 540, 540, 540,
      540, 540, 540, 540, 540, 540, 540, 540, 540, 540, 540, 540, 540, 540, 540],
    obstacles := columnsAt 150 [710], obstacleSpawnTimer := 30,
    collectibles := [], collectibleSpawnTimer := 180,
    powerups := [], powerupSpawnTimer := 180,
    activePowerup := none, powerupDuration := 0,
    abilities :=
      { fire := { unlocked := false, available := false, cooldown := 0, active := false },
        shield := { unlocked := true, available := false, cooldown := 170, active := false } },
    fireBreaths := [],
    soundCooldowns := { jump := 0, collect := 0, crash := 0, ability := 10 } }

/-! ## Operations -/

/-- The operations that act on the state within a run: the entry points the
browser calls (a frame, a key press, a click, a visibility change) and the
functions of the source that the claims name one by one. `resetGame` is not
among them: it starts a new run. -/
inductive Operation where
  /-- A call of `gameLoop(timestamp)`. -/
  | frame (timestamp : ℚ) (r : Draws)
  /-- A call of `handleKeyDown(e)` with `e.code = code`. -/
  | keyDown (code : String)
  /-- A call of `handleClick()`. -/
  | click
  /-- A call of `handleVisibilityChange()`. -/
  | visibility (hidden : Bool) (now : ℚ) (r : Draws)
  /-- A call of `updateGame()`: one tick. -/
  | tick (r : Draws)
  | jump
  | useFireBreath
  | useShield
  | collectCollectible (index : Nat)
  | collectPowerup (index : Nat)
  | activatePowerup (type : PowerupType)
  | deactivatePowerup

/-- The state after an operation. -/
def Operation.apply (s : State) : Operation → State
  | Operation.frame timestamp r => gameLoop s timestamp r
  | Operation.keyDown code => handleKeyDown s code
  | Operation.click => handleClick s
  | Operation.visibility hidden now r => handleVisibilityChange s hidden now r
  | Operation.tick r => updateGame s r
  | Operation.jump => BabyDragon.jump s
  | Operation.useFireBreath => BabyDragon.useFireBreath s
  | Operation.useShield => BabyDragon.useShield s
  | Operation.collectCollectible index => BabyDragon.collectCollectible s index
  | Operation.collectPowerup index => BabyDragon.collectPowerup s index
  | Operation.activatePowerup type => BabyDragon.activatePowerup s type
  | Operation.deactivatePowerup => BabyDragon.deactivatePowerup s

/-- The state after a sequence of operations, applied from left to right. -/
def Operation.run (s : State) (ops : List Operation) : State :=
  ops.foldl Operation.apply s

/-! ## Notions used in the statements about whole ticks -/

/-- The position of a stage in the order baby < fire < phoenix < mythical. -/
def Evolution.rank : Evolution → Nat
  | Evolution.baby => 0
  | Evolution.fire => 1
  | Evolution.phoenix => 2
  | Evolution.mythical => 3

/-- The state on which `checkCollisions` runs in the tick from `s`, when the
tick gets past the boundary block (`none` when it ends there). -/
def updateGame_beforeCollisions (s : State) : Option State :=
  match updateGame_boundary (updateGame_physics s) with
  | Boundary.proceed s1 => some (updateGame_advance s1)
  | Boundary.fatal _ => none

/-- The contact test of the power-up loop of `checkCollisions`. -/
def touchesPowerup (d : Dragon) (p : Powerup) : Bool :=
  checkCircleCollision d.x d.y (dragon_width / 2) p.x p.y (powerupSize / 2)

/-- Whether the tick from `s` gets past the boundary block and finds no
power-up in contact with the dragon when `checkCollisions` runs, so that the
tick collects no power-up. -/
def updateGame_undisturbed (s : State) : Bool :=
  match updateGame_beforeCollisions s with
  | some p => p.powerups.all (fun q => !touchesPowerup p.dragon q)
  | none => false

/-- Whether each of the successive ticks of `updateGame_ticks` gets past the
boundary block and collects no power-up. -/
def updateGame_ticks_undisturbed : List Draws → State → Bool
  | [], _ => true
  | r :: rs, s => updateGame_undisturbed s && updateGame_ticks_undisturbed rs (updateGame s r)

/-- The predicate of the specification that ties the speed multiplier to the
active effect: 1/2 while slowmo is the active effect and 1 otherwise (no
effect, or shield). -/
def speedMatchesEffect (s : State) : Prop :=
  s.gameSpeed = if s.activePowerup = some PowerupType.slowmo then 1 / 2 else 1

instance (s : State) : Decidable (speedMatchesEffect s) := by
  unfold speedMatchesEffect
  infer_instance

/-- The loop shared by `updateObstacles`, `updateCollectibles` and
`updatePowerups`: walk the array from the last index down, move the element,
and splice it out when it has left the screen. The first argument is `i + 1`. -/
def sweep {α : Type} (move : α → α) (gone : α → Bool) : Nat → List α → List α
  | 0, l => l
  | i + 1, l =>
    match l[i]? with
    | none => sweep move gone i l
    | some a =>
      if gone (move a) then sweep move gone i ((l.set i (move a)).eraseIdx i)
      else sweep move gone i (l.set i (move a))

/-! ## The run that picks up the fifth collectible -/

/-- The state after 200 ticks of `collideScript` from `fresh640`, with four
collectible pickups added (as free steps; the collectible in flight stays). -/
def gemStart : State :=
  collectCollectible (collectCollectible (collectCollectible (collectCollectible
    collideRun_200 1) 1) 1) 1

/-- The script that takes the dragon through the first gap: it falls until
tick 258 and then jumps. -/
def gemScript : Script :=
  { jumpFrom := some 258, shieldAt := none, gap := 99 / 100 }

/-- The state after ticks 200 to 301 of `gemScript` from `gemStart`: the
collectible in the gap is 74 to the right of the dragon and 4.8 below it. -/
def gemRun_302 : State :=
  { canvasWidth := 640, canvasHeight := 600, gameState := GameState.playing,
    score := 4, highScore := 4, lastTime := 0, gameSpeed := 1,
    dragon := { x := 150, y := 1966 / 5, velocity := -3 / 5, rotation := -9 / 5,
                evolution := Evolution.baby, tailLength := 4 },
    tail := segmentsAt [1986 / 5, 4037 / 10, 4127 / 10, 2121 / 5],
    tailHistory := samplesAt [2176 / 5, 4323 / 10, 859 / 2, 2134 / 5, 2121 / 5, 4217 / 10,
      4193 / 10, 417, 2074 / 5, 4127 / 10, 4107 / 10, 2044 / 5, 407, 4053 / 10, 4037 / 10,
      2011 / 5, 2004 / 5, 799 / 2, 3983 / 10, 1986 / 5, 1981 / 5, 3953 / 10, 789 / 2, 1969 / 5,
      1966 / 5],
    obstacles := columnsAt 248 [184, 634], obstacleSpawnTimer := 2,
    collectibles := gemsAt 398 [(224, 204)], collectibleSpawnTimer := 102,
    powerups := [], powerupSpawnTimer := 302,
    activePowerup := none, powerupDuration := 0,
    abilities :=
      { fire := { unlocked := false, available := false, cooldown := 0, active := false },
        shield := { unlocked := false, available := false, cooldown := 0, active := false } },
    fireBreaths := [],
    soundCooldowns := { jump := 0, collect := 0, crash := 0, ability := 0 } }

/-! ## The run under slowmo -/

/-- A fresh run in which the player has jumped and a slowmo power-up has
just been picked up. -/
def slowStart : State := activatePowerup (jump freshRun) PowerupType.slowmo

/-- The state after 90 ticks of `updateGame` with `midDraws` from `slowStart`. -/
def slowRun_90 : State :=
  { canvasWidth := 800, canvasHeight := 600, gameState := GameState.playing,
    score := 0, highScore := 0, lastTime := 0, gameSpeed := 1 / 2,
    dragon := { x := 150, y := 1419 / 8, velocity := -1 / 2, rotation := -3 / 2,
                evolution := Evolution.baby, tailLength := 0 },
    tail := [],
    tailHistory := samplesAt [7141 / 40, 891 / 5, 1779 / 10, 1421 / 8, 1419 / 8],
    obstacles := [], obstacleSpawnTimer := 90,
    collectibles := [], collectibleSpawnTimer := 90,
    powerups := [], powerupSpawnTimer := 90,
    activePowerup := some PowerupType.slowmo, powerupDuration := 90,
    abilities :=
      { fire := { unlocked := false, available := false, cooldown := 0, active := false },
        shield := { unlocked := false, available := false, cooldown := 0, active := false } },
    fireBreaths := [],
    soundCooldowns := { jump := 0, collect := 0, crash := 0, ability := 0 } }

/-! ## A shield power-up picked up under slowmo -/

/-- A fresh run in which a slowmo power-up has just been picked up. -/
def slowFresh : State := activatePowerup freshRun PowerupType.slowmo

/-- The same with a shield power-up in flight 10 to the right of the dragon,
so that the next tick picks it up. -/
def slowWithShieldAhead : State :=
  { slowFresh with
    powerups := [{ x := 160, y := 300, type := PowerupType.shield, rotation := 0, pulse := 0 }] }

/-! ## A projectile under slowmo -/

/-- The state `fireReady` after `useFireBreath`: one projectile at the
dragon's leading edge, `x = 210`. -/
def fireShot : State := useFireBreath fireReady

/-- The same after the pickup of a slowmo power-up: the speed multiplier is
1/2. -/
def fireShotSlow : State := activatePowerup fireShot PowerupType.slowmo

/-! ## Notions used in the statements about the tail history -/

/-- The dragon's position at the end of each of the successive ticks of
`updateGame_ticks` that got past the boundary block, oldest first. -/
def updateGame_ticks_positions : List Draws → State → List Point
  | [], _ => []
  | r :: rs, s =>
    if updateGame_completes s = true then
      { x := (updateGame s r).dragon.x, y := (updateGame s r).dragon.y } ::
        updateGame_ticks_positions rs (updateGame s r)
    else updateGame_ticks_positions rs (updateGame s r)

/-! ## Reference definitions for the population updates -/

/-- Reference for the loop of `updateObstacles`, in the words of the
specification: move every obstacle left by `3 * gameSpeed`, then keep, in
order, those with `x + 80 ≥ 0`. -/
def updateObstacles_reference (gameSpeed : ℚ) (obstacles : List Obstacle) : List Obstacle :=
  (obstacles.map (fun o => { o with x := o.x - 3 * gameSpeed })).filter
    (fun o => decide (o.x + 80 ≥ 0))

/-- Reference for the loop of `updateCollectibles`: move every collectible
left by `3 * gameSpeed` (turning it by 2), then keep those with `x + 25 ≥ 0`. -/
def updateCollectibles_reference (gameSpeed : ℚ) (collectibles : List Collectible) :
    List Collectible :=
  (collectibles.map
    (fun c => { c with x := c.x - 3 * gameSpeed, rotation := c.rotation + 2 })).filter
    (fun c => decide (c.x + 25 ≥ 0))

/-- Reference for the loop of `updatePowerups`: move every power-up left by
`3 * gameSpeed` (turning it by 3 and advancing its pulse by 0.1), then keep
those with `x + 30 ≥ 0`. -/
def updatePowerups_reference (gameSpeed : ℚ) (powerups : List Powerup) : List Powerup :=
  (powerups.map (fun p => { p with
    x := p.x - 3 * gameSpeed, rotation := p.rotation + 3, pulse := p.pulse + 1 / 10 })).filter
    (fun p => decide (p.x + 30 ≥ 0))

/-! ## The shield and what counts it down -/

/-- The predicate "an active shield has something left to count it down": if
`shield.active` then the Shield cooldown is running or the active power-up
effect is shield. -/
def shieldTimed (s : State) : Prop :=
  s.abilities.shield.active = true →
    0 < s.abilities.shield.cooldown ∨ s.activePowerup = some PowerupType.shield

instance (s : State) : Decidable (shieldTimed s) := by
  unfold shieldTimed
  infer_instance

/-- A shield that nothing counts down: active, with cooldown 0, while the
active power-up effect is not shield. -/
def shieldStuck (s : State) : Prop :=
  s.abilities.shield.active = true ∧ s.abilities.shield.cooldown = 0 ∧
    s.activePowerup ≠ some PowerupType.shield

instance (s : State) : Decidable (shieldStuck s) := by
  unfold shieldStuck
  infer_instance

/-- The state `shieldStart` one tick later: the dragon has evolved to phoenix
under the shield power-up, so Shield is unlocked with cooldown 0 and still
active, held by the power-up effect (duration 179). -/
def shieldHeld : State := updateGame shieldStart midDraws

/-- A fresh run in which a shield power-up, then a slowmo power-up and then
twelve collectibles have been picked up: Shield is locked and active with
cooldown 180, and the active effect is slowmo. -/
def shieldUnderSlowmo : State :=
  (fun s => collectCollectible s 0)^[12]
    (activatePowerup (activatePowerup freshRun PowerupType.shield) PowerupType.slowmo)

/-! ## Reference definition for the projectile update -/

/-- A projectile after the move of one `updateFireBreaths` step: 8 to the
right, one frame of lifetime less. -/
def fireBreath_moved (f : FireBreath) : FireBreath :=
  { f with x := f.x + 8, lifetime := f.lifetime - 1 }

/-- What one `updateFireBreaths` step leaves: the surviving projectiles, the
remaining obstacles, and how many projectiles were removed by a strike and how
many by expiry. -/
structure FireOutcome where
  fireBreaths : List FireBreath
  obstacles : List Obstacle
  struck : Nat
  expired : Nat

/-- Reference for the treatment of one projectile, in the words of the
specification: it is moved; if it strikes one of the remaining obstacles, the
obstacle (the last one it strikes, in array order) and the projectile are both
removed; otherwise it is removed if its lifetime has run out, and kept if not. -/
def updateFireBreaths_reference_step (f : FireBreath) (acc : FireOutcome) : FireOutcome :=
  if acc.obstacles.any (fun o => checkFireObstacleCollision (fireBreath_moved f) o) then
    { acc with
      obstacles := (acc.obstacles.reverse.eraseP
        (fun o => checkFireObstacleCollision (fireBreath_moved f) o)).reverse,
      struck := acc.struck + 1 }
  else if (fireBreath_moved f).lifetime ≤ 0 then { acc with expired := acc.expired + 1 }
  else { acc with fireBreaths := fireBreath_moved f :: acc.fireBreaths }

/-- Reference for `updateFireBreaths`: every projectile is treated once, from
the last to the first. -/
def updateFireBreaths_reference (fireBreaths : List FireBreath) (obstacles : List Obstacle) :
    FireOutcome :=
  fireBreaths.foldr updateFireBreaths_reference_step
    { fireBreaths := [], obstacles := obstacles, struck := 0, expired := 0 }

/-! ## The run in a narrow window -/

/-- A fresh run in a 320 by 600 window. -/
def fresh320 : State := startGame_reset (initialState 320 600 0)

/-- The script of the run in the narrow window: jumps from tick 44 on, no
shield, every gap drawn in the middle (`gapY = 150`, gap centre at 300). -/
def narrowScript : Script :=
  { jumpFrom := some 44, shieldAt := none, gap := 1 / 2 }

/-- The state after 100 ticks of `narrowScript` from `fresh320`. -/
def narrowRun_100 : State :=
  { canvasWidth := 320, canvasHeight := 600, gameState := GameState.playing,
    score := 0, highScore := 0, lastTime := 0, gameSpeed := 1,
    dragon := { x := 150, y := 1393 / 5, velocity := 3 / 5, rotation := 9 / 5,
                evolution := Evolution.baby, tailLength := 0 },
    tail := [],
    tailHistory := samplesAt [1384 / 5, 2771 / 10, 555 / 2, 278, 1393 / 5],
    obstacles := [], obstacleSpawnTimer := 100,
    collectibles := [], collectibleSpawnTimer := 100,
    powerups := [], powerupSpawnTimer := 100,
    activePowerup := none, powerupDuration := 0,
    abilities :=
      { fire := { unlocked := false, available := false, cooldown := 0, active := false },
        shield := { unlocked := false, available := false, cooldown := 0, active := false } },
    fireBreaths := [],
    soundCooldowns := { jump := 0, collect := 0, crash := 0, ability := 0 } }

/-- The state after 200 ticks of `narrowScript` from `fresh320`: the first
obstacle is 20 to the right of the dragon, and no collectible was placed. -/
def narrowRun_200 : State :=
  { canvasWidth := 320, canvasHeight := 600, gameState := GameState.playing,
    score := 0, highScore := 0, lastTime := 0, gameSpeed := 1,
    dragon := { x := 150, y := 2793 / 10, velocity := 7 / 10, rotation := 21 / 10,
                evolution := Evolution.baby, tailLength := 0 },
    tail := [],
    tailHistory := samplesAt [2771 / 10, 555 / 2, 278, 1393 / 5, 2793 / 10],
    obstacles := columnsAt 150 [170], obstacleSpawnTimer := 50,
    collectibles := [], collectibleSpawnTimer := 0,
    powerups := [], powerupSpawnTimer := 200,
    activePowerup := none, powerupDuration := 0,
    abilities :=
      { fire := { unlocked := false, available := false, cooldown := 0, active := false },
        shield := { unlocked := false, available := false, cooldown := 0, active := false } },
    fireBreaths := [],
    soundCooldowns := { jump := 0, collect := 0, crash := 0, ability := 0 } }

/-- The state after 300 ticks of `narrowScript` from `fresh320`: the second
obstacle has just been spawned at the right edge. -/
def narrowRun_300 : State :=
  { canvasWidth := 320, canvasHeight := 600, gameState := GameState.playing,
    score := 0, highScore := 0, lastTime := 0, gameSpeed := 1,
    dragon := { x := 150, y := 2801 / 10, velocity := 4 / 5, rotation := 12 / 5,
                evolution := Evolution.baby, tailLength := 0 },
    tail := [],
    tailHistory := samplesAt [555 / 2, 278, 1393 / 5, 2793 / 10, 2801 / 10],
    obstacles := columnsAt 150 [320], obstacleSpawnTimer := 0,
    collectibles := [], collectibleSpawnTimer := 100,
    powerups := [], powerupSpawnTimer := 300,
    activePowerup := none, powerupDuration := 0,
    abilities :=
      { fire := { unlocked := false, available := false, cooldown := 0, active := false },
        shield := { unlocked := false, available := false, cooldown := 0, active := false } },
    fireBreaths := [],
    soundCooldowns := { jump := 0, collect := 0, crash := 0, ability := 0 } }

/-- The state after 399 ticks of `narrowScript` from `fresh320`. -/
def narrowRun_399 : State :=
  { canvasWidth := 320, canvasHeight := 600, gameState := GameState.playing,
    score := 0, highScore := 0, lastTime := 0, gameSpeed := 1,
    dragon := { x := 150, y := 2801 / 10, velocity := 4 / 5, rotation := 12 / 5,
                evolution := Evolution.baby, tailLength := 0 },
    tail := [],
    tailHistory := samplesAt [555 / 2, 278, 1393 / 5, 2793 / 10, 2801 / 10],
    obstacles := columnsAt 150 [23], obstacleSpawnTimer := 99,
    collectibles := [], collectibleSpawnTimer := 199,
    powerups := [], powerupSpawnTimer := 399,
    activePowerup := none, powerupDuration := 0,
    abilities :=
      { fire := { unlocked := false, available := false, cooldown := 0, active := false },
        shield := { unlocked := false, available := false, cooldown := 0, active := false } },
    fireBreaths := [],
    soundCooldowns := { jump := 0, collect := 0, crash := 0, ability := 0 } }

/-- The state on which `spawnCollectibles` runs in the tick from `s` (`none`
when the tick ends at the boundary block). -/
def updateGame_beforeSpawnCollectibles (s : State) (r : Draws) : Option State :=
  match updateGame_boundary (updateGame_physics s) with
  | Boundary.proceed s1 =>
    some (spawnObstacles (checkEvolution (checkCollisions (updateGame_advance s1))) r)
  | Boundary.fatal _ => none

/-- The state on which `spawnCollectibles` runs in the tick from
`narrowRun_399`: the dragon is at (150, 281), the last obstacle has its left
edge at `x = 20` and its gap centre at `y = 300`, and the collectible timer
has reached 200. -/
def narrowSpawn : State :=
  { canvasWidth := 320, canvasHeight := 600, gameState := GameState.playing,
    score := 0, highScore := 0, lastTime := 0, gameSpeed := 1,
    dragon := { x := 150, y := 281, velocity := 9 / 10, rotation := 27 / 10,
                evolution := Evolution.baby, tailLength := 0 },
    tail := [],
    tailHistory := samplesAt [278, 1393 / 5, 2793 / 10, 2801 / 10, 281],
    obstacles := columnsAt 150 [20], obstacleSpawnTimer := 100,
    collectibles := [], collectibleSpawnTimer := 200,
    powerups := [], powerupSpawnTimer := 400,
    activePowerup := none, powerupDuration := 0,
    abilities :=
      { fire := { unlocked := false, available := false, cooldown := 0, active := false },
        shield := { unlocked := false, available := false, cooldown := 0, active := false } },
    fireBreaths := [],
    soundCooldowns := { jump := 0, collect := 0, crash := 0, ability := 0 } }

/-! ## Binary64 arithmetic

JavaScript numbers are binary64 values, and every arithmetic operation returns
the binary64 value nearest to the exact result, ties to the even significand.
The definitions below give that rounding on exact rationals (for results of
magnitude below `2 ^ 1024`, so without overflow to `Infinity`). -/

/-- The integer nearest to `q`, ties to the even one. -/
def roundHalfEven (q : ℚ) : ℤ :=
  if q - ⌊q⌋ < 1 / 2 then ⌊q⌋
  else if 1 / 2 < q - ⌊q⌋ then ⌊q⌋ + 1
  else if ⌊q⌋ % 2 = 0 then ⌊q⌋ else ⌊q⌋ + 1

/-- The binary exponent at which `x` is rounded: `floor (log2 |x|)`, and
`-1022` throughout the subnormal range. -/
def binary64_exponent (x : ℚ) : ℤ := max (Int.log 2 |x|) (-1022)

/-- The spacing of the binary64 values around `x`: 52 fraction bits below the
exponent. -/
def binary64_ulp (x : ℚ) : ℚ := 2 ^ (binary64_exponent x - 52)

/-- The binary64 value nearest to `x`, ties to even: the value of a JavaScript
expression whose exact value is `x`. -/
def binary64 (x : ℚ) : ℚ := roundHalfEven (x / binary64_ulp x) * binary64_ulp x

/-! ## The dragon-vs-obstacle test in binary64 -/

/-- Function `checkDragonObstacleCollision(obstacle)` with every arithmetic
operation rounded to binary64, as the engine evaluates it. The coordinates
are the stored binary64 values. -/
def checkDragonObstacleCollision_binary64 (d : Dragon) (obstacle : Obstacle) : Bool :=
  let collisionReduction : ℚ := binary64 (3 / 10)
  let effectiveWidth := binary64 (dragon_width * binary64 (1 - collisionReduction))
  let effectiveHeight := binary64 (dragon_height * binary64 (1 - collisionReduction))
  if binary64 (d.x + binary64 (effectiveWidth / 2)) > obstacle.x ∧
      binary64 (d.x - binary64 (effectiveWidth / 2)) < binary64 (obstacle.x + obstacleWidth) then
    if binary64 (d.y - binary64 (effectiveHeight / 2)) < obstacle.gapY ∨
        binary64 (d.y + binary64 (effectiveHeight / 2)) >
          binary64 (obstacle.gapY + obstacle.gapSize) then
      true
    else false
  else false

/-- A dragon whose centre is `2 ^ -44` below 506, so that the lower edge of its
shrunken box is `2 ^ -44` below 548. -/
def edgeDragon : Dragon :=
  { x := 150, y := 506 + 1 / 2 ^ 44, velocity := 0, rotation := 0,
    evolution := Evolution.baby, tailLength := 0 }

/-- An obstacle over the dragon whose gap band is `[248, 548]`. -/
def edgeObstacle : Obstacle :=
  { x := 150, gapY := 248, gapSize := 300, passed := false }

/-! ## The collision pass in binary64 -/

/-- The natural number nearest to the square root of `t`, ties to the even
one: `floor (sqrt t)` or the next one up. -/
def roundedSqrt (t : ℚ) : ℕ :=
  let n : ℕ := Nat.sqrt ⌊t⌋₊
  if t < ((n : ℚ) + 1 / 2) ^ 2 then n
  else if ((n : ℚ) + 1 / 2) ^ 2 < t then n + 1
  else if n % 2 = 0 then n else n + 1

/-- The binary64 value nearest to the square root of `q`, ties to even: the
root lies in `[2 ^ e, 2 ^ (e + 1))` for `e = floor (log4 q)` and is rounded to
a multiple of `2 ^ (e - 52)`. -/
def binary64_sqrt (q : ℚ) : ℚ :=
  if q ≤ 0 then 0
  else roundedSqrt (q / ((2 : ℚ) ^ (Int.log 4 q - 52) * (2 : ℚ) ^ (Int.log 4 q - 52))) *
    (2 : ℚ) ^ (Int.log 4 q - 52)

/-- `Math.hypot(a, b)` as an engine computes it that returns the binary64
value nearest to the exact norm. ECMAScript leaves the accuracy of
`Math.hypot` to the implementation, so the embeddings below take the
function as a parameter; this one is used where a value is needed. -/
def hypot_nearest (a b : ℚ) : ℚ := binary64_sqrt (a * a + b * b)

/-- Function `checkCircleCollision(x1, y1, r1, x2, y2, r2)` in binary64, with
`hypot` for the engine's `Math.hypot`: the two differences and the sum of the
radii are rounded, and the comparison is strict. -/
def checkCircleCollision_binary64 (hypot : ℚ → ℚ → ℚ) (x1 y1 r1 x2 y2 r2 : ℚ) : Bool :=
  decide (hypot (binary64 (x2 - x1)) (binary64 (y2 - y1)) < binary64 (r1 + r2))

/-- The contact test of the collectible loop of `checkCollisions` as the
engine evaluates it: `checkCircleCollision(dragon.x, dragon.y,
dragon.width / 2, c.x, c.y, c.size / 2)`. -/
def inContact_binary64 (hypot : ℚ → ℚ → ℚ) (d : Dragon) (c : Collectible) : Bool :=
  checkCircleCollision_binary64 hypot d.x d.y (binary64 (dragon_width / 2)) c.x c.y
    (binary64 (c.size / 2))

/-- The collectible loop of `checkCollisions` in binary64; the second
argument is `i + 1`. -/
def checkCollisions_collectibles_binary64 (hypot : ℚ → ℚ → ℚ) : Nat → State → State
  | 0, s => s
  | i + 1, s =>
    match s.collectibles[i]? with
    | none => checkCollisions_collectibles_binary64 hypot i s
    | some c =>
      if checkCircleCollision_binary64 hypot s.dragon.x s.dragon.y
          (binary64 (dragon_width / 2)) c.x c.y (binary64 (c.size / 2)) then
        checkCollisions_collectibles_binary64 hypot i (collectCollectible s i)
      else checkCollisions_collectibles_binary64 hypot i s

/-- The power-up loop of `checkCollisions` in binary64; the second argument
is `i + 1`. -/
def checkCollisions_powerups_binary64 (hypot : ℚ → ℚ → ℚ) : Nat → State → State
  | 0, s => s
  | i + 1, s =>
    match s.powerups[i]? with
    | none => checkCollisions_powerups_binary64 hypot i s
    | some p =>
      if checkCircleCollision_binary64 hypot s.dragon.x s.dragon.y
          (binary64 (dragon_width / 2)) p.x p.y (binary64 (powerupSize / 2)) then
        checkCollisions_powerups_binary64 hypot i (collectPowerup s i)
      else checkCollisions_powerups_binary64 hypot i s

/-- The test of the obstacle loop of `checkCollisions` in binary64. -/
def checkCollisions_fatal_binary64 (s : State) : Bool :=
  s.obstacles.any (fun obstacle =>
    checkDragonObstacleCollision_binary64 s.dragon obstacle && !s.abilities.shield.active)

/-- Function `checkCollisions()` in binary64, for an engine whose `Math.hypot`
is `hypot`. -/
def checkCollisions_binary64 (hypot : ℚ → ℚ → ℚ) (s : State) : State :=
  if checkCollisions_fatal_binary64 s then gameOver s
  else
    let s1 := checkCollisions_collectibles_binary64 hypot s.collectibles.length s
    checkCollisions_powerups_binary64 hypot s1.powerups.length s1

/-- A fresh run in which the dragon is at (150, 200) and a collectible lies 72
to the right and `8.5 - 2 ^ -45` below: the offsets are exact in binary64 and
the distance is below 72.5 by less than a quarter of the spacing of the
binary64 values at 72.5. -/
def edgeGem : State :=
  { freshRun with
    dragon := { freshRun.dragon with y := 200 },
    collectibles := [gemAt 222 (417 / 2 - 1 / 2 ^ 45)] }

/-- A fresh run in which the dragon is at `(150, 61 + 2 ^ -47)` and a
collectible lies 58 to the right and `43.5 - 2 ^ -47` below. -/
def edgeGemHigh : State :=
  { freshRun with
    dragon := { freshRun.dragon with y := 61 + 1 / 2 ^ 47 },
    collectibles := [gemAt 208 (209 / 2)] }

/-! ## Runs in which the cooldown does not count down by one per tick -/

/-- The state `shieldReady` after `useShield`: the shield is active and the
Shield cooldown is 180. -/
def shieldUsed : State := useShield shieldReady

/-- The same with a shield power-up in flight 10 to the right of the dragon,
so that the next tick picks it up. -/
def shieldUsedWithShieldAhead : State :=
  { shieldUsed with
    powerups := [{ x := 160, y := 300, type := PowerupType.shield, rotation := 0, pulse := 0 }] }

/-- The script of a run without commands: the dragon falls. -/
def fallScript : Script :=
  { jumpFrom := none, shieldAt := none, gap := 1 / 2 }

/-- The state after 67 ticks of `fallScript` from `fireShot`: the Fire cooldown
has gone from 300 to 233 and the dragon is 5.4 above the height at which it
touches the bottom edge. -/
def fallRun_67 : State :=
  { canvasWidth := 800, canvasHeight := 600, gameState := GameState.playing,
    score := 5, highScore := 5, lastTime := 0, gameSpeed := 1,
    dragon := { x := 150, y := 2673 / 5, velocity := 34 / 5, rotation := 102 / 5,
                evolution := Evolution.fire, tailLength := 5 },
    tail := segmentsAt [2508 / 5, 4711 / 10, 4431 / 10, 2088 / 5, 1973 / 5],
    tailHistory := samplesAt [378, 382, 3861 / 10, 3903 / 10, 1973 / 5, 399, 807 / 2,
      4081 / 10, 2064 / 5, 2088 / 5, 845 / 2, 855 / 2, 2163 / 5, 2189 / 5, 4431 / 10, 897 / 2,
      454, 2298 / 5, 4653 / 10, 4711 / 10, 477, 483, 4891 / 10, 4953 / 10, 2508 / 5, 508,
      1029 / 2, 5211 / 10, 2639 / 5, 2673 / 5],
    obstacles := [], obstacleSpawnTimer := 68,
    collectibles := [], collectibleSpawnTimer := 68,
    powerups := [], powerupSpawnTimer := 68,
    activePowerup := none, powerupDuration := 0,
    abilities :=
      { fire := { unlocked := true, available := false, cooldown := 233, active := false },
        shield := { unlocked := false, available := false, cooldown := 0, active := false } },
    fireBreaths := [{ x := 746, y := 3001 / 10, size := 15, lifetime := 33 }],
    soundCooldowns := { jump := 0, collect := 0, crash := 0, ability := 0 } }

/-! ## Frame lemmas for `playSound` and `gameOver` -/

@[simp] theorem playSound_canvasWidth (s : State) (k : Sound) : (playSound s k).canvasWidth = s.canvasWidth := by
  cases k <;> simp only [playSound] <;> split <;> rfl

@[simp] theorem playSound_canvasHeight (s : State) (k : Sound) : (playSound s k).canvasHeight = s.canvasHeight := by
  cases k <;> simp only [playSound] <;> split <;> rfl

@[simp] theorem playSound_gameState (s : State) (k : Sound) : (playSound s k).gameState = s.gameState := by
  cases k <;> simp only [playSound] <;> split <;> rfl

@[simp] theorem playSound_score (s : State) (k : Sound) : (playSound s k).score = s.score := by
  cases k <;> simp only [playSound] <;> split <;> rfl

@[simp] theorem playSound_highScore (s : State) (k : Sound) : (playSound s k).highScore = s.highScore := by
  cases k <;> simp only [playSound] <;> split <;> rfl

@[simp] theorem playSound_lastTime (s : State) (k : Sound) : (playSound s k).lastTime = s.lastTime := by
  cases k <;> simp only [playSound] <;> split <;> rfl

@[simp] theorem playSound_gameSpeed (s : State) (k : Sound) : (playSound s k).gameSpeed = s.gameSpeed := by
  cases k <;> simp only [playSound] <;> split <;> rfl

@[simp] theorem playSound_dragon (s : State) (k : Sound) : (playSound s k).dragon = s.dragon := by
  cases k <;> simp only [playSound] <;> split <;> rfl

@[simp] theorem playSound_tail (s : State) (k : Sound) : (playSound s k).tail = s.tail := by
  cases k <;> simp only [playSound] <;> split <;> rfl

@[simp] theorem playSound_tailHistory (s : State) (k : Sound) : (playSound s k).tailHistory = s.tailHistory := by
  cases k <;> simp only [playSound] <;> split <;> rfl

@[simp] theorem playSound_obstacles (s : State) (k : Sound) : (playSound s k).obstacles = s.obstacles := by
  cases k <;> simp only [playSound] <;> split <;> rfl

@[simp] theorem playSound_obstacleSpawnTimer (s : State) (k : Sound) : (playSound s k).obstacleSpawnTimer = s.obstacleSpawnTimer := by
  cases k <;> simp only [playSound] <;> split <;> rfl

@[simp] theorem playSound_collectibles (s : State) (k : Sound) : (playSound s k).collectibles = s.collectibles := by
  cases k <;> simp only [playSound] <;> split <;> rfl

@[simp] theorem playSound_collectibleSpawnTimer (s : State) (k : Sound) : (playSound s k).collectibleSpawnTimer = s.collectibleSpawnTimer := by
  cases k <;> simp only [playSound] <;> split <;> rfl

@[simp] theorem playSound_powerups (s : State) (k : Sound) : (playSound s k).powerups = s.powerups := by
  cases k <;> simp only [playSound] <;> split <;> rfl

@[simp] theorem playSound_powerupSpawnTimer (s : State) (k : Sound) : (playSound s k).powerupSpawnTimer = s.powerupSpawnTimer := by
  cases k <;> simp only [playSound] <;> split <;> rfl

@[simp] theorem playSound_activePowerup (s : State) (k : Sound) : (playSound s k).activePowerup = s.activePowerup := by
  cases k <;> simp only [playSound] <;> split <;> rfl

@[simp] theorem playSound_powerupDuration (s : State) (k : Sound) : (playSound s k).powerupDuration = s.powerupDuration := by
  cases k <;> simp only [playSound] <;> split <;> rfl

@[simp] theorem playSound_abilities (s : State) (k : Sound) : (playSound s k).abilities = s.abilities := by
  cases k <;> simp only [playSound] <;> split <;> rfl

@[simp] theorem playSound_fireBreaths (s : State) (k : Sound) : (playSound s k).fireBreaths = s.fireBreaths := by
  cases k <;> simp only [playSound] <;> split <;> rfl

@[simp] theorem gameOver_canvasWidth (s : State) : (gameOver s).canvasWidth = s.canvasWidth := by
  simp [gameOver]

@[simp] theorem gameOver_canvasHeight (s : State) : (gameOver s).canvasHeight = s.canvasHeight := by
  simp [gameOver]

@[simp] theorem gameOver_score (s : State) : (gameOver s).score = s.score := by
  simp [gameOver]

@[simp] theorem gameOver_highScore (s : State) : (gameOver s).highScore = s.highScore := by
  simp [gameOver]

@[simp] theorem gameOver_lastTime (s : State) : (gameOver s).lastTime = s.lastTime := by
  simp [gameOver]

@[simp] theorem gameOver_gameSpeed (s : State) : (gameOver s).gameSpeed = s.gameSpeed := by
  simp [gameOver]

@[simp] theorem gameOver_dragon (s : State) : (gameOver s).dragon = s.dragon := by
  simp [gameOver]

@[simp] theorem gameOver_tail (s : State) : (gameOver s).tail = s.tail := by
  simp [gameOver]

@[simp] theorem gameOver_tailHistory (s : State) : (gameOver s).tailHistory = s.tailHistory := by
  simp [gameOver]

@[simp] theorem gameOver_obstacles (s : State) : (gameOver s).obstacles = s.obstacles := by
  simp [gameOver]

@[simp] theorem gameOver_obstacleSpawnTimer (s : State) : (gameOver s).obstacleSpawnTimer = s.obstacleSpawnTimer := by
  simp [gameOver]

@[simp] theorem gameOver_collectibles (s : State) : (gameOver s).collectibles = s.collectibles := by
  simp [gameOver]

@[simp] theorem gameOver_collectibleSpawnTimer (s : State) : (gameOver s).collectibleSpawnTimer = s.collectibleSpawnTimer := by
  simp [gameOver]

@[simp] theorem gameOver_powerups (s : State) : (gameOver s).powerups = s.powerups := by
  simp [gameOver]

@[simp] theorem gameOver_powerupSpawnTimer (s : State) : (gameOver s).powerupSpawnTimer = s.powerupSpawnTimer := by
  simp [gameOver]

@[simp] theorem gameOver_activePowerup (s : State) : (gameOver s).activePowerup = s.activePowerup := by
  simp [gameOver]

@[simp] theorem gameOver_powerupDuration (s : State) : (gameOver s).powerupDuration = s.powerupDuration := by
  simp [gameOver]

@[simp] theorem gameOver_abilities (s : State) : (gameOver s).abilities = s.abilities := by
  simp [gameOver]

@[simp] theorem gameOver_fireBreaths (s : State) : (gameOver s).fireBreaths = s.fireBreaths := by
  simp [gameOver]

@[simp] theorem gameOver_gameState (s : State) : (gameOver s).gameState = GameState.gameOver := by
  simp [gameOver]

theorem playSound_eq (s : State) (k : Sound) :
    playSound s k = { s with soundCooldowns := (playSound s k).soundCooldowns } := by
  apply State.ext <;> simp

/-! ## Evolution -/

theorem evolutionStage_cases (n : Nat) :
    (evolutionStage n = Evolution.mythical ↔ 20 ≤ n) ∧
    (evolutionStage n = Evolution.phoenix ↔ 12 ≤ n ∧ n < 20) ∧
    (evolutionStage n = Evolution.fire ↔ 5 ≤ n ∧ n < 12) ∧
    (evolutionStage n = Evolution.baby ↔ n < 5) := by
  unfold evolutionStage evolutionThresholds_mythical evolutionThresholds_phoenix
    evolutionThresholds_fire
  by_cases h20 : 20 ≤ n
  · simp [h20]; omega
  · by_cases h12 : 12 ≤ n
    · simp [h20, h12]; omega
    · by_cases h5 : 5 ≤ n
      · simp [h20, h12, h5]; omega
      · simp [h20, h12, h5]; omega

@[simp] theorem checkEvolution_evolution (s : State) :
    (checkEvolution s).dragon.evolution = evolutionStage s.dragon.tailLength := by
  simp only [checkEvolution]
  split_ifs <;> simp

/-- C1: the stage written by `checkEvolution` depends on `dragon.tailLength`
alone, whatever the state (and so the previous stage) was: it is mythical
exactly when the tail length is at least 20, phoenix exactly from 12 to 19,
fire exactly from 5 to 11, and baby exactly below 5. -/
theorem checkEvolution_stage (s : State) :
    ((checkEvolution s).dragon.evolution = Evolution.mythical ↔ 20 ≤ s.dragon.tailLength) ∧
    ((checkEvolution s).dragon.evolution = Evolution.phoenix ↔
      12 ≤ s.dragon.tailLength ∧ s.dragon.tailLength < 20) ∧
    ((checkEvolution s).dragon.evolution = Evolution.fire ↔
      5 ≤ s.dragon.tailLength ∧ s.dragon.tailLength < 12) ∧
    ((checkEvolution s).dragon.evolution = Evolution.baby ↔ s.dragon.tailLength < 5) := by
  rw [checkEvolution_evolution]
  exact evolutionStage_cases s.dragon.tailLength

theorem checkEvolution_fire (s : State) :
    (checkEvolution s).abilities.fire =
      if (evolutionStage s.dragon.tailLength = Evolution.fire ∨
          evolutionStage s.dragon.tailLength = Evolution.mythical) ∧
          s.abilities.fire.unlocked = false then
        { s.abilities.fire with unlocked := true, available := true, cooldown := 0 }
      else s.abilities.fire := by
  simp only [checkEvolution]
  split_ifs <;> simp_all

theorem checkEvolution_shield (s : State) :
    (checkEvolution s).abilities.shield =
      if (evolutionStage s.dragon.tailLength = Evolution.phoenix ∨
          evolutionStage s.dragon.tailLength = Evolution.mythical) ∧
          s.abilities.shield.unlocked = false then
        { s.abilities.shield with unlocked := true, available := true, cooldown := 0 }
      else s.abilities.shield := by
  simp only [checkEvolution]
  split_ifs <;> simp_all

/-- C2: `checkEvolution` changes an ability only by a first unlock. If Fire is
locked and the new stage is fire or mythical, Fire comes out unlocked, available
and with cooldown 0; otherwise the Fire record is exactly as before. The same
holds for Shield with the stages phoenix and mythical. -/
theorem checkEvolution_unlocks (s : State) :
    ((s.abilities.fire.unlocked = false ∧
        ((checkEvolution s).dragon.evolution = Evolution.fire ∨
         (checkEvolution s).dragon.evolution = Evolution.mythical) →
        (checkEvolution s).abilities.fire.unlocked = true ∧
        (checkEvolution s).abilities.fire.available = true ∧
        (checkEvolution s).abilities.fire.cooldown = 0 ∧
        (checkEvolution s).abilities.fire.active = s.abilities.fire.active) ∧
     (¬ (s.abilities.fire.unlocked = false ∧
        ((checkEvolution s).dragon.evolution = Evolution.fire ∨
         (checkEvolution s).dragon.evolution = Evolution.mythical)) →
        (checkEvolution s).abilities.fire = s.abilities.fire)) ∧
    ((s.abilities.shield.unlocked = false ∧
        ((checkEvolution s).dragon.evolution = Evolution.phoenix ∨
         (checkEvolution s).dragon.evolution = Evolution.mythical) →
        (checkEvolution s).abilities.shield.unlocked = true ∧
        (checkEvolution s).abilities.shield.available = true ∧
        (checkEvolution s).abilities.shield.cooldown = 0 ∧
        (checkEvolution s).abilities.shield.active = s.abilities.shield.active) ∧
     (¬ (s.abilities.shield.unlocked = false ∧
        ((checkEvolution s).dragon.evolution = Evolution.phoenix ∨
         (checkEvolution s).dragon.evolution = Evolution.mythical)) →
        (checkEvolution s).abilities.shield = s.abilities.shield)) := by
  rw [checkEvolution_evolution, checkEvolution_fire, checkEvolution_shield]
  refine ⟨⟨?_, ?_⟩, ?_, ?_⟩
  · rintro ⟨h1, h2⟩
    simp [h1, h2]
  · intro h
    rw [if_neg]
    tauto
  · rintro ⟨h1, h2⟩
    simp [h1, h2]
  · intro h
    rw [if_neg]
    tauto

/-! ## The obstacle collision box -/

/-- In exact arithmetic `checkDragonObstacleCollision` agrees with the
reference definition for every dragon position and obstacle: it is true
exactly when `x + 42 > ox`, `x - 42 < ox + 80` and (`y - 42 < gapY` or
`y + 42 > gapY + gapSize`), and false otherwise. The binary64 evaluation
differs within one rounding of a threshold; it is the subject of
`checkDragonObstacleCollision_binary64_spec`. -/
theorem checkDragonObstacleCollision_eq_reference (d : Dragon) (o : Obstacle) :
    checkDragonObstacleCollision d o =
      dragonObstacleCollision_reference d.x d.y o.x o.gapY o.gapSize := by
  have h42 : dragon_width * (1 - 3 / 10) / 2 = (42 : ℚ) := by norm_num [dragon_width]
  have h42' : dragon_height * (1 - 3 / 10) / 2 = (42 : ℚ) := by norm_num [dragon_height]
  have h80 : obstacleWidth = (80 : ℚ) := rfl
  simp only [checkDragonObstacleCollision, dragonObstacleCollision_reference, h42, h42', h80]
  by_cases h1 : d.x + 42 > o.x ∧ d.x - 42 < o.x + 80
  · by_cases h2 : d.y - 42 < o.gapY ∨ d.y + 42 > o.gapY + o.gapSize
    · simp [h1, h2]
    · simp [h1, h2]
  · simp [h1]

/-! ## Ability activation -/

theorem useFireBreath_of_gate (s : State) (h : fireGate s) :
    useFireBreath s = playSound { s with
      abilities := { s.abilities with
        fire := { s.abilities.fire with available := false, cooldown := fire_maxCooldown } },
      fireBreaths := s.fireBreaths ++
        [{ x := s.dragon.x + dragon_width / 2, y := s.dragon.y, size := 15, lifetime := 100 }] }
      Sound.ability := by
  unfold fireGate at h
  simp [useFireBreath, h]

theorem useFireBreath_of_not_gate (s : State) (h : ¬ fireGate s) : useFireBreath s = s := by
  unfold fireGate at h
  simp only [useFireBreath]
  rw [if_neg h]

theorem useShield_of_gate (s : State) (h : shieldGate s) :
    useShield s = playSound { s with
      abilities := { s.abilities with
        shield := { s.abilities.shield with available := false, active := true, cooldown := 180 } } }
      Sound.ability := by
  unfold shieldGate at h
  simp [useShield, h]

theorem useShield_of_not_gate (s : State) (h : ¬ shieldGate s) : useShield s = s := by
  unfold shieldGate at h
  simp only [useShield]
  rw [if_neg h]

theorem not_fireGate_useFireBreath (s : State) : ¬ fireGate (useFireBreath s) := by
  by_cases h : fireGate s
  · rw [useFireBreath_of_gate s h]
    simp [fireGate]
  · rwa [useFireBreath_of_not_gate s h]

theorem not_shieldGate_useShield (s : State) : ¬ shieldGate (useShield s) := by
  by_cases h : shieldGate s
  · rw [useShield_of_gate s h]
    simp [shieldGate]
  · rwa [useShield_of_not_gate s h]

/-- C8: both abilities obey the same gate (unlocked, available, cooldown 0).
`useFireBreath` changes the state exactly when the gate holds; it then makes
Fire unavailable with cooldown 300, leaves Shield alone and appends one
projectile at `(dragon.x + dragon.width / 2, dragon.y)` with lifetime 100.
`useShield` changes the state exactly when its gate holds; it then makes Shield
unavailable and active with cooldown 180 and adds no projectile. When a gate
fails the whole state is unchanged, so activating twice in a row equals
activating once. -/
theorem ability_activation_gate (s : State) :
    ((useFireBreath s ≠ s ↔ fireGate s) ∧
     (fireGate s →
        (useFireBreath s).abilities.fire =
          { s.abilities.fire with available := false, cooldown := 300 } ∧
        (useFireBreath s).abilities.shield = s.abilities.shield ∧
        (useFireBreath s).fireBreaths = s.fireBreaths ++
          [{ x := s.dragon.x + dragon_width / 2, y := s.dragon.y, size := 15, lifetime := 100 }]) ∧
     (¬ fireGate s → useFireBreath s = s)) ∧
    ((useShield s ≠ s ↔ shieldGate s) ∧
     (shieldGate s →
        (useShield s).abilities.shield =
          { s.abilities.shield with available := false, active := true, cooldown := 180 } ∧
        (useShield s).abilities.fire = s.abilities.fire ∧
        (useShield s).fireBreaths = s.fireBreaths) ∧
     (¬ shieldGate s → useShield s = s)) ∧
    (useFireBreath (useFireBreath s) = useFireBreath s ∧
     (fireGate s →
        (useFireBreath (useFireBreath s)).fireBreaths.length = s.fireBreaths.length + 1 ∧
        (useFireBreath (useFireBreath s)).abilities.fire.cooldown = 300)) ∧
    useShield (useShield s) = useShield s := by
  have hF2 : useFireBreath (useFireBreath s) = useFireBreath s :=
    useFireBreath_of_not_gate _ (not_fireGate_useFireBreath s)
  have hS2 : useShield (useShield s) = useShield s :=
    useShield_of_not_gate _ (not_shieldGate_useShield s)
  have hF : fireGate s →
      (useFireBreath s).abilities.fire =
          { s.abilities.fire with available := false, cooldown := 300 } ∧
        (useFireBreath s).abilities.shield = s.abilities.shield ∧
        (useFireBreath s).fireBreaths = s.fireBreaths ++
          [{ x := s.dragon.x + dragon_width / 2, y := s.dragon.y, size := 15, lifetime := 100 }] := by
    intro h
    rw [useFireBreath_of_gate s h]
    simp [fire_maxCooldown]
  have hS : shieldGate s →
      (useShield s).abilities.shield =
          { s.abilities.shield with available := false, active := true, cooldown := 180 } ∧
        (useShield s).abilities.fire = s.abilities.fire ∧
        (useShield s).fireBreaths = s.fireBreaths := by
    intro h
    rw [useShield_of_gate s h]
    simp
  refine ⟨⟨⟨?_, ?_⟩, hF, useFireBreath_of_not_gate s⟩, ⟨⟨?_, ?_⟩, hS, useShield_of_not_gate s⟩,
    ⟨hF2, ?_⟩, hS2⟩
  · intro hne
    by_contra hg
    exact hne (useFireBreath_of_not_gate s hg)
  · intro hg heq
    have h1 := (hF hg).1
    rw [heq] at h1
    have h2 := congrArg Ability.available h1
    simp [hg.2.1] at h2
  · intro hne
    by_contra hg
    exact hne (useShield_of_not_gate s hg)
  · intro hg heq
    have h1 := (hS hg).1
    rw [heq] at h1
    have h2 := congrArg Ability.available h1
    simp [hg.2.1] at h2
  · intro hg
    rw [hF2]
    obtain ⟨h1, -, h3⟩ := hF hg
    rw [h1, h3]
    simp

/-! ## Cooldowns -/

theorem updateAbilities_fire (s : State) :
    (updateAbilities s).abilities.fire =
      if s.abilities.fire.cooldown > 0 then
        if s.abilities.fire.cooldown - 1 = 0 ∧ s.abilities.fire.unlocked = true then
          { s.abilities.fire with cooldown := s.abilities.fire.cooldown - 1, available := true }
        else { s.abilities.fire with cooldown := s.abilities.fire.cooldown - 1 }
      else s.abilities.fire := by
  simp only [updateAbilities]

theorem updateAbilities_shield (s : State) :
    (updateAbilities s).abilities.shield =
      if s.abilities.shield.cooldown > 0 then
        if s.abilities.shield.cooldown - 1 = 0 then
          if s.abilities.shield.unlocked = true then
            { s.abilities.shield with
              cooldown := s.abilities.shield.cooldown - 1, active := false, available := true }
          else
            { s.abilities.shield with cooldown := s.abilities.shield.cooldown - 1, active := false }
        else { s.abilities.shield with cooldown := s.abilities.shield.cooldown - 1 }
      else s.abilities.shield := by
  simp only [updateAbilities]

theorem updateAbilities_iterate_fire (k : Nat) (s : State)
    (hk : k < s.abilities.fire.cooldown) :
    (updateAbilities^[k] s).abilities.fire =
      { s.abilities.fire with cooldown := s.abilities.fire.cooldown - k } := by
  induction k with
  | zero => simp
  | succ n ih =>
    rw [Function.iterate_succ_apply', updateAbilities_fire, ih (by omega)]
    have h1 : s.abilities.fire.cooldown - n > 0 := by omega
    have h2 : ¬ (s.abilities.fire.cooldown - n - 1 = 0) := by omega
    simp only [h1, h2, if_true, false_and, if_false]
    congr 1

theorem updateAbilities_iterate_shield (k : Nat) (s : State)
    (hk : k < s.abilities.shield.cooldown) :
    (updateAbilities^[k] s).abilities.shield =
      { s.abilities.shield with cooldown := s.abilities.shield.cooldown - k } := by
  induction k with
  | zero => simp
  | succ n ih =>
    rw [Function.iterate_succ_apply', updateAbilities_shield, ih (by omega)]
    have h1 : s.abilities.shield.cooldown - n > 0 := by omega
    have h2 : ¬ (s.abilities.shield.cooldown - n - 1 = 0) := by omega
    simp only [h1, h2, if_true, if_false]
    congr 1

theorem updateAbilities_iterate_fire_full (s : State) (hc : 0 < s.abilities.fire.cooldown)
    (hu : s.abilities.fire.unlocked = true) :
    (updateAbilities^[s.abilities.fire.cooldown] s).abilities.fire =
      { s.abilities.fire with cooldown := 0, available := true } := by
  obtain ⟨c, hc'⟩ : ∃ c, s.abilities.fire.cooldown = c + 1 := ⟨_, (Nat.succ_pred_eq_of_pos hc).symm⟩
  rw [hc', Function.iterate_succ_apply', updateAbilities_fire,
    updateAbilities_iterate_fire c s (by omega)]
  simp [hc', hu]

theorem updateAbilities_iterate_shield_full (s : State) (hc : 0 < s.abilities.shield.cooldown)
    (hu : s.abilities.shield.unlocked = true) :
    (updateAbilities^[s.abilities.shield.cooldown] s).abilities.shield =
      { s.abilities.shield with cooldown := 0, active := false, available := true } := by
  obtain ⟨c, hc'⟩ : ∃ c, s.abilities.shield.cooldown = c + 1 :=
    ⟨_, (Nat.succ_pred_eq_of_pos hc).symm⟩
  rw [hc', Function.iterate_succ_apply', updateAbilities_shield,
    updateAbilities_iterate_shield c s (by omega)]
  simp [hc', hu]

/-! ## Lists: removing one index -/

theorem take_eraseIdx_self {α : Type} (l : List α) (n : Nat) :
    (l.eraseIdx n).take n = l.take n := by
  induction l generalizing n with
  | nil => simp
  | cons a l ih =>
    cases n with
    | zero => simp
    | succ n => simp [ih]

theorem drop_eraseIdx_self {α : Type} (l : List α) (n : Nat) :
    (l.eraseIdx n).drop n = l.drop (n + 1) := by
  induction l generalizing n with
  | nil => simp
  | cons a l ih =>
    cases n with
    | zero => simp
    | succ n => simp [ih]

theorem take_succ_of_getElem? {α : Type} (l : List α) (n : Nat) (a : α) (h : l[n]? = some a) :
    l.take (n + 1) = l.take n ++ [a] := by
  rw [List.take_succ, h]
  rfl

theorem drop_of_getElem? {α : Type} (l : List α) (n : Nat) (a : α) (h : l[n]? = some a) :
    l.drop n = a :: l.drop (n + 1) := by
  obtain ⟨hn, rfl⟩ := List.getElem?_eq_some.mp h
  exact List.drop_eq_getElem_cons hn

/-! ## The distance test -/

/-- The rational test `hypot_lt` is the comparison of the Euclidean norm with
the bound. -/
theorem hypot_lt_iff (a b r : ℚ) :
    hypot_lt a b r = true ↔ Real.sqrt ((a : ℝ) ^ 2 + (b : ℝ) ^ 2) < (r : ℝ) := by
  simp only [hypot_lt, decide_eq_true_eq]
  constructor
  · rintro ⟨hr, h⟩
    have hr' : (0 : ℝ) < r := by exact_mod_cast hr
    rw [Real.sqrt_lt' hr']
    have h' : (a : ℝ) * a + b * b < r * r := by exact_mod_cast h
    nlinarith [h']
  · intro h
    have hr' : (0 : ℝ) < r := lt_of_le_of_lt (Real.sqrt_nonneg _) h
    rw [Real.sqrt_lt' hr'] at h
    refine ⟨by exact_mod_cast hr', ?_⟩
    have h' : (a : ℝ) * a + b * b < r * r := by nlinarith [h]
    exact_mod_cast h'

/-! ## The collectible pass of `checkCollisions` -/

theorem collectCollectible_eq (s : State) (i : Nat) :
    ∃ hs snd, collectCollectible s i = { s with
      collectibles := s.collectibles.eraseIdx i,
      score := s.score + 1,
      dragon := { s.dragon with tailLength := s.dragon.tailLength + 1 },
      highScore := hs,
      soundCooldowns := snd } := by
  refine ⟨(collectCollectible s i).highScore, (collectCollectible s i).soundCooldowns, ?_⟩
  apply State.ext <;> simp only [collectCollectible] <;> split_ifs <;> simp

theorem checkCollisions_collectibles_eq (n : Nat) (s : State) (hn : n ≤ s.collectibles.length) :
    ∃ hs snd, checkCollisions_collectibles n s = { s with
      collectibles :=
        (s.collectibles.take n).filter (fun c => !inContact s.dragon c) ++ s.collectibles.drop n,
      score := s.score + (s.collectibles.take n).countP (inContact s.dragon),
      dragon := { s.dragon with
        tailLength := s.dragon.tailLength + (s.collectibles.take n).countP (inContact s.dragon) },
      highScore := hs,
      soundCooldowns := snd } := by
  induction n generalizing s with
  | zero => exact ⟨s.highScore, s.soundCooldowns, by simp [checkCollisions_collectibles]⟩
  | succ n ih =>
    have hlt : n < s.collectibles.length := hn
    have hget : s.collectibles[n]? = some s.collectibles[n] := List.getElem?_eq_getElem hlt
    have htake := take_succ_of_getElem? _ _ _ hget
    have hdrop := drop_of_getElem? _ _ _ hget
    rw [checkCollisions_collectibles, hget]
    simp only
    by_cases hc : inContact s.dragon s.collectibles[n] = true
    · have hc' : checkCircleCollision s.dragon.x s.dragon.y (dragon_width / 2)
          s.collectibles[n].x s.collectibles[n].y (s.collectibles[n].size / 2) = true := hc
      rw [if_pos hc']
      obtain ⟨hs0, snd0, h0⟩ := collectCollectible_eq s n
      have hlen : n ≤ (collectCollectible s n).collectibles.length := by
        rw [h0]
        simp only [List.length_eraseIdx, hlt, if_true]
        omega
      obtain ⟨hs1, snd1, h1⟩ := ih (collectCollectible s n) hlen
      refine ⟨hs1, snd1, ?_⟩
      rw [h1, h0]
      have hd : inContact { s.dragon with tailLength := s.dragon.tailLength + 1 } =
          inContact s.dragon := rfl
      simp only [hd, take_eraseIdx_self, drop_eraseIdx_self, State.mk.injEq, Dragon.mk.injEq,
        true_and, and_true]
      rw [htake]
      simp only [List.filter_append, List.countP_append, List.countP_cons, List.countP_nil,
        List.filter_cons, List.filter_nil, hc, if_true, Bool.not_true, Bool.false_eq_true,
        if_false, List.append_nil]
      exact ⟨by omega, by omega, trivial⟩
    · have hc' : ¬ checkCircleCollision s.dragon.x s.dragon.y (dragon_width / 2)
          s.collectibles[n].x s.collectibles[n].y (s.collectibles[n].size / 2) = true := hc
      rw [if_neg hc']
      obtain ⟨hs1, snd1, h1⟩ := ih s (by omega)
      refine ⟨hs1, snd1, ?_⟩
      rw [h1]
      simp only [State.mk.injEq, Dragon.mk.injEq, true_and, and_true]
      rw [htake, hdrop]
      simp only [Bool.not_eq_true] at hc
      simp only [List.filter_append, List.countP_append, List.countP_cons, List.countP_nil,
        List.filter_cons, List.filter_nil, hc, Bool.false_eq_true, if_false, Bool.not_false,
        if_true, List.append_assoc, List.singleton_append]
      simp

/-! ## The power-up pass of `checkCollisions` -/

theorem activatePowerup_eq (s : State) (type : PowerupType) :
    ∃ gs sh, activatePowerup s type = { s with
      activePowerup := some type,
      powerupDuration := 180,
      gameSpeed := gs,
      abilities := { s.abilities with shield := sh } } := by
  cases type
  · exact ⟨_, _, rfl⟩
  · exact ⟨_, _, rfl⟩

theorem collectPowerup_eq (s : State) (i : Nat) :
    ∃ ps ap pd gs sh snd, collectPowerup s i = { s with
      powerups := ps,
      activePowerup := ap,
      powerupDuration := pd,
      gameSpeed := gs,
      abilities := { s.abilities with shield := sh },
      soundCooldowns := snd } := by
  simp only [collectPowerup]
  cases s.powerups[i]? with
  | none => exact ⟨_, _, _, _, _, _, rfl⟩
  | some p =>
    obtain ⟨gs, sh, h⟩ := activatePowerup_eq { s with powerups := s.powerups.eraseIdx i } p.type
    refine ⟨s.powerups.eraseIdx i, some p.type, 180, gs, sh,
      (playSound (activatePowerup { s with powerups := s.powerups.eraseIdx i } p.type)
        Sound.collect).soundCooldowns, ?_⟩
    apply State.ext <;> simp [h]

theorem checkCollisions_powerups_eq (n : Nat) (s : State) :
    ∃ ps ap pd gs sh snd, checkCollisions_powerups n s = { s with
      powerups := ps,
      activePowerup := ap,
      powerupDuration := pd,
      gameSpeed := gs,
      abilities := { s.abilities with shield := sh },
      soundCooldowns := snd } := by
  induction n generalizing s with
  | zero => exact ⟨_, _, _, _, _, _, rfl⟩
  | succ n ih =>
    rw [checkCollisions_powerups]
    cases s.powerups[n]? with
    | none => exact ih s
    | some p =>
      simp only
      split_ifs
      · obtain ⟨ps0, ap0, pd0, gs0, sh0, snd0, h0⟩ := collectPowerup_eq s n
        obtain ⟨ps1, ap1, pd1, gs1, sh1, snd1, h1⟩ := ih (collectPowerup s n)
        refine ⟨ps1, ap1, pd1, gs1, sh1, snd1, ?_⟩
        rw [h1, h0]
      · exact ih s

theorem checkCollisions_of_not_fatal (s : State) (h : checkCollisions_fatal s = false) :
    checkCollisions s =
      checkCollisions_powerups (checkCollisions_collectibles s.collectibles.length s).powerups.length
        (checkCollisions_collectibles s.collectibles.length s) := by
  simp [checkCollisions, h]

theorem checkCollisions_of_fatal (s : State) (h : checkCollisions_fatal s = true) :
    checkCollisions s = gameOver s := by
  simp [checkCollisions, h]

/-- In exact arithmetic: in a call of `checkCollisions` that is not fatal,
`score` and `dragon.tailLength` each grow by exactly the number of
collectibles in contact with the dragon, exactly those collectibles are
removed and the others keep their order; with no collectible in contact,
score, tail length and the collectibles are unchanged. A collectible is in
contact exactly when the Euclidean distance between its centre and the
dragon's centre is less than `dragon.width / 2 + size / 2`. The binary64
evaluation is the subject of `checkCollisions_binary64_collectibles_count`. -/
theorem checkCollisions_collectibles_count (s : State) (h : checkCollisions_fatal s = false) :
    (checkCollisions s).score = s.score + s.collectibles.countP (inContact s.dragon) ∧
    (checkCollisions s).dragon.tailLength =
      s.dragon.tailLength + s.collectibles.countP (inContact s.dragon) ∧
    (checkCollisions s).collectibles =
      s.collectibles.filter (fun c => !inContact s.dragon c) ∧
    ((∀ c ∈ s.collectibles, inContact s.dragon c = false) →
      (checkCollisions s).score = s.score ∧
      (checkCollisions s).dragon.tailLength = s.dragon.tailLength ∧
      (checkCollisions s).collectibles = s.collectibles) ∧
    (∀ c : Collectible, inContact s.dragon c = true ↔
      Real.sqrt (((c.x - s.dragon.x : ℚ) : ℝ) ^ 2 + ((c.y - s.dragon.y : ℚ) : ℝ) ^ 2) <
        ((dragon_width / 2 + c.size / 2 : ℚ) : ℝ)) := by
  obtain ⟨hs, snd, h1⟩ := checkCollisions_collectibles_eq s.collectibles.length s (le_refl _)
  obtain ⟨ps, ap, pd, gs, sh, snd2, h2⟩ := checkCollisions_powerups_eq
    (checkCollisions_collectibles s.collectibles.length s).powerups.length
    (checkCollisions_collectibles s.collectibles.length s)
  have hsc : (checkCollisions s).score = s.score + s.collectibles.countP (inContact s.dragon) := by
    rw [checkCollisions_of_not_fatal s h, h2, h1]
    simp
  have htl : (checkCollisions s).dragon.tailLength =
      s.dragon.tailLength + s.collectibles.countP (inContact s.dragon) := by
    rw [checkCollisions_of_not_fatal s h, h2, h1]
    simp
  have hcs : (checkCollisions s).collectibles =
      s.collectibles.filter (fun c => !inContact s.dragon c) := by
    rw [checkCollisions_of_not_fatal s h, h2, h1]
    simp
  refine ⟨hsc, htl, hcs, ?_, fun c => hypot_lt_iff _ _ _⟩
  intro hnone
  have hcount : s.collectibles.countP (inContact s.dragon) = 0 := by
    rw [List.countP_eq_zero]
    intro c hc
    simp [hnone c hc]
  refine ⟨by rw [hsc, hcount]; rfl, by rw [htl, hcount]; rfl, ?_⟩
  rw [hcs, List.filter_eq_self]
  intro c hc
  simp [hnone c hc]

theorem checkCollisions_collectibles_count_witness :
    checkCollisions_fatal threeGems = false ∧
    (checkCollisions threeGems).score = 2 ∧
    (checkCollisions threeGems).dragon.tailLength = 2 ∧
    (checkCollisions threeGems).collectibles = [gemAt 700 300] := by
  have h := checkCollisions_collectibles_count threeGems (by decide!)
  have hc : threeGems.collectibles.countP (inContact threeGems.dragon) = 2 := by decide!
  have hf : threeGems.collectibles.filter (fun c => !inContact threeGems.dragon c) =
      [gemAt 700 300] := by decide!
  rw [hc, hf] at h
  exact ⟨by decide!, h.1, h.2.1, h.2.2.1⟩

/-! ## Screen boundaries -/

/-- C6: when the shield is not active and, after the physics step, the dragon
touches or crosses the top (`y - height / 2 <= 0`) or the bottom
(`y + height / 2 >= canvas.height`), `updateGame` sets `gameState` to gameOver
and returns at once: the dragon keeps the velocity, `y` and rotation of the
physics step, and tail history, tail, all four populations, the three spawn
timers, the abilities, the active power-up and its duration, the score, the
speed multiplier and the dragon's `x`, stage and tail length are unchanged. -/
theorem updateGame_boundary_gameOver (s : State) (r : Draws)
    (hshield : s.abilities.shield.active = false)
    (hedge : (updateGame_physics s).dragon.y - dragon_height / 2 ≤ 0 ∨
      (updateGame_physics s).dragon.y + dragon_height / 2 ≥ s.canvasHeight) :
    updateGame s r = gameOver (updateGame_physics s) ∧
    (updateGame s r).gameState = GameState.gameOver ∧
    (updateGame s r).dragon = (updateGame_physics s).dragon ∧
    (updateGame s r).dragon.x = s.dragon.x ∧
    (updateGame s r).dragon.evolution = s.dragon.evolution ∧
    (updateGame s r).dragon.tailLength = s.dragon.tailLength ∧
    (updateGame s r).tailHistory = s.tailHistory ∧
    (updateGame s r).tail = s.tail ∧
    (updateGame s r).obstacles = s.obstacles ∧
    (updateGame s r).collectibles = s.collectibles ∧
    (updateGame s r).powerups = s.powerups ∧
    (updateGame s r).fireBreaths = s.fireBreaths ∧
    (updateGame s r).obstacleSpawnTimer = s.obstacleSpawnTimer ∧
    (updateGame s r).collectibleSpawnTimer = s.collectibleSpawnTimer ∧
    (updateGame s r).powerupSpawnTimer = s.powerupSpawnTimer ∧
    (updateGame s r).abilities = s.abilities ∧
    (updateGame s r).activePowerup = s.activePowerup ∧
    (updateGame s r).powerupDuration = s.powerupDuration ∧
    (updateGame s r).score = s.score ∧
    (updateGame s r).gameSpeed = s.gameSpeed := by
  have hact : (updateGame_physics s).abilities.shield.active = false := hshield
  have hH : (updateGame_physics s).canvasHeight = s.canvasHeight := rfl
  have hb : updateGame_boundary (updateGame_physics s) =
      Boundary.fatal (gameOver (updateGame_physics s)) := by
    unfold updateGame_boundary
    by_cases htop : (updateGame_physics s).dragon.y - dragon_height / 2 ≤ 0
    · rw [if_pos ⟨htop, hact⟩]
    · rw [if_neg (fun h => htop h.1)]
      have hbot : (updateGame_physics s).dragon.y + dragon_height / 2 ≥ s.canvasHeight := by
        rcases hedge with h | h
        · exact absurd h htop
        · exact h
      simp only [htop, if_false]
      rw [if_pos ⟨by rw [hH]; exact hbot, hact⟩]
  have hu : updateGame s r = gameOver (updateGame_physics s) := by
    simp only [updateGame, hb]
  rw [hu]
  simp [updateGame_physics]

theorem updateGame_boundary_gameOver_witness :
    (updateGame unshieldedAtTop midDraws).gameState = GameState.gameOver ∧
    (updateGame unshieldedAtTop midDraws).dragon.y = 101 / 10 ∧
    (updateGame unshieldedAtTop midDraws).collectibles = [gemAt 160 20] ∧
    (updateGame unshieldedAtTop midDraws).tailHistory = [] := by
  have h := updateGame_boundary_gameOver unshieldedAtTop midDraws (by decide!)
    (Or.inl (by decide!))
  refine ⟨h.2.1, ?_, ?_, ?_⟩
  · rw [h.2.2.1]
    decide!
  · rw [h.2.2.2.2.2.2.2.2.2.1]
    decide!
  · rw [h.2.2.2.2.2.2.1]
    decide!

/-! ## Frame lemmas for the tick -/

theorem updateFireBreaths_strike_eq (i : Nat) (f : FireBreath) (s : State) :
    ∃ fbs obs snd, updateFireBreaths_strike i f s =
      { s with fireBreaths := fbs, obstacles := obs, soundCooldowns := snd } := by
  unfold updateFireBreaths_strike
  split
  · rw [playSound_eq]
    exact ⟨_, _, _, rfl⟩
  · exact ⟨_, _, _, rfl⟩

theorem updateFireBreaths_expire_eq (i : Nat) (s : State) :
    ∃ fbs, updateFireBreaths_expire i s = { s with fireBreaths := fbs } := by
  unfold updateFireBreaths_expire
  split
  · split_ifs
    · exact ⟨_, rfl⟩
    · exact ⟨_, rfl⟩
  · exact ⟨_, rfl⟩

theorem updateFireBreaths_body_eq (i : Nat) (s : State) :
    ∃ fbs obs snd, updateFireBreaths_body i s =
      { s with fireBreaths := fbs, obstacles := obs, soundCooldowns := snd } := by
  unfold updateFireBreaths_body
  split
  · exact ⟨_, _, _, rfl⟩
  · rename_i f _
    obtain ⟨fbs1, obs1, snd1, h1⟩ := updateFireBreaths_strike_eq i
      { f with x := f.x + 8, lifetime := f.lifetime - 1 }
      { s with fireBreaths := s.fireBreaths.set i { f with x := f.x + 8, lifetime := f.lifetime - 1 } }
    obtain ⟨fbs2, h2⟩ := updateFireBreaths_expire_eq i (updateFireBreaths_strike i
      { f with x := f.x + 8, lifetime := f.lifetime - 1 }
      { s with fireBreaths := s.fireBreaths.set i { f with x := f.x + 8, lifetime := f.lifetime - 1 } })
    refine ⟨fbs2, obs1, snd1, ?_⟩
    simp only
    rw [h2, h1]

theorem updateFireBreaths_loop_eq (n : Nat) (s : State) :
    ∃ fbs obs snd, updateFireBreaths_loop n s =
      { s with fireBreaths := fbs, obstacles := obs, soundCooldowns := snd } := by
  induction n generalizing s with
  | zero => exact ⟨_, _, _, rfl⟩
  | succ n ih =>
    rw [updateFireBreaths_loop]
    obtain ⟨fbs0, obs0, snd0, h0⟩ := updateFireBreaths_body_eq n s
    obtain ⟨fbs1, obs1, snd1, h1⟩ := ih (updateFireBreaths_body n s)
    refine ⟨fbs1, obs1, snd1, ?_⟩
    rw [h1, h0]

theorem updateFireBreaths_eq (s : State) :
    ∃ fbs obs snd, updateFireBreaths s =
      { s with fireBreaths := fbs, obstacles := obs, soundCooldowns := snd } :=
  updateFireBreaths_loop_eq _ s

@[simp] theorem updateFireBreaths_gameState (s : State) :
    (updateFireBreaths s).gameState = s.gameState := by
  obtain ⟨_, _, _, h⟩ := updateFireBreaths_eq s
  rw [h]

@[simp] theorem updateGame_history_gameState (s : State) :
    (updateGame_history s).gameState = s.gameState := rfl

@[simp] theorem updateTail_gameState (s : State) : (updateTail s).gameState = s.gameState := rfl

@[simp] theorem updateObstacles_gameState (s : State) :
    (updateObstacles s).gameState = s.gameState := rfl

@[simp] theorem updateCollectibles_gameState (s : State) :
    (updateCollectibles s).gameState = s.gameState := rfl

@[simp] theorem updatePowerups_gameState (s : State) :
    (updatePowerups s).gameState = s.gameState := rfl

@[simp] theorem updateAbilities_gameState (s : State) :
    (updateAbilities s).gameState = s.gameState := rfl

@[simp] theorem updateGame_sounds_gameState (s : State) :
    (updateGame_sounds s).gameState = s.gameState := rfl

@[simp] theorem updateUI_gameState (s : State) : (updateUI s).gameState = s.gameState := rfl

@[simp] theorem updateGame_powerup_gameState (s : State) :
    (updateGame_powerup s).gameState = s.gameState := by
  simp only [updateGame_powerup, deactivatePowerup]
  split_ifs <;> rfl

@[simp] theorem updateGame_advance_gameState (s : State) :
    (updateGame_advance s).gameState = s.gameState := by
  simp only [updateGame_advance, updateGame_sounds_gameState, updateGame_powerup_gameState,
    updateAbilities_gameState, updateFireBreaths_gameState, updatePowerups_gameState,
    updateCollectibles_gameState, updateObstacles_gameState, updateTail_gameState,
    updateGame_history_gameState]

@[simp] theorem checkEvolution_gameState (s : State) :
    (checkEvolution s).gameState = s.gameState := by
  simp only [checkEvolution]
  split_ifs <;> simp

@[simp] theorem spawnObstacles_gameState (s : State) (r : Draws) :
    (spawnObstacles s r).gameState = s.gameState := by
  simp only [spawnObstacles]
  split_ifs <;> rfl

@[simp] theorem spawnCollectibles_gameState (s : State) :
    (spawnCollectibles s).gameState = s.gameState := by
  simp only [spawnCollectibles]
  split_ifs
  · split
    · rfl
    · split_ifs <;> rfl
  · rfl

@[simp] theorem spawnPowerups_gameState (s : State) (r : Draws) :
    (spawnPowerups s r).gameState = s.gameState := by
  simp only [spawnPowerups]
  split_ifs <;> rfl

theorem updateGame_finish_gameState (s : State) (r : Draws) :
    (updateGame_finish s r).gameState = (checkCollisions s).gameState := by
  simp only [updateGame_finish, updateUI_gameState, spawnPowerups_gameState,
    spawnCollectibles_gameState, spawnObstacles_gameState, checkEvolution_gameState]

/-! ## The shield -/

theorem checkCollisions_fatal_of_shield (s : State) (h : s.abilities.shield.active = true) :
    checkCollisions_fatal s = false := by
  simp [checkCollisions_fatal, h]

theorem checkCollisions_frame_of_not_fatal (s : State) (h : checkCollisions_fatal s = false) :
    (checkCollisions s).gameState = s.gameState ∧ (checkCollisions s).obstacles = s.obstacles := by
  obtain ⟨hs, snd, h1⟩ := checkCollisions_collectibles_eq s.collectibles.length s (le_refl _)
  obtain ⟨ps, ap, pd, gs, sh, snd2, h2⟩ := checkCollisions_powerups_eq
    (checkCollisions_collectibles s.collectibles.length s).powerups.length
    (checkCollisions_collectibles s.collectibles.length s)
  rw [checkCollisions_of_not_fatal s h, h2, h1]
  exact ⟨rfl, rfl⟩

theorem updateGame_boundary_of_shield (p : State) (h : p.abilities.shield.active = true) :
    updateGame_boundary p = Boundary.proceed
      (if (if p.dragon.y - dragon_height / 2 ≤ 0 then dragon_height / 2 else p.dragon.y)
            + dragon_height / 2 ≥ p.canvasHeight then
          { p with dragon := { p.dragon with
              y := p.canvasHeight - dragon_height / 2, velocity := 0 } }
        else if p.dragon.y - dragon_height / 2 ≤ 0 then
          { p with dragon := { p.dragon with y := dragon_height / 2, velocity := 0 } }
        else p) := by
  unfold updateGame_boundary
  by_cases htop : p.dragon.y - dragon_height / 2 ≤ 0
  · by_cases hbot : dragon_height / 2 + dragon_height / 2 ≥ p.canvasHeight
    · simp only [htop, hbot, h, Bool.true_eq_false, and_false, if_false, if_true]
    · simp only [htop, hbot, h, Bool.true_eq_false, and_false, if_false, if_true]
  · by_cases hbot : p.dragon.y + dragon_height / 2 ≥ p.canvasHeight
    · simp only [htop, hbot, h, Bool.true_eq_false, and_false, if_false, if_true]
    · simp only [htop, hbot, h, Bool.true_eq_false, and_false, if_false, if_true]

/-- C7: a check made while `shield.active` is true never sets gameOver. At the
boundary block of a tick the outcome is always "proceed": game state and
abilities are untouched, a dragon touching or crossing the top is put at
`y = height / 2` (unless that position itself reaches the bottom of a canvas
no taller than the dragon, where the bottom clamp applies), a dragon touching
or crossing the bottom is put at `y = canvas.height - height / 2`, in both
cases with velocity 0, and a dragon touching neither is left as it is. If the
shield is still active when the collision pass runs, the whole tick leaves
`gameState` unchanged. In `checkCollisions`, whatever the overlaps, the game
state and the obstacle list are unchanged. -/
theorem shield_prevents_gameOver (s : State) (r : Draws)
    (hshield : s.abilities.shield.active = true) :
    (∃ s1, updateGame_boundary (updateGame_physics s) = Boundary.proceed s1 ∧
      s1.gameState = s.gameState ∧
      s1.abilities = s.abilities ∧
      ((updateGame_physics s).dragon.y - dragon_height / 2 ≤ 0 →
        s1.dragon.velocity = 0 ∧
        (s1.dragon.y = dragon_height / 2 ∨ s1.dragon.y = s.canvasHeight - dragon_height / 2)) ∧
      ((updateGame_physics s).dragon.y - dragon_height / 2 ≤ 0 → dragon_height < s.canvasHeight →
        s1.dragon.y = dragon_height / 2) ∧
      ((updateGame_physics s).dragon.y + dragon_height / 2 ≥ s.canvasHeight →
        s1.dragon.velocity = 0 ∧ s1.dragon.y = s.canvasHeight - dragon_height / 2) ∧
      (¬ (updateGame_physics s).dragon.y - dragon_height / 2 ≤ 0 →
        ¬ (updateGame_physics s).dragon.y + dragon_height / 2 ≥ s.canvasHeight →
        s1 = updateGame_physics s) ∧
      ((updateGame_advance s1).abilities.shield.active = true →
        (updateGame s r).gameState = s.gameState)) ∧
    (checkCollisions s).gameState = s.gameState ∧
    (checkCollisions s).obstacles = s.obstacles := by
  have hp : (updateGame_physics s).abilities.shield.active = true := hshield
  have hH : (updateGame_physics s).canvasHeight = s.canvasHeight := rfl
  have hG : (updateGame_physics s).gameState = s.gameState := rfl
  have hA : (updateGame_physics s).abilities = s.abilities := rfl
  have hb := updateGame_boundary_of_shield (updateGame_physics s) hp
  refine ⟨⟨_, hb, ?_, ?_, ?_, ?_, ?_, ?_, ?_⟩,
    checkCollisions_frame_of_not_fatal s (checkCollisions_fatal_of_shield s hshield)⟩
  · split_ifs <;> exact hG
  · split_ifs <;> exact hA
  · intro htop
    rw [if_pos htop, hH]
    split_ifs
    · exact ⟨rfl, Or.inr rfl⟩
    · exact ⟨rfl, Or.inl rfl⟩
  · intro htop hlt
    rw [if_pos htop, hH]
    have hno : ¬ (dragon_height / 2 + dragon_height / 2 ≥ s.canvasHeight) := by
      intro hge
      have : dragon_height / 2 + dragon_height / 2 = dragon_height := by ring
      rw [this] at hge
      exact absurd hlt (not_lt.mpr hge)
    rw [if_neg hno, if_pos htop]
  · intro hbot
    have hyes : (if (updateGame_physics s).dragon.y - dragon_height / 2 ≤ 0 then dragon_height / 2
        else (updateGame_physics s).dragon.y) + dragon_height / 2 ≥ s.canvasHeight := by
      split_ifs with htop
      · have h1 : (updateGame_physics s).dragon.y ≤ dragon_height / 2 := by linarith
        linarith
      · exact hbot
    rw [hH, if_pos hyes]
    exact ⟨rfl, rfl⟩
  · intro htop hbot
    rw [if_neg htop, hH, if_neg hbot, if_neg htop]
  · intro hact
    have hnf := checkCollisions_fatal_of_shield _ hact
    simp only [updateGame, hb]
    rw [updateGame_finish_gameState, (checkCollisions_frame_of_not_fatal _ hnf).1,
      updateGame_advance_gameState]
    split_ifs <;> exact hG

theorem shield_prevents_gameOver_witness :
    shieldedAtTop.abilities.shield.active = true ∧
    (updateGame_physics shieldedAtTop).dragon.y - dragon_height / 2 ≤ 0 ∧
    (updateGame shieldedAtTop midDraws).obstacles.any
      (checkDragonObstacleCollision (updateGame shieldedAtTop midDraws).dragon) = true ∧
    (updateGame shieldedAtTop midDraws).gameState = GameState.playing ∧
    (updateGame shieldedAtTop midDraws).dragon.y = 60 ∧
    (updateGame shieldedAtTop midDraws).dragon.velocity = 0 ∧
    (updateGame shieldedAtTop midDraws).obstacles.length = 1 := by
  obtain ⟨⟨s1, hb, -, -, -, -, -, -, htick⟩, -, -⟩ :=
    shield_prevents_gameOver shieldedAtTop midDraws (by decide!)
  refine ⟨by decide!, by decide!, by decide!, ?_, by decide!, by decide!, by decide!⟩
  have hs1 : s1 = { updateGame_physics shieldedAtTop with
      dragon := { (updateGame_physics shieldedAtTop).dragon with
        y := dragon_height / 2, velocity := 0 } } := by
    have hb2 : updateGame_boundary (updateGame_physics shieldedAtTop) = Boundary.proceed
        { updateGame_physics shieldedAtTop with
          dragon := { (updateGame_physics shieldedAtTop).dragon with
            y := dragon_height / 2, velocity := 0 } } := by decide!
    rw [hb2] at hb
    exact (Boundary.proceed.inj hb).symm
  rw [htick (by rw [hs1]; decide!)]
  decide!

/-! ## Scripted runs are sessions -/

theorem jump_gameState (s : State) : (jump s).gameState = s.gameState := by
  simp [jump]

theorem useShield_gameState (s : State) : (useShield s).gameState = s.gameState := by
  simp only [useShield]
  split_ifs
  · rw [playSound_gameState]
  · rfl

theorem useFireBreath_gameState (s : State) : (useFireBreath s).gameState = s.gameState := by
  simp only [useFireBreath]
  split_ifs
  · rw [playSound_gameState]
  · rfl

theorem Session.mono {s : State} (h : Played s) : Reachable s := by
  induction h with
  | reset s => exact Session.reset s
  | tick r _ hp ih => exact Session.tick r ih hp
  | jump _ hp ih => exact Session.jump ih hp
  | useFireBreath _ hp ih => exact Session.useFireBreath ih hp
  | useShield _ hp ih => exact Session.useShield ih hp
  | pickupCollectible index hpk _ _ _ => exact absurd hpk (by simp)
  | pickupPowerup type hpk _ _ _ => exact absurd hpk (by simp)

theorem session_ite_jump {p : Bool} (c : Prop) [Decidable c] {s : State} (h : Session p s)
    (hp : s.gameState = GameState.playing) :
    Session p (if c then BabyDragon.jump s else s) ∧
      (if c then BabyDragon.jump s else s).gameState = GameState.playing := by
  by_cases hc : c
  · rw [if_pos hc]
    exact ⟨Session.jump h hp, by rw [jump_gameState, hp]⟩
  · rw [if_neg hc]
    exact ⟨h, hp⟩

theorem session_ite_useShield {p : Bool} (c : Prop) [Decidable c] {s : State}
    (h : Session p s) (hp : s.gameState = GameState.playing) :
    Session p (if c then BabyDragon.useShield s else s) ∧
      (if c then BabyDragon.useShield s else s).gameState = GameState.playing := by
  by_cases hc : c
  · rw [if_pos hc]
    exact ⟨Session.useShield h hp, by rw [useShield_gameState, hp]⟩
  · rw [if_neg hc]
    exact ⟨h, hp⟩

theorem Script.step_session {p : Bool} (sc : Script) (t : Nat) (s : State) (h : Session p s)
    (hp : s.gameState = GameState.playing) : Session p (sc.step t s) := by
  obtain ⟨h1, hp1⟩ := session_ite_jump (sc.jumps t = true) h hp
  obtain ⟨h2, hp2⟩ := session_ite_useShield (some t = sc.shieldAt) h1 hp1
  exact Session.tick _ h2 hp2

theorem Script.run_session {p : Bool} (sc : Script) (n t : Nat) (s s1 : State)
    (h : Session p s) (hrun : sc.run n t s = some s1) : Session p s1 := by
  induction n generalizing t s with
  | zero =>
    simp only [Script.run, Option.some.injEq] at hrun
    rw [← hrun]
    exact h
  | succ n ih =>
    rw [Script.run] at hrun
    split_ifs at hrun with hp
    exact ih (t + 1) (sc.step t s) (sc.step_session t s h hp) hrun

theorem fresh640_played : Played fresh640 := Session.reset _

theorem freshRun_played : Played freshRun := Session.reset _

theorem collectCollectible_gameState (s : State) (i : Nat) :
    (collectCollectible s i).gameState = s.gameState := by
  obtain ⟨hs, snd, h⟩ := collectCollectible_eq s i
  rw [h]

theorem activatePowerup_gameState (s : State) (type : PowerupType) :
    (activatePowerup s type).gameState = s.gameState := by
  cases type <;> rfl

theorem reachable_iterate_collectCollectible (n : Nat) (s : State) (h : Reachable s)
    (hp : s.gameState = GameState.playing) :
    Reachable ((fun s => collectCollectible s 0)^[n] s) ∧
      ((fun s => collectCollectible s 0)^[n] s).gameState = GameState.playing := by
  induction n with
  | zero => exact ⟨h, hp⟩
  | succ n ih =>
    rw [Function.iterate_succ_apply']
    exact ⟨Session.pickupCollectible 0 rfl ih.1 ih.2,
      by rw [collectCollectible_gameState, ih.2]⟩

theorem shieldStart_reachable : Reachable shieldStart :=
  (reachable_iterate_collectCollectible 12 _
    (Session.pickupPowerup PowerupType.shield rfl (Session.mono freshRun_played) (by decide!))
    (by rw [activatePowerup_gameState]; decide!)).1

/-! ## The run that ends on an obstacle -/

theorem collideRun_100_run : collideScript.run 100 0 fresh640 = some collideRun_100 := by
  decide!

theorem collideRun_100_played : Played collideRun_100 :=
  collideScript.run_session _ _ _ _ fresh640_played collideRun_100_run

theorem collideRun_200_run : collideScript.run 100 100 collideRun_100 = some collideRun_200 := by
  decide!

theorem collideRun_200_played : Played collideRun_200 :=
  collideScript.run_session _ _ _ _ collideRun_100_played collideRun_200_run

theorem collideRun_299_run : collideScript.run 99 200 collideRun_200 = some collideRun_299 := by
  decide!

theorem collideRun_299_played : Played collideRun_299 :=
  collideScript.run_session _ _ _ _ collideRun_200_played collideRun_299_run

/-! ## The run that activates the shield under a shield power-up -/

theorem shieldRun_90_run : shieldScript.run 90 0 shieldStart = some shieldRun_90 := by
  decide!

theorem shieldRun_90_reachable : Reachable shieldRun_90 :=
  shieldScript.run_session _ _ _ _ shieldStart_reachable shieldRun_90_run

theorem shieldRun_180_run : shieldScript.run 90 90 shieldRun_90 = some shieldRun_180 := by
  decide!

theorem shieldRun_180_reachable : Reachable shieldRun_180 :=
  shieldScript.run_session _ _ _ _ shieldRun_90_reachable shieldRun_180_run

/-! ## A fatal obstacle collision does not end the tick -/

theorem updateGame_finish_of_fatal (s : State) (r : Draws) (h : checkCollisions_fatal s = true) :
    updateGame_finish s r =
      updateUI (spawnPowerups (spawnCollectibles (spawnObstacles (checkEvolution (gameOver s)) r)) r) := by
  rw [updateGame_finish, checkCollisions_of_fatal s h]

/-- C5: the tick after `collideRun_299`, a state of a played session (299
scripted ticks with jumps in a 640 by 600 window), is not fatal at the
boundary; just before its collision pass one obstacle is on screen and
`obstacleSpawnTimer` is 150; the dragon overlaps that obstacle with the shield
inactive, so the session becomes gameOver and nothing is picked up; yet the
rest of `updateGame` still runs: at the end of the tick the obstacle spawn has
happened, with two obstacles on screen and `obstacleSpawnTimer` back at 0. -/
theorem fatal_collision_still_spawns :
    Played collideRun_299 ∧
    collideRun_299.gameState = GameState.playing ∧
    updateGame_boundary (updateGame_physics collideRun_299) =
      Boundary.proceed (updateGame_physics collideRun_299) ∧
    (updateGame_advance (updateGame_physics collideRun_299)).abilities.shield.active = false ∧
    checkCollisions_fatal (updateGame_advance (updateGame_physics collideRun_299)) = true ∧
    (updateGame_advance (updateGame_physics collideRun_299)).obstacles.length = 1 ∧
    (updateGame_advance (updateGame_physics collideRun_299)).obstacleSpawnTimer = 150 ∧
    (updateGame collideRun_299 collideScript.draws).gameState = GameState.gameOver ∧
    (updateGame collideRun_299 collideScript.draws).score = collideRun_299.score ∧
    (updateGame collideRun_299 collideScript.draws).collectibles.length =
      collideRun_299.collectibles.length ∧
    (updateGame collideRun_299 collideScript.draws).obstacles.length = 2 ∧
    (updateGame collideRun_299 collideScript.draws).obstacleSpawnTimer = 0 := by
  refine ⟨collideRun_299_played, ?_, ?_, ?_, ?_, ?_, ?_, ?_, ?_, ?_, ?_, ?_⟩ <;> decide!

/-! ## The shield can be inactive while its cooldown runs -/

/-- C10: the state `shieldRun_180` is reached from `resetGame` by a shield
power-up pickup while Shield is locked, twelve collectible pickups, 170 ticks
(the first unlocks Shield and resets its cooldown to 0 while the power-up
effect is running), the Shield command (cooldown 180) and ten more ticks, the
last of which ends the power-up effect, so that `deactivatePowerup` clears
`shield.active`. In that state, with the game still playing, the Shield
cooldown is 170 and `shield.active` is false. -/
theorem shield_cooldown_running_inactive :
    Reachable shieldRun_180 ∧
    shieldRun_180.gameState = GameState.playing ∧
    shieldRun_180.abilities.shield.cooldown = 170 ∧
    shieldRun_180.abilities.shield.active = false :=
  ⟨shieldRun_180_reachable, rfl, rfl, rfl⟩

/-! ## Abilities over a whole tick -/

theorem updateGame_boundary_proceed_eq (s s1 : State)
    (h : updateGame_boundary s = Boundary.proceed s1) :
    ∃ y v, s1 = { s with dragon := { s.dragon with y := y, velocity := v } } := by
  unfold updateGame_boundary at h
  by_cases h1 : s.dragon.y - dragon_height / 2 ≤ 0 ∧ s.abilities.shield.active = false
  · rw [if_pos h1] at h
    exact absurd h (by simp)
  · rw [if_neg h1] at h
    simp only at h
    split_ifs at h
    · obtain rfl := Boundary.proceed.inj h
      exact ⟨_, _, rfl⟩
    · obtain rfl := Boundary.proceed.inj h
      exact ⟨_, _, rfl⟩
    · obtain rfl := Boundary.proceed.inj h
      exact ⟨_, _, rfl⟩
    · obtain rfl := Boundary.proceed.inj h
      exact ⟨_, _, rfl⟩

theorem updateGame_of_completes (s : State) (r : Draws) (h : updateGame_completes s = true) :
    ∃ y v, updateGame s r = updateGame_finish (updateGame_advance
      { updateGame_physics s with
        dragon := { (updateGame_physics s).dragon with y := y, velocity := v } }) r := by
  unfold updateGame_completes at h
  unfold updateGame
  cases hb : updateGame_boundary (updateGame_physics s) with
  | fatal s1 => simp [hb] at h
  | proceed s1 =>
    obtain ⟨y, v, rfl⟩ := updateGame_boundary_proceed_eq _ _ hb
    exact ⟨y, v, rfl⟩

@[simp] theorem updateFireBreaths_abilities (s : State) :
    (updateFireBreaths s).abilities = s.abilities := by
  obtain ⟨_, _, _, h⟩ := updateFireBreaths_eq s
  rw [h]

@[simp] theorem updateFireBreaths_powerups (s : State) :
    (updateFireBreaths s).powerups = s.powerups := by
  obtain ⟨_, _, _, h⟩ := updateFireBreaths_eq s
  rw [h]

theorem updateGame_powerup_abilities (s : State) :
    ∃ a, (updateGame_powerup s).abilities =
      { s.abilities with shield := { s.abilities.shield with active := a } } := by
  simp only [updateGame_powerup, deactivatePowerup]
  split_ifs <;> exact ⟨_, rfl⟩

@[simp] theorem updateGame_powerup_powerups (s : State) :
    (updateGame_powerup s).powerups = s.powerups := by
  simp only [updateGame_powerup, deactivatePowerup]
  split_ifs <;> rfl

@[simp] theorem updateGame_history_abilities (s : State) : (updateGame_history s).abilities = s.abilities := rfl

@[simp] theorem updateGame_history_powerups (s : State) : (updateGame_history s).powerups = s.powerups := rfl

@[simp] theorem updateTail_abilities (s : State) : (updateTail s).abilities = s.abilities := rfl

@[simp] theorem updateTail_powerups (s : State) : (updateTail s).powerups = s.powerups := rfl

@[simp] theorem updateObstacles_abilities (s : State) : (updateObstacles s).abilities = s.abilities := rfl

@[simp] theorem updateObstacles_powerups (s : State) : (updateObstacles s).powerups = s.powerups := rfl

@[simp] theorem updateCollectibles_abilities (s : State) : (updateCollectibles s).abilities = s.abilities := rfl

@[simp] theorem updateCollectibles_powerups (s : State) : (updateCollectibles s).powerups = s.powerups := rfl

@[simp] theorem updateGame_sounds_abilities (s : State) : (updateGame_sounds s).abilities = s.abilities := rfl

@[simp] theorem updateGame_sounds_powerups (s : State) : (updateGame_sounds s).powerups = s.powerups := rfl

@[simp] theorem updatePowerups_abilities (s : State) :
    (updatePowerups s).abilities = s.abilities := rfl

@[simp] theorem updateAbilities_powerups (s : State) :
    (updateAbilities s).powerups = s.powerups := rfl

theorem updatePowerups_powerups_nil (s : State) (h : s.powerups = []) :
    (updatePowerups s).powerups = [] := by
  simp only [updatePowerups, h]
  rfl

theorem updateAbilities_abilities_congr (s s1 : State) (h : s1.abilities = s.abilities) :
    (updateAbilities s1).abilities = (updateAbilities s).abilities := by
  simp only [updateAbilities, h]

theorem updateGame_advance_abilities (s : State) :
    ∃ a, (updateGame_advance s).abilities =
      { (updateAbilities s).abilities with
        shield := { (updateAbilities s).abilities.shield with active := a } } := by
  obtain ⟨a, h⟩ := updateGame_powerup_abilities (updateAbilities (updateFireBreaths
    (updatePowerups (updateCollectibles (updateObstacles (updateTail (updateGame_history s)))))))
  refine ⟨a, ?_⟩
  have hfb : (updateFireBreaths (updatePowerups (updateCollectibles (updateObstacles
      (updateTail (updateGame_history s)))))).abilities = s.abilities := by
    simp only [updateFireBreaths_abilities, updatePowerups_abilities,
      updateCollectibles_abilities, updateObstacles_abilities, updateTail_abilities,
      updateGame_history_abilities]
  simp only [updateGame_advance, updateGame_sounds_abilities]
  rw [h, updateAbilities_abilities_congr s _ hfb]

theorem updateGame_advance_powerups_nil (s : State) (h : s.powerups = []) :
    (updateGame_advance s).powerups = [] := by
  simp only [updateGame_advance, updateGame_sounds_powerups, updateGame_powerup_powerups,
    updateAbilities_powerups, updateFireBreaths_powerups]
  apply updatePowerups_powerups_nil
  simp only [updateCollectibles_powerups, updateObstacles_powerups, updateTail_powerups,
    updateGame_history_powerups, h]

theorem checkCollisions_abilities_fire (s : State) :
    (checkCollisions s).abilities.fire = s.abilities.fire := by
  cases hf : checkCollisions_fatal s with
  | true => rw [checkCollisions_of_fatal s hf, gameOver_abilities]
  | false =>
    obtain ⟨hs, snd, h1⟩ := checkCollisions_collectibles_eq s.collectibles.length s (le_refl _)
    obtain ⟨ps, ap, pd, gs, sh, snd2, h2⟩ := checkCollisions_powerups_eq
      (checkCollisions_collectibles s.collectibles.length s).powerups.length
      (checkCollisions_collectibles s.collectibles.length s)
    rw [checkCollisions_of_not_fatal s hf, h2, h1]

theorem checkCollisions_abilities_of_powerups_nil (s : State) (h : s.powerups = []) :
    (checkCollisions s).abilities = s.abilities := by
  cases hf : checkCollisions_fatal s with
  | true => rw [checkCollisions_of_fatal s hf, gameOver_abilities]
  | false =>
    obtain ⟨hs, snd, h1⟩ := checkCollisions_collectibles_eq s.collectibles.length s (le_refl _)
    have hp : (checkCollisions_collectibles s.collectibles.length s).powerups = [] := by
      rw [h1]
      exact h
    rw [checkCollisions_of_not_fatal s hf, hp]
    simp only [List.length_nil, checkCollisions_powerups]
    rw [h1]

@[simp] theorem spawnObstacles_abilities (s : State) (r : Draws) :
    (spawnObstacles s r).abilities = s.abilities := by
  simp only [spawnObstacles]
  split_ifs <;> rfl

@[simp] theorem spawnCollectibles_abilities (s : State) :
    (spawnCollectibles s).abilities = s.abilities := by
  simp only [spawnCollectibles]
  split_ifs
  · split
    · rfl
    · split_ifs <;> rfl
  · rfl

@[simp] theorem spawnPowerups_abilities (s : State) (r : Draws) :
    (spawnPowerups s r).abilities = s.abilities := by
  simp only [spawnPowerups]
  split_ifs <;> rfl

theorem updateUI_abilities (s : State) :
    (updateUI s).abilities =
      { fire :=
          if s.abilities.fire.cooldown > 0 then s.abilities.fire
          else if s.abilities.fire.unlocked = true then
            { s.abilities.fire with available := true }
          else s.abilities.fire,
        shield :=
          if s.abilities.shield.cooldown > 0 ∧ s.abilities.shield.active = false then
            s.abilities.shield
          else if s.abilities.shield.unlocked = true ∧ s.abilities.shield.active = false then
            { s.abilities.shield with available := true }
          else s.abilities.shield } := rfl

theorem updateGame_finish_abilities (s : State) (r : Draws) :
    (updateGame_finish s r).abilities =
      (updateUI (checkEvolution (checkCollisions s))).abilities := by
  simp only [updateGame_finish, updateUI_abilities, spawnPowerups_abilities,
    spawnCollectibles_abilities, spawnObstacles_abilities]

theorem updateGame_abilities_fire (s : State) (r : Draws)
    (hc : updateGame_completes s = true) (hu : s.abilities.fire.unlocked = true)
    (hpos : 0 < s.abilities.fire.cooldown) :
    (updateGame s r).abilities.fire =
      { s.abilities.fire with
        cooldown := s.abilities.fire.cooldown - 1,
        available := if s.abilities.fire.cooldown - 1 = 0 then true
          else s.abilities.fire.available } := by
  obtain ⟨y, v, h⟩ := updateGame_of_completes s r hc
  obtain ⟨a, ha⟩ := updateGame_advance_abilities { updateGame_physics s with
    dragon := { (updateGame_physics s).dragon with y := y, velocity := v } }
  have hab : (updateAbilities { updateGame_physics s with
      dragon := { (updateGame_physics s).dragon with y := y, velocity := v } }).abilities =
      (updateAbilities s).abilities := updateAbilities_abilities_congr s _ rfl
  rw [hab] at ha
  have hF : (updateGame_advance { updateGame_physics s with
      dragon := { (updateGame_physics s).dragon with y := y, velocity := v } }).abilities.fire =
      (updateAbilities s).abilities.fire := by rw [ha]
  have hF2 : (updateAbilities s).abilities.fire =
      { s.abilities.fire with
        cooldown := s.abilities.fire.cooldown - 1,
        available := if s.abilities.fire.cooldown - 1 = 0 then true
          else s.abilities.fire.available } := by
    rw [updateAbilities_fire, if_pos hpos]
    by_cases h0 : s.abilities.fire.cooldown - 1 = 0
    · simp [h0, hu]
    · simp [h0]
  rw [h, updateGame_finish_abilities, updateUI_abilities]
  simp only
  rw [checkEvolution_fire, checkCollisions_abilities_fire, hF, hF2]
  by_cases h0 : s.abilities.fire.cooldown - 1 = 0
  · simp [h0, hu]
  · have h1 : s.abilities.fire.cooldown - 1 > 0 := Nat.pos_of_ne_zero h0
    simp [h0, hu, h1]

theorem updateGame_abilities_shield (s : State) (r : Draws)
    (hc : updateGame_completes s = true) (hp : s.powerups = [])
    (hu : s.abilities.shield.unlocked = true) (hpos : 0 < s.abilities.shield.cooldown) :
    (updateGame s r).abilities.shield.cooldown = s.abilities.shield.cooldown - 1 ∧
    (updateGame s r).abilities.shield.unlocked = true ∧
    (updateGame s r).abilities.shield.available =
      (if s.abilities.shield.cooldown - 1 = 0 then true else s.abilities.shield.available) := by
  obtain ⟨y, v, h⟩ := updateGame_of_completes s r hc
  obtain ⟨a, ha⟩ := updateGame_advance_abilities { updateGame_physics s with
    dragon := { (updateGame_physics s).dragon with y := y, velocity := v } }
  have hab : (updateAbilities { updateGame_physics s with
      dragon := { (updateGame_physics s).dragon with y := y, velocity := v } }).abilities =
      (updateAbilities s).abilities := updateAbilities_abilities_congr s _ rfl
  rw [hab] at ha
  have hnil := updateGame_advance_powerups_nil { updateGame_physics s with
    dragon := { (updateGame_physics s).dragon with y := y, velocity := v } } hp
  have hS : (updateGame_advance { updateGame_physics s with
      dragon := { (updateGame_physics s).dragon with y := y, velocity := v } }).abilities.shield =
      { (updateAbilities s).abilities.shield with active := a } := by rw [ha]
  rw [h, updateGame_finish_abilities, updateUI_abilities]
  simp only
  rw [checkEvolution_shield, checkCollisions_abilities_of_powerups_nil _ hnil, hS,
    updateAbilities_shield, if_pos hpos]
  by_cases h0 : s.abilities.shield.cooldown - 1 = 0
  · cases a <;> simp [h0, hu]
  · have h1 : s.abilities.shield.cooldown - 1 > 0 := Nat.pos_of_ne_zero h0
    cases a <;> simp [h0, hu, h1]

theorem updateGame_ticks_fire (rs : List Draws) (s : State)
    (hu : s.abilities.fire.unlocked = true) (ha : s.abilities.fire.available = false)
    (hlen : rs.length ≤ s.abilities.fire.cooldown) (hpos : 0 < s.abilities.fire.cooldown)
    (hc : ∀ j, j < rs.length → updateGame_completes (updateGame_ticks (rs.take j) s) = true) :
    (updateGame_ticks rs s).abilities.fire.cooldown = s.abilities.fire.cooldown - rs.length ∧
    (updateGame_ticks rs s).abilities.fire.available =
      decide (rs.length = s.abilities.fire.cooldown) := by
  induction rs generalizing s with
  | nil =>
    have hne : ¬ (0 = s.abilities.fire.cooldown) := by omega
    simp [updateGame_ticks, ha, hne]
  | cons r rs ih =>
    have h0 : updateGame_completes s = true := hc 0 (by simp)
    have hf := updateGame_abilities_fire s r h0 hu hpos
    have hcd : (updateGame s r).abilities.fire.cooldown = s.abilities.fire.cooldown - 1 := by
      rw [hf]
    have hun : (updateGame s r).abilities.fire.unlocked = true := by
      rw [hf]
      exact hu
    have hav : (updateGame s r).abilities.fire.available =
        (if s.abilities.fire.cooldown - 1 = 0 then true else s.abilities.fire.available) := by
      rw [hf]
    simp only [updateGame_ticks, List.length_cons] at hlen ⊢
    by_cases hz : s.abilities.fire.cooldown - 1 = 0
    · have hrs : rs = [] := by
        apply List.eq_nil_of_length_eq_zero
        omega
      have hc1 : s.abilities.fire.cooldown = 1 := by omega
      subst hrs
      simp only [updateGame_ticks, List.length_nil]
      rw [hcd, hav, if_pos hz, hc1]
      exact ⟨rfl, rfl⟩
    · have hstep := ih (updateGame s r) hun (by rw [hav, if_neg hz]; exact ha)
        (by rw [hcd]; omega) (by rw [hcd]; omega)
        (fun j hj => by
          have := hc (j + 1) (by simp; omega)
          simpa [updateGame_ticks] using this)
      rw [hstep.1, hstep.2, hcd]
      constructor
      · omega
      · congr 1
        apply propext
        omega

theorem updateGame_ticks_shield (rs : List Draws) (s : State)
    (hu : s.abilities.shield.unlocked = true) (ha : s.abilities.shield.available = false)
    (hlen : rs.length ≤ s.abilities.shield.cooldown) (hpos : 0 < s.abilities.shield.cooldown)
    (hc : ∀ j, j < rs.length → updateGame_completes (updateGame_ticks (rs.take j) s) = true)
    (hp : ∀ j, j < rs.length → (updateGame_ticks (rs.take j) s).powerups = []) :
    (updateGame_ticks rs s).abilities.shield.cooldown = s.abilities.shield.cooldown - rs.length ∧
    (updateGame_ticks rs s).abilities.shield.available =
      decide (rs.length = s.abilities.shield.cooldown) := by
  induction rs generalizing s with
  | nil =>
    have hne : ¬ (0 = s.abilities.shield.cooldown) := by omega
    simp [updateGame_ticks, ha, hne]
  | cons r rs ih =>
    have h0 : updateGame_completes s = true := hc 0 (by simp)
    have hp0 : s.powerups = [] := hp 0 (by simp)
    obtain ⟨hcd, hun, hav⟩ := updateGame_abilities_shield s r h0 hp0 hu hpos
    simp only [updateGame_ticks, List.length_cons] at hlen ⊢
    by_cases hz : s.abilities.shield.cooldown - 1 = 0
    · have hrs : rs = [] := by
        apply List.eq_nil_of_length_eq_zero
        omega
      have hc1 : s.abilities.shield.cooldown = 1 := by omega
      subst hrs
      simp only [updateGame_ticks, List.length_nil]
      rw [hcd, hav, if_pos hz, hc1]
      exact ⟨rfl, rfl⟩
    · have hstep := ih (updateGame s r) hun (by rw [hav, if_neg hz]; exact ha)
        (by rw [hcd]; omega) (by rw [hcd]; omega)
        (fun j hj => by
          have := hc (j + 1) (by simp; omega)
          simpa [updateGame_ticks] using this)
        (fun j hj => by
          have := hp (j + 1) (by simp; omega)
          simpa [updateGame_ticks] using this)
      rw [hstep.1, hstep.2, hcd]
      constructor
      · omega
      · congr 1
        apply propext
        omega

/-- C9, amended: one `updateAbilities` step lowers each positive cooldown by exactly 1
and leaves an ability whose cooldown is 0 untouched; the step that brings
Fire's cooldown to 0 makes Fire available if unlocked; the step that brings
Shield's cooldown to 0 clears `shield.active` and makes Shield available if
unlocked. Hence after a successful `useFireBreath`, `k < 300` steps leave
cooldown `300 - k` with Fire unavailable and 300 steps leave cooldown 0 with
Fire available; after a successful `useShield`, `k < 180` steps leave cooldown
`180 - k` with Shield unavailable and 180 steps leave cooldown 0 with Shield
available and no longer active. The same counts hold for whole ticks of
`updateGame`, with any draws, as long as every tick gets past the boundary
block (a tick that ends at the boundary returns before `updateAbilities`) and,
for Shield, no power-up is in flight at the start of a tick (a shield power-up
picked up on the way restarts the cooldown). -/
theorem updateAbilities_cooldown (s : State) :
    ((0 < s.abilities.fire.cooldown →
        (updateAbilities s).abilities.fire.cooldown + 1 = s.abilities.fire.cooldown) ∧
     (s.abilities.fire.cooldown = 0 → (updateAbilities s).abilities.fire = s.abilities.fire) ∧
     (s.abilities.fire.cooldown = 1 ∧ s.abilities.fire.unlocked = true →
        (updateAbilities s).abilities.fire.cooldown = 0 ∧
        (updateAbilities s).abilities.fire.available = true)) ∧
    ((0 < s.abilities.shield.cooldown →
        (updateAbilities s).abilities.shield.cooldown + 1 = s.abilities.shield.cooldown) ∧
     (s.abilities.shield.cooldown = 0 →
        (updateAbilities s).abilities.shield = s.abilities.shield) ∧
     (s.abilities.shield.cooldown = 1 →
        (updateAbilities s).abilities.shield.cooldown = 0 ∧
        (updateAbilities s).abilities.shield.active = false) ∧
     (s.abilities.shield.cooldown = 1 ∧ s.abilities.shield.unlocked = true →
        (updateAbilities s).abilities.shield.available = true)) ∧
    (fireGate s →
      (∀ k, k < 300 →
        (updateAbilities^[k] (useFireBreath s)).abilities.fire.cooldown = 300 - k ∧
        (updateAbilities^[k] (useFireBreath s)).abilities.fire.available = false) ∧
      (updateAbilities^[300] (useFireBreath s)).abilities.fire.cooldown = 0 ∧
      (updateAbilities^[300] (useFireBreath s)).abilities.fire.available = true) ∧
    (shieldGate s →
      (∀ k, k < 180 →
        (updateAbilities^[k] (useShield s)).abilities.shield.cooldown = 180 - k ∧
        (updateAbilities^[k] (useShield s)).abilities.shield.available = false ∧
        (updateAbilities^[k] (useShield s)).abilities.shield.active = true) ∧
      (updateAbilities^[180] (useShield s)).abilities.shield.cooldown = 0 ∧
      (updateAbilities^[180] (useShield s)).abilities.shield.available = true ∧
      (updateAbilities^[180] (useShield s)).abilities.shield.active = false) ∧
    (fireGate s → ∀ rs : List Draws,
      (∀ j, j < rs.length →
        updateGame_completes (updateGame_ticks (rs.take j) (useFireBreath s)) = true) →
      (rs.length < 300 →
        (updateGame_ticks rs (useFireBreath s)).abilities.fire.cooldown = 300 - rs.length ∧
        (updateGame_ticks rs (useFireBreath s)).abilities.fire.available = false) ∧
      (rs.length = 300 →
        (updateGame_ticks rs (useFireBreath s)).abilities.fire.cooldown = 0 ∧
        (updateGame_ticks rs (useFireBreath s)).abilities.fire.available = true)) ∧
    (shieldGate s → ∀ rs : List Draws,
      (∀ j, j < rs.length →
        updateGame_completes (updateGame_ticks (rs.take j) (useShield s)) = true) →
      (∀ j, j < rs.length → (updateGame_ticks (rs.take j) (useShield s)).powerups = []) →
      (rs.length < 180 →
        (updateGame_ticks rs (useShield s)).abilities.shield.cooldown = 180 - rs.length ∧
        (updateGame_ticks rs (useShield s)).abilities.shield.available = false) ∧
      (rs.length = 180 →
        (updateGame_ticks rs (useShield s)).abilities.shield.cooldown = 0 ∧
        (updateGame_ticks rs (useShield s)).abilities.shield.available = true)) := by
  refine ⟨⟨?_, ?_, ?_⟩, ⟨?_, ?_, ?_, ?_⟩, ?_, ?_, ?_, ?_⟩
  · intro h
    rw [updateAbilities_fire]
    split_ifs <;> simp <;> omega
  · intro h
    rw [updateAbilities_fire]
    simp [h]
  · rintro ⟨h, hu⟩
    rw [updateAbilities_fire]
    simp [h, hu]
  · intro h
    rw [updateAbilities_shield]
    split_ifs <;> simp <;> omega
  · intro h
    rw [updateAbilities_shield]
    simp [h]
  · intro h
    rw [updateAbilities_shield]
    simp only [h]
    split_ifs <;> simp_all
  · rintro ⟨h, hu⟩
    rw [updateAbilities_shield]
    simp [h, hu]
  · intro hg
    have hf : (useFireBreath s).abilities.fire =
        { s.abilities.fire with available := false, cooldown := 300 } := by
      rw [useFireBreath_of_gate s hg]
      simp [fire_maxCooldown]
    have hc : (useFireBreath s).abilities.fire.cooldown = 300 := by rw [hf]
    refine ⟨?_, ?_⟩
    · intro k hk
      rw [updateAbilities_iterate_fire k _ (by omega), hf]
      simp
    · have h := updateAbilities_iterate_fire_full (useFireBreath s) (by omega)
        (by rw [hf]; exact hg.1)
      rw [hc] at h
      rw [h]
      simp
  · intro hg
    have hf : (useShield s).abilities.shield =
        { s.abilities.shield with available := false, active := true, cooldown := 180 } := by
      rw [useShield_of_gate s hg]
      simp
    have hc : (useShield s).abilities.shield.cooldown = 180 := by rw [hf]
    refine ⟨?_, ?_⟩
    · intro k hk
      rw [updateAbilities_iterate_shield k _ (by omega), hf]
      simp
    · have h := updateAbilities_iterate_shield_full (useShield s) (by omega)
        (by rw [hf]; exact hg.1)
      rw [hc] at h
      rw [h]
      simp
  · intro hg rs hcomp
    have hf : (useFireBreath s).abilities.fire =
        { s.abilities.fire with available := false, cooldown := 300 } := by
      rw [useFireBreath_of_gate s hg]
      simp [fire_maxCooldown]
    have hcd : (useFireBreath s).abilities.fire.cooldown = 300 := by rw [hf]
    have hun : (useFireBreath s).abilities.fire.unlocked = true := by rw [hf]; exact hg.1
    have hav : (useFireBreath s).abilities.fire.available = false := by rw [hf]
    refine ⟨?_, ?_⟩
    · intro hlt
      obtain ⟨h1, h2⟩ := updateGame_ticks_fire rs (useFireBreath s) hun hav
        (by rw [hcd]; omega) (by rw [hcd]; omega) hcomp
      rw [h1, h2, hcd]
      exact ⟨rfl, decide_eq_false (by omega)⟩
    · intro heq
      obtain ⟨h1, h2⟩ := updateGame_ticks_fire rs (useFireBreath s) hun hav
        (by rw [hcd]; omega) (by rw [hcd]; omega) hcomp
      rw [h1, h2, hcd]
      exact ⟨by omega, decide_eq_true heq⟩
  · intro hg rs hcomp hnil
    have hf : (useShield s).abilities.shield =
        { s.abilities.shield with available := false, active := true, cooldown := 180 } := by
      rw [useShield_of_gate s hg]
      simp
    have hcd : (useShield s).abilities.shield.cooldown = 180 := by rw [hf]
    have hun : (useShield s).abilities.shield.unlocked = true := by rw [hf]; exact hg.1
    have hav : (useShield s).abilities.shield.available = false := by rw [hf]
    refine ⟨?_, ?_⟩
    · intro hlt
      obtain ⟨h1, h2⟩ := updateGame_ticks_shield rs (useShield s) hun hav
        (by rw [hcd]; omega) (by rw [hcd]; omega) hcomp hnil
      rw [h1, h2, hcd]
      exact ⟨rfl, decide_eq_false (by omega)⟩
    · intro heq
      obtain ⟨h1, h2⟩ := updateGame_ticks_shield rs (useShield s) hun hav
        (by rw [hcd]; omega) (by rw [hcd]; omega) hcomp hnil
      rw [h1, h2, hcd]
      exact ⟨by omega, decide_eq_true heq⟩

theorem updateAbilities_cooldown_witness :
    fireGate fireReady ∧
    (updateGame_ticks [midDraws, midDraws, midDraws]
      (useFireBreath fireReady)).abilities.fire.cooldown = 297 ∧
    (updateGame_ticks [midDraws, midDraws, midDraws]
      (useFireBreath fireReady)).abilities.fire.available = false ∧
    shieldGate shieldReady ∧
    (updateGame_ticks [midDraws, midDraws]
      (useShield shieldReady)).abilities.shield.cooldown = 178 ∧
    (updateGame_ticks [midDraws, midDraws]
      (useShield shieldReady)).abilities.shield.available = false := by
  have hF : fireGate fireReady := by decide!
  have hS : shieldGate shieldReady := by decide!
  obtain ⟨-, -, -, -, hfire, -⟩ := updateAbilities_cooldown fireReady
  obtain ⟨-, -, -, -, -, hshield⟩ := updateAbilities_cooldown shieldReady
  have h3 := (hfire hF [midDraws, midDraws, midDraws]
    (by
      intro j hj
      have hj3 : j < 3 := hj
      interval_cases j <;> decide!)).1 (by decide)
  have h2 := (hshield hS [midDraws, midDraws]
    (by
      intro j hj
      have hj2 : j < 2 := hj
      interval_cases j <;> decide!)
    (by
      intro j hj
      have hj2 : j < 2 := hj
      interval_cases j <;> decide!)).1 (by decide)
  exact ⟨hF, h3.1, h3.2, hS, h2.1, h2.2⟩

/-! ## The end of a tick -/

theorem activatePowerup_shield (s : State) (type : PowerupType) :
    ∃ a c, (activatePowerup s type).abilities.shield =
      { s.abilities.shield with active := a, cooldown := c } := by
  cases type
  · exact ⟨_, _, rfl⟩
  · exact ⟨_, _, rfl⟩

theorem collectPowerup_shield (s : State) (i : Nat) :
    ∃ a c, (collectPowerup s i).abilities.shield =
      { s.abilities.shield with active := a, cooldown := c } := by
  simp only [collectPowerup]
  cases s.powerups[i]? with
  | none => exact ⟨_, _, rfl⟩
  | some p =>
    obtain ⟨a, c, h⟩ := activatePowerup_shield { s with powerups := s.powerups.eraseIdx i } p.type
    exact ⟨a, c, by simp only [playSound_abilities, h]⟩

theorem checkCollisions_powerups_shield (n : Nat) (s : State) :
    ∃ a c, (checkCollisions_powerups n s).abilities.shield =
      { s.abilities.shield with active := a, cooldown := c } := by
  induction n generalizing s with
  | zero => exact ⟨_, _, rfl⟩
  | succ n ih =>
    rw [checkCollisions_powerups]
    cases s.powerups[n]? with
    | none => exact ih s
    | some p =>
      simp only
      split_ifs
      · obtain ⟨a0, c0, h0⟩ := collectPowerup_shield s n
        obtain ⟨a1, c1, h1⟩ := ih (collectPowerup s n)
        exact ⟨a1, c1, by rw [h1, h0]⟩
      · exact ih s

theorem checkCollisions_shield (s : State) :
    ∃ a c, (checkCollisions s).abilities.shield =
      { s.abilities.shield with active := a, cooldown := c } := by
  cases hf : checkCollisions_fatal s with
  | true => exact ⟨_, _, by rw [checkCollisions_of_fatal s hf, gameOver_abilities]⟩
  | false =>
    obtain ⟨hs, snd, h1⟩ := checkCollisions_collectibles_eq s.collectibles.length s (le_refl _)
    obtain ⟨a, c, h2⟩ := checkCollisions_powerups_shield
      (checkCollisions_collectibles s.collectibles.length s).powerups.length
      (checkCollisions_collectibles s.collectibles.length s)
    refine ⟨a, c, ?_⟩
    rw [checkCollisions_of_not_fatal s hf, h2, h1]


@[simp] theorem updateFireBreaths_dragon (s : State) :
    (updateFireBreaths s).dragon = s.dragon := by
  obtain ⟨_, _, _, h⟩ := updateFireBreaths_eq s
  rw [h]

@[simp] theorem updateGame_history_dragon (s : State) :
    (updateGame_history s).dragon = s.dragon := rfl

@[simp] theorem updateTail_dragon (s : State) : (updateTail s).dragon = s.dragon := rfl

@[simp] theorem updateObstacles_dragon (s : State) : (updateObstacles s).dragon = s.dragon := rfl

@[simp] theorem updateCollectibles_dragon (s : State) :
    (updateCollectibles s).dragon = s.dragon := rfl

@[simp] theorem updatePowerups_dragon (s : State) : (updatePowerups s).dragon = s.dragon := rfl

@[simp] theorem updateAbilities_dragon (s : State) : (updateAbilities s).dragon = s.dragon := rfl

@[simp] theorem updateGame_sounds_dragon (s : State) :
    (updateGame_sounds s).dragon = s.dragon := rfl

@[simp] theorem updateUI_dragon (s : State) : (updateUI s).dragon = s.dragon := rfl

@[simp] theorem updateGame_powerup_dragon (s : State) :
    (updateGame_powerup s).dragon = s.dragon := by
  simp only [updateGame_powerup, deactivatePowerup]
  split_ifs <;> rfl

@[simp] theorem updateGame_advance_dragon (s : State) :
    (updateGame_advance s).dragon = s.dragon := by
  simp only [updateGame_advance, updateGame_sounds_dragon, updateGame_powerup_dragon,
    updateAbilities_dragon, updateFireBreaths_dragon, updatePowerups_dragon,
    updateCollectibles_dragon, updateObstacles_dragon, updateTail_dragon,
    updateGame_history_dragon]

@[simp] theorem spawnObstacles_dragon (s : State) (r : Draws) :
    (spawnObstacles s r).dragon = s.dragon := by
  simp only [spawnObstacles]
  split_ifs <;> rfl

@[simp] theorem spawnCollectibles_dragon (s : State) :
    (spawnCollectibles s).dragon = s.dragon := by
  simp only [spawnCollectibles]
  split_ifs
  · split
    · rfl
    · split_ifs <;> rfl
  · rfl

@[simp] theorem spawnPowerups_dragon (s : State) (r : Draws) :
    (spawnPowerups s r).dragon = s.dragon := by
  simp only [spawnPowerups]
  split_ifs <;> rfl

theorem checkEvolution_dragon (s : State) :
    (checkEvolution s).dragon =
      { s.dragon with evolution := evolutionStage s.dragon.tailLength } := by
  simp only [checkEvolution]
  split_ifs <;> simp

theorem updateGame_finish_dragon (s : State) (r : Draws) :
    (updateGame_finish s r).dragon =
      { (checkCollisions s).dragon with
        evolution := evolutionStage (checkCollisions s).dragon.tailLength } := by
  simp only [updateGame_finish, updateUI_dragon, spawnPowerups_dragon, spawnCollectibles_dragon,
    spawnObstacles_dragon, checkEvolution_dragon]

theorem checkCollisions_dragon (s : State) :
    ∃ k, (checkCollisions s).dragon =
      { s.dragon with tailLength := s.dragon.tailLength + k } := by
  cases hf : checkCollisions_fatal s with
  | true => exact ⟨0, by rw [checkCollisions_of_fatal s hf, gameOver_dragon]; rfl⟩
  | false =>
    obtain ⟨hs, snd, h1⟩ := checkCollisions_collectibles_eq s.collectibles.length s (le_refl _)
    obtain ⟨ps, ap, pd, gs, sh, snd2, h2⟩ := checkCollisions_powerups_eq
      (checkCollisions_collectibles s.collectibles.length s).powerups.length
      (checkCollisions_collectibles s.collectibles.length s)
    refine ⟨(s.collectibles.take s.collectibles.length).countP (inContact s.dragon), ?_⟩
    rw [checkCollisions_of_not_fatal s hf, h2, h1]

/-- The end of a tick that got past the boundary block, in terms of the state
`t` that `checkCollisions` returns: Fire in `t` is as `updateAbilities` left
it, Shield differs from that at most in `active` and `cooldown`, the tail has
not shrunk, and the tick ends with `checkEvolution` and `updateUI` on `t`. -/
theorem updateGame_end_of_completes (s : State) (r : Draws)
    (hc : updateGame_completes s = true) :
    ∃ t : State, t.abilities.fire = (updateAbilities s).abilities.fire ∧
      (∃ a c, t.abilities.shield =
        { (updateAbilities s).abilities.shield with active := a, cooldown := c }) ∧
      (∃ k, t.dragon.tailLength = s.dragon.tailLength + k) ∧
      (updateGame s r).dragon.tailLength = t.dragon.tailLength ∧
      (updateGame s r).dragon.evolution = evolutionStage t.dragon.tailLength ∧
      (updateGame s r).abilities = (updateUI (checkEvolution t)).abilities := by
  obtain ⟨y, v, h⟩ := updateGame_of_completes s r hc
  obtain ⟨a, ha⟩ := updateGame_advance_abilities { updateGame_physics s with
    dragon := { (updateGame_physics s).dragon with y := y, velocity := v } }
  have hab : (updateAbilities { updateGame_physics s with
      dragon := { (updateGame_physics s).dragon with y := y, velocity := v } }).abilities =
      (updateAbilities s).abilities := updateAbilities_abilities_congr s _ rfl
  rw [hab] at ha
  obtain ⟨a1, c1, hsh⟩ := checkCollisions_shield (updateGame_advance { updateGame_physics s with
    dragon := { (updateGame_physics s).dragon with y := y, velocity := v } })
  obtain ⟨k, hk⟩ := checkCollisions_dragon (updateGame_advance { updateGame_physics s with
    dragon := { (updateGame_physics s).dragon with y := y, velocity := v } })
  refine ⟨checkCollisions (updateGame_advance { updateGame_physics s with
    dragon := { (updateGame_physics s).dragon with y := y, velocity := v } }),
    ?_, ?_, ?_, ?_, ?_, ?_⟩
  · rw [checkCollisions_abilities_fire, ha]
  · exact ⟨a1, c1, by rw [hsh, ha]⟩
  · exact ⟨k, by rw [hk, updateGame_advance_dragon]; rfl⟩
  · rw [h, updateGame_finish_dragon]
  · rw [h, updateGame_finish_dragon]
  · rw [h, updateGame_finish_abilities]

theorem updateGame_boundary_fatal_eq (s s1 : State)
    (h : updateGame_boundary s = Boundary.fatal s1) :
    ∃ y v, s1 = gameOver { s with dragon := { s.dragon with y := y, velocity := v } } := by
  unfold updateGame_boundary at h
  by_cases h1 : s.dragon.y - dragon_height / 2 ≤ 0 ∧ s.abilities.shield.active = false
  · rw [if_pos h1] at h
    obtain rfl := Boundary.fatal.inj h
    exact ⟨_, _, rfl⟩
  · rw [if_neg h1] at h
    simp only at h
    split_ifs at h
    · obtain rfl := Boundary.fatal.inj h
      exact ⟨_, _, rfl⟩
    · obtain rfl := Boundary.fatal.inj h
      exact ⟨_, _, rfl⟩

theorem updateGame_of_not_completes (s : State) (r : Draws)
    (hc : updateGame_completes s = false) :
    ∃ y v, updateGame s r = gameOver { updateGame_physics s with
      dragon := { (updateGame_physics s).dragon with y := y, velocity := v } } := by
  unfold updateGame_completes at hc
  unfold updateGame
  cases hb : updateGame_boundary (updateGame_physics s) with
  | proceed s1 => simp [hb] at hc
  | fatal s1 =>
    obtain ⟨y, v, rfl⟩ := updateGame_boundary_fatal_eq _ _ hb
    exact ⟨y, v, rfl⟩

/-! ## Unlocked abilities stay unlocked -/

theorem updateAbilities_fire_unlocked (s : State) :
    (updateAbilities s).abilities.fire.unlocked = s.abilities.fire.unlocked := by
  rw [updateAbilities_fire]
  split_ifs <;> rfl

theorem updateAbilities_shield_unlocked (s : State) :
    (updateAbilities s).abilities.shield.unlocked = s.abilities.shield.unlocked := by
  rw [updateAbilities_shield]
  split_ifs <;> rfl

theorem checkEvolution_fire_unlocked (s : State) (h : s.abilities.fire.unlocked = true) :
    (checkEvolution s).abilities.fire.unlocked = true := by
  rw [checkEvolution_fire]
  split_ifs <;> simp [h]

theorem checkEvolution_shield_unlocked (s : State) (h : s.abilities.shield.unlocked = true) :
    (checkEvolution s).abilities.shield.unlocked = true := by
  rw [checkEvolution_shield]
  split_ifs <;> simp [h]

theorem updateUI_fire_unlocked (s : State) :
    (updateUI s).abilities.fire.unlocked = s.abilities.fire.unlocked := by
  rw [updateUI_abilities]
  simp only
  split_ifs <;> rfl

theorem updateUI_shield_unlocked (s : State) :
    (updateUI s).abilities.shield.unlocked = s.abilities.shield.unlocked := by
  rw [updateUI_abilities]
  simp only
  split_ifs <;> rfl

theorem updateGame_fire_unlocked (s : State) (r : Draws) (h : s.abilities.fire.unlocked = true) :
    (updateGame s r).abilities.fire.unlocked = true := by
  cases hc : updateGame_completes s with
  | false =>
    obtain ⟨y, v, e⟩ := updateGame_of_not_completes s r hc
    rw [e, gameOver_abilities]
    exact h
  | true =>
    obtain ⟨t, hf, -, -, -, -, e⟩ := updateGame_end_of_completes s r hc
    rw [e, updateUI_fire_unlocked]
    apply checkEvolution_fire_unlocked
    rw [hf, updateAbilities_fire_unlocked]
    exact h

theorem updateGame_shield_unlocked (s : State) (r : Draws)
    (h : s.abilities.shield.unlocked = true) :
    (updateGame s r).abilities.shield.unlocked = true := by
  cases hc : updateGame_completes s with
  | false =>
    obtain ⟨y, v, e⟩ := updateGame_of_not_completes s r hc
    rw [e, gameOver_abilities]
    exact h
  | true =>
    obtain ⟨t, -, ⟨a, c, hs⟩, -, -, -, e⟩ := updateGame_end_of_completes s r hc
    rw [e, updateUI_shield_unlocked]
    apply checkEvolution_shield_unlocked
    rw [hs]
    simp only
    rw [updateAbilities_shield_unlocked]
    exact h

theorem jump_abilities (s : State) : (jump s).abilities = s.abilities := by
  simp only [jump, playSound_abilities]

theorem useFireBreath_fire_unlocked (s : State) :
    (useFireBreath s).abilities.fire.unlocked = s.abilities.fire.unlocked := by
  by_cases h : fireGate s
  · rw [useFireBreath_of_gate s h, playSound_abilities]
  · rw [useFireBreath_of_not_gate s h]

theorem useFireBreath_shield (s : State) :
    (useFireBreath s).abilities.shield = s.abilities.shield := by
  by_cases h : fireGate s
  · rw [useFireBreath_of_gate s h, playSound_abilities]
  · rw [useFireBreath_of_not_gate s h]

theorem useShield_shield_unlocked (s : State) :
    (useShield s).abilities.shield.unlocked = s.abilities.shield.unlocked := by
  by_cases h : shieldGate s
  · rw [useShield_of_gate s h, playSound_abilities]
  · rw [useShield_of_not_gate s h]

theorem useShield_fire (s : State) :
    (useShield s).abilities.fire = s.abilities.fire := by
  by_cases h : shieldGate s
  · rw [useShield_of_gate s h, playSound_abilities]
  · rw [useShield_of_not_gate s h]

theorem collectCollectible_abilities (s : State) (i : Nat) :
    (collectCollectible s i).abilities = s.abilities := by
  obtain ⟨hs, snd, h⟩ := collectCollectible_eq s i
  rw [h]

theorem activatePowerup_fire (s : State) (type : PowerupType) :
    (activatePowerup s type).abilities.fire = s.abilities.fire := by
  cases type <;> rfl

theorem collectPowerup_fire (s : State) (i : Nat) :
    (collectPowerup s i).abilities.fire = s.abilities.fire := by
  obtain ⟨ps, ap, pd, gs, sh, snd, h⟩ := collectPowerup_eq s i
  rw [h]

theorem deactivatePowerup_fire (s : State) :
    (deactivatePowerup s).abilities.fire = s.abilities.fire := by
  simp only [deactivatePowerup]
  split_ifs <;> rfl

theorem deactivatePowerup_shield (s : State) :
    ∃ a, (deactivatePowerup s).abilities.shield = { s.abilities.shield with active := a } := by
  simp only [deactivatePowerup]
  split_ifs <;> exact ⟨_, rfl⟩

theorem gameLoop_eq (s : State) (timestamp : ℚ) (r : Draws) :
    gameLoop s timestamp r = s ∨
      gameLoop s timestamp r = updateGame { s with lastTime := timestamp } r := by
  unfold gameLoop
  split_ifs
  · exact Or.inl rfl
  · exact Or.inr rfl

theorem handleKeyDown_eq (s : State) (code : String) :
    handleKeyDown s code = s ∨ handleKeyDown s code = jump s ∨
      handleKeyDown s code = useFireBreath s ∨ handleKeyDown s code = useShield s := by
  unfold handleKeyDown
  by_cases hp : s.gameState ≠ GameState.playing
  · rw [if_pos hp]
    exact Or.inl rfl
  · rw [if_neg hp]
    by_cases h1 : code = "Space"
    · subst h1
      right; left
      simp
    · by_cases h2 : code = "KeyF"
      · subst h2
        right; right; left
        simp
      · by_cases h3 : code = "KeyS"
        · subst h3
          right; right; right
          simp
        · left
          simp [h1, h2, h3]

theorem handleClick_eq (s : State) : handleClick s = s ∨ handleClick s = jump s := by
  unfold handleClick
  split_ifs
  · exact Or.inr rfl
  · exact Or.inl rfl

theorem handleVisibilityChange_eq (s : State) (hidden : Bool) (now : ℚ) (r : Draws) :
    handleVisibilityChange s hidden now r = s ∨
      handleVisibilityChange s hidden now r = { s with gameState := GameState.paused } ∨
      handleVisibilityChange s hidden now r =
        updateGame { s with gameState := GameState.playing, lastTime := now } r := by
  unfold handleVisibilityChange
  split_ifs
  · exact Or.inr (Or.inl rfl)
  · right; right
    simp [gameLoop]
  · exact Or.inl rfl

/-- C12: an unlocked ability stays unlocked under every operation of a run:
a frame, a key press, a click, a visibility change, a tick of `updateGame`,
`jump`, `useFireBreath`, `useShield`, the pickup of a collectible or of a
power-up (`collectCollectible`, `collectPowerup`, `activatePowerup`) and the
expiry of a power-up (`deactivatePowerup`). Only `resetGame`, which is not an
operation of a run, locks an ability again. -/
theorem unlocked_sticky (op : Operation) (s : State) :
    (s.abilities.fire.unlocked = true → (op.apply s).abilities.fire.unlocked = true) ∧
    (s.abilities.shield.unlocked = true → (op.apply s).abilities.shield.unlocked = true) := by
  cases op with
  | frame timestamp r =>
    simp only [Operation.apply]
    rcases gameLoop_eq s timestamp r with e | e <;> rw [e]
    · exact ⟨id, id⟩
    · exact ⟨fun h => updateGame_fire_unlocked _ r h, fun h => updateGame_shield_unlocked _ r h⟩
  | keyDown code =>
    simp only [Operation.apply]
    rcases handleKeyDown_eq s code with e | e | e | e <;> rw [e]
    · exact ⟨id, id⟩
    · rw [jump_abilities]
      exact ⟨id, id⟩
    · rw [useFireBreath_fire_unlocked, useFireBreath_shield]
      exact ⟨id, id⟩
    · rw [useShield_shield_unlocked, useShield_fire]
      exact ⟨id, id⟩
  | click =>
    simp only [Operation.apply]
    rcases handleClick_eq s with e | e <;> rw [e]
    · exact ⟨id, id⟩
    · rw [jump_abilities]
      exact ⟨id, id⟩
  | visibility hidden now r =>
    simp only [Operation.apply]
    rcases handleVisibilityChange_eq s hidden now r with e | e | e <;> rw [e]
    · exact ⟨id, id⟩
    · exact ⟨id, id⟩
    · exact ⟨fun h => updateGame_fire_unlocked _ r h, fun h => updateGame_shield_unlocked _ r h⟩
  | tick r =>
    exact ⟨fun h => updateGame_fire_unlocked _ r h, fun h => updateGame_shield_unlocked _ r h⟩
  | jump =>
    simp only [Operation.apply, jump_abilities]
    exact ⟨id, id⟩
  | useFireBreath =>
    simp only [Operation.apply, useFireBreath_fire_unlocked, useFireBreath_shield]
    exact ⟨id, id⟩
  | useShield =>
    simp only [Operation.apply, useShield_shield_unlocked, useShield_fire]
    exact ⟨id, id⟩
  | collectCollectible index =>
    simp only [Operation.apply, collectCollectible_abilities]
    exact ⟨id, id⟩
  | collectPowerup index =>
    obtain ⟨a, c, h⟩ := collectPowerup_shield s index
    simp only [Operation.apply, collectPowerup_fire, h]
    exact ⟨id, id⟩
  | activatePowerup type =>
    obtain ⟨a, c, h⟩ := activatePowerup_shield s type
    simp only [Operation.apply, activatePowerup_fire, h]
    exact ⟨id, id⟩
  | deactivatePowerup =>
    obtain ⟨a, h⟩ := deactivatePowerup_shield s
    simp only [Operation.apply, deactivatePowerup_fire, h]
    exact ⟨id, id⟩

theorem unlocked_sticky_witness :
    shieldReady.abilities.shield.unlocked = true ∧
    ((Operation.tick midDraws).apply shieldReady).abilities.shield.unlocked = true ∧
    fireReady.abilities.fire.unlocked = true ∧
    ((Operation.visibility false 0 midDraws).apply
      { fireReady with gameState := GameState.paused }).abilities.fire.unlocked = true :=
  ⟨by decide!, (unlocked_sticky (Operation.tick midDraws) shieldReady).2 (by decide!),
   by decide!, (unlocked_sticky (Operation.visibility false 0 midDraws)
      { fireReady with gameState := GameState.paused }).1 (by decide!)⟩

/-! ## Availability and cooldown -/

theorem updateAbilities_fire_exclusive (s : State)
    (h : s.abilities.fire.available = true → s.abilities.fire.cooldown = 0) :
    (updateAbilities s).abilities.fire.available = true →
      (updateAbilities s).abilities.fire.cooldown = 0 := by
  rw [updateAbilities_fire]
  by_cases hc : s.abilities.fire.cooldown > 0
  · rw [if_pos hc]
    by_cases h0 : s.abilities.fire.cooldown - 1 = 0 ∧ s.abilities.fire.unlocked = true
    · rw [if_pos h0]
      exact fun _ => h0.1
    · rw [if_neg h0]
      intro ha
      have := h ha
      omega
  · rw [if_neg hc]
    exact h

theorem checkEvolution_fire_exclusive (s : State)
    (h : s.abilities.fire.available = true → s.abilities.fire.cooldown = 0) :
    (checkEvolution s).abilities.fire.available = true →
      (checkEvolution s).abilities.fire.cooldown = 0 := by
  rw [checkEvolution_fire]
  split_ifs
  · exact fun _ => rfl
  · exact h

theorem updateUI_fire_exclusive (s : State)
    (h : s.abilities.fire.available = true → s.abilities.fire.cooldown = 0) :
    (updateUI s).abilities.fire.available = true →
      (updateUI s).abilities.fire.cooldown = 0 := by
  rw [updateUI_abilities]
  simp only
  by_cases hc : s.abilities.fire.cooldown > 0
  · rw [if_pos hc]
    exact h
  · rw [if_neg hc]
    split_ifs
    · exact fun _ => by simp only; omega
    · exact h

theorem updateGame_fire_exclusive (s : State) (r : Draws)
    (h : s.abilities.fire.available = true → s.abilities.fire.cooldown = 0) :
    (updateGame s r).abilities.fire.available = true →
      (updateGame s r).abilities.fire.cooldown = 0 := by
  cases hc : updateGame_completes s with
  | false =>
    obtain ⟨y, v, e⟩ := updateGame_of_not_completes s r hc
    rw [e, gameOver_abilities]
    exact h
  | true =>
    obtain ⟨t, hf, -, -, -, -, e⟩ := updateGame_end_of_completes s r hc
    rw [e]
    apply updateUI_fire_exclusive
    apply checkEvolution_fire_exclusive
    rw [hf]
    exact updateAbilities_fire_exclusive s h

/-- In every state of a session, pickups included, Fire is not both available
and on cooldown. -/
theorem Session.fire_exclusive {p : Bool} {s : State} (h : Session p s) :
    s.abilities.fire.available = true → s.abilities.fire.cooldown = 0 := by
  induction h with
  | reset s => exact fun _ => rfl
  | @tick s r _ _ ih => exact updateGame_fire_exclusive s r ih
  | @jump s _ _ ih =>
    rw [jump_abilities]
    exact ih
  | @useFireBreath s _ _ ih =>
    by_cases hg : fireGate s
    · rw [useFireBreath_of_gate s hg, playSound_abilities]
      exact fun ha => absurd ha (by simp)
    · rw [useFireBreath_of_not_gate s hg]
      exact ih
  | @useShield s _ _ ih =>
    rw [useShield_fire]
    exact ih
  | @pickupCollectible s index _ _ _ ih =>
    rw [collectCollectible_abilities]
    exact ih
  | @pickupPowerup s type _ _ _ ih =>
    rw [activatePowerup_fire]
    exact ih

theorem shieldReady_reachable :
    Reachable shieldReady ∧ shieldReady.gameState = GameState.playing := by
  obtain ⟨h, hp⟩ := reachable_iterate_collectCollectible 12 freshRun
    (Session.mono freshRun_played) (by decide!)
  exact ⟨Session.tick midDraws h hp, by decide!⟩

/-- C11: Fire is never both available and on cooldown in a session, but Shield
can be. In every reachable state, `fire.available` implies
`fire.cooldown = 0`. For Shield, `activatePowerup` with type shield sets the
cooldown to 180 and leaves `available` as it was, so picking up a shield
power-up while Shield is available leaves it available with cooldown 180. The
state `shieldReady` is reachable, with Shield unlocked, available and with
cooldown 0; after the pickup of a shield power-up Shield is available with
cooldown 180, and at the end of the next tick it is still available, with
cooldown 179 (`updateUI` skips it because the shield is active). -/
theorem shield_available_on_cooldown :
    (∀ s : State, Reachable s →
      ¬ (s.abilities.fire.available = true ∧ 0 < s.abilities.fire.cooldown)) ∧
    (∀ s : State, s.abilities.shield.available = true →
      (activatePowerup s PowerupType.shield).abilities.shield.available = true ∧
      (activatePowerup s PowerupType.shield).abilities.shield.cooldown = 180) ∧
    (Reachable shieldReady ∧ shieldReady.gameState = GameState.playing ∧
      shieldReady.abilities.shield =
        { unlocked := true, available := true, cooldown := 0, active := false }) ∧
    (Reachable (activatePowerup shieldReady PowerupType.shield) ∧
      (activatePowerup shieldReady PowerupType.shield).gameState = GameState.playing ∧
      (activatePowerup shieldReady PowerupType.shield).abilities.shield =
        { unlocked := true, available := true, cooldown := 180, active := true }) ∧
    (Reachable (updateGame (activatePowerup shieldReady PowerupType.shield) midDraws) ∧
      (updateGame (activatePowerup shieldReady PowerupType.shield) midDraws).gameState =
        GameState.playing ∧
      (updateGame (activatePowerup shieldReady PowerupType.shield) midDraws).abilities.shield =
        { unlocked := true, available := true, cooldown := 179, active := true }) := by
  have h1 := shieldReady_reachable
  have h2 : Reachable (activatePowerup shieldReady PowerupType.shield) :=
    Session.pickupPowerup PowerupType.shield rfl h1.1 h1.2
  have p2 : (activatePowerup shieldReady PowerupType.shield).gameState = GameState.playing := by
    rw [activatePowerup_gameState]
    exact h1.2
  refine ⟨?_, ?_, ⟨h1.1, h1.2, by decide!⟩, ⟨h2, p2, by decide!⟩,
    ⟨Session.tick midDraws h2 p2, by decide!, by decide!⟩⟩
  · rintro s hs ⟨ha, hc⟩
    have := Session.fire_exclusive hs ha
    omega
  · intro s ha
    exact ⟨ha, rfl⟩

/-! ## The tail and the stage never go back within a run -/

theorem evolutionStage_rank_mono {m n : Nat} (h : m ≤ n) :
    (evolutionStage m).rank ≤ (evolutionStage n).rank := by
  unfold evolutionStage evolutionThresholds_mythical evolutionThresholds_phoenix
    evolutionThresholds_fire
  split_ifs <;> simp only [Evolution.rank] <;> omega

theorem updateGame_dragon_cases (s : State) (r : Draws) :
    ∃ k, (updateGame s r).dragon.tailLength = s.dragon.tailLength + k ∧
      ((updateGame s r).dragon.evolution = s.dragon.evolution ∧ k = 0 ∨
       (updateGame s r).dragon.evolution = evolutionStage (s.dragon.tailLength + k)) := by
  cases hc : updateGame_completes s with
  | false =>
    obtain ⟨y, v, e⟩ := updateGame_of_not_completes s r hc
    exact ⟨0, by rw [e, gameOver_dragon]; rfl, Or.inl ⟨by rw [e, gameOver_dragon]; rfl, rfl⟩⟩
  | true =>
    obtain ⟨t, -, -, ⟨k, hk⟩, htl, hev, -⟩ := updateGame_end_of_completes s r hc
    exact ⟨k, by rw [htl, hk], Or.inr (by rw [hev, hk])⟩

theorem jump_dragon (s : State) :
    (jump s).dragon = { s.dragon with velocity := dragon_jumpStrength } := by
  simp [jump]

theorem useFireBreath_dragon (s : State) : (useFireBreath s).dragon = s.dragon := by
  by_cases h : fireGate s
  · rw [useFireBreath_of_gate s h, playSound_dragon]
  · rw [useFireBreath_of_not_gate s h]

theorem useShield_dragon (s : State) : (useShield s).dragon = s.dragon := by
  by_cases h : shieldGate s
  · rw [useShield_of_gate s h, playSound_dragon]
  · rw [useShield_of_not_gate s h]

theorem collectPowerup_dragon (s : State) (i : Nat) : (collectPowerup s i).dragon = s.dragon := by
  obtain ⟨ps, ap, pd, gs, sh, snd, h⟩ := collectPowerup_eq s i
  rw [h]

theorem activatePowerup_dragon (s : State) (type : PowerupType) :
    (activatePowerup s type).dragon = s.dragon := by
  cases type <;> rfl

theorem deactivatePowerup_dragon (s : State) : (deactivatePowerup s).dragon = s.dragon := by
  simp only [deactivatePowerup]
  split_ifs <;> rfl

/-- What an operation can do to the tail length and the stage: the tail length
grows by some `k ≥ 0`, and the stage is either kept (with the other fields of
the state deciding nothing) or recomputed from the new tail length. -/
theorem Operation.apply_dragon_cases (op : Operation) (s : State) :
    ∃ k, (op.apply s).dragon.tailLength = s.dragon.tailLength + k ∧
      ((op.apply s).dragon.evolution = s.dragon.evolution ∨
       (op.apply s).dragon.evolution = evolutionStage (s.dragon.tailLength + k)) := by
  have htick : ∀ (u : State) (r : Draws), u.dragon = s.dragon →
      ∃ k, (updateGame u r).dragon.tailLength = s.dragon.tailLength + k ∧
        ((updateGame u r).dragon.evolution = s.dragon.evolution ∨
         (updateGame u r).dragon.evolution = evolutionStage (s.dragon.tailLength + k)) := by
    intro u r hu
    obtain ⟨k, h1, h2⟩ := updateGame_dragon_cases u r
    rw [hu] at h1 h2
    exact ⟨k, h1, h2.imp (fun h => h.1) id⟩
  have hsame : ∀ u : State, u.dragon.tailLength = s.dragon.tailLength →
      u.dragon.evolution = s.dragon.evolution →
      ∃ k, u.dragon.tailLength = s.dragon.tailLength + k ∧
        (u.dragon.evolution = s.dragon.evolution ∨
         u.dragon.evolution = evolutionStage (s.dragon.tailLength + k)) :=
    fun u h1 h2 => ⟨0, h1, Or.inl h2⟩
  cases op with
  | frame timestamp r =>
    simp only [Operation.apply]
    rcases gameLoop_eq s timestamp r with e | e <;> rw [e]
    · exact hsame s rfl rfl
    · exact htick _ r rfl
  | keyDown code =>
    simp only [Operation.apply]
    rcases handleKeyDown_eq s code with e | e | e | e <;> rw [e]
    · exact hsame s rfl rfl
    · exact hsame _ (by rw [jump_dragon]) (by rw [jump_dragon])
    · exact hsame _ (by rw [useFireBreath_dragon]) (by rw [useFireBreath_dragon])
    · exact hsame _ (by rw [useShield_dragon]) (by rw [useShield_dragon])
  | click =>
    simp only [Operation.apply]
    rcases handleClick_eq s with e | e <;> rw [e]
    · exact hsame s rfl rfl
    · exact hsame _ (by rw [jump_dragon]) (by rw [jump_dragon])
  | visibility hidden now r =>
    simp only [Operation.apply]
    rcases handleVisibilityChange_eq s hidden now r with e | e | e <;> rw [e]
    · exact hsame s rfl rfl
    · exact hsame _ rfl rfl
    · exact htick _ r rfl
  | tick r => exact htick s r rfl
  | jump =>
    simp only [Operation.apply]
    exact hsame _ (by rw [jump_dragon]) (by rw [jump_dragon])
  | useFireBreath =>
    simp only [Operation.apply]
    exact hsame _ (by rw [useFireBreath_dragon]) (by rw [useFireBreath_dragon])
  | useShield =>
    simp only [Operation.apply]
    exact hsame _ (by rw [useShield_dragon]) (by rw [useShield_dragon])
  | collectCollectible index =>
    obtain ⟨hs, snd, h⟩ := collectCollectible_eq s index
    simp only [Operation.apply]
    exact ⟨1, by rw [h], Or.inl (by rw [h])⟩
  | collectPowerup index =>
    simp only [Operation.apply]
    exact hsame _ (by rw [collectPowerup_dragon]) (by rw [collectPowerup_dragon])
  | activatePowerup type =>
    simp only [Operation.apply]
    exact hsame _ (by rw [activatePowerup_dragon]) (by rw [activatePowerup_dragon])
  | deactivatePowerup =>
    simp only [Operation.apply]
    exact hsame _ (by rw [deactivatePowerup_dragon]) (by rw [deactivatePowerup_dragon])

/-- The stage never runs ahead of the tail: an invariant of every run. -/
theorem Operation.run_stage_le (s : State) (ops : List Operation)
    (h : s.dragon.evolution.rank ≤ (evolutionStage s.dragon.tailLength).rank) :
    (Operation.run s ops).dragon.evolution.rank ≤
      (evolutionStage (Operation.run s ops).dragon.tailLength).rank := by
  induction ops generalizing s with
  | nil => exact h
  | cons op ops ih =>
    apply ih (op.apply s)
    obtain ⟨k, h1, h2 | h2⟩ := Operation.apply_dragon_cases op s
    · rw [h1, h2]
      exact le_trans h (evolutionStage_rank_mono (Nat.le_add_right _ _))
    · rw [h1, h2]

theorem Operation.run_monotone (s : State) (ops : List Operation)
    (h : s.dragon.evolution.rank ≤ (evolutionStage s.dragon.tailLength).rank) :
    s.dragon.tailLength ≤ (Operation.run s ops).dragon.tailLength ∧
    s.dragon.evolution.rank ≤ (Operation.run s ops).dragon.evolution.rank := by
  induction ops generalizing s with
  | nil => exact ⟨le_refl _, le_refl _⟩
  | cons op ops ih =>
    obtain ⟨k, h1, h2⟩ := Operation.apply_dragon_cases op s
    have hinv : (op.apply s).dragon.evolution.rank ≤
        (evolutionStage (op.apply s).dragon.tailLength).rank :=
      Operation.run_stage_le s [op] h
    have hstep : s.dragon.evolution.rank ≤ (op.apply s).dragon.evolution.rank := by
      rcases h2 with h2 | h2
      · rw [h2]
      · rw [h2]
        exact le_trans h (evolutionStage_rank_mono (Nat.le_add_right _ _))
    obtain ⟨i1, i2⟩ := ih (op.apply s) hinv
    exact ⟨by rw [h1] at i1; exact le_trans (Nat.le_add_right _ _) i1, le_trans hstep i2⟩

theorem Operation.run_append (s : State) (ops1 ops2 : List Operation) :
    Operation.run s (ops1 ++ ops2) = Operation.run (Operation.run s ops1) ops2 := by
  simp [Operation.run]

/-- C13: within a run the tail and the stage never go back. Start a run with
`resetGame` from any state and apply any sequence of operations (frames, key
presses, clicks, visibility changes, ticks, commands, pickups) without a
further reset; compare any point of the run with any later point of the same
run: `dragon.tailLength` at the later point is at least what it was, and
`dragon.evolution` is at the same or a higher stage in the order
baby < fire < phoenix < mythical. -/
theorem run_tail_stage_monotone (s : State) (ops1 ops2 : List Operation) :
    (Operation.run (resetGame s) ops1).dragon.tailLength ≤
      (Operation.run (resetGame s) (ops1 ++ ops2)).dragon.tailLength ∧
    (Operation.run (resetGame s) ops1).dragon.evolution.rank ≤
      (Operation.run (resetGame s) (ops1 ++ ops2)).dragon.evolution.rank ∧
    Evolution.baby.rank < Evolution.fire.rank ∧ Evolution.fire.rank < Evolution.phoenix.rank ∧
    Evolution.phoenix.rank < Evolution.mythical.rank := by
  rw [Operation.run_append]
  have h0 : (resetGame s).dragon.evolution.rank ≤
      (evolutionStage (resetGame s).dragon.tailLength).rank := Nat.zero_le _
  obtain ⟨h1, h2⟩ := Operation.run_monotone (Operation.run (resetGame s) ops1) ops2
    (Operation.run_stage_le (resetGame s) ops1 h0)
  exact ⟨h1, h2, by decide, by decide, by decide⟩

/-! ## Evolution at the end of the tick -/

theorem updateGame_of_beforeCollisions (s p : State) (r : Draws)
    (h : updateGame_beforeCollisions s = some p) :
    updateGame s r = updateGame_finish p r ∧ updateGame_completes s = true ∧
    p.dragon.tailLength = s.dragon.tailLength ∧
    p.abilities.fire = (updateAbilities s).abilities.fire := by
  unfold updateGame_beforeCollisions at h
  unfold updateGame updateGame_completes
  cases hb : updateGame_boundary (updateGame_physics s) with
  | fatal s1 => simp [hb] at h
  | proceed s1 =>
    rw [hb] at h
    obtain rfl := Option.some.inj h
    obtain ⟨y, v, rfl⟩ := updateGame_boundary_proceed_eq _ _ hb
    obtain ⟨a, ha⟩ := updateGame_advance_abilities { updateGame_physics s with
      dragon := { (updateGame_physics s).dragon with y := y, velocity := v } }
    have hab : (updateAbilities { updateGame_physics s with
        dragon := { (updateGame_physics s).dragon with y := y, velocity := v } }).abilities =
        (updateAbilities s).abilities := updateAbilities_abilities_congr s _ rfl
    rw [hab] at ha
    refine ⟨rfl, rfl, ?_, ?_⟩
    · rw [updateGame_advance_dragon]
      rfl
    · rw [ha]

/-- In a session Fire is unlocked only once the tail has reached length 5. -/
theorem Session.fire_unlocked_tail {p : Bool} {s : State} (h : Session p s)
    (hu : s.abilities.fire.unlocked = true) : 5 ≤ s.dragon.tailLength := by
  induction h with
  | reset s => exact absurd hu (by simp [resetGame, updateUI])
  | @tick s r _ _ ih =>
    cases hc : updateGame_completes s with
    | false =>
      obtain ⟨y, v, e⟩ := updateGame_of_not_completes s r hc
      rw [e, gameOver_abilities] at hu
      rw [e, gameOver_dragon]
      exact ih hu
    | true =>
      obtain ⟨t, hf, -, ⟨k, hk⟩, htl, -, e⟩ := updateGame_end_of_completes s r hc
      rw [e, updateUI_fire_unlocked, checkEvolution_fire] at hu
      rw [htl]
      split_ifs at hu with hcond
      · rcases hcond.1 with h1 | h1
        · exact ((evolutionStage_cases _).2.2.1.mp h1).1
        · have := (evolutionStage_cases _).1.mp h1
          omega
      · rw [hf, updateAbilities_fire_unlocked] at hu
        have := ih hu
        omega
  | @jump s _ _ ih =>
    rw [jump_abilities] at hu
    rw [jump_dragon]
    exact ih hu
  | @useFireBreath s _ _ ih =>
    rw [useFireBreath_fire_unlocked] at hu
    rw [useFireBreath_dragon]
    exact ih hu
  | @useShield s _ _ ih =>
    rw [useShield_fire] at hu
    rw [useShield_dragon]
    exact ih hu
  | @pickupCollectible s index _ _ _ ih =>
    obtain ⟨hs, snd, e⟩ := collectCollectible_eq s index
    rw [collectCollectible_abilities] at hu
    rw [e]
    have := ih hu
    simp only
    omega
  | @pickupPowerup s type _ _ _ ih =>
    rw [activatePowerup_fire] at hu
    rw [activatePowerup_dragon]
    exact ih hu

theorem checkCollisions_tailLength_of_not_fatal (s : State)
    (h : checkCollisions_fatal s = false) :
    (checkCollisions s).dragon.tailLength =
      s.dragon.tailLength + s.collectibles.countP (inContact s.dragon) := by
  obtain ⟨hs, snd, h1⟩ := checkCollisions_collectibles_eq s.collectibles.length s (le_refl _)
  obtain ⟨ps, ap, pd, gs, sh, snd2, h2⟩ := checkCollisions_powerups_eq
    (checkCollisions_collectibles s.collectibles.length s).powerups.length
    (checkCollisions_collectibles s.collectibles.length s)
  rw [checkCollisions_of_not_fatal s h, h2, h1]
  simp

/-- C14: the stage follows the tail within the same tick. For a tick of
`updateGame` that gets past the boundary block, with `p` the state on which
`checkCollisions` runs: at the end of the tick `dragon.evolution` is the stage
of the tail length the tick ends with, and when no obstacle is hit that tail
length is the one the tick started with plus the number of collectibles in
contact, so the pickups of the tick are already counted. In particular, from a
reachable playing state with tail length 4, a tick that is not fatal and picks
up exactly one collectible ends with tail length 5, stage fire, and Fire
unlocked and available with cooldown 0. -/
theorem tick_stage_follows_tail (s p : State) (r : Draws)
    (hp : updateGame_beforeCollisions s = some p) :
    (updateGame s r).dragon.evolution = evolutionStage (updateGame s r).dragon.tailLength ∧
    (checkCollisions_fatal p = false →
      (updateGame s r).dragon.tailLength =
        s.dragon.tailLength + p.collectibles.countP (inContact p.dragon)) ∧
    (Reachable s → s.gameState = GameState.playing → s.dragon.tailLength = 4 →
      checkCollisions_fatal p = false → p.collectibles.countP (inContact p.dragon) = 1 →
      (updateGame s r).dragon.tailLength = 5 ∧
      (updateGame s r).dragon.evolution = Evolution.fire ∧
      (updateGame s r).abilities.fire.unlocked = true ∧
      (updateGame s r).abilities.fire.available = true ∧
      (updateGame s r).abilities.fire.cooldown = 0) := by
  obtain ⟨e, -, hptl, hpf⟩ := updateGame_of_beforeCollisions s p r hp
  have hev : (updateGame s r).dragon.evolution =
      evolutionStage (updateGame s r).dragon.tailLength := by
    rw [e, updateGame_finish_dragon]
  have htl : checkCollisions_fatal p = false →
      (updateGame s r).dragon.tailLength =
        s.dragon.tailLength + p.collectibles.countP (inContact p.dragon) := by
    intro hnf
    rw [e, updateGame_finish_dragon]
    simp only
    rw [checkCollisions_tailLength_of_not_fatal p hnf, hptl]
  refine ⟨hev, htl, ?_⟩
  intro hreach _ h4 hnf hone
  have h5 : (updateGame s r).dragon.tailLength = 5 := by rw [htl hnf, h4, hone]
  have hlocked : s.abilities.fire.unlocked = false := by
    cases hu : s.abilities.fire.unlocked with
    | false => rfl
    | true =>
      have := Session.fire_unlocked_tail hreach hu
      omega
  have ht5 : (checkCollisions p).dragon.tailLength = 5 := by
    rw [checkCollisions_tailLength_of_not_fatal p hnf, hptl, h4, hone]
  have hfire : (checkEvolution (checkCollisions p)).abilities.fire =
      { (checkCollisions p).abilities.fire with
        unlocked := true, available := true, cooldown := 0 } := by
    rw [checkEvolution_fire, ht5, if_pos]
    refine ⟨Or.inl (by decide), ?_⟩
    rw [checkCollisions_abilities_fire, hpf, updateAbilities_fire_unlocked]
    exact hlocked
  have hab : (updateGame s r).abilities.fire =
      { (checkCollisions p).abilities.fire with
        unlocked := true, available := true, cooldown := 0 } := by
    rw [e, updateGame_finish_abilities, updateUI_abilities]
    simp only
    rw [hfire]
    simp
  refine ⟨h5, by rw [hev, h5]; decide, ?_, ?_, ?_⟩ <;> rw [hab]

theorem gemStart_reachable : Reachable gemStart ∧ gemStart.gameState = GameState.playing := by
  have h0 : Reachable collideRun_200 := Session.mono collideRun_200_played
  have p0 : collideRun_200.gameState = GameState.playing := rfl
  have h1 := Session.pickupCollectible 1 rfl h0 p0
  have p1 := (collectCollectible_gameState collideRun_200 1).trans p0
  have h2 := Session.pickupCollectible 1 rfl h1 p1
  have p2 := (collectCollectible_gameState _ 1).trans p1
  have h3 := Session.pickupCollectible 1 rfl h2 p2
  have p3 := (collectCollectible_gameState _ 1).trans p2
  exact ⟨Session.pickupCollectible 1 rfl h3 p3, (collectCollectible_gameState _ 1).trans p3⟩

theorem gemRun_302_run : gemScript.run 102 200 gemStart = some gemRun_302 := by
  decide!

theorem gemRun_302_reachable : Reachable gemRun_302 :=
  gemScript.run_session _ _ _ _ gemStart_reachable.1 gemRun_302_run

theorem tick_stage_follows_tail_witness :
    Reachable gemRun_302 ∧ gemRun_302.gameState = GameState.playing ∧
    gemRun_302.dragon.tailLength = 4 ∧
    (updateGame gemRun_302 gemScript.draws).dragon.tailLength = 5 ∧
    (updateGame gemRun_302 gemScript.draws).dragon.evolution = Evolution.fire ∧
    (updateGame gemRun_302 gemScript.draws).abilities.fire.unlocked = true ∧
    (updateGame gemRun_302 gemScript.draws).abilities.fire.available = true ∧
    (updateGame gemRun_302 gemScript.draws).abilities.fire.cooldown = 0 :=
  have h := (tick_stage_follows_tail gemRun_302
    ((updateGame_beforeCollisions gemRun_302).getD gemRun_302) gemScript.draws
    (by decide!)).2.2 gemRun_302_reachable rfl rfl (by decide!) (by decide!)
  ⟨gemRun_302_reachable, rfl, rfl, h⟩

/-! ## The active power-up over a whole tick -/

@[simp] theorem updateGame_physics_activePowerup (s : State) :
    (updateGame_physics s).activePowerup = s.activePowerup := rfl

@[simp] theorem updateGame_history_activePowerup (s : State) :
    (updateGame_history s).activePowerup = s.activePowerup := rfl

@[simp] theorem updateTail_activePowerup (s : State) :
    (updateTail s).activePowerup = s.activePowerup := rfl

@[simp] theorem updateObstacles_activePowerup (s : State) :
    (updateObstacles s).activePowerup = s.activePowerup := rfl

@[simp] theorem updateCollectibles_activePowerup (s : State) :
    (updateCollectibles s).activePowerup = s.activePowerup := rfl

@[simp] theorem updatePowerups_activePowerup (s : State) :
    (updatePowerups s).activePowerup = s.activePowerup := rfl

@[simp] theorem updateAbilities_activePowerup (s : State) :
    (updateAbilities s).activePowerup = s.activePowerup := rfl

@[simp] theorem updateGame_sounds_activePowerup (s : State) :
    (updateGame_sounds s).activePowerup = s.activePowerup := rfl

@[simp] theorem updateUI_activePowerup (s : State) :
    (updateUI s).activePowerup = s.activePowerup := rfl

@[simp] theorem updateFireBreaths_activePowerup (s : State) :
    (updateFireBreaths s).activePowerup = s.activePowerup := by
  obtain ⟨_, _, _, h⟩ := updateFireBreaths_eq s
  rw [h]

@[simp] theorem checkEvolution_activePowerup (s : State) :
    (checkEvolution s).activePowerup = s.activePowerup := by
  simp only [checkEvolution]
  split_ifs <;> simp

@[simp] theorem spawnObstacles_activePowerup (s : State) (r : Draws) :
    (spawnObstacles s r).activePowerup = s.activePowerup := by
  simp only [spawnObstacles]
  split_ifs <;> rfl

@[simp] theorem spawnCollectibles_activePowerup (s : State) :
    (spawnCollectibles s).activePowerup = s.activePowerup := by
  simp only [spawnCollectibles]
  split_ifs
  · split
    · rfl
    · split_ifs <;> rfl
  · rfl

@[simp] theorem spawnPowerups_activePowerup (s : State) (r : Draws) :
    (spawnPowerups s r).activePowerup = s.activePowerup := by
  simp only [spawnPowerups]
  split_ifs <;> rfl

theorem updateGame_finish_activePowerup (s : State) (r : Draws) :
    (updateGame_finish s r).activePowerup = (checkCollisions s).activePowerup := by
  simp only [updateGame_finish, updateUI_activePowerup, spawnPowerups_activePowerup,
    spawnCollectibles_activePowerup, spawnObstacles_activePowerup, checkEvolution_activePowerup]

@[simp] theorem updateGame_physics_powerupDuration (s : State) :
    (updateGame_physics s).powerupDuration = s.powerupDuration := rfl

@[simp] theorem updateGame_history_powerupDuration (s : State) :
    (updateGame_history s).powerupDuration = s.powerupDuration := rfl

@[simp] theorem updateTail_powerupDuration (s : State) :
    (updateTail s).powerupDuration = s.powerupDuration := rfl

@[simp] theorem updateObstacles_powerupDuration (s : State) :
    (updateObstacles s).powerupDuration = s.powerupDuration := rfl

@[simp] theorem updateCollectibles_powerupDuration (s : State) :
    (updateCollectibles s).powerupDuration = s.powerupDuration := rfl

@[simp] theorem updatePowerups_powerupDuration (s : State) :
    (updatePowerups s).powerupDuration = s.powerupDuration := rfl

@[simp] theorem updateAbilities_powerupDuration (s : State) :
    (updateAbilities s).powerupDuration = s.powerupDuration := rfl

@[simp] theorem updateGame_sounds_powerupDuration (s : State) :
    (updateGame_sounds s).powerupDuration = s.powerupDuration := rfl

@[simp] theorem updateUI_powerupDuration (s : State) :
    (updateUI s).powerupDuration = s.powerupDuration := rfl

@[simp] theorem updateFireBreaths_powerupDuration (s : State) :
    (updateFireBreaths s).powerupDuration = s.powerupDuration := by
  obtain ⟨_, _, _, h⟩ := updateFireBreaths_eq s
  rw [h]

@[simp] theorem checkEvolution_powerupDuration (s : State) :
    (checkEvolution s).powerupDuration = s.powerupDuration := by
  simp only [checkEvolution]
  split_ifs <;> simp

@[simp] theorem spawnObstacles_powerupDuration (s : State) (r : Draws) :
    (spawnObstacles s r).powerupDuration = s.powerupDuration := by
  simp only [spawnObstacles]
  split_ifs <;> rfl

@[simp] theorem spawnCollectibles_powerupDuration (s : State) :
    (spawnCollectibles s).powerupDuration = s.powerupDuration := by
  simp only [spawnCollectibles]
  split_ifs
  · split
    · rfl
    · split_ifs <;> rfl
  · rfl

@[simp] theorem spawnPowerups_powerupDuration (s : State) (r : Draws) :
    (spawnPowerups s r).powerupDuration = s.powerupDuration := by
  simp only [spawnPowerups]
  split_ifs <;> rfl

theorem updateGame_finish_powerupDuration (s : State) (r : Draws) :
    (updateGame_finish s r).powerupDuration = (checkCollisions s).powerupDuration := by
  simp only [updateGame_finish, updateUI_powerupDuration, spawnPowerups_powerupDuration,
    spawnCollectibles_powerupDuration, spawnObstacles_powerupDuration, checkEvolution_powerupDuration]

@[simp] theorem updateGame_physics_gameSpeed (s : State) :
    (updateGame_physics s).gameSpeed = s.gameSpeed := rfl

@[simp] theorem updateGame_history_gameSpeed (s : State) :
    (updateGame_history s).gameSpeed = s.gameSpeed := rfl

@[simp] theorem updateTail_gameSpeed (s : State) :
    (updateTail s).gameSpeed = s.gameSpeed := rfl

@[simp] theorem updateObstacles_gameSpeed (s : State) :
    (updateObstacles s).gameSpeed = s.gameSpeed := rfl

@[simp] theorem updateCollectibles_gameSpeed (s : State) :
    (updateCollectibles s).gameSpeed = s.gameSpeed := rfl

@[simp] theorem updatePowerups_gameSpeed (s : State) :
    (updatePowerups s).gameSpeed = s.gameSpeed := rfl

@[simp] theorem updateAbilities_gameSpeed (s : State) :
    (updateAbilities s).gameSpeed = s.gameSpeed := rfl

@[simp] theorem updateGame_sounds_gameSpeed (s : State) :
    (updateGame_sounds s).gameSpeed = s.gameSpeed := rfl

@[simp] theorem updateUI_gameSpeed (s : State) :
    (updateUI s).gameSpeed = s.gameSpeed := rfl

@[simp] theorem updateFireBreaths_gameSpeed (s : State) :
    (updateFireBreaths s).gameSpeed = s.gameSpeed := by
  obtain ⟨_, _, _, h⟩ := updateFireBreaths_eq s
  rw [h]

@[simp] theorem checkEvolution_gameSpeed (s : State) :
    (checkEvolution s).gameSpeed = s.gameSpeed := by
  simp only [checkEvolution]
  split_ifs <;> simp

@[simp] theorem spawnObstacles_gameSpeed (s : State) (r : Draws) :
    (spawnObstacles s r).gameSpeed = s.gameSpeed := by
  simp only [spawnObstacles]
  split_ifs <;> rfl

@[simp] theorem spawnCollectibles_gameSpeed (s : State) :
    (spawnCollectibles s).gameSpeed = s.gameSpeed := by
  simp only [spawnCollectibles]
  split_ifs
  · split
    · rfl
    · split_ifs <;> rfl
  · rfl

@[simp] theorem spawnPowerups_gameSpeed (s : State) (r : Draws) :
    (spawnPowerups s r).gameSpeed = s.gameSpeed := by
  simp only [spawnPowerups]
  split_ifs <;> rfl

theorem updateGame_finish_gameSpeed (s : State) (r : Draws) :
    (updateGame_finish s r).gameSpeed = (checkCollisions s).gameSpeed := by
  simp only [updateGame_finish, updateUI_gameSpeed, spawnPowerups_gameSpeed,
    spawnCollectibles_gameSpeed, spawnObstacles_gameSpeed, checkEvolution_gameSpeed]

theorem updateGame_powerup_fields (s : State) :
    (updateGame_powerup s).activePowerup =
      (if s.activePowerup ≠ none ∧ s.powerupDuration - 1 ≤ 0 then none else s.activePowerup) ∧
    (updateGame_powerup s).powerupDuration =
      (if s.activePowerup ≠ none then
        (if s.powerupDuration - 1 ≤ 0 then 0 else s.powerupDuration - 1)
       else s.powerupDuration) ∧
    (updateGame_powerup s).gameSpeed =
      (if s.activePowerup = some PowerupType.slowmo ∧ s.powerupDuration - 1 ≤ 0 then 1
       else s.gameSpeed) := by
  simp only [updateGame_powerup, deactivatePowerup]
  by_cases h1 : s.activePowerup = none
  · simp [h1]
  · by_cases h2 : s.powerupDuration - 1 ≤ 0
    · by_cases h3 : s.activePowerup = some PowerupType.slowmo
      · simp [h2, h3]
      · by_cases h4 : s.activePowerup = some PowerupType.shield
        · simp [h2, h4]
        · simp [h1, h2, h3, h4]
    · simp [h1, h2]

theorem updateGame_powerup_congr (s s1 : State) (h1 : s1.activePowerup = s.activePowerup)
    (h2 : s1.powerupDuration = s.powerupDuration) (h3 : s1.gameSpeed = s.gameSpeed) :
    (updateGame_powerup s1).activePowerup = (updateGame_powerup s).activePowerup ∧
    (updateGame_powerup s1).powerupDuration = (updateGame_powerup s).powerupDuration ∧
    (updateGame_powerup s1).gameSpeed = (updateGame_powerup s).gameSpeed := by
  obtain ⟨a1, a2, a3⟩ := updateGame_powerup_fields s
  obtain ⟨b1, b2, b3⟩ := updateGame_powerup_fields s1
  rw [a1, a2, a3, b1, b2, b3, h1, h2, h3]
  exact ⟨rfl, rfl, rfl⟩

theorem updateGame_advance_fields (s : State) :
    (updateGame_advance s).activePowerup = (updateGame_powerup s).activePowerup ∧
    (updateGame_advance s).powerupDuration = (updateGame_powerup s).powerupDuration ∧
    (updateGame_advance s).gameSpeed = (updateGame_powerup s).gameSpeed := by
  simp only [updateGame_advance, updateGame_sounds_activePowerup,
    updateGame_sounds_powerupDuration, updateGame_sounds_gameSpeed]
  apply updateGame_powerup_congr <;>
    simp only [updateAbilities_activePowerup, updateFireBreaths_activePowerup,
      updatePowerups_activePowerup, updateCollectibles_activePowerup,
      updateObstacles_activePowerup, updateTail_activePowerup, updateGame_history_activePowerup,
      updateAbilities_powerupDuration, updateFireBreaths_powerupDuration,
      updatePowerups_powerupDuration, updateCollectibles_powerupDuration,
      updateObstacles_powerupDuration, updateTail_powerupDuration,
      updateGame_history_powerupDuration,
      updateAbilities_gameSpeed, updateFireBreaths_gameSpeed, updatePowerups_gameSpeed,
      updateCollectibles_gameSpeed, updateObstacles_gameSpeed, updateTail_gameSpeed,
      updateGame_history_gameSpeed]

theorem checkCollisions_powerups_of_untouched (n : Nat) (s : State)
    (h : ∀ q ∈ s.powerups, touchesPowerup s.dragon q = false) :
    checkCollisions_powerups n s = s := by
  induction n with
  | zero => rfl
  | succ n ih =>
    rw [checkCollisions_powerups]
    cases hq : s.powerups[n]? with
    | none => exact ih
    | some q =>
      have hmem : q ∈ s.powerups := List.getElem?_mem hq
      have := h q hmem
      unfold touchesPowerup at this
      simp only [this]
      exact ih

theorem checkCollisions_fields_of_untouched (s : State)
    (h : ∀ q ∈ s.powerups, touchesPowerup s.dragon q = false) :
    (checkCollisions s).activePowerup = s.activePowerup ∧
    (checkCollisions s).powerupDuration = s.powerupDuration ∧
    (checkCollisions s).gameSpeed = s.gameSpeed ∧
    (checkCollisions s).abilities = s.abilities := by
  cases hf : checkCollisions_fatal s with
  | true =>
    rw [checkCollisions_of_fatal s hf]
    exact ⟨gameOver_activePowerup s, gameOver_powerupDuration s, gameOver_gameSpeed s,
      gameOver_abilities s⟩
  | false =>
    obtain ⟨hs, snd, h1⟩ := checkCollisions_collectibles_eq s.collectibles.length s (le_refl _)
    have hun : ∀ q ∈ (checkCollisions_collectibles s.collectibles.length s).powerups,
        touchesPowerup (checkCollisions_collectibles s.collectibles.length s).dragon q = false := by
      rw [h1]
      exact h
    rw [checkCollisions_of_not_fatal s hf, checkCollisions_powerups_of_untouched _ _ hun, h1]
    exact ⟨rfl, rfl, rfl, rfl⟩

/-- The active effect after a tick that collects no power-up: the duration
block of `updateGame` alone decides it. -/
theorem updateGame_fields_of_undisturbed (s : State) (r : Draws)
    (h : updateGame_undisturbed s = true) :
    (updateGame s r).activePowerup =
      (if s.activePowerup ≠ none ∧ s.powerupDuration - 1 ≤ 0 then none else s.activePowerup) ∧
    (updateGame s r).powerupDuration =
      (if s.activePowerup ≠ none then
        (if s.powerupDuration - 1 ≤ 0 then 0 else s.powerupDuration - 1)
       else s.powerupDuration) ∧
    (updateGame s r).gameSpeed =
      (if s.activePowerup = some PowerupType.slowmo ∧ s.powerupDuration - 1 ≤ 0 then 1
       else s.gameSpeed) := by
  unfold updateGame_undisturbed at h
  cases hp : updateGame_beforeCollisions s with
  | none => simp [hp] at h
  | some p =>
    rw [hp] at h
    simp only [List.all_eq_true, Bool.not_eq_true'] at h
    obtain ⟨e, -, -, -⟩ := updateGame_of_beforeCollisions s p r hp
    obtain ⟨c1, c2, c3, -⟩ := checkCollisions_fields_of_untouched p h
    have hp2 : ∃ y v, p = updateGame_advance { updateGame_physics s with
        dragon := { (updateGame_physics s).dragon with y := y, velocity := v } } := by
      unfold updateGame_beforeCollisions at hp
      cases hb : updateGame_boundary (updateGame_physics s) with
      | fatal s1 => simp [hb] at hp
      | proceed s1 =>
        rw [hb] at hp
        obtain rfl := Option.some.inj hp
        obtain ⟨y, v, rfl⟩ := updateGame_boundary_proceed_eq _ _ hb
        exact ⟨y, v, rfl⟩
    obtain ⟨y, v, hpe⟩ := hp2
    obtain ⟨a1, a2, a3⟩ := updateGame_advance_fields { updateGame_physics s with
        dragon := { (updateGame_physics s).dragon with y := y, velocity := v } }
    obtain ⟨b1, b2, b3⟩ := updateGame_powerup_congr s { updateGame_physics s with
        dragon := { (updateGame_physics s).dragon with y := y, velocity := v } } rfl rfl rfl
    obtain ⟨f1, f2, f3⟩ := updateGame_powerup_fields s
    rw [e, updateGame_finish_activePowerup, updateGame_finish_powerupDuration,
      updateGame_finish_gameSpeed, c1, c2, c3, hpe, a1, a2, a3, b1, b2, b3, f1, f2, f3]
    exact ⟨rfl, rfl, rfl⟩

theorem updateGame_ticks_slowmo (rs : List Draws) (s : State) (d : Int)
    (ha : s.activePowerup = some PowerupType.slowmo) (hd : s.powerupDuration = d)
    (hg : s.gameSpeed = 1 / 2) (hlen : (rs.length : Int) ≤ d) (hpos : 0 < d)
    (hq : updateGame_ticks_undisturbed rs s = true) :
    ((rs.length : Int) < d →
      (updateGame_ticks rs s).activePowerup = some PowerupType.slowmo ∧
      (updateGame_ticks rs s).powerupDuration = d - rs.length ∧
      (updateGame_ticks rs s).gameSpeed = 1 / 2) ∧
    ((rs.length : Int) = d →
      (updateGame_ticks rs s).activePowerup = none ∧
      (updateGame_ticks rs s).powerupDuration = 0 ∧
      (updateGame_ticks rs s).gameSpeed = 1) := by
  induction rs generalizing s d with
  | nil =>
    simp only [List.length_nil, Nat.cast_zero, updateGame_ticks, sub_zero]
    exact ⟨fun _ => ⟨ha, hd, hg⟩, fun h => absurd h (by omega)⟩
  | cons r rs ih =>
    simp only [updateGame_ticks_undisturbed, Bool.and_eq_true] at hq
    obtain ⟨f1, f2, f3⟩ := updateGame_fields_of_undisturbed s r hq.1
    simp only [List.length_cons, Nat.cast_add, Nat.cast_one] at hlen ⊢
    simp only [updateGame_ticks]
    by_cases hz : d - 1 ≤ 0
    · have hd1 : d = 1 := by omega
      have hrs : rs = [] := by
        apply List.eq_nil_of_length_eq_zero
        omega
      subst hrs
      simp only [updateGame_ticks, List.length_nil, Nat.cast_zero, zero_add]
      refine ⟨fun h => absurd h (by omega), fun _ => ?_⟩
      rw [f1, f2, f3, ha, hd, hd1]
      simp
    · have g1 : (updateGame s r).activePowerup = some PowerupType.slowmo := by
        rw [f1, hd, ha]
        simp [hz]
      have g2 : (updateGame s r).powerupDuration = d - 1 := by
        rw [f2, hd, ha]
        simp [hz]
      have g3 : (updateGame s r).gameSpeed = 1 / 2 := by
        rw [f3, hd, hg]
        simp [hz]
      obtain ⟨i1, i2⟩ := ih (updateGame s r) (d - 1) g1 g2 g3 (by omega) (by omega) hq.2
      refine ⟨fun h => ?_, fun h => ?_⟩
      · obtain ⟨k1, k2, k3⟩ := i1 (by omega)
        exact ⟨k1, by rw [k2]; omega, k3⟩
      · exact i2 (by omega)

/-- C15: the slowmo effect lasts exactly 180 ticks. Collecting a slowmo
power-up (`activatePowerup` with type slowmo, which is what `collectPowerup`
runs for a slowmo power-up) sets the active effect to slowmo, its duration to
180 and the speed multiplier to 1/2. From there, over any ticks of
`updateGame` that all get past the boundary block and collect no power-up:
after `k < 180` ticks the effect is still slowmo, the duration is `180 - k` and
the multiplier is still 1/2; at the end of the 180th tick the multiplier is 1,
no effect is active and the duration is 0. -/
theorem slowmo_countdown (s : State) :
    ((activatePowerup s PowerupType.slowmo).activePowerup = some PowerupType.slowmo ∧
      (activatePowerup s PowerupType.slowmo).powerupDuration = 180 ∧
      (activatePowerup s PowerupType.slowmo).gameSpeed = 1 / 2) ∧
    (∀ (i : Nat) (q : Powerup), s.powerups[i]? = some q → q.type = PowerupType.slowmo →
      (collectPowerup s i).activePowerup = some PowerupType.slowmo ∧
      (collectPowerup s i).powerupDuration = 180 ∧
      (collectPowerup s i).gameSpeed = 1 / 2) ∧
    (∀ rs : List Draws,
      updateGame_ticks_undisturbed rs (activatePowerup s PowerupType.slowmo) = true →
      (rs.length < 180 →
        (updateGame_ticks rs (activatePowerup s PowerupType.slowmo)).activePowerup =
          some PowerupType.slowmo ∧
        (updateGame_ticks rs (activatePowerup s PowerupType.slowmo)).powerupDuration =
          180 - rs.length ∧
        (updateGame_ticks rs (activatePowerup s PowerupType.slowmo)).gameSpeed = 1 / 2) ∧
      (rs.length = 180 →
        (updateGame_ticks rs (activatePowerup s PowerupType.slowmo)).gameSpeed = 1 ∧
        (updateGame_ticks rs (activatePowerup s PowerupType.slowmo)).activePowerup = none ∧
        (updateGame_ticks rs (activatePowerup s PowerupType.slowmo)).powerupDuration = 0)) := by
  refine ⟨⟨rfl, rfl, rfl⟩, ?_, ?_⟩
  · intro i q hq hty
    simp only [collectPowerup, hq, hty, playSound_activePowerup, playSound_powerupDuration,
      playSound_gameSpeed]
    exact ⟨rfl, rfl, rfl⟩
  · intro rs hund
    refine ⟨fun hlt => ?_, fun heq => ?_⟩
    · exact (updateGame_ticks_slowmo rs _ 180 rfl rfl rfl (by omega) (by omega) hund).1
        (by omega)
    · obtain ⟨k1, k2, k3⟩ := (updateGame_ticks_slowmo rs _ 180 rfl rfl rfl (by omega)
        (by omega) hund).2 (by omega)
      exact ⟨k3, k1, k2⟩

theorem updateGame_ticks_append (rs1 rs2 : List Draws) (s : State) :
    updateGame_ticks (rs1 ++ rs2) s = updateGame_ticks rs2 (updateGame_ticks rs1 s) := by
  induction rs1 generalizing s with
  | nil => rfl
  | cons r rs1 ih => exact ih (updateGame s r)

theorem updateGame_ticks_undisturbed_append (rs1 rs2 : List Draws) (s : State) :
    updateGame_ticks_undisturbed (rs1 ++ rs2) s =
      (updateGame_ticks_undisturbed rs1 s &&
        updateGame_ticks_undisturbed rs2 (updateGame_ticks rs1 s)) := by
  induction rs1 generalizing s with
  | nil => simp [updateGame_ticks_undisturbed, updateGame_ticks]
  | cons r rs1 ih =>
    show (updateGame_undisturbed s &&
        updateGame_ticks_undisturbed (rs1 ++ rs2) (updateGame s r)) =
      ((updateGame_undisturbed s && updateGame_ticks_undisturbed rs1 (updateGame s r)) &&
        updateGame_ticks_undisturbed rs2 (updateGame_ticks rs1 (updateGame s r)))
    rw [ih, Bool.and_assoc]

theorem slowRun_90_run : updateGame_ticks (List.replicate 90 midDraws) slowStart = slowRun_90 := by
  decide!

theorem slowRun_90_undisturbed :
    updateGame_ticks_undisturbed (List.replicate 90 midDraws) slowStart = true := by
  decide!

theorem slowRun_180_undisturbed :
    updateGame_ticks_undisturbed (List.replicate 90 midDraws) slowRun_90 = true := by
  decide!

theorem slowRun_undisturbed :
    updateGame_ticks_undisturbed (List.replicate 180 midDraws) slowStart = true := by
  have h : List.replicate 180 midDraws =
      List.replicate 90 midDraws ++ List.replicate 90 midDraws := by
    rw [← List.replicate_add]
  rw [h, updateGame_ticks_undisturbed_append, slowRun_90_undisturbed, slowRun_90_run,
    slowRun_180_undisturbed]
  rfl

theorem slowmo_countdown_witness :
    updateGame_ticks_undisturbed (List.replicate 180 midDraws) slowStart = true ∧
    (updateGame_ticks (List.replicate 90 midDraws) slowStart).powerupDuration = 90 ∧
    (updateGame_ticks (List.replicate 90 midDraws) slowStart).gameSpeed = 1 / 2 ∧
    (updateGame_ticks (List.replicate 180 midDraws) slowStart).gameSpeed = 1 ∧
    (updateGame_ticks (List.replicate 180 midDraws) slowStart).activePowerup = none ∧
    (updateGame_ticks (List.replicate 180 midDraws) slowStart).powerupDuration = 0 :=
  have h90 := ((slowmo_countdown (jump freshRun)).2.2 (List.replicate 90 midDraws)
    slowRun_90_undisturbed).1 (by rw [List.length_replicate]; decide)
  have h180 := ((slowmo_countdown (jump freshRun)).2.2 (List.replicate 180 midDraws)
    slowRun_undisturbed).2 (by rw [List.length_replicate])
  ⟨slowRun_undisturbed, h90.2.1.trans (by rw [List.length_replicate]; norm_num), h90.2.2,
    h180.1, h180.2.1, h180.2.2⟩

/-! ## The speed multiplier and the active effect -/

theorem deactivatePowerup_speedMatchesEffect (s : State) (h : speedMatchesEffect s) :
    speedMatchesEffect (deactivatePowerup s) := by
  unfold speedMatchesEffect at h ⊢
  simp only [deactivatePowerup]
  by_cases h1 : s.activePowerup = some PowerupType.slowmo
  · simp [h1]
  · rw [if_neg h1] at h
    by_cases h2 : s.activePowerup = some PowerupType.shield
    · simp [h2, h]
    · simp [h1, h2, h]

theorem updateGame_speedMatchesEffect (s : State) (r : Draws)
    (hu : updateGame_undisturbed s = true) (h : speedMatchesEffect s) :
    speedMatchesEffect (updateGame s r) := by
  obtain ⟨f1, -, f3⟩ := updateGame_fields_of_undisturbed s r hu
  unfold speedMatchesEffect at h ⊢
  rw [f1, f3]
  by_cases h1 : s.activePowerup = some PowerupType.slowmo
  · rw [if_pos h1] at h
    by_cases h2 : s.powerupDuration - 1 ≤ 0
    · simp [h1, h2]
    · simp [h1, h2, h]
  · rw [if_neg h1] at h
    by_cases h2 : s.activePowerup ≠ none ∧ s.powerupDuration - 1 ≤ 0
    · simp [h1, h2, h]
    · simp [h1, h2, h]

/-- C16: the speed multiplier is not always reverted. The predicate "the
multiplier is 1/2 if the active effect is slowmo and 1 otherwise" is preserved
by `deactivatePowerup`, by a tick that collects no power-up, by collecting a
slowmo power-up in any state, and by collecting a shield power-up while slowmo
is not the active effect. It is not preserved by collecting a shield power-up
while slowmo is active: `activatePowerup` overwrites the slot and leaves the
multiplier at 1/2. In the reachable state `slowFresh` (slowmo just picked up)
the predicate holds; after a shield pickup (directly, or by the tick from
`slowWithShieldAhead`) the active effect is shield and the multiplier is 1/2;
when that effect expires the slot is empty and the multiplier is still 1/2,
and no later tick without a pickup changes it. -/
theorem speed_not_reverted_on_supersession :
    (∀ s : State, speedMatchesEffect s → speedMatchesEffect (deactivatePowerup s)) ∧
    (∀ (s : State) (r : Draws), updateGame_undisturbed s = true → speedMatchesEffect s →
      speedMatchesEffect (updateGame s r)) ∧
    (∀ s : State, speedMatchesEffect (activatePowerup s PowerupType.slowmo)) ∧
    (∀ s : State, s.activePowerup ≠ some PowerupType.slowmo → speedMatchesEffect s →
      speedMatchesEffect (activatePowerup s PowerupType.shield)) ∧
    (Reachable slowFresh ∧ slowFresh.gameState = GameState.playing ∧
      speedMatchesEffect slowFresh ∧
      Reachable (activatePowerup slowFresh PowerupType.shield) ∧
      (activatePowerup slowFresh PowerupType.shield).activePowerup = some PowerupType.shield ∧
      (activatePowerup slowFresh PowerupType.shield).gameSpeed = 1 / 2 ∧
      ¬ speedMatchesEffect (activatePowerup slowFresh PowerupType.shield)) ∧
    (speedMatchesEffect slowWithShieldAhead ∧
      (updateGame slowWithShieldAhead midDraws).activePowerup = some PowerupType.shield ∧
      (updateGame slowWithShieldAhead midDraws).gameSpeed = 1 / 2 ∧
      ¬ speedMatchesEffect (updateGame slowWithShieldAhead midDraws)) ∧
    ((deactivatePowerup (activatePowerup slowFresh PowerupType.shield)).activePowerup = none ∧
      (deactivatePowerup (activatePowerup slowFresh PowerupType.shield)).gameSpeed = 1 / 2 ∧
      ¬ speedMatchesEffect (deactivatePowerup (activatePowerup slowFresh PowerupType.shield))) ∧
    (∀ (s : State) (r : Draws), updateGame_undisturbed s = true →
      s.activePowerup ≠ some PowerupType.slowmo → (updateGame s r).gameSpeed = s.gameSpeed) := by
  have hreach : Reachable slowFresh :=
    Session.pickupPowerup PowerupType.slowmo rfl (Session.mono freshRun_played) (by decide!)
  have hplay : slowFresh.gameState = GameState.playing := by decide!
  refine ⟨deactivatePowerup_speedMatchesEffect, updateGame_speedMatchesEffect, ?_, ?_,
    ⟨hreach, hplay, by decide!, Session.pickupPowerup PowerupType.shield rfl hreach hplay,
      by decide!, by decide!, by decide!⟩,
    ⟨by decide!, by decide!, by decide!, by decide!⟩, ⟨by decide!, by decide!, by decide!⟩, ?_⟩
  · intro s
    simp [speedMatchesEffect, activatePowerup]
  · intro s h1 h
    unfold speedMatchesEffect at h ⊢
    rw [if_neg h1] at h
    simp [activatePowerup, h]
  · intro s r hu h1
    obtain ⟨-, -, f3⟩ := updateGame_fields_of_undisturbed s r hu
    rw [f3, if_neg]
    exact fun h => h1 h.1

/-! ## What the speed multiplier scales -/

theorem take_set_self {α : Type} (l : List α) (n : Nat) (a : α) :
    (l.set n a).take n = l.take n := by
  induction l generalizing n with
  | nil => simp
  | cons b l ih =>
    cases n with
    | zero => simp
    | succ n => simp [ih]

theorem drop_set_succ {α : Type} (l : List α) (n : Nat) (a : α) :
    (l.set n a).drop (n + 1) = l.drop (n + 1) := by
  induction l generalizing n with
  | nil => simp
  | cons b l ih =>
    cases n with
    | zero => simp
    | succ n => simp [ih]

theorem sweep_eq {α : Type} (move : α → α) (gone : α → Bool) (n : Nat) (l : List α)
    (hn : n ≤ l.length) :
    sweep move gone n l =
      ((l.take n).map move).filter (fun a => !gone a) ++ l.drop n := by
  induction n generalizing l with
  | zero => simp [sweep]
  | succ n ih =>
    have hlt : n < l.length := hn
    have hget : l[n]? = some l[n] := List.getElem?_eq_getElem hlt
    rw [sweep, hget]
    simp only
    rw [take_succ_of_getElem? l n _ hget, List.map_append, List.filter_append]
    by_cases hg : gone (move l[n]) = true
    · rw [if_pos hg, ih _ (by rw [List.length_eraseIdx, List.length_set, if_pos hlt]; omega),
        take_eraseIdx_self, take_set_self, drop_eraseIdx_self, drop_set_succ]
      simp [hg]
    · rw [if_neg hg, ih _ (by rw [List.length_set]; omega), take_set_self,
        drop_of_getElem? (l.set n (move l[n])) n (move l[n])
          (by rw [List.getElem?_set_self hlt]), drop_set_succ]
      simp [hg]

theorem updateObstacles_loop_eq_sweep (gameSpeed : ℚ) (n : Nat) (l : List Obstacle) :
    updateObstacles_loop gameSpeed n l =
      sweep (fun o => { o with x := o.x - obstacleSpeed * gameSpeed })
        (fun o => decide (o.x + obstacleWidth < 0)) n l := by
  induction n generalizing l with
  | zero => rfl
  | succ n ih =>
    rw [updateObstacles_loop, sweep]
    cases l[n]? with
    | none => exact ih l
    | some o =>
      simp only [decide_eq_true_eq]
      split_ifs <;> exact ih _

theorem updateCollectibles_loop_eq_sweep (gameSpeed : ℚ) (n : Nat) (l : List Collectible) :
    updateCollectibles_loop gameSpeed n l =
      sweep (fun c => { c with x := c.x - obstacleSpeed * gameSpeed, rotation := c.rotation + 2 })
        (fun c => decide (c.x + collectibleSize < 0)) n l := by
  induction n generalizing l with
  | zero => rfl
  | succ n ih =>
    rw [updateCollectibles_loop, sweep]
    cases l[n]? with
    | none => exact ih l
    | some o =>
      simp only [decide_eq_true_eq]
      split_ifs <;> exact ih _

theorem updatePowerups_loop_eq_sweep (gameSpeed : ℚ) (n : Nat) (l : List Powerup) :
    updatePowerups_loop gameSpeed n l =
      sweep (fun p => { p with
          x := p.x - obstacleSpeed * gameSpeed, rotation := p.rotation + 3,
          pulse := p.pulse + 1 / 10 })
        (fun p => decide (p.x + powerupSize < 0)) n l := by
  induction n generalizing l with
  | zero => rfl
  | succ n ih =>
    rw [updatePowerups_loop, sweep]
    cases l[n]? with
    | none => exact ih l
    | some o =>
      simp only [decide_eq_true_eq]
      split_ifs <;> exact ih _

theorem updateFireBreaths_single (s : State) (f : FireBreath) (hf : s.fireBreaths = [f])
    (ho : s.obstacles = []) (hl : 1 < f.lifetime) :
    (updateFireBreaths s).fireBreaths = [{ f with x := f.x + 8, lifetime := f.lifetime - 1 }] := by
  have hl2 : ¬ (f.lifetime - 1 ≤ 0) := by omega
  simp [updateFireBreaths, updateFireBreaths_loop, updateFireBreaths_body,
    updateFireBreaths_strike, updateFireBreaths_expire, updateFireBreaths_hit, hf, ho, hl2]

theorem fireReady_reachable : Reachable fireReady ∧ fireReady.gameState = GameState.playing := by
  obtain ⟨h, hp⟩ := reachable_iterate_collectCollectible 5 freshRun
    (Session.mono freshRun_played) (by decide!)
  exact ⟨Session.tick midDraws h hp, by decide!⟩

theorem fireShotSlow_reachable : Reachable fireShotSlow :=
  Session.pickupPowerup PowerupType.slowmo rfl
    (Session.useFireBreath fireReady_reachable.1 fireReady_reachable.2) (by decide!)

/-- C17: the speed multiplier scales the physics and three of the four
populations, not the projectiles. With `s = gameSpeed`: the physics step adds
`0.1 * s` to the velocity and then `velocity * s` to `y`; `updateObstacles`,
`updateCollectibles` and `updatePowerups` move every entity left by `3 * s`
(and then drop those that have left the screen). `updateFireBreaths` moves a
projectile right by 8 whatever `s` is: for a single projectile in flight with
no obstacle on screen the new `x` is `x + 8`. In the reachable state
`fireShotSlow` (Fire used, then slowmo picked up, `s = 1/2`) the projectile is
at `x = 210`, and one tick later at `x = 218`, the same place it reaches from
`fireShot` with `s = 1`: under slowmo it does not move half as far. -/
theorem speed_scales_all_but_projectiles :
    (∀ s : State,
      (updateGame_physics s).dragon.velocity = s.dragon.velocity + 1 / 10 * s.gameSpeed ∧
      (updateGame_physics s).dragon.y =
        s.dragon.y + (updateGame_physics s).dragon.velocity * s.gameSpeed) ∧
    (∀ s : State,
      (updateObstacles s).obstacles =
        (s.obstacles.map (fun o => { o with x := o.x - 3 * s.gameSpeed })).filter
          (fun o => !decide (o.x + 80 < 0)) ∧
      (updateCollectibles s).collectibles =
        (s.collectibles.map
          (fun c => { c with x := c.x - 3 * s.gameSpeed, rotation := c.rotation + 2 })).filter
          (fun c => !decide (c.x + 25 < 0)) ∧
      (updatePowerups s).powerups =
        (s.powerups.map (fun p => { p with
          x := p.x - 3 * s.gameSpeed, rotation := p.rotation + 3,
          pulse := p.pulse + 1 / 10 })).filter
          (fun p => !decide (p.x + 30 < 0))) ∧
    (∀ (s : State) (f : FireBreath), s.fireBreaths = [f] → s.obstacles = [] → 1 < f.lifetime →
      (updateFireBreaths s).fireBreaths =
        [{ f with x := f.x + 8, lifetime := f.lifetime - 1 }]) ∧
    (Reachable fireShotSlow ∧ fireShotSlow.gameState = GameState.playing ∧
      fireShotSlow.gameSpeed = 1 / 2 ∧
      fireShotSlow.fireBreaths.map (fun f => f.x) = [210] ∧
      (updateGame fireShotSlow midDraws).gameSpeed = 1 / 2 ∧
      (updateGame fireShotSlow midDraws).fireBreaths.map (fun f => f.x) = [218] ∧
      fireShot.gameSpeed = 1 ∧
      (updateGame fireShot midDraws).fireBreaths.map (fun f => f.x) = [218]) := by
  refine ⟨fun s => ⟨?_, rfl⟩, fun s => ⟨?_, ?_, ?_⟩, updateFireBreaths_single,
    ⟨fireShotSlow_reachable, by decide!, by decide!, by decide!, by decide!, by decide!,
      by decide!, by decide!⟩⟩
  · simp [updateGame_physics, dragon_gravity]
  · simp only [updateObstacles]
    rw [updateObstacles_loop_eq_sweep, sweep_eq _ _ _ _ (le_refl _)]
    simp [obstacleSpeed, obstacleWidth]
  · simp only [updateCollectibles]
    rw [updateCollectibles_loop_eq_sweep, sweep_eq _ _ _ _ (le_refl _)]
    simp [obstacleSpeed, collectibleSize]
  · simp only [updatePowerups]
    rw [updatePowerups_loop_eq_sweep, sweep_eq _ _ _ _ (le_refl _)]
    simp [obstacleSpeed, powerupSize]

/-! ## Reset -/

/-- C18: `resetGame` is complete and idempotent. Whatever the state was, after
`resetGame` the dragon is at `x = 150`, `y = canvas.height / 2` with velocity
0, rotation 0, stage baby and tail length 0; the tail, the tail history and
the four populations are empty; the score is 0 and the speed multiplier 1;
both abilities are locked, unavailable, with cooldown 0 and inactive; no
power-up is active and its duration is 0; the three spawn timers are 0. The
result does not depend on the previous value of any of these fields: replacing
all of them by arbitrary values before the reset gives the same state. Hence a
second `resetGame` changes nothing. -/
theorem resetGame_complete_idempotent (s : State) :
    ((resetGame s).dragon =
        { x := 150, y := s.canvasHeight / 2, velocity := 0, rotation := 0,
          evolution := Evolution.baby, tailLength := 0 } ∧
      (resetGame s).tail = [] ∧ (resetGame s).tailHistory = [] ∧
      (resetGame s).obstacles = [] ∧ (resetGame s).collectibles = [] ∧
      (resetGame s).powerups = [] ∧ (resetGame s).fireBreaths = [] ∧
      (resetGame s).score = 0 ∧ (resetGame s).gameSpeed = 1 ∧
      (resetGame s).abilities.fire =
        { unlocked := false, available := false, cooldown := 0, active := false } ∧
      (resetGame s).abilities.shield =
        { unlocked := false, available := false, cooldown := 0, active := false } ∧
      (resetGame s).activePowerup = none ∧ (resetGame s).powerupDuration = 0 ∧
      (resetGame s).obstacleSpawnTimer = 0 ∧ (resetGame s).collectibleSpawnTimer = 0 ∧
      (resetGame s).powerupSpawnTimer = 0) ∧
    (∀ (dragon : Dragon) (tail : List TailSegment) (tailHistory : List Point)
        (obstacles : List Obstacle) (collectibles : List Collectible) (powerups : List Powerup)
        (fireBreaths : List FireBreath) (score : Nat) (gameSpeed : ℚ) (abilities : Abilities)
        (activePowerup : Option PowerupType) (powerupDuration : Int)
        (obstacleSpawnTimer collectibleSpawnTimer powerupSpawnTimer : Nat),
      resetGame { s with
        dragon := dragon, tail := tail, tailHistory := tailHistory, obstacles := obstacles,
        collectibles := collectibles, powerups := powerups, fireBreaths := fireBreaths,
        score := score, gameSpeed := gameSpeed, abilities := abilities,
        activePowerup := activePowerup, powerupDuration := powerupDuration,
        obstacleSpawnTimer := obstacleSpawnTimer,
        collectibleSpawnTimer := collectibleSpawnTimer,
        powerupSpawnTimer := powerupSpawnTimer } = resetGame s) ∧
    resetGame (resetGame s) = resetGame s := by
  refine ⟨⟨rfl, rfl, rfl, rfl, rfl, rfl, rfl, rfl, rfl, rfl, rfl, rfl, rfl, rfl, rfl, rfl⟩, ?_, rfl⟩
  intros
  rfl

/-! ## States other than playing are inert -/

/-- C19: outside the playing state nothing advances. In a state whose
`gameState` is start, paused or gameOver, a frame (`gameLoop` with any
timestamp and any draws), a key press (`handleKeyDown` with any key, Space, F
and S included) and a click (`handleClick`) return the state unchanged: the
dragon, the tail history, the populations, the spawn timers, the abilities, the
active power-up and its duration, the score and `gameState` itself all keep
their values. -/
theorem not_playing_inert (s : State) (h : s.gameState ≠ GameState.playing) :
    (s.gameState = GameState.start ∨ s.gameState = GameState.paused ∨
      s.gameState = GameState.gameOver) ∧
    (∀ (timestamp : ℚ) (r : Draws), gameLoop s timestamp r = s) ∧
    (∀ code : String, handleKeyDown s code = s) ∧
    handleKeyDown s "Space" = s ∧ handleKeyDown s "KeyF" = s ∧ handleKeyDown s "KeyS" = s ∧
    handleClick s = s := by
  have hk : ∀ code : String, handleKeyDown s code = s := by
    intro code
    unfold handleKeyDown
    rw [if_pos h]
  refine ⟨?_, ?_, hk, hk _, hk _, hk _, ?_⟩
  · cases hg : s.gameState with
    | start => exact Or.inl rfl
    | playing => exact absurd hg h
    | paused => exact Or.inr (Or.inl rfl)
    | gameOver => exact Or.inr (Or.inr rfl)
  · intro timestamp r
    unfold gameLoop
    rw [if_pos h]
  · unfold handleClick
    rw [if_neg h]

theorem not_playing_inert_witness :
    { fireReady with gameState := GameState.paused }.gameState ≠ GameState.playing ∧
    gameLoop { fireReady with gameState := GameState.paused } 16 midDraws =
      { fireReady with gameState := GameState.paused } ∧
    handleKeyDown { fireReady with gameState := GameState.paused } "KeyF" =
      { fireReady with gameState := GameState.paused } ∧
    handleClick { fireReady with gameState := GameState.paused } =
      { fireReady with gameState := GameState.paused } :=
  have h := not_playing_inert { fireReady with gameState := GameState.paused } (by decide)
  ⟨by decide, h.2.1 16 midDraws, h.2.2.1 "KeyF", h.2.2.2.2.2.2⟩

/-! ## Jump -/

theorem jump_eq (s : State) :
    ∃ snd, jump s = { s with
      dragon := { s.dragon with velocity := dragon_jumpStrength },
      soundCooldowns := snd } := by
  unfold jump
  rw [playSound_eq]
  exact ⟨_, rfl⟩

theorem jump_jump (s : State) : jump (jump s) = jump s := by
  unfold jump
  by_cases h : s.soundCooldowns.jump > 0
  · simp [playSound, h]
  · simp [playSound, h]

/-- C20: the Jump command is an absolute impulse. In a playing state both the
Space key and a click run `jump`; `jump` sets `dragon.velocity` to
`dragon.jumpStrength = -5` whatever the velocity was (the result is the same
for every previous velocity) and changes no other field of the dragon, no
population, no ability and not the score: apart from the velocity only the
cooldown table of the sound cues can differ. Jumping twice in a row gives the
same state as jumping once. -/
theorem jump_absolute (s : State) (h : s.gameState = GameState.playing) :
    handleKeyDown s "Space" = jump s ∧ handleClick s = jump s ∧
    (jump s).dragon.velocity = -5 ∧
    (∀ v : ℚ, jump { s with dragon := { s.dragon with velocity := v } } = jump s) ∧
    (jump s).dragon = { s.dragon with velocity := dragon_jumpStrength } ∧
    (∃ snd, jump s = { s with
      dragon := { s.dragon with velocity := dragon_jumpStrength },
      soundCooldowns := snd }) ∧
    jump (jump s) = jump s := by
  refine ⟨?_, ?_, ?_, ?_, ?_, jump_eq s, jump_jump s⟩
  · unfold handleKeyDown
    simp [h]
  · unfold handleClick
    rw [if_pos h]
  · simp [jump, dragon_jumpStrength]
  · intro v
    rfl
  · simp [jump]

theorem jump_absolute_witness :
    freshRun.gameState = GameState.playing ∧
    (handleKeyDown freshRun "Space").dragon.velocity = -5 ∧
    (handleClick (handleClick freshRun)).dragon.velocity = -5 :=
  have h := jump_absolute freshRun (by decide!)
  have h1 := jump_absolute (jump freshRun) (by decide!)
  ⟨by decide!, by rw [h.1]; exact h.2.2.1, by rw [h.2.1, h1.2.1]; exact h1.2.2.1⟩

/-! ## The tail is a sampling of the history -/

theorem updateTail_step_of_le (h : List Point) (segments : List TailSegment) (i : Nat)
    (hi : tailDelay * (i + 1) + 1 ≤ h.length) :
    ∃ p, h[h.length - 1 - tailDelay * (i + 1)]? = some p ∧
      updateTail_step h segments i =
        segments ++ [{ x := p.x, y := p.y, size := tailSegmentSize }] := by
  have h5 : tailDelay = 5 := rfl
  simp only [h5] at hi ⊢
  have hlt : h.length - 1 - 5 * (i + 1) < h.length := by omega
  refine ⟨h[h.length - 1 - 5 * (i + 1)], List.getElem?_eq_getElem hlt, ?_⟩
  unfold updateTail_step
  simp only [h5]
  have hidx : ((h.length : Int) - 1 - ((i : Int) + 1) * ((5 : Nat) : Int)).toNat =
      h.length - 1 - 5 * (i + 1) := by
    omega
  have hcond : 0 ≤ ((h.length : Int) - 1 - ((i : Int) + 1) * ((5 : Nat) : Int)) ∧
      ((h.length : Int) - 1 - ((i : Int) + 1) * ((5 : Nat) : Int)) < (h.length : Int) := by
    constructor <;> omega
  simp only [hcond, and_self, if_true, hidx, List.getElem?_eq_getElem hlt]

theorem updateTail_step_of_lt (h : List Point) (segments : List TailSegment) (i : Nat)
    (hi : h.length < tailDelay * (i + 1) + 1) :
    updateTail_step h segments i = segments := by
  have h5 : tailDelay = 5 := rfl
  simp only [h5] at hi
  unfold updateTail_step
  simp only [h5]
  have hcond : ¬ (0 ≤ ((h.length : Int) - 1 - ((i : Int) + 1) * ((5 : Nat) : Int)) ∧
      ((h.length : Int) - 1 - ((i : Int) + 1) * ((5 : Nat) : Int)) < (h.length : Int)) := by
    omega
  simp only [hcond, if_false]

theorem updateTail_foldl (h : List Point) (L : Nat) :
    (List.range L).foldl (updateTail_step h) [] =
      (List.range (min L ((h.length - 1) / tailDelay))).filterMap (fun i =>
        (h[h.length - 1 - tailDelay * (i + 1)]?).map
          (fun p => ({ x := p.x, y := p.y, size := tailSegmentSize } : TailSegment))) := by
  induction L with
  | zero => simp
  | succ L ih =>
    rw [List.range_succ, List.foldl_append, ih]
    simp only [List.foldl_cons, List.foldl_nil]
    have h5 : tailDelay = 5 := rfl
    by_cases hv : tailDelay * (L + 1) + 1 ≤ h.length
    · obtain ⟨p, hp, hstep⟩ := updateTail_step_of_le h
        ((List.range (min L ((h.length - 1) / tailDelay))).filterMap (fun i =>
          (h[h.length - 1 - tailDelay * (i + 1)]?).map
            (fun p => ({ x := p.x, y := p.y, size := tailSegmentSize } : TailSegment)))) L hv
      have hm : L + 1 ≤ (h.length - 1) / tailDelay := by
        rw [h5] at hv ⊢
        omega
      rw [hstep, Nat.min_eq_left hm, Nat.min_eq_left (by omega), List.range_succ,
        List.filterMap_append]
      simp [hp]
    · have hm : (h.length - 1) / tailDelay ≤ L := by
        rw [h5] at hv ⊢
        omega
      rw [updateTail_step_of_lt h _ L (by omega), Nat.min_eq_right hm,
        Nat.min_eq_right (by omega)]

theorem updateTail_tail_eq_map (s : State) :
    (updateTail s).tail =
      (List.range (min s.dragon.tailLength ((s.tailHistory.length - 1) / 5))).map (fun i =>
        ({ x := (s.tailHistory[s.tailHistory.length - 1 - 5 * (i + 1)]?.getD ⟨0, 0⟩).x,
           y := (s.tailHistory[s.tailHistory.length - 1 - 5 * (i + 1)]?.getD ⟨0, 0⟩).y,
           size := 20 } : TailSegment)) := by
  simp only [updateTail]
  rw [updateTail_foldl]
  have h5 : tailDelay = 5 := rfl
  rw [h5]
  rw [← List.filterMap_eq_map]
  apply List.filterMap_congr
  intro i hi
  rw [List.mem_range] at hi
  have hi2 : i < (s.tailHistory.length - 1) / 5 := lt_of_lt_of_le hi (Nat.min_le_right _ _)
  have hlt : s.tailHistory.length - 1 - 5 * (i + 1) < s.tailHistory.length := by omega
  simp [List.getElem?_eq_getElem hlt, tailSegmentSize]

/-- C21: `updateTail` rebuilds the tail as a sampling of the history. With
`n` the length of the history and `L = dragon.tailLength`, the tail has
`min(L, (n - 1) div 5)` segments, which is `min(L, max(0, floor((n - 1) / 5)))`
and never more than `L`; for every `i < L` whose offset `5 (i + 1)` still lies
inside the history, segment `i` is at the position of the history sample with
index `n - 1 - 5 (i + 1)`, the position the dragon had `5 (i + 1)` samples
before the most recent one; an index `i` whose offset falls before the start
of the history, or with `i ≥ L`, has no segment. Nothing but the tail is
changed. -/
theorem updateTail_samples (s : State) :
    (updateTail s).tail.length = min s.dragon.tailLength ((s.tailHistory.length - 1) / 5) ∧
    ((updateTail s).tail.length : Int) =
      min (s.dragon.tailLength : Int) (max 0 ⌊((s.tailHistory.length : ℚ) - 1) / 5⌋) ∧
    (updateTail s).tail.length ≤ s.dragon.tailLength ∧
    (∀ i, i < s.dragon.tailLength → 5 * (i + 1) + 1 ≤ s.tailHistory.length →
      ∃ p, s.tailHistory[s.tailHistory.length - 1 - 5 * (i + 1)]? = some p ∧
        (updateTail s).tail[i]? = some { x := p.x, y := p.y, size := 20 }) ∧
    (∀ i, s.dragon.tailLength ≤ i ∨ s.tailHistory.length < 5 * (i + 1) + 1 →
      (updateTail s).tail[i]? = none) ∧
    updateTail s = { s with tail := (updateTail s).tail } := by
  have hlen : (updateTail s).tail.length =
      min s.dragon.tailLength ((s.tailHistory.length - 1) / 5) := by
    rw [updateTail_tail_eq_map, List.length_map, List.length_range]
  refine ⟨hlen, ?_, ?_, ?_, ?_, rfl⟩
  · rw [hlen]
    have hfl : ⌊((s.tailHistory.length : ℚ) - 1) / 5⌋ = ((s.tailHistory.length : Int) - 1) / 5 := by
      have := Rat.floor_intCast_div_natCast ((s.tailHistory.length : Int) - 1) 5
      push_cast at this
      exact this
    rw [hfl]
    omega
  · rw [hlen]
    exact Nat.min_le_left _ _
  · intro i hi hv
    have hlt : s.tailHistory.length - 1 - 5 * (i + 1) < s.tailHistory.length := by omega
    have him : i < min s.dragon.tailLength ((s.tailHistory.length - 1) / 5) := by
      rw [Nat.lt_min]
      exact ⟨hi, by omega⟩
    refine ⟨s.tailHistory[s.tailHistory.length - 1 - 5 * (i + 1)],
      List.getElem?_eq_getElem hlt, ?_⟩
    rw [updateTail_tail_eq_map, List.getElem?_map, List.getElem?_range him]
    simp [List.getElem?_eq_getElem hlt]
  · intro i hi
    rw [List.getElem?_eq_none_iff, hlen]
    rcases hi with hi | hi
    · exact le_trans (Nat.min_le_left _ _) hi
    · have : (s.tailHistory.length - 1) / 5 ≤ i := by omega
      exact le_trans (Nat.min_le_right _ _) this

theorem updateTail_samples_witness :
    gemRun_302.dragon.tailLength = 4 ∧ gemRun_302.tailHistory.length = 25 ∧
    (updateTail gemRun_302).tail[3]? = some { x := 150, y := 2121 / 5, size := 20 } ∧
    (updateTail { gemRun_302 with dragon := { gemRun_302.dragon with tailLength := 12 } }).tail[4]?
      = none :=
  ⟨rfl, by decide,
   by
    obtain ⟨p, hp, h⟩ := (updateTail_samples gemRun_302).2.2.2.1 3 (by decide) (by decide)
    have hp2 : gemRun_302.tailHistory[gemRun_302.tailHistory.length - 1 - 5 * (3 + 1)]? =
        some { x := 150, y := 2121 / 5 } := by decide!
    rw [hp2] at hp
    obtain rfl := Option.some.inj hp
    exact h,
   (updateTail_samples
      { gemRun_302 with dragon := { gemRun_302.dragon with tailLength := 12 } }).2.2.2.2.1 4
      (Or.inr (by decide))⟩

/-! ## The tail history over a whole tick -/

@[simp] theorem updateGame_physics_tailHistory (s : State) :
    (updateGame_physics s).tailHistory = s.tailHistory := rfl

@[simp] theorem updateTail_tailHistory (s : State) :
    (updateTail s).tailHistory = s.tailHistory := rfl

@[simp] theorem updateObstacles_tailHistory (s : State) :
    (updateObstacles s).tailHistory = s.tailHistory := rfl

@[simp] theorem updateCollectibles_tailHistory (s : State) :
    (updateCollectibles s).tailHistory = s.tailHistory := rfl

@[simp] theorem updatePowerups_tailHistory (s : State) :
    (updatePowerups s).tailHistory = s.tailHistory := rfl

@[simp] theorem updateAbilities_tailHistory (s : State) :
    (updateAbilities s).tailHistory = s.tailHistory := rfl

@[simp] theorem updateGame_sounds_tailHistory (s : State) :
    (updateGame_sounds s).tailHistory = s.tailHistory := rfl

@[simp] theorem updateUI_tailHistory (s : State) :
    (updateUI s).tailHistory = s.tailHistory := rfl

@[simp] theorem updateFireBreaths_tailHistory (s : State) :
    (updateFireBreaths s).tailHistory = s.tailHistory := by
  obtain ⟨_, _, _, h⟩ := updateFireBreaths_eq s
  rw [h]

@[simp] theorem updateGame_powerup_tailHistory (s : State) :
    (updateGame_powerup s).tailHistory = s.tailHistory := by
  simp only [updateGame_powerup, deactivatePowerup]
  split_ifs <;> rfl

@[simp] theorem checkEvolution_tailHistory (s : State) :
    (checkEvolution s).tailHistory = s.tailHistory := by
  simp only [checkEvolution]
  split_ifs <;> simp

@[simp] theorem spawnObstacles_tailHistory (s : State) (r : Draws) :
    (spawnObstacles s r).tailHistory = s.tailHistory := by
  simp only [spawnObstacles]
  split_ifs <;> rfl

@[simp] theorem spawnCollectibles_tailHistory (s : State) :
    (spawnCollectibles s).tailHistory = s.tailHistory := by
  simp only [spawnCollectibles]
  split_ifs
  · split
    · rfl
    · split_ifs <;> rfl
  · rfl

@[simp] theorem spawnPowerups_tailHistory (s : State) (r : Draws) :
    (spawnPowerups s r).tailHistory = s.tailHistory := by
  simp only [spawnPowerups]
  split_ifs <;> rfl

@[simp] theorem checkCollisions_tailHistory (s : State) :
    (checkCollisions s).tailHistory = s.tailHistory := by
  cases hf : checkCollisions_fatal s with
  | true => rw [checkCollisions_of_fatal s hf, gameOver_tailHistory]
  | false =>
    obtain ⟨hs, snd, h1⟩ := checkCollisions_collectibles_eq s.collectibles.length s (le_refl _)
    obtain ⟨ps, ap, pd, gs, sh, snd2, h2⟩ := checkCollisions_powerups_eq
      (checkCollisions_collectibles s.collectibles.length s).powerups.length
      (checkCollisions_collectibles s.collectibles.length s)
    rw [checkCollisions_of_not_fatal s hf, h2, h1]

theorem updateGame_finish_tailHistory (s : State) (r : Draws) :
    (updateGame_finish s r).tailHistory = s.tailHistory := by
  simp only [updateGame_finish, updateUI_tailHistory, spawnPowerups_tailHistory,
    spawnCollectibles_tailHistory, spawnObstacles_tailHistory, checkEvolution_tailHistory,
    checkCollisions_tailHistory]

theorem updateGame_advance_tailHistory (s : State) :
    (updateGame_advance s).tailHistory = (updateGame_history s).tailHistory := by
  simp only [updateGame_advance, updateGame_sounds_tailHistory, updateGame_powerup_tailHistory,
    updateAbilities_tailHistory, updateFireBreaths_tailHistory, updatePowerups_tailHistory,
    updateCollectibles_tailHistory, updateObstacles_tailHistory, updateTail_tailHistory]

/-- The history at the end of a tick that got past the boundary block: the
dragon's final position is appended, and the oldest sample is dropped when the
buffer is then longer than `tailLength * 5 + 5`. -/
theorem updateGame_tailHistory_of_completes (s : State) (r : Draws)
    (hc : updateGame_completes s = true) :
    (updateGame s r).tailHistory =
      (if (s.tailHistory ++
            [(⟨(updateGame s r).dragon.x, (updateGame s r).dragon.y⟩ : Point)]).length >
          s.dragon.tailLength * 5 + 5 then
        (s.tailHistory ++ [(⟨(updateGame s r).dragon.x, (updateGame s r).dragon.y⟩ : Point)]).tail
       else s.tailHistory ++ [(⟨(updateGame s r).dragon.x, (updateGame s r).dragon.y⟩ : Point)]) ∧
    s.dragon.tailLength ≤ (updateGame s r).dragon.tailLength := by
  obtain ⟨y, v, h⟩ := updateGame_of_completes s r hc
  obtain ⟨k, hk⟩ := checkCollisions_dragon (updateGame_advance { updateGame_physics s with
    dragon := { (updateGame_physics s).dragon with y := y, velocity := v } })
  have hd : (updateGame s r).dragon =
      { x := s.dragon.x, y := y, velocity := v, rotation := (updateGame_physics s).dragon.rotation,
        evolution := (updateGame s r).dragon.evolution,
        tailLength := s.dragon.tailLength + k } := by
    rw [h, updateGame_finish_dragon, hk, updateGame_advance_dragon]
    rfl
  constructor
  · rw [hd]
    simp only
    rw [h, updateGame_finish_tailHistory, updateGame_advance_tailHistory]
    rfl
  · rw [hd]
    exact Nat.le_add_right _ _

theorem updateGame_tailHistory_length (s : State) (r : Draws)
    (h : s.tailHistory.length ≤ s.dragon.tailLength * 5 + 5) :
    (updateGame s r).tailHistory.length ≤ (updateGame s r).dragon.tailLength * 5 + 5 := by
  cases hc : updateGame_completes s with
  | false =>
    obtain ⟨y, v, e⟩ := updateGame_of_not_completes s r hc
    rw [e, gameOver_tailHistory, gameOver_dragon]
    exact h
  | true =>
    obtain ⟨e, hle⟩ := updateGame_tailHistory_of_completes s r hc
    rw [e]
    split_ifs with hgt
    · rw [List.length_tail, List.length_append, List.length_singleton]
      omega
    · rw [List.length_append, List.length_singleton] at hgt ⊢
      omega

theorem jump_tailHistory (s : State) : (jump s).tailHistory = s.tailHistory := by
  simp [jump]

theorem useFireBreath_tailHistory (s : State) :
    (useFireBreath s).tailHistory = s.tailHistory := by
  by_cases h : fireGate s
  · rw [useFireBreath_of_gate s h, playSound_tailHistory]
  · rw [useFireBreath_of_not_gate s h]

theorem useShield_tailHistory (s : State) : (useShield s).tailHistory = s.tailHistory := by
  by_cases h : shieldGate s
  · rw [useShield_of_gate s h, playSound_tailHistory]
  · rw [useShield_of_not_gate s h]

theorem collectCollectible_tailHistory (s : State) (i : Nat) :
    (collectCollectible s i).tailHistory = s.tailHistory := by
  obtain ⟨hs, snd, h⟩ := collectCollectible_eq s i
  rw [h]

theorem activatePowerup_tailHistory (s : State) (type : PowerupType) :
    (activatePowerup s type).tailHistory = s.tailHistory := by
  cases type <;> rfl

/-- In every state of a session, pickups included, the history is within its
cap. -/
theorem Session.tailHistory_length {p : Bool} {s : State} (h : Session p s) :
    s.tailHistory.length ≤ s.dragon.tailLength * 5 + 5 := by
  induction h with
  | reset s => exact Nat.zero_le _
  | @tick s r _ _ ih => exact updateGame_tailHistory_length s r ih
  | @jump s _ _ ih =>
    rw [jump_tailHistory, jump_dragon]
    exact ih
  | @useFireBreath s _ _ ih =>
    rw [useFireBreath_tailHistory, useFireBreath_dragon]
    exact ih
  | @useShield s _ _ ih =>
    rw [useShield_tailHistory, useShield_dragon]
    exact ih
  | @pickupCollectible s index _ _ _ ih =>
    obtain ⟨hs, snd, e⟩ := collectCollectible_eq s index
    rw [collectCollectible_tailHistory, e]
    simp only
    omega
  | @pickupPowerup s type _ _ _ ih =>
    rw [activatePowerup_tailHistory, activatePowerup_dragon]
    exact ih

theorem updateGame_ticks_tailHistory_suffix (rs : List Draws) (s : State) :
    (updateGame_ticks rs s).tailHistory <:+ s.tailHistory ++ updateGame_ticks_positions rs s := by
  induction rs generalizing s with
  | nil => simp [updateGame_ticks, updateGame_ticks_positions]
  | cons r rs ih =>
    simp only [updateGame_ticks, updateGame_ticks_positions]
    cases hc : updateGame_completes s with
    | false =>
      obtain ⟨y, v, e⟩ := updateGame_of_not_completes s r hc
      have := ih (updateGame s r)
      rw [e, gameOver_tailHistory, ← e] at this
      simpa using this
    | true =>
      obtain ⟨e, -⟩ := updateGame_tailHistory_of_completes s r hc
      have hstep : (updateGame s r).tailHistory <:+
          s.tailHistory ++ [(⟨(updateGame s r).dragon.x, (updateGame s r).dragon.y⟩ : Point)] := by
        rw [e]
        split_ifs
        · exact List.tail_suffix _
        · exact List.suffix_refl _
      obtain ⟨pre, hpre⟩ := hstep
      obtain ⟨pre2, hpre2⟩ := ih (updateGame s r)
      refine ⟨pre ++ pre2, ?_⟩
      simp only [if_true]
      rw [List.append_assoc, hpre2, ← List.append_assoc, hpre]
      simp

/-- C22: the tail history is capped and holds the most recent positions in
order. In every reachable state the history has at most
`tailLength * 5 + 5` samples. A tick that gets past the boundary block appends
the dragon's position (the one the tick ends with) at the back and then drops
the single oldest sample exactly when the buffer is longer than
`tailLength * 5 + 5` (with the tail length of the start of the tick); a tick
that ends at the boundary leaves the history alone. Hence after any ticks from
`resetGame` the history is a suffix of the chronological list of the dragon's
positions at the ends of the completed ticks. -/
theorem tailHistory_capped (s : State) (r : Draws) :
    (Reachable s → s.tailHistory.length ≤ s.dragon.tailLength * 5 + 5) ∧
    (updateGame_completes s = true →
      (updateGame s r).tailHistory =
        (if s.tailHistory.length + 1 > s.dragon.tailLength * 5 + 5 then
          (s.tailHistory ++
            [(⟨(updateGame s r).dragon.x, (updateGame s r).dragon.y⟩ : Point)]).tail
         else s.tailHistory ++
            [(⟨(updateGame s r).dragon.x, (updateGame s r).dragon.y⟩ : Point)])) ∧
    (updateGame_completes s = false → (updateGame s r).tailHistory = s.tailHistory) ∧
    (s.tailHistory.length ≤ s.dragon.tailLength * 5 + 5 →
      (updateGame s r).tailHistory.length ≤ (updateGame s r).dragon.tailLength * 5 + 5) ∧
    (∀ rs : List Draws,
      (updateGame_ticks rs (resetGame s)).tailHistory <:+
        updateGame_ticks_positions rs (resetGame s)) := by
  refine ⟨Session.tailHistory_length, ?_, ?_, updateGame_tailHistory_length s r, ?_⟩
  · intro hc
    obtain ⟨e, -⟩ := updateGame_tailHistory_of_completes s r hc
    rw [e, List.length_append, List.length_singleton]
  · intro hc
    obtain ⟨y, v, e⟩ := updateGame_of_not_completes s r hc
    rw [e, gameOver_tailHistory]
    rfl
  · intro rs
    have := updateGame_ticks_tailHistory_suffix rs (resetGame s)
    simpa [resetGame, updateUI] using this

theorem tailHistory_capped_witness :
    Reachable gemRun_302 ∧ gemRun_302.tailHistory.length = 25 ∧
    gemRun_302.dragon.tailLength * 5 + 5 = 25 ∧
    updateGame_completes gemRun_302 = true ∧
    (updateGame gemRun_302 gemScript.draws).tailHistory.length ≤
      (updateGame gemRun_302 gemScript.draws).dragon.tailLength * 5 + 5 :=
  have h := tailHistory_capped gemRun_302 gemScript.draws
  ⟨gemRun_302_reachable, by decide, by decide, by decide!,
    h.2.2.2.1 (h.1 gemRun_302_reachable)⟩

/-! ## Collectible spawning -/

theorem narrowRun_100_run : narrowScript.run 100 0 fresh320 = some narrowRun_100 := by
  decide!

theorem narrowRun_200_run : narrowScript.run 100 100 narrowRun_100 = some narrowRun_200 := by
  decide!

theorem narrowRun_300_run : narrowScript.run 100 200 narrowRun_200 = some narrowRun_300 := by
  decide!

theorem narrowRun_399_run : narrowScript.run 99 300 narrowRun_300 = some narrowRun_399 := by
  decide!

theorem narrowRun_399_played : Played narrowRun_399 :=
  narrowScript.run_session _ _ _ _
    (narrowScript.run_session _ _ _ _
      (narrowScript.run_session _ _ _ _
        (narrowScript.run_session _ _ _ _ (Session.reset _) narrowRun_100_run)
        narrowRun_200_run)
      narrowRun_300_run)
    narrowRun_399_run

theorem spawnCollectibles_of_safe (s : State) (o : Obstacle)
    (ht : s.collectibleSpawnTimer ≥ 200) (ho : s.obstacles.getLast? = some o)
    (hs : isSafeSpawnPosition s o.x (o.gapY + o.gapSize / 2) = true) :
    spawnCollectibles s = { s with
      collectibleSpawnTimer := 0,
      collectibles := s.collectibles ++ [gemAt (o.x + 40) (o.gapY + o.gapSize / 2)] } := by
  have hlen : s.obstacles.length > 0 := by
    cases hl : s.obstacles with
    | nil => rw [hl] at ho; simp at ho
    | cons a l => simp
  have hget : s.obstacles[s.obstacles.length - 1]? = some o := by
    rw [← List.getLast?_eq_getElem?]
    exact ho
  have hsafe : isSafeSpawnPosition { s with collectibleSpawnTimer := 0 } o.x
      (o.gapY + o.gapSize / 2) = isSafeSpawnPosition s o.x (o.gapY + o.gapSize / 2) := rfl
  have h200 : collectibleSpawnInterval = 200 := rfl
  have h40 : obstacleWidth / 2 = 40 := by norm_num [obstacleWidth]
  simp only [spawnCollectibles, h200]
  rw [if_pos ⟨ht, hlen⟩]
  simp only [hget, hsafe, hs, if_true, h40, gemAt]

theorem spawnCollectibles_of_unsafe (s : State) (o : Obstacle)
    (ht : s.collectibleSpawnTimer ≥ 200) (ho : s.obstacles.getLast? = some o)
    (hs : isSafeSpawnPosition s o.x (o.gapY + o.gapSize / 2) = false) :
    spawnCollectibles s = { s with collectibleSpawnTimer := 0 } := by
  have hlen : s.obstacles.length > 0 := by
    cases hl : s.obstacles with
    | nil => rw [hl] at ho; simp at ho
    | cons a l => simp
  have hget : s.obstacles[s.obstacles.length - 1]? = some o := by
    rw [← List.getLast?_eq_getElem?]
    exact ho
  have hsafe : isSafeSpawnPosition { s with collectibleSpawnTimer := 0 } o.x
      (o.gapY + o.gapSize / 2) = isSafeSpawnPosition s o.x (o.gapY + o.gapSize / 2) := rfl
  have h200 : collectibleSpawnInterval = 200 := rfl
  simp only [spawnCollectibles, h200]
  rw [if_pos ⟨ht, hlen⟩]
  simp only [hget, hsafe, hs, Bool.false_eq_true, if_false]

theorem spawnCollectibles_of_not_due (s : State)
    (h : ¬ (s.collectibleSpawnTimer ≥ 200 ∧ s.obstacles ≠ [])) : spawnCollectibles s = s := by
  have h200 : collectibleSpawnInterval = 200 := rfl
  simp only [spawnCollectibles, h200]
  rw [if_neg]
  rintro ⟨h1, h2⟩
  exact h ⟨h1, fun e => by rw [e] at h2; simp at h2⟩

/-- C23: where `spawnCollectibles` places a collectible and which point it
tests. When the timer has reached 200 and there is an obstacle, the timer is
reset and, with `o` the last obstacle, the safety predicate is evaluated at
`(o.x, o.gapY + o.gapSize / 2)`, the left edge of the obstacle at the height of
the gap centre; when it holds, one collectible is appended at
`(o.x + 40, o.gapY + o.gapSize / 2)`, the middle of the obstacle, 40 to the
right of the tested point; otherwise nothing is appended. So the tested point
passes the predicate, not the point of placement. In the run `narrowScript` in
a window 320 wide, the tick from the played state `narrowRun_399` runs
`spawnCollectibles` on `narrowSpawn`, where the last obstacle is at `x = 20`
with gap centre 300 and the dragon is at (150, 281): the tested point (20, 300)
is safe, the collectible is placed at (60, 300), which is within 100 of the
dragon and fails the predicate, and it is in the state after the tick.
`spawnPowerups` tests the point at which it places. -/
theorem spawnCollectibles_tests_left_edge :
    (∀ (s : State) (o : Obstacle), s.collectibleSpawnTimer ≥ 200 →
      s.obstacles.getLast? = some o →
      isSafeSpawnPosition s o.x (o.gapY + o.gapSize / 2) = true →
      spawnCollectibles s = { s with
        collectibleSpawnTimer := 0,
        collectibles := s.collectibles ++ [gemAt (o.x + 40) (o.gapY + o.gapSize / 2)] }) ∧
    (∀ (s : State) (o : Obstacle), s.collectibleSpawnTimer ≥ 200 →
      s.obstacles.getLast? = some o →
      isSafeSpawnPosition s o.x (o.gapY + o.gapSize / 2) = false →
      spawnCollectibles s = { s with collectibleSpawnTimer := 0 }) ∧
    (∀ s : State, ¬ (s.collectibleSpawnTimer ≥ 200 ∧ s.obstacles ≠ []) →
      spawnCollectibles s = s) ∧
    (Played narrowRun_399 ∧ narrowRun_399.gameState = GameState.playing ∧
      updateGame_beforeSpawnCollectibles narrowRun_399 narrowScript.draws = some narrowSpawn ∧
      narrowSpawn.obstacles.getLast? =
        some { x := 20, gapY := 150, gapSize := 300, passed := false } ∧
      narrowSpawn.dragon.x = 150 ∧ narrowSpawn.dragon.y = 281 ∧
      isSafeSpawnPosition narrowSpawn 20 300 = true ∧
      (spawnCollectibles narrowSpawn).collectibles = [gemAt 60 300] ∧
      hypot_lt (60 - narrowSpawn.dragon.x) (300 - narrowSpawn.dragon.y) 100 = true ∧
      isSafeSpawnPosition narrowSpawn 60 300 = false ∧
      isSafeSpawnPosition (spawnCollectibles narrowSpawn) 60 300 = false ∧
      Played (updateGame narrowRun_399 narrowScript.draws) ∧
      (updateGame narrowRun_399 narrowScript.draws).collectibles = [gemAt 60 300] ∧
      (updateGame narrowRun_399 narrowScript.draws).dragon.x = 150 ∧
      (updateGame narrowRun_399 narrowScript.draws).dragon.y = 281) ∧
    (∀ (s : State) (r : Draws), (spawnPowerups s r).powerups = s.powerups ∨
      (isSafeSpawnPosition s s.canvasWidth (r.height * (s.canvasHeight - 200) + 100) = true ∧
        (spawnPowerups s r).powerups = s.powerups ++
          [{ x := s.canvasWidth, y := r.height * (s.canvasHeight - 200) + 100,
             type := spawnPowerups_type r.type, rotation := 0, pulse := 0 }])) := by
  have hplaying : narrowRun_399.gameState = GameState.playing := by decide!
  refine ⟨spawnCollectibles_of_safe, spawnCollectibles_of_unsafe, spawnCollectibles_of_not_due,
    ⟨narrowRun_399_played, hplaying, by decide!, by decide!, by decide!, by decide!, by decide!,
      by decide!, by decide!, by decide!, by decide!,
      Session.tick _ narrowRun_399_played hplaying, by decide!, by decide!, by decide!⟩, ?_⟩
  intro s r
  have hsafe : ∀ y, isSafeSpawnPosition { s with powerupSpawnTimer := 0 } s.canvasWidth y =
      isSafeSpawnPosition s s.canvasWidth y := fun _ => rfl
  simp only [spawnPowerups]
  by_cases h1 : s.powerupSpawnTimer ≥ powerupSpawnInterval ∧ r.gate < 3 / 10 ∧
      s.activePowerup = none
  · rw [if_pos h1, hsafe]
    by_cases h2 : isSafeSpawnPosition s s.canvasWidth
        (r.height * (s.canvasHeight - 200) + 100) = true
    · rw [if_pos h2]
      exact Or.inr ⟨h2, rfl⟩
    · rw [if_neg h2]
      exact Or.inl rfl
  · rw [if_neg h1]
    exact Or.inl rfl

/-! ## Power-up spawning -/

/-- C24: `spawnPowerups` with its draws. Let the gate be
`powerupSpawnTimer ≥ 800`, gate draw `< 0.3` and no active effect, and let
`y = height draw * (canvas.height - 200) + 100`. If the gate holds and
`isSafeSpawnPosition(canvas.width, y)` holds, the timer is reset to 0 and one
power-up is appended at `(canvas.width, y)` with rotation 0, pulse 0 and type
shield or slowmo (shield for a type draw in `[0, 1/2)`, slowmo for one in
`[1/2, 1)`). If the gate holds and the position is not safe, only the timer is
reset: the attempt is skipped. If the gate fails nothing changes. So a
power-up is added exactly when the gate and the safety test hold, and never
while an effect is active. -/
theorem spawnPowerups_cases (s : State) (r : Draws) :
    (s.powerupSpawnTimer ≥ 800 ∧ r.gate < 3 / 10 ∧ s.activePowerup = none ∧
      isSafeSpawnPosition s s.canvasWidth (r.height * (s.canvasHeight - 200) + 100) = true →
      spawnPowerups s r = { s with
        powerupSpawnTimer := 0,
        powerups := s.powerups ++
          [{ x := s.canvasWidth, y := r.height * (s.canvasHeight - 200) + 100,
             type := spawnPowerups_type r.type, rotation := 0, pulse := 0 }] }) ∧
    (s.powerupSpawnTimer ≥ 800 ∧ r.gate < 3 / 10 ∧ s.activePowerup = none ∧
      isSafeSpawnPosition s s.canvasWidth (r.height * (s.canvasHeight - 200) + 100) = false →
      spawnPowerups s r = { s with powerupSpawnTimer := 0 }) ∧
    (¬ (s.powerupSpawnTimer ≥ 800 ∧ r.gate < 3 / 10 ∧ s.activePowerup = none) →
      spawnPowerups s r = s) ∧
    ((spawnPowerups s r).powerups ≠ s.powerups ↔
      s.powerupSpawnTimer ≥ 800 ∧ r.gate < 3 / 10 ∧ s.activePowerup = none ∧
      isSafeSpawnPosition s s.canvasWidth (r.height * (s.canvasHeight - 200) + 100) = true) ∧
    (s.activePowerup ≠ none → (spawnPowerups s r).powerups = s.powerups) ∧
    (spawnPowerups_type r.type = PowerupType.shield ∨
      spawnPowerups_type r.type = PowerupType.slowmo) ∧
    (0 ≤ r.type ∧ r.type < 1 / 2 → spawnPowerups_type r.type = PowerupType.shield) ∧
    (1 / 2 ≤ r.type ∧ r.type < 1 → spawnPowerups_type r.type = PowerupType.slowmo) := by
  have hsafe : ∀ y, isSafeSpawnPosition { s with powerupSpawnTimer := 0 } s.canvasWidth y =
      isSafeSpawnPosition s s.canvasWidth y := fun _ => rfl
  have h800 : powerupSpawnInterval = 800 := rfl
  have c1 : s.powerupSpawnTimer ≥ 800 ∧ r.gate < 3 / 10 ∧ s.activePowerup = none ∧
      isSafeSpawnPosition s s.canvasWidth (r.height * (s.canvasHeight - 200) + 100) = true →
      spawnPowerups s r = { s with
        powerupSpawnTimer := 0,
        powerups := s.powerups ++
          [{ x := s.canvasWidth, y := r.height * (s.canvasHeight - 200) + 100,
             type := spawnPowerups_type r.type, rotation := 0, pulse := 0 }] } := by
    rintro ⟨h1, h2, h3, h4⟩
    simp only [spawnPowerups, h800]
    rw [if_pos ⟨h1, h2, h3⟩, hsafe, if_pos h4]
  have c2 : s.powerupSpawnTimer ≥ 800 ∧ r.gate < 3 / 10 ∧ s.activePowerup = none ∧
      isSafeSpawnPosition s s.canvasWidth (r.height * (s.canvasHeight - 200) + 100) = false →
      spawnPowerups s r = { s with powerupSpawnTimer := 0 } := by
    rintro ⟨h1, h2, h3, h4⟩
    simp only [spawnPowerups, h800]
    rw [if_pos ⟨h1, h2, h3⟩, hsafe, h4]
    simp
  have c3 : ¬ (s.powerupSpawnTimer ≥ 800 ∧ r.gate < 3 / 10 ∧ s.activePowerup = none) →
      spawnPowerups s r = s := by
    intro h
    simp only [spawnPowerups, h800]
    rw [if_neg h]
  refine ⟨c1, c2, c3, ?_, ?_, ?_, ?_, ?_⟩
  · constructor
    · intro hne
      by_contra hcon
      apply hne
      by_cases hg : s.powerupSpawnTimer ≥ 800 ∧ r.gate < 3 / 10 ∧ s.activePowerup = none
      · have hs : isSafeSpawnPosition s s.canvasWidth
            (r.height * (s.canvasHeight - 200) + 100) = false := by
          cases hv : isSafeSpawnPosition s s.canvasWidth
            (r.height * (s.canvasHeight - 200) + 100) with
          | false => rfl
          | true => exact absurd ⟨hg.1, hg.2.1, hg.2.2, hv⟩ hcon
        rw [c2 ⟨hg.1, hg.2.1, hg.2.2, hs⟩]
      · rw [c3 hg]
    · intro h
      rw [c1 h]
      simp
  · intro h
    rw [c3 (fun hg => h hg.2.2)]
  · unfold spawnPowerups_type
    split_ifs
    · exact Or.inl rfl
    · exact Or.inr rfl
  · rintro ⟨h0, h1⟩
    unfold spawnPowerups_type
    rw [if_pos]
    rw [Int.floor_eq_iff]
    constructor
    · push_cast
      linarith
    · push_cast
      linarith
  · rintro ⟨h0, h1⟩
    unfold spawnPowerups_type
    rw [if_neg]
    rw [Int.floor_eq_iff]
    push_cast
    intro h
    linarith [h.2]

/-! ## The population updates are map-then-filter -/

/-- C25: the reverse-index loops with in-place removal equal map-then-filter.
`updateObstacles` adds 1 to the obstacle spawn timer and replaces the
obstacles by the reference list: every obstacle moved left by
`3 * gameSpeed`, keeping in their order exactly those with `x + 80 ≥ 0` after
the move; nothing else in the state changes. So every kept obstacle is an
original one moved and on screen, and every original obstacle that is on
screen after the move is kept. `updateCollectibles` (width 25) and
`updatePowerups` (width 30) do the same for their populations and timers. -/
theorem population_updates_eq_reference (s : State) :
    (updateObstacles s = { s with
        obstacleSpawnTimer := s.obstacleSpawnTimer + 1,
        obstacles := updateObstacles_reference s.gameSpeed s.obstacles } ∧
      (∀ o ∈ (updateObstacles s).obstacles, o.x + 80 ≥ 0 ∧
        ∃ o0 ∈ s.obstacles, o = { o0 with x := o0.x - 3 * s.gameSpeed }) ∧
      (∀ o0 ∈ s.obstacles, o0.x - 3 * s.gameSpeed + 80 ≥ 0 →
        { o0 with x := o0.x - 3 * s.gameSpeed } ∈ (updateObstacles s).obstacles) ∧
      (updateObstacles s).obstacles.Sublist
        (s.obstacles.map (fun o => { o with x := o.x - 3 * s.gameSpeed }))) ∧
    (updateCollectibles s = { s with
        collectibleSpawnTimer := s.collectibleSpawnTimer + 1,
        collectibles := updateCollectibles_reference s.gameSpeed s.collectibles } ∧
      (∀ c ∈ (updateCollectibles s).collectibles, c.x + 25 ≥ 0 ∧
        ∃ c0 ∈ s.collectibles,
          c = { c0 with x := c0.x - 3 * s.gameSpeed, rotation := c0.rotation + 2 }) ∧
      (∀ c0 ∈ s.collectibles, c0.x - 3 * s.gameSpeed + 25 ≥ 0 →
        { c0 with x := c0.x - 3 * s.gameSpeed, rotation := c0.rotation + 2 } ∈
          (updateCollectibles s).collectibles)) ∧
    (updatePowerups s = { s with
        powerupSpawnTimer := s.powerupSpawnTimer + 1,
        powerups := updatePowerups_reference s.gameSpeed s.powerups } ∧
      (∀ p ∈ (updatePowerups s).powerups, p.x + 30 ≥ 0 ∧
        ∃ p0 ∈ s.powerups, p = { p0 with
          x := p0.x - 3 * s.gameSpeed, rotation := p0.rotation + 3,
          pulse := p0.pulse + 1 / 10 }) ∧
      (∀ p0 ∈ s.powerups, p0.x - 3 * s.gameSpeed + 30 ≥ 0 →
        { p0 with x := p0.x - 3 * s.gameSpeed, rotation := p0.rotation + 3,
                  pulse := p0.pulse + 1 / 10 } ∈ (updatePowerups s).powerups)) := by
  have hO : (updateObstacles s).obstacles = updateObstacles_reference s.gameSpeed s.obstacles := by
    simp only [updateObstacles, updateObstacles_reference]
    rw [updateObstacles_loop_eq_sweep, sweep_eq _ _ _ _ (le_refl _)]
    simp only [List.take_length, List.drop_length, List.append_nil, obstacleSpeed,
      obstacleWidth]
    apply List.filter_congr
    intro a _
    by_cases h : a.x + 80 < 0
    · simp [h, not_le.mpr h]
    · simp [h, not_lt.mp h]
  have hC : (updateCollectibles s).collectibles =
      updateCollectibles_reference s.gameSpeed s.collectibles := by
    simp only [updateCollectibles, updateCollectibles_reference]
    rw [updateCollectibles_loop_eq_sweep, sweep_eq _ _ _ _ (le_refl _)]
    simp only [List.take_length, List.drop_length, List.append_nil, obstacleSpeed,
      collectibleSize]
    apply List.filter_congr
    intro a _
    by_cases h : a.x + 25 < 0
    · simp [h, not_le.mpr h]
    · simp [h, not_lt.mp h]
  have hP : (updatePowerups s).powerups = updatePowerups_reference s.gameSpeed s.powerups := by
    simp only [updatePowerups, updatePowerups_reference]
    rw [updatePowerups_loop_eq_sweep, sweep_eq _ _ _ _ (le_refl _)]
    simp only [List.take_length, List.drop_length, List.append_nil, obstacleSpeed,
      powerupSize]
    apply List.filter_congr
    intro a _
    by_cases h : a.x + 30 < 0
    · simp [h, not_le.mpr h]
    · simp [h, not_lt.mp h]
  refine ⟨⟨?_, ?_, ?_, ?_⟩, ⟨?_, ?_, ?_⟩, ⟨?_, ?_, ?_⟩⟩
  · rw [← hO]
    rfl
  · intro o ho
    rw [hO, updateObstacles_reference, List.mem_filter, List.mem_map] at ho
    obtain ⟨⟨o0, h0, rfl⟩, hk⟩ := ho
    exact ⟨by simpa using hk, o0, h0, rfl⟩
  · intro o0 h0 hk
    rw [hO, updateObstacles_reference, List.mem_filter, List.mem_map]
    exact ⟨⟨o0, h0, rfl⟩, by simpa using hk⟩
  · rw [hO, updateObstacles_reference]
    exact List.filter_sublist _
  · rw [← hC]
    rfl
  · intro c hc
    rw [hC, updateCollectibles_reference, List.mem_filter, List.mem_map] at hc
    obtain ⟨⟨c0, h0, rfl⟩, hk⟩ := hc
    exact ⟨by simpa using hk, c0, h0, rfl⟩
  · intro c0 h0 hk
    rw [hC, updateCollectibles_reference, List.mem_filter, List.mem_map]
    exact ⟨⟨c0, h0, rfl⟩, by simpa using hk⟩
  · rw [← hP]
    rfl
  · intro p hp
    rw [hP, updatePowerups_reference, List.mem_filter, List.mem_map] at hp
    obtain ⟨⟨p0, h0, rfl⟩, hk⟩ := hp
    exact ⟨by simpa using hk, p0, h0, rfl⟩
  · intro p0 h0 hk
    rw [hP, updatePowerups_reference, List.mem_filter, List.mem_map]
    exact ⟨⟨p0, h0, rfl⟩, by simpa using hk⟩

/-! ## The projectile update against its reference -/

theorem updateFireBreaths_hit_append (f : FireBreath) (l l1 : List Obstacle) (n : Nat)
    (hn : n ≤ l.length) :
    updateFireBreaths_hit f (l ++ l1) n = updateFireBreaths_hit f l n := by
  induction n with
  | zero => rfl
  | succ n ih =>
    have hlt : n < l.length := hn
    rw [updateFireBreaths_hit, updateFireBreaths_hit, List.getElem?_append_left hlt,
      List.getElem?_eq_getElem hlt]
    simp only
    rw [ih (by omega)]

theorem updateFireBreaths_hit_lt (f : FireBreath) (obs : List Obstacle) (n j : Nat)
    (h : updateFireBreaths_hit f obs n = some j) : j < n := by
  induction n with
  | zero => simp [updateFireBreaths_hit] at h
  | succ n ih =>
    rw [updateFireBreaths_hit] at h
    cases ho : obs[n]? with
    | none =>
      rw [ho] at h
      exact Nat.lt_succ_of_lt (ih h)
    | some o =>
      rw [ho] at h
      simp only at h
      split_ifs at h
      · obtain rfl := Option.some.inj h
        exact Nat.lt_succ_self _
      · exact Nat.lt_succ_of_lt (ih h)

theorem updateFireBreaths_hit_spec (f : FireBreath) (obs : List Obstacle) :
    (updateFireBreaths_hit f obs obs.length = none ∧
      obs.any (fun o => checkFireObstacleCollision f o) = false) ∨
    (∃ j, updateFireBreaths_hit f obs obs.length = some j ∧
      obs.any (fun o => checkFireObstacleCollision f o) = true ∧
      obs.eraseIdx j = (obs.reverse.eraseP (fun o => checkFireObstacleCollision f o)).reverse) := by
  induction obs using List.reverseRecOn with
  | nil => exact Or.inl ⟨rfl, rfl⟩
  | append_singleton l o ih =>
    have hlen : (l ++ [o]).length = l.length + 1 := by simp
    have hget : (l ++ [o])[l.length]? = some o := by simp
    rw [hlen, updateFireBreaths_hit, hget]
    simp only
    by_cases hc : checkFireObstacleCollision f o = true
    · right
      refine ⟨l.length, by rw [if_pos hc], by simp [hc], ?_⟩
      rw [List.eraseIdx_append_of_length_le (le_refl _), Nat.sub_self]
      simp [List.eraseP_cons_of_pos hc]
    · rw [if_neg hc, updateFireBreaths_hit_append f l [o] l.length (le_refl _)]
      have hc2 : checkFireObstacleCollision f o = false := by
        cases h : checkFireObstacleCollision f o with
        | false => rfl
        | true => exact absurd h hc
      rcases ih with ⟨h1, h2⟩ | ⟨j, h1, h2, h3⟩
      · left
        refine ⟨h1, ?_⟩
        simp [h2, hc2]
      · right
        refine ⟨j, h1, by simp [h2], ?_⟩
        have hj : j < l.length := updateFireBreaths_hit_lt f l l.length j h1
        rw [List.eraseIdx_append_of_lt_length hj, h3]
        simp [List.eraseP_cons_of_neg hc]

theorem getElem?_append_length {α : Type} (l l1 : List α) : (l ++ l1)[l.length]? = l1[0]? := by
  rw [List.getElem?_append_right (le_refl _), Nat.sub_self]

theorem set_append_length {α : Type} (l l1 : List α) (a b : α) :
    (l ++ a :: l1).set l.length b = l ++ b :: l1 := by
  induction l with
  | nil => rfl
  | cons c l ih => simp [ih]

theorem eraseIdx_append_length {α : Type} (l l1 : List α) (a : α) :
    (l ++ a :: l1).eraseIdx l.length = l ++ l1 := by
  induction l with
  | nil => rfl
  | cons c l ih => simp [ih]

/-- The body of the loop of `updateFireBreaths` at the last unprocessed
projectile `f`, when the projectiles after it have already been processed and
have lifetime left. -/
theorem updateFireBreaths_body_cases (s : State) (pre done : List FireBreath) (f : FireBreath)
    (hs : s.fireBreaths = pre ++ f :: done) (hd : ∀ g ∈ done, 0 < g.lifetime) :
    (s.obstacles.any (fun o => checkFireObstacleCollision (fireBreath_moved f) o) = true ∧
      (updateFireBreaths_body pre.length s).fireBreaths = pre ++ done ∧
      (updateFireBreaths_body pre.length s).obstacles =
        (s.obstacles.reverse.eraseP
          (fun o => checkFireObstacleCollision (fireBreath_moved f) o)).reverse) ∨
    (s.obstacles.any (fun o => checkFireObstacleCollision (fireBreath_moved f) o) = false ∧
      (fireBreath_moved f).lifetime ≤ 0 ∧
      (updateFireBreaths_body pre.length s).fireBreaths = pre ++ done ∧
      (updateFireBreaths_body pre.length s).obstacles = s.obstacles) ∨
    (s.obstacles.any (fun o => checkFireObstacleCollision (fireBreath_moved f) o) = false ∧
      0 < (fireBreath_moved f).lifetime ∧
      (updateFireBreaths_body pre.length s).fireBreaths = pre ++ fireBreath_moved f :: done ∧
      (updateFireBreaths_body pre.length s).obstacles = s.obstacles) := by
  have hget : s.fireBreaths[pre.length]? = some f := by
    rw [hs, getElem?_append_length, List.getElem?_cons_zero]
  have hset : s.fireBreaths.set pre.length (fireBreath_moved f) =
      pre ++ fireBreath_moved f :: done := by
    rw [hs, set_append_length]
  have hbody : updateFireBreaths_body pre.length s =
      updateFireBreaths_expire pre.length (updateFireBreaths_strike pre.length
        (fireBreath_moved f) { s with fireBreaths := pre ++ fireBreath_moved f :: done }) := by
    unfold updateFireBreaths_body
    rw [hget]
    simp only
    rw [← hset]
    rfl
  rw [hbody]
  rcases updateFireBreaths_hit_spec (fireBreath_moved f) s.obstacles with
    ⟨h1, h2⟩ | ⟨j, h1, h2, h3⟩
  · have hstrike : updateFireBreaths_strike pre.length (fireBreath_moved f)
        { s with fireBreaths := pre ++ fireBreath_moved f :: done } =
        { s with fireBreaths := pre ++ fireBreath_moved f :: done } := by
      unfold updateFireBreaths_strike
      simp only [h1]
    rw [hstrike]
    unfold updateFireBreaths_expire
    simp only [getElem?_append_length, List.getElem?_cons_zero]
    by_cases hl : (fireBreath_moved f).lifetime ≤ 0
    · right; left
      rw [if_pos hl]
      exact ⟨h2, hl, eraseIdx_append_length _ _ _, rfl⟩
    · right; right
      rw [if_neg hl]
      exact ⟨h2, by omega, rfl, rfl⟩
  · left
    have hstrike : updateFireBreaths_strike pre.length (fireBreath_moved f)
        { s with fireBreaths := pre ++ fireBreath_moved f :: done } =
        playSound { s with
          obstacles := s.obstacles.eraseIdx j,
          fireBreaths := pre ++ done } Sound.ability := by
      unfold updateFireBreaths_strike
      simp only [h1, eraseIdx_append_length]
    rw [hstrike]
    have hexp : updateFireBreaths_expire pre.length (playSound { s with
          obstacles := s.obstacles.eraseIdx j,
          fireBreaths := pre ++ done } Sound.ability) =
        playSound { s with
          obstacles := s.obstacles.eraseIdx j,
          fireBreaths := pre ++ done } Sound.ability := by
      unfold updateFireBreaths_expire
      simp only [playSound_fireBreaths, getElem?_append_length]
      cases hg : done[0]? with
      | none => rfl
      | some g =>
        simp only
        have hpos := hd g (List.getElem?_mem hg)
        rw [if_neg (by omega)]
    rw [hexp, playSound_fireBreaths, playSound_obstacles]
    exact ⟨h2, rfl, h3⟩

theorem updateFireBreaths_loop_reference (n : Nat) (s : State) (pre done : List FireBreath)
    (hs : s.fireBreaths = pre ++ done) (hn : pre.length = n)
    (hd : ∀ g ∈ done, 0 < g.lifetime) (k e : Nat) :
    (updateFireBreaths_loop n s).fireBreaths =
      (pre.foldr updateFireBreaths_reference_step
        { fireBreaths := done, obstacles := s.obstacles, struck := k, expired := e }).fireBreaths ∧
    (updateFireBreaths_loop n s).obstacles =
      (pre.foldr updateFireBreaths_reference_step
        { fireBreaths := done, obstacles := s.obstacles, struck := k, expired := e }).obstacles := by
  induction n generalizing s pre done k e with
  | zero =>
    have hp : pre = [] := List.eq_nil_of_length_eq_zero hn
    subst hp
    exact ⟨hs, rfl⟩
  | succ n ih =>
    rcases List.eq_nil_or_concat pre with rfl | ⟨pre1, f, hpre⟩
    · simp at hn
    · rw [List.concat_eq_append] at hpre
      subst hpre
      have hn1 : pre1.length = n := by
        rw [List.length_append, List.length_singleton] at hn
        omega
      have hs1 : s.fireBreaths = pre1 ++ f :: done := by
        rw [hs, List.append_assoc]
        rfl
      subst hn1
      rw [updateFireBreaths_loop, List.foldr_append, List.foldr_cons, List.foldr_nil]
      rcases updateFireBreaths_body_cases s pre1 done f hs1 hd with
        ⟨h1, h2, h3⟩ | ⟨h1, h2, h3, h4⟩ | ⟨h1, h2, h3, h4⟩
      · have hstep : updateFireBreaths_reference_step f
            { fireBreaths := done, obstacles := s.obstacles, struck := k, expired := e } =
            { fireBreaths := done, obstacles := (updateFireBreaths_body pre1.length s).obstacles,
              struck := k + 1, expired := e } := by
          unfold updateFireBreaths_reference_step
          simp only [h1, if_true, h3]
        rw [hstep]
        exact ih _ pre1 done h2 rfl hd (k + 1) e
      · have hstep : updateFireBreaths_reference_step f
            { fireBreaths := done, obstacles := s.obstacles, struck := k, expired := e } =
            { fireBreaths := done, obstacles := (updateFireBreaths_body pre1.length s).obstacles,
              struck := k, expired := e + 1 } := by
          unfold updateFireBreaths_reference_step
          simp only [h1, h2, if_true, h4]
          rfl
        rw [hstep]
        exact ih _ pre1 done h3 rfl hd k (e + 1)
      · have hstep : updateFireBreaths_reference_step f
            { fireBreaths := done, obstacles := s.obstacles, struck := k, expired := e } =
            { fireBreaths := fireBreath_moved f :: done,
              obstacles := (updateFireBreaths_body pre1.length s).obstacles,
              struck := k, expired := e } := by
          unfold updateFireBreaths_reference_step
          have h2n : ¬ ((fireBreath_moved f).lifetime ≤ 0) := by omega
          simp only [h1, h2n, if_false, h4]
          rfl
        rw [hstep]
        refine ih _ pre1 (fireBreath_moved f :: done) h3 rfl ?_ k e
        intro g hg
        rcases List.mem_cons.mp hg with rfl | hg
        · exact h2
        · exact hd g hg

theorem updateFireBreaths_eq_reference (s : State) :
    (updateFireBreaths s).fireBreaths =
      (updateFireBreaths_reference s.fireBreaths s.obstacles).fireBreaths ∧
    (updateFireBreaths s).obstacles =
      (updateFireBreaths_reference s.fireBreaths s.obstacles).obstacles :=
  updateFireBreaths_loop_reference s.fireBreaths.length s s.fireBreaths []
    (List.append_nil _).symm rfl (fun _ h => absurd h (List.not_mem_nil _)) 0 0

/-- What the reference guarantees, for any start of the fold. -/
theorem updateFireBreaths_reference_props (fbs : List FireBreath) (acc : FireOutcome) :
    (∀ g ∈ (fbs.foldr updateFireBreaths_reference_step acc).fireBreaths,
      g ∈ acc.fireBreaths ∨ (0 < g.lifetime ∧ ∃ f ∈ fbs, g = fireBreath_moved f)) ∧
    (fbs.foldr updateFireBreaths_reference_step acc).fireBreaths.Sublist
      (fbs.map fireBreath_moved ++ acc.fireBreaths) ∧
    (fbs.foldr updateFireBreaths_reference_step acc).obstacles.Sublist acc.obstacles ∧
    acc.obstacles.length + acc.struck =
      (fbs.foldr updateFireBreaths_reference_step acc).obstacles.length +
        (fbs.foldr updateFireBreaths_reference_step acc).struck ∧
    fbs.length + acc.fireBreaths.length + acc.struck + acc.expired =
      (fbs.foldr updateFireBreaths_reference_step acc).fireBreaths.length +
        (fbs.foldr updateFireBreaths_reference_step acc).struck +
        (fbs.foldr updateFireBreaths_reference_step acc).expired := by
  induction fbs with
  | nil =>
    refine ⟨fun g hg => Or.inl hg, ?_, List.Sublist.refl _, rfl, ?_⟩
    · simp
    · simp
  | cons f fbs ih =>
    obtain ⟨i1, i2, i3, i4, i5⟩ := ih
    rw [List.foldr_cons]
    generalize fbs.foldr updateFireBreaths_reference_step acc = out at i1 i2 i3 i4 i5 ⊢
    unfold updateFireBreaths_reference_step
    by_cases h1 : out.obstacles.any
        (fun o => checkFireObstacleCollision (fireBreath_moved f) o) = true
    · rw [if_pos h1]
      simp only
      obtain ⟨o, ho, hc⟩ := List.any_eq_true.mp h1
      have hlen : (out.obstacles.reverse.eraseP
          (fun o => checkFireObstacleCollision (fireBreath_moved f) o)).reverse.length + 1 =
          out.obstacles.length := by
        rw [List.length_reverse, List.length_eraseP_of_mem (List.mem_reverse.mpr ho) hc,
          List.length_reverse]
        have := List.length_pos_of_mem ho
        omega
      refine ⟨?_, ?_, ?_, ?_, ?_⟩
      · intro g hg
        rcases i1 g hg with h | ⟨h, f0, hf0, e0⟩
        · exact Or.inl h
        · exact Or.inr ⟨h, f0, List.mem_cons_of_mem _ hf0, e0⟩
      · rw [List.map_cons, List.cons_append]
        exact List.Sublist.cons _ i2
      · refine List.Sublist.trans ?_ i3
        have := (List.eraseP_sublist out.obstacles.reverse
          (p := fun o => checkFireObstacleCollision (fireBreath_moved f) o)).reverse
        rwa [List.reverse_reverse] at this
      · omega
      · rw [List.length_cons]
        omega
    · rw [if_neg h1]
      by_cases h2 : (fireBreath_moved f).lifetime ≤ 0
      · rw [if_pos h2]
        simp only
        refine ⟨?_, ?_, i3, i4, ?_⟩
        · intro g hg
          rcases i1 g hg with h | ⟨h, f0, hf0, e0⟩
          · exact Or.inl h
          · exact Or.inr ⟨h, f0, List.mem_cons_of_mem _ hf0, e0⟩
        · rw [List.map_cons, List.cons_append]
          exact List.Sublist.cons _ i2
        · rw [List.length_cons]
          omega
      · rw [if_neg h2]
        simp only
        refine ⟨?_, ?_, i3, i4, ?_⟩
        · intro g hg
          rcases List.mem_cons.mp hg with rfl | hg
          · exact Or.inr ⟨by omega, f, List.mem_cons_self _ _, rfl⟩
          · rcases i1 g hg with h | ⟨h, f0, hf0, e0⟩
            · exact Or.inl h
            · exact Or.inr ⟨h, f0, List.mem_cons_of_mem _ hf0, e0⟩
        · rw [List.map_cons, List.cons_append]
          exact List.Sublist.cons₂ _ i2
        · rw [List.length_cons, List.length_cons]
          omega

/-- A projectile whose height lies inside the gap band of an obstacle does not
strike it. -/
theorem checkFireObstacleCollision_of_in_gap (f : FireBreath) (o : Obstacle)
    (h1 : o.gapY ≤ f.y) (h2 : f.y ≤ o.gapY + o.gapSize) :
    checkFireObstacleCollision f o = false := by
  unfold checkFireObstacleCollision
  rw [decide_eq_false_iff_not]
  rintro ⟨_, _, h | h⟩
  · exact absurd h (not_lt.mpr h1)
  · exact absurd h (not_lt.mpr h2)

/-- C26: one `updateFireBreaths` step. The projectiles and the obstacles after
the step are those of the reference, which takes the projectiles once each from
the last to the first, moves each by 8 and reduces its lifetime by exactly 1,
and then: if the moved projectile strikes one of the obstacles that remain, the
projectile goes and so does exactly one obstacle (the last that it strikes);
otherwise, if its lifetime is now 0 or less, the projectile goes; otherwise it
stays. The strike test is `fire.x + 15 > obstacle.x`, `fire.x < obstacle.x + 80`
and `fire.y` outside `[gapY, gapY + gapSize]`. Hence the survivors are moved
originals in their order, each with lifetime > 0; the obstacles that remain are
original ones in their order; the number of obstacles removed equals the number
of projectiles removed by a strike; each projectile is a survivor, struck or
expired; a projectile whose height lies inside the gap band of every remaining
obstacle removes none; and when no projectile is outside the gap band of any
obstacle, no obstacle is removed. With positive lifetimes before the step,
lifetime 0 or less after it means lifetime 0. -/
theorem updateFireBreaths_step_eq_reference (s : State) :
    (updateFireBreaths s).fireBreaths =
      (updateFireBreaths_reference s.fireBreaths s.obstacles).fireBreaths ∧
    (updateFireBreaths s).obstacles =
      (updateFireBreaths_reference s.fireBreaths s.obstacles).obstacles ∧
    (∃ snd, updateFireBreaths s = { s with
      fireBreaths := (updateFireBreaths_reference s.fireBreaths s.obstacles).fireBreaths,
      obstacles := (updateFireBreaths_reference s.fireBreaths s.obstacles).obstacles,
      soundCooldowns := snd }) ∧
    (∀ (f : FireBreath) (o : Obstacle), checkFireObstacleCollision f o = true ↔
      (f.x + 15 > o.x ∧ f.x < o.x + 80 ∧ (f.y < o.gapY ∨ f.y > o.gapY + o.gapSize))) ∧
    (∀ g ∈ (updateFireBreaths s).fireBreaths, 0 < g.lifetime ∧
      ∃ f ∈ s.fireBreaths, g = { f with x := f.x + 8, lifetime := f.lifetime - 1 }) ∧
    (updateFireBreaths s).fireBreaths.Sublist
      (s.fireBreaths.map (fun f => { f with x := f.x + 8, lifetime := f.lifetime - 1 })) ∧
    (updateFireBreaths s).obstacles.Sublist s.obstacles ∧
    s.obstacles.length = (updateFireBreaths s).obstacles.length +
      (updateFireBreaths_reference s.fireBreaths s.obstacles).struck ∧
    s.fireBreaths.length = (updateFireBreaths s).fireBreaths.length +
      (updateFireBreaths_reference s.fireBreaths s.obstacles).struck +
      (updateFireBreaths_reference s.fireBreaths s.obstacles).expired ∧
    (∀ (f : FireBreath) (acc : FireOutcome),
      (∀ o ∈ acc.obstacles, o.gapY ≤ f.y ∧ f.y ≤ o.gapY + o.gapSize) →
      (updateFireBreaths_reference_step f acc).obstacles = acc.obstacles ∧
      (updateFireBreaths_reference_step f acc).struck = acc.struck) ∧
    ((∀ f ∈ s.fireBreaths, ∀ o ∈ s.obstacles, o.gapY ≤ f.y ∧ f.y ≤ o.gapY + o.gapSize) →
      (updateFireBreaths s).obstacles = s.obstacles ∧
      (updateFireBreaths_reference s.fireBreaths s.obstacles).struck = 0) ∧
    (∀ f ∈ s.fireBreaths, 0 < f.lifetime →
      ((fireBreath_moved f).lifetime ≤ 0 ↔ (fireBreath_moved f).lifetime = 0)) := by
  obtain ⟨hF, hO⟩ := updateFireBreaths_eq_reference s
  obtain ⟨p1, p2, p3, p4, p5⟩ := updateFireBreaths_reference_props s.fireBreaths
    { fireBreaths := [], obstacles := s.obstacles, struck := 0, expired := 0 }
  have hstep : ∀ (f : FireBreath) (acc : FireOutcome),
      (∀ o ∈ acc.obstacles, o.gapY ≤ f.y ∧ f.y ≤ o.gapY + o.gapSize) →
      (updateFireBreaths_reference_step f acc).obstacles = acc.obstacles ∧
      (updateFireBreaths_reference_step f acc).struck = acc.struck := by
    intro f acc h
    have hany : acc.obstacles.any
        (fun o => checkFireObstacleCollision (fireBreath_moved f) o) = false := by
      rw [List.any_eq_false]
      intro o ho
      rw [checkFireObstacleCollision_of_in_gap (fireBreath_moved f) o (h o ho).1 (h o ho).2]
      exact Bool.false_ne_true
    unfold updateFireBreaths_reference_step
    rw [hany]
    simp only [Bool.false_eq_true, if_false]
    split_ifs <;> exact ⟨rfl, rfl⟩
  refine ⟨hF, hO, ?_, ?_, ?_, ?_, ?_, ?_, ?_, hstep, ?_, ?_⟩
  · obtain ⟨fbs, obs, snd, e⟩ := updateFireBreaths_eq s
    refine ⟨snd, ?_⟩
    have e1 : fbs = (updateFireBreaths s).fireBreaths := by rw [e]
    have e2 : obs = (updateFireBreaths s).obstacles := by rw [e]
    rw [← hF, ← hO, ← e1, ← e2]
    exact e
  · intro f o
    unfold checkFireObstacleCollision
    rw [decide_eq_true_iff]
    rfl
  · intro g hg
    rw [hF] at hg
    rcases p1 g hg with h | ⟨h, f, hf, e⟩
    · exact absurd h (List.not_mem_nil _)
    · exact ⟨h, f, hf, e⟩
  · rw [hF]
    have := p2
    rw [List.append_nil] at this
    exact this
  · rw [hO]
    exact p3
  · rw [hO]
    have := p4
    simpa using this
  · rw [hF]
    have := p5
    simpa using this
  · intro h
    have key : ∀ (fbs : List FireBreath) (acc : FireOutcome),
        (∀ f ∈ fbs, ∀ o ∈ acc.obstacles, o.gapY ≤ f.y ∧ f.y ≤ o.gapY + o.gapSize) →
        (fbs.foldr updateFireBreaths_reference_step acc).obstacles = acc.obstacles ∧
        (fbs.foldr updateFireBreaths_reference_step acc).struck = acc.struck := by
      intro fbs acc
      induction fbs with
      | nil => intro _; exact ⟨rfl, rfl⟩
      | cons f fbs ih =>
        intro hh
        obtain ⟨i1, i2⟩ := ih (fun f0 h0 => hh f0 (List.mem_cons_of_mem _ h0))
        rw [List.foldr_cons]
        obtain ⟨j1, j2⟩ := hstep f (fbs.foldr updateFireBreaths_reference_step acc) (by
          rw [i1]
          exact hh f (List.mem_cons_self _ _))
        exact ⟨j1.trans i1, j2.trans i2⟩
    obtain ⟨k1, k2⟩ := key s.fireBreaths
      { fireBreaths := [], obstacles := s.obstacles, struck := 0, expired := 0 } h
    exact ⟨hO.trans k1, k2⟩
  · intro f _ hl
    have : (fireBreath_moved f).lifetime = f.lifetime - 1 := rfl
    omega

/-! ## An active shield can be left with nothing to count it down -/

theorem updateGame_powerup_shield (s : State) :
    (updateGame_powerup s).abilities.shield =
      (if s.activePowerup = some PowerupType.shield ∧ s.powerupDuration - 1 ≤ 0 then
        { s.abilities.shield with active := false }
       else s.abilities.shield) := by
  simp only [updateGame_powerup, deactivatePowerup]
  by_cases h1 : s.activePowerup = none
  · simp [h1]
  · by_cases h2 : s.powerupDuration - 1 ≤ 0
    · by_cases h3 : s.activePowerup = some PowerupType.shield
      · simp [h2, h3]
      · by_cases h4 : s.activePowerup = some PowerupType.slowmo
        · simp [h2, h4]
        · simp [h1, h2, h3, h4]
    · simp [h1, h2]

theorem updateGame_advance_shield (s : State) :
    (updateGame_advance s).abilities.shield =
      (if s.activePowerup = some PowerupType.shield ∧ s.powerupDuration - 1 ≤ 0 then
        { (updateAbilities s).abilities.shield with active := false }
       else (updateAbilities s).abilities.shield) := by
  have hfb : (updateFireBreaths (updatePowerups (updateCollectibles (updateObstacles
      (updateTail (updateGame_history s)))))).abilities = s.abilities := by
    simp only [updateFireBreaths_abilities, updatePowerups_abilities,
      updateCollectibles_abilities, updateObstacles_abilities, updateTail_abilities,
      updateGame_history_abilities]
  have h1 : (updateAbilities (updateFireBreaths (updatePowerups (updateCollectibles
      (updateObstacles (updateTail (updateGame_history s))))))).activePowerup =
      s.activePowerup := by
    simp only [updateAbilities_activePowerup, updateFireBreaths_activePowerup,
      updatePowerups_activePowerup, updateCollectibles_activePowerup,
      updateObstacles_activePowerup, updateTail_activePowerup,
      updateGame_history_activePowerup]
  have h2 : (updateAbilities (updateFireBreaths (updatePowerups (updateCollectibles
      (updateObstacles (updateTail (updateGame_history s))))))).powerupDuration =
      s.powerupDuration := by
    simp only [updateAbilities_powerupDuration, updateFireBreaths_powerupDuration,
      updatePowerups_powerupDuration, updateCollectibles_powerupDuration,
      updateObstacles_powerupDuration, updateTail_powerupDuration,
      updateGame_history_powerupDuration]
  have h3 := updateAbilities_abilities_congr s _ hfb
  have h4 : (updateGame_advance s).abilities.shield =
      (updateGame_powerup (updateAbilities (updateFireBreaths (updatePowerups
        (updateCollectibles (updateObstacles (updateTail
          (updateGame_history s)))))))).abilities.shield := by
    simp only [updateGame_advance, updateGame_sounds_abilities]
  rw [h4, updateGame_powerup_shield, h1, h2, h3]

/-- The Shield record at the end of a tick that collects no power-up. -/
theorem updateGame_shield_of_undisturbed (s : State) (r : Draws)
    (h : updateGame_undisturbed s = true) :
    ∃ t : State,
      t.abilities.shield =
        (if s.activePowerup = some PowerupType.shield ∧ s.powerupDuration - 1 ≤ 0 then
          { (updateAbilities s).abilities.shield with active := false }
         else (updateAbilities s).abilities.shield) ∧
      (updateGame s r).abilities = (updateUI (checkEvolution t)).abilities := by
  unfold updateGame_undisturbed at h
  cases hp : updateGame_beforeCollisions s with
  | none => simp [hp] at h
  | some p =>
    rw [hp] at h
    simp only [List.all_eq_true, Bool.not_eq_true'] at h
    obtain ⟨e, -, -, -⟩ := updateGame_of_beforeCollisions s p r hp
    obtain ⟨-, -, -, c4⟩ := checkCollisions_fields_of_untouched p h
    have hp2 : ∃ y v, p = updateGame_advance { updateGame_physics s with
        dragon := { (updateGame_physics s).dragon with y := y, velocity := v } } := by
      unfold updateGame_beforeCollisions at hp
      cases hb : updateGame_boundary (updateGame_physics s) with
      | fatal s1 => simp [hb] at hp
      | proceed s1 =>
        rw [hb] at hp
        obtain rfl := Option.some.inj hp
        obtain ⟨y, v, rfl⟩ := updateGame_boundary_proceed_eq _ _ hb
        exact ⟨y, v, rfl⟩
    obtain ⟨y, v, hpe⟩ := hp2
    refine ⟨checkCollisions p, ?_, by rw [e, updateGame_finish_abilities]⟩
    rw [c4, hpe, updateGame_advance_shield]
    have hab : (updateAbilities { updateGame_physics s with
        dragon := { (updateGame_physics s).dragon with y := y, velocity := v } }).abilities =
        (updateAbilities s).abilities := updateAbilities_abilities_congr s _ rfl
    rw [hab]
    rfl

theorem updateGame_shieldStuck (s : State) (r : Draws)
    (hu : updateGame_undisturbed s = true) (h : shieldStuck s) :
    shieldStuck (updateGame s r) := by
  obtain ⟨ha, hc, hp⟩ := h
  obtain ⟨t, ht, e⟩ := updateGame_shield_of_undisturbed s r hu
  obtain ⟨f1, -, -⟩ := updateGame_fields_of_undisturbed s r hu
  have hua : (updateAbilities s).abilities.shield = s.abilities.shield := by
    rw [updateAbilities_shield, if_neg (by omega)]
  rw [if_neg (fun hh => hp hh.1), hua] at ht
  have hce : (checkEvolution t).abilities.shield.active = true ∧
      (checkEvolution t).abilities.shield.cooldown = 0 := by
    rw [checkEvolution_shield, ht]
    split_ifs
    · exact ⟨ha, rfl⟩
    · exact ⟨ha, hc⟩
  have hui : (updateUI (checkEvolution t)).abilities.shield =
      (checkEvolution t).abilities.shield := by
    rw [updateUI_abilities]
    simp [hce.1]
  refine ⟨by rw [e, hui]; exact hce.1, by rw [e, hui]; exact hce.2, ?_⟩
  rw [f1]
  split_ifs
  · simp
  · exact hp

theorem updateGame_ticks_shieldStuck (rs : List Draws) (s : State)
    (hu : updateGame_ticks_undisturbed rs s = true) (h : shieldStuck s) :
    shieldStuck (updateGame_ticks rs s) := by
  induction rs generalizing s with
  | nil => exact h
  | cons r rs ih =>
    simp only [updateGame_ticks_undisturbed, Bool.and_eq_true] at hu
    exact ih (updateGame s r) hu.2 (updateGame_shieldStuck s r hu.1 h)

theorem shieldTimed_useShield (s : State) (h : shieldTimed s) : shieldTimed (useShield s) := by
  by_cases hg : shieldGate s
  · rw [useShield_of_gate s hg]
    unfold shieldTimed
    simp
  · rw [useShield_of_not_gate s hg]
    exact h

theorem shieldTimed_deactivatePowerup (s : State) (h : shieldTimed s) :
    shieldTimed (deactivatePowerup s) := by
  unfold shieldTimed at h ⊢
  simp only [deactivatePowerup]
  by_cases h1 : s.activePowerup = some PowerupType.shield
  · simp [h1]
  · by_cases h2 : s.activePowerup = some PowerupType.slowmo
    · simp only [h2]
      simp only [h2] at h
      intro ha
      rcases h ha with hh | hh
      · exact Or.inl hh
      · exact absurd hh (by simp)
    · simp only [h1, h2, if_false]
      intro ha
      rcases h ha with hh | hh
      · exact Or.inl hh
      · exact absurd hh h1

theorem shieldTimed_updateAbilities (s : State) (h : shieldTimed s) :
    shieldTimed (updateAbilities s) := by
  unfold shieldTimed at h ⊢
  rw [updateAbilities_shield]
  simp only [updateAbilities_activePowerup]
  by_cases hc : s.abilities.shield.cooldown > 0
  · rw [if_pos hc]
    by_cases h0 : s.abilities.shield.cooldown - 1 = 0
    · rw [if_pos h0]
      split_ifs <;> simp
    · rw [if_neg h0]
      intro _
      exact Or.inl (Nat.pos_of_ne_zero h0)
  · rw [if_neg hc]
    exact h

/-- C27: the shield is not always time-limited. The predicate "shield.active
implies the Shield cooldown is running or the active effect is shield" holds
after `resetGame` and is preserved by `useShield`, by `updateAbilities`, by the
pickup of a collectible, by the pickup of a shield power-up and by the expiry
of a power-up. It is not preserved by the pickup of a slowmo power-up, nor by
`checkEvolution`. In the reachable state `shieldHeld` the shield is active with
cooldown 0 under a shield power-up; picking up a slowmo power-up there
overwrites the effect and leaves the shield active with cooldown 0 and nothing
to clear it. In the reachable state `shieldUnderSlowmo` the shield is active
with cooldown 180 under slowmo; the tick in which the dragon evolves to phoenix
unlocks Shield and sets the cooldown to 0 while the shield stays active. A
shield stuck in this way stays stuck through every tick that collects no
power-up. -/
theorem shield_can_stay_active :
    (∀ s : State, shieldTimed (resetGame s)) ∧
    (∀ s : State, shieldTimed s → shieldTimed (useShield s)) ∧
    (∀ s : State, shieldTimed s → shieldTimed (updateAbilities s)) ∧
    (∀ (s : State) (i : Nat), shieldTimed s → shieldTimed (collectCollectible s i)) ∧
    (∀ s : State, shieldTimed (activatePowerup s PowerupType.shield)) ∧
    (∀ s : State, shieldTimed s → shieldTimed (deactivatePowerup s)) ∧
    (Reachable shieldHeld ∧ shieldHeld.gameState = GameState.playing ∧ shieldTimed shieldHeld ∧
      shieldHeld.abilities.shield =
        { unlocked := true, available := true, cooldown := 0, active := true } ∧
      shieldHeld.activePowerup = some PowerupType.shield ∧
      Reachable (activatePowerup shieldHeld PowerupType.slowmo) ∧
      ¬ shieldTimed (activatePowerup shieldHeld PowerupType.slowmo) ∧
      shieldStuck (activatePowerup shieldHeld PowerupType.slowmo)) ∧
    (Reachable shieldUnderSlowmo ∧ shieldUnderSlowmo.gameState = GameState.playing ∧
      shieldTimed shieldUnderSlowmo ∧
      ¬ shieldTimed (checkEvolution shieldUnderSlowmo) ∧
      Reachable (updateGame shieldUnderSlowmo midDraws) ∧
      (updateGame shieldUnderSlowmo midDraws).gameState = GameState.playing ∧
      ¬ shieldTimed (updateGame shieldUnderSlowmo midDraws) ∧
      shieldStuck (updateGame shieldUnderSlowmo midDraws)) ∧
    (∀ (rs : List Draws) (s : State), updateGame_ticks_undisturbed rs s = true →
      shieldStuck s →
      shieldStuck (updateGame_ticks rs s) ∧ ¬ shieldTimed (updateGame_ticks rs s)) := by
  have hstart : shieldStart.gameState = GameState.playing := by decide!
  have hheld : Reachable shieldHeld := Session.tick midDraws shieldStart_reachable hstart
  have hheldp : shieldHeld.gameState = GameState.playing := by decide!
  have hslow0 : Reachable
      (activatePowerup (activatePowerup freshRun PowerupType.shield) PowerupType.slowmo) :=
    Session.pickupPowerup PowerupType.slowmo rfl
      (Session.pickupPowerup PowerupType.shield rfl (Session.mono freshRun_played) (by decide!))
      (by decide!)
  obtain ⟨hslow, hslowp⟩ := reachable_iterate_collectCollectible 12 _ hslow0 (by decide!)
  refine ⟨?_, shieldTimed_useShield, shieldTimed_updateAbilities, ?_, ?_,
    shieldTimed_deactivatePowerup,
    ⟨hheld, hheldp, by decide!, by decide!, by decide!,
      Session.pickupPowerup PowerupType.slowmo rfl hheld hheldp, by decide!, by decide!⟩,
    ⟨hslow, hslowp, by decide!, by decide!, Session.tick midDraws hslow hslowp, by decide!,
      by decide!, by decide!⟩, ?_⟩
  · intro s
    unfold shieldTimed
    simp [resetGame, updateUI]
  · intro s i h
    obtain ⟨hs, snd, e⟩ := collectCollectible_eq s i
    rw [e]
    exact h
  · intro s
    unfold shieldTimed
    simp [activatePowerup]
  · intro rs s hu h
    have hst := updateGame_ticks_shieldStuck rs s hu h
    refine ⟨hst, ?_⟩
    intro ht
    obtain ⟨ha, hc, hp⟩ := hst
    rcases ht ha with hh | hh
    · omega
    · exact hp hh

/-! ## Binary64 rounding: basic facts -/

theorem roundHalfEven_intCast (n : ℤ) : roundHalfEven (n : ℚ) = n := by
  unfold roundHalfEven
  simp

theorem roundHalfEven_ge_floor (q : ℚ) : ⌊q⌋ ≤ roundHalfEven q := by
  unfold roundHalfEven
  split_ifs <;> omega

theorem roundHalfEven_le_floor_succ (q : ℚ) : roundHalfEven q ≤ ⌊q⌋ + 1 := by
  unfold roundHalfEven
  split_ifs <;> omega

theorem roundHalfEven_mono {q1 q2 : ℚ} (h : q1 ≤ q2) : roundHalfEven q1 ≤ roundHalfEven q2 := by
  have hf : ⌊q1⌋ ≤ ⌊q2⌋ := Int.floor_mono h
  rcases lt_or_eq_of_le hf with hlt | heq
  · calc roundHalfEven q1 ≤ ⌊q1⌋ + 1 := roundHalfEven_le_floor_succ q1
      _ ≤ ⌊q2⌋ := hlt
      _ ≤ roundHalfEven q2 := roundHalfEven_ge_floor q2
  · unfold roundHalfEven
    rw [← heq]
    split_ifs <;> first | omega | (exfalso; linarith)

theorem roundHalfEven_eq_of_lt (q : ℚ) (n : ℤ) (h1 : (n : ℚ) - 1 / 2 < q)
    (h2 : q < (n : ℚ) + 1 / 2) : roundHalfEven q = n := by
  unfold roundHalfEven
  by_cases hq : (n : ℚ) ≤ q
  · have hf : ⌊q⌋ = n := by
      rw [Int.floor_eq_iff]
      exact ⟨hq, by linarith⟩
    rw [hf, if_pos (by linarith)]
  · have hf : ⌊q⌋ = n - 1 := by
      rw [Int.floor_eq_iff]
      push_cast
      exact ⟨by linarith, by linarith⟩
    rw [hf]
    push_cast
    rw [if_neg (by linarith), if_pos (by linarith)]
    omega

theorem roundHalfEven_tie_even (n : ℤ) (hn : n % 2 = 0) :
    roundHalfEven ((n : ℚ) + 1 / 2) = n := by
  unfold roundHalfEven
  have hf : ⌊(n : ℚ) + 1 / 2⌋ = n := by
    rw [Int.floor_eq_iff]
    exact ⟨by linarith, by linarith⟩
  rw [hf, if_neg (by linarith), if_neg (by linarith), if_pos hn]

theorem roundHalfEven_tie_odd (n : ℤ) (hn : n % 2 = 1) :
    roundHalfEven ((n : ℚ) + 1 / 2) = n + 1 := by
  unfold roundHalfEven
  have hf : ⌊(n : ℚ) + 1 / 2⌋ = n := by
    rw [Int.floor_eq_iff]
    exact ⟨by linarith, by linarith⟩
  rw [hf, if_neg (by linarith), if_neg (by linarith), if_neg (by omega)]

theorem roundHalfEven_neg (q : ℚ) : roundHalfEven (-q) = -roundHalfEven q := by
  have h0 : (⌊q⌋ : ℚ) ≤ q := Int.floor_le q
  have h1 : q < ⌊q⌋ + 1 := Int.lt_floor_add_one q
  by_cases hq : q = ⌊q⌋
  · rw [hq, ← Int.cast_neg, roundHalfEven_intCast, roundHalfEven_intCast]
  · have hlt : (⌊q⌋ : ℚ) < q := lt_of_le_of_ne h0 (fun h => hq h.symm)
    have hf : ⌊-q⌋ = -⌊q⌋ - 1 := by
      rw [Int.floor_eq_iff]
      push_cast
      exact ⟨by linarith, by linarith⟩
    unfold roundHalfEven
    rw [hf]
    push_cast
    split_ifs <;> first | omega | (exfalso; linarith)

theorem binary64_ulp_pos (x : ℚ) : 0 < binary64_ulp x := by
  unfold binary64_ulp
  positivity

theorem binary64_exponent_neg (x : ℚ) : binary64_exponent (-x) = binary64_exponent x := by
  unfold binary64_exponent
  rw [abs_neg]

theorem binary64_ulp_neg (x : ℚ) : binary64_ulp (-x) = binary64_ulp x := by
  unfold binary64_ulp
  rw [binary64_exponent_neg]

theorem binary64_neg (x : ℚ) : binary64 (-x) = -binary64 x := by
  unfold binary64
  rw [binary64_ulp_neg, neg_div, roundHalfEven_neg]
  push_cast
  ring

theorem binary64_zero : binary64 0 = 0 := by
  unfold binary64
  rw [zero_div]
  have : roundHalfEven 0 = 0 := by
    have := roundHalfEven_intCast 0
    simpa using this
  rw [this]
  simp

theorem binary64_nonneg {x : ℚ} (h : 0 ≤ x) : 0 ≤ binary64 x := by
  unfold binary64
  have hu := binary64_ulp_pos x
  have h0 : (0 : ℤ) ≤ roundHalfEven (x / binary64_ulp x) := by
    have := roundHalfEven_mono (div_nonneg h hu.le)
    have hz : roundHalfEven 0 = 0 := by
      have := roundHalfEven_intCast 0
      simpa using this
    rwa [hz] at this
  have : (0 : ℚ) ≤ (roundHalfEven (x / binary64_ulp x) : ℚ) := by exact_mod_cast h0
  positivity

theorem binary64_nonpos {x : ℚ} (h : x ≤ 0) : binary64 x ≤ 0 := by
  have := binary64_nonneg (neg_nonneg.mpr h)
  rw [binary64_neg] at this
  linarith

theorem binary64_exponent_ge (x : ℚ) : -1022 ≤ binary64_exponent x := le_max_right _ _

theorem binary64_exponent_eq_of_bounds (x : ℚ) (e : ℤ) (he : -1022 ≤ e)
    (h1 : (2 : ℚ) ^ e ≤ |x|) (h2 : |x| < (2 : ℚ) ^ (e + 1)) : binary64_exponent x = e := by
  have hpos : 0 < |x| := lt_of_lt_of_le (by positivity) h1
  have hl1 : e ≤ Int.log 2 |x| := by
    rw [← Int.zpow_le_iff_le_log (by norm_num) hpos]
    simpa using h1
  have hl2 : Int.log 2 |x| < e + 1 := by
    rw [← Int.lt_zpow_iff_log_lt (by norm_num) hpos]
    simpa using h2
  unfold binary64_exponent
  omega

theorem lt_zpow_binary64_exponent (x : ℚ) : |x| < (2 : ℚ) ^ (binary64_exponent x + 1) := by
  have h := Int.lt_zpow_succ_log_self (b := 2) (by norm_num) |x|
  have h2 : ((2 : ℕ) : ℚ) ^ (Int.log 2 |x| + 1) ≤ (2 : ℚ) ^ (binary64_exponent x + 1) := by
    push_cast
    apply zpow_le_zpow_right₀ (by norm_num)
    have := le_max_left (Int.log 2 |x|) (-1022)
    unfold binary64_exponent
    omega
  exact lt_of_lt_of_le h h2

theorem zpow_binary64_exponent_le (x : ℚ) (hx : x ≠ 0) (h : -1022 < binary64_exponent x) :
    (2 : ℚ) ^ binary64_exponent x ≤ |x| := by
  have he : binary64_exponent x = Int.log 2 |x| := by
    unfold binary64_exponent at h ⊢
    omega
  rw [he]
  have := Int.zpow_log_le_self (b := 2) (r := |x|) (by norm_num) (abs_pos.mpr hx)
  simpa using this

theorem binary64_exponent_mono {x y : ℚ} (hx : 0 < |x|) (h : |x| ≤ |y|) :
    binary64_exponent x ≤ binary64_exponent y := by
  unfold binary64_exponent
  exact max_le_max (Int.log_mono_right hx h) (le_refl _)

theorem binary64_le_zpow (x : ℚ) (hx : 0 ≤ x) :
    binary64 x ≤ (2 : ℚ) ^ (binary64_exponent x + 1) := by
  have hu := binary64_ulp_pos x
  have hlt := lt_zpow_binary64_exponent x
  rw [abs_of_nonneg hx] at hlt
  have hsplit : (2 : ℚ) ^ (binary64_exponent x + 1) = (2 : ℚ) ^ (53 : ℕ) * binary64_ulp x := by
    unfold binary64_ulp
    rw [← zpow_natCast, ← zpow_add₀ (by norm_num)]
    congr 1
    push_cast
    ring
  have hq : x / binary64_ulp x ≤ (2 : ℚ) ^ (53 : ℕ) := by
    rw [div_le_iff₀ hu, ← hsplit]
    exact hlt.le
  have hr := roundHalfEven_mono
    (hq.trans_eq (by norm_num : (2 : ℚ) ^ (53 : ℕ) = ((2 ^ 53 : ℤ) : ℚ)))
  rw [roundHalfEven_intCast] at hr
  have hr2 : (roundHalfEven (x / binary64_ulp x) : ℚ) ≤ (2 : ℚ) ^ (53 : ℕ) := by
    exact_mod_cast hr
  unfold binary64
  rw [hsplit]
  exact mul_le_mul_of_nonneg_right hr2 hu.le

theorem zpow_le_binary64 (x : ℚ) (hx : 0 < x) (h : -1022 < binary64_exponent x) :
    (2 : ℚ) ^ binary64_exponent x ≤ binary64 x := by
  have hu := binary64_ulp_pos x
  have hle := zpow_binary64_exponent_le x hx.ne' h
  rw [abs_of_pos hx] at hle
  have hsplit : (2 : ℚ) ^ binary64_exponent x = (2 : ℚ) ^ (52 : ℕ) * binary64_ulp x := by
    unfold binary64_ulp
    rw [← zpow_natCast, ← zpow_add₀ (by norm_num)]
    congr 1
    push_cast
    ring
  have hq : (2 : ℚ) ^ (52 : ℕ) ≤ x / binary64_ulp x := by
    rw [le_div_iff₀ hu, ← hsplit]
    exact hle
  have hr := roundHalfEven_mono
    ((by norm_num : ((2 ^ 52 : ℤ) : ℚ) = (2 : ℚ) ^ (52 : ℕ)).trans_le hq)
  rw [roundHalfEven_intCast] at hr
  have hr2 : (2 : ℚ) ^ (52 : ℕ) ≤ (roundHalfEven (x / binary64_ulp x) : ℚ) := by
    exact_mod_cast hr
  unfold binary64
  rw [hsplit]
  exact mul_le_mul_of_nonneg_right hr2 hu.le

theorem binary64_mono_of_pos {x y : ℚ} (hx : 0 < x) (h : x ≤ y) : binary64 x ≤ binary64 y := by
  have hy : 0 < y := lt_of_lt_of_le hx h
  have he : binary64_exponent x ≤ binary64_exponent y :=
    binary64_exponent_mono (abs_pos.mpr hx.ne') (by rwa [abs_of_pos hx, abs_of_pos hy])
  rcases eq_or_lt_of_le he with heq | hlt
  · have hu : binary64_ulp x = binary64_ulp y := by
      unfold binary64_ulp
      rw [heq]
    unfold binary64
    rw [hu]
    have hup := binary64_ulp_pos y
    have hr := roundHalfEven_mono (div_le_div_of_nonneg_right h hup.le)
    have hr2 : (roundHalfEven (x / binary64_ulp y) : ℚ) ≤ roundHalfEven (y / binary64_ulp y) := by
      exact_mod_cast hr
    exact mul_le_mul_of_nonneg_right hr2 hup.le
  · have h1 := binary64_le_zpow x hx.le
    have h2 := zpow_le_binary64 y hy (lt_of_le_of_lt (binary64_exponent_ge x) hlt)
    have h3 : (2 : ℚ) ^ (binary64_exponent x + 1) ≤ (2 : ℚ) ^ binary64_exponent y :=
      zpow_le_zpow_right₀ (by norm_num) (by omega)
    linarith

/-- Rounding to binary64 is monotone. -/
theorem binary64_mono {x y : ℚ} (h : x ≤ y) : binary64 x ≤ binary64 y := by
  rcases lt_trichotomy 0 x with hx | hx | hx
  · exact binary64_mono_of_pos hx h
  · rw [← hx] at h ⊢
    rw [binary64_zero]
    exact binary64_nonneg h
  · rcases le_or_lt 0 y with hy | hy
    · exact le_trans (binary64_nonpos hx.le) (binary64_nonneg hy)
    · have := binary64_mono_of_pos (neg_pos.mpr hy) (neg_le_neg h)
      rw [binary64_neg, binary64_neg] at this
      linarith

/-- The value of `binary64 x` once the exponent of `x` and the rounded
significand are known. -/
theorem binary64_eq_of_bounds (x : ℚ) (e n : ℤ) (he : -1022 ≤ e)
    (h1 : (2 : ℚ) ^ e ≤ |x|) (h2 : |x| < (2 : ℚ) ^ (e + 1))
    (hn : roundHalfEven (x / (2 : ℚ) ^ (e - 52)) = n) :
    binary64 x = n * (2 : ℚ) ^ (e - 52) := by
  unfold binary64 binary64_ulp
  rw [binary64_exponent_eq_of_bounds x e he h1 h2, hn]

/-- A value that is an integer multiple of the spacing at its exponent is a
binary64 value. -/
theorem binary64_eq_self_of_bounds (x : ℚ) (e n : ℤ) (he : -1022 ≤ e)
    (h1 : (2 : ℚ) ^ e ≤ |x|) (h2 : |x| < (2 : ℚ) ^ (e + 1))
    (hn : x = n * (2 : ℚ) ^ (e - 52)) : binary64 x = x := by
  have hpos : (0 : ℚ) < (2 : ℚ) ^ (e - 52) := by positivity
  rw [binary64_eq_of_bounds x e n he h1 h2 ?_, ← hn]
  rw [hn, mul_div_assoc, div_self hpos.ne', mul_one, roundHalfEven_intCast]

theorem binary64_of_near (x : ℚ) (e n : ℤ) (he : -1022 ≤ e) (hx : 0 < x)
    (h1 : (2 : ℚ) ^ e ≤ x) (h2 : x < (2 : ℚ) ^ (e + 1))
    (hlo : (n : ℚ) - 1 / 2 < x / (2 : ℚ) ^ (e - 52))
    (hhi : x / (2 : ℚ) ^ (e - 52) < (n : ℚ) + 1 / 2) :
    binary64 x = n * (2 : ℚ) ^ (e - 52) :=
  binary64_eq_of_bounds x e n he (by rwa [abs_of_pos hx]) (by rwa [abs_of_pos hx])
    (roundHalfEven_eq_of_lt _ n hlo hhi)

theorem binary64_of_tie_even (x : ℚ) (e n : ℤ) (he : -1022 ≤ e) (hx : 0 < x)
    (h1 : (2 : ℚ) ^ e ≤ x) (h2 : x < (2 : ℚ) ^ (e + 1))
    (hn : x / (2 : ℚ) ^ (e - 52) = (n : ℚ) + 1 / 2) (heven : n % 2 = 0) :
    binary64 x = n * (2 : ℚ) ^ (e - 52) :=
  binary64_eq_of_bounds x e n he (by rwa [abs_of_pos hx]) (by rwa [abs_of_pos hx])
    (by rw [hn]; exact roundHalfEven_tie_even n heven)

theorem binary64_of_exact (x : ℚ) (e n : ℤ) (he : -1022 ≤ e) (hx : 0 < x)
    (h1 : (2 : ℚ) ^ e ≤ x) (h2 : x < (2 : ℚ) ^ (e + 1))
    (hn : x = n * (2 : ℚ) ^ (e - 52)) : binary64 x = x :=
  binary64_eq_self_of_bounds x e n he (by rwa [abs_of_pos hx]) (by rwa [abs_of_pos hx]) hn

/-- An integer of fewer than 54 bits times a power of two not below
`2 ^ -1074` is a binary64 value. -/
theorem binary64_of_int_mul (x : ℚ) (m k : ℤ) (hm : |m| < 2 ^ 53) (hk : -1074 ≤ k)
    (hx : x = m * (2 : ℚ) ^ k) : binary64 x = x := by
  rcases eq_or_ne m 0 with h0 | h0
  · rw [hx, h0]
    simp [binary64_zero]
  · have h2k : (0 : ℚ) < (2 : ℚ) ^ k := by positivity
    have hm0 : (0 : ℚ) < |(m : ℚ)| := abs_pos.mpr (by exact_mod_cast h0)
    have habs : |x| = |(m : ℚ)| * (2 : ℚ) ^ k := by
      rw [hx, abs_mul, abs_of_pos h2k]
    have hxpos : 0 < |x| := by
      rw [habs]
      positivity
    have hmq : |(m : ℚ)| < (2 : ℚ) ^ (53 : ℤ) := by
      have : ((|m| : ℤ) : ℚ) < ((2 ^ 53 : ℤ) : ℚ) := by exact_mod_cast hm
      rw [Int.cast_abs] at this
      calc |(m : ℚ)| < ((2 ^ 53 : ℤ) : ℚ) := this
        _ = (2 : ℚ) ^ (53 : ℤ) := by norm_num
    have hlt : |x| < (2 : ℚ) ^ (k + 53) := by
      rw [habs, zpow_add₀ (by norm_num : (2 : ℚ) ≠ 0), mul_comm]
      exact mul_lt_mul_of_pos_left hmq h2k
    have hlog : Int.log 2 |x| < k + 53 := by
      rw [← Int.lt_zpow_iff_log_lt (by norm_num) hxpos]
      simpa using hlt
    have hE : binary64_exponent x ≤ k + 52 := by
      unfold binary64_exponent
      apply max_le <;> omega
    obtain ⟨j, hj⟩ : ∃ j : ℕ, k = binary64_exponent x - 52 + j :=
      ⟨(k - (binary64_exponent x - 52)).toNat, by omega⟩
    have hu := binary64_ulp_pos x
    have hpow : (2 : ℚ) ^ k = binary64_ulp x * (2 : ℚ) ^ j := by
      unfold binary64_ulp
      rw [← zpow_natCast, ← zpow_add₀ (by norm_num : (2 : ℚ) ≠ 0)]
      congr 1
    have hdiv : x / binary64_ulp x = ((m * 2 ^ j : ℤ) : ℚ) := by
      rw [div_eq_iff hu.ne']
      push_cast
      calc x = m * (2 : ℚ) ^ k := hx
        _ = m * (binary64_ulp x * (2 : ℚ) ^ j) := by rw [hpow]
        _ = m * (2 : ℚ) ^ j * binary64_ulp x := by ring
    unfold binary64
    rw [hdiv, roundHalfEven_intCast, ← hdiv, div_mul_cancel₀ _ hu.ne']

theorem binary64_intCast (m : ℤ) (hm : |m| < 2 ^ 53) : binary64 (m : ℚ) = m :=
  binary64_of_int_mul m m 0 hm (by norm_num) (by simp)

/-! ## The dragon-vs-obstacle test in binary64 -/

theorem binary64_collisionReduction :
    binary64 (3 / 10) = 5404319552844595 / 2 ^ 54 := by
  rw [binary64_of_near (3 / 10) (-2) 5404319552844595 (by norm_num) (by norm_num)
    (by norm_num) (by norm_num) (by norm_num) (by norm_num)]
  norm_num

theorem binary64_one_sub_collisionReduction :
    binary64 (1 - binary64 (3 / 10)) = 6305039478318694 / 2 ^ 53 := by
  rw [binary64_collisionReduction]
  rw [binary64_of_tie_even _ (-1) 6305039478318694 (by norm_num) (by norm_num)
    (by norm_num) (by norm_num) (by norm_num) (by decide)]
  norm_num

/-- The shrunken box is 84 wide and 84 high in binary64 as well. -/
theorem binary64_effectiveWidth :
    binary64 (120 * binary64 (1 - binary64 (3 / 10))) = 84 := by
  rw [binary64_one_sub_collisionReduction]
  rw [binary64_of_near _ 6 5910974510923776 (by norm_num) (by norm_num)
    (by norm_num) (by norm_num) (by norm_num) (by norm_num)]
  norm_num

theorem binary64_42 : binary64 42 = 42 :=
  binary64_of_exact 42 5 (42 * 2 ^ 47) (by norm_num) (by norm_num) (by norm_num) (by norm_num)
    (by norm_num)

theorem checkDragonObstacleCollision_binary64_iff (d : Dragon) (o : Obstacle) :
    checkDragonObstacleCollision_binary64 d o = true ↔
      (binary64 (d.x + 42) > o.x ∧ binary64 (d.x - 42) < binary64 (o.x + 80)) ∧
      (binary64 (d.y - 42) < o.gapY ∨
        binary64 (d.y + 42) > binary64 (o.gapY + o.gapSize)) := by
  have hw : binary64 (binary64 (120 * binary64 (1 - binary64 (3 / 10))) / 2) = 42 := by
    rw [binary64_effectiveWidth]
    norm_num
    exact binary64_42
  simp only [checkDragonObstacleCollision_binary64, dragon_width, dragon_height, obstacleWidth, hw]
  by_cases h1 : binary64 (d.x + 42) > o.x ∧ binary64 (d.x - 42) < binary64 (o.x + 80)
  · by_cases h2 : binary64 (d.y - 42) < o.gapY ∨
        binary64 (d.y + 42) > binary64 (o.gapY + o.gapSize)
    · simp [h1, h2]
    · simp [h1, h2]
  · simp [h1]

theorem dragonObstacleCollision_reference_iff (x y ox gapY gapSize : ℚ) :
    dragonObstacleCollision_reference x y ox gapY gapSize = true ↔
      ((x + 42 > ox ∧ x - 42 < ox + 80) ∧ (y - 42 < gapY ∨ y + 42 > gapY + gapSize)) := by
  unfold dragonObstacleCollision_reference
  rw [decide_eq_true_iff]

theorem checkDragonObstacleCollision_iff (d : Dragon) (o : Obstacle) :
    checkDragonObstacleCollision d o = true ↔
      ((d.x + 42 > o.x ∧ d.x - 42 < o.x + 80) ∧
        (d.y - 42 < o.gapY ∨ d.y + 42 > o.gapY + o.gapSize)) := by
  have h42 : (120 : ℚ) * (1 - 3 / 10) / 2 = 42 := by norm_num
  simp only [checkDragonObstacleCollision, dragon_width, dragon_height, obstacleWidth, h42]
  by_cases h1 : d.x + 42 > o.x ∧ d.x - 42 < o.x + 80
  · by_cases h2 : d.y - 42 < o.gapY ∨ d.y + 42 > o.gapY + o.gapSize
    · simp [h1, h2]
    · simp [h1, h2]
  · simp [h1]

/-- A coordinate on the grid of multiples of `2 ^ -20` up to `2 ^ 30`, moved
by a constant of the game, is a binary64 value. -/
theorem binary64_grid_add (a : ℤ) (c : ℤ) (ha : |a| ≤ 2 ^ 50) (hc : |c| ≤ 1000) :
    binary64 ((a : ℚ) / 2 ^ 20 + c) = (a : ℚ) / 2 ^ 20 + c := by
  apply binary64_of_int_mul _ (a + c * 2 ^ 20) (-20)
  · have h1 := abs_add a (c * 2 ^ 20)
    have h2 : |c * 2 ^ 20| ≤ 1000 * 2 ^ 20 := by
      rw [abs_mul]
      have : |(2 : ℤ) ^ 20| = 2 ^ 20 := abs_of_pos (by norm_num)
      rw [this]
      exact mul_le_mul_of_nonneg_right hc (by norm_num)
    have h3 : (2 : ℤ) ^ 50 + 1000 * 2 ^ 20 < 2 ^ 53 := by norm_num
    omega
  · norm_num
  · push_cast
    rw [zpow_neg]
    norm_num
    ring

/-- C4, amended: what `checkDragonObstacleCollision` computes in binary64. The
shrunken box is 84 by 84 (the products `120 * (1 - 0.3)` round to 84), and the
function returns true iff `x + 42 > ox` and `x - 42 < ox + 80` and
(`y - 42 < gapY` or `y + 42 > gapY + gapSize`) with each of the five sums
rounded to binary64 before it is compared. Whenever it returns true the exact
condition of the reference holds (for an obstacle whose `x` and `gapY` are
binary64 values, as stored values are); whenever the five sums are binary64
values themselves it returns exactly what the reference and the
exact-arithmetic embedding return, and that is so for all coordinates that
are multiples of `2 ^ -20` of magnitude at most `2 ^ 30`. -/
theorem checkDragonObstacleCollision_binary64_spec (d : Dragon) (o : Obstacle) :
    binary64 (120 * binary64 (1 - binary64 (3 / 10))) = 84 ∧
    (checkDragonObstacleCollision_binary64 d o = true ↔
      (binary64 (d.x + 42) > o.x ∧ binary64 (d.x - 42) < binary64 (o.x + 80)) ∧
      (binary64 (d.y - 42) < o.gapY ∨
        binary64 (d.y + 42) > binary64 (o.gapY + o.gapSize))) ∧
    (binary64 o.x = o.x → binary64 o.gapY = o.gapY →
      checkDragonObstacleCollision_binary64 d o = true →
      dragonObstacleCollision_reference d.x d.y o.x o.gapY o.gapSize = true) ∧
    (binary64 (d.x + 42) = d.x + 42 → binary64 (d.x - 42) = d.x - 42 →
      binary64 (o.x + 80) = o.x + 80 → binary64 (d.y - 42) = d.y - 42 →
      binary64 (d.y + 42) = d.y + 42 →
      binary64 (o.gapY + o.gapSize) = o.gapY + o.gapSize →
      checkDragonObstacleCollision_binary64 d o =
        dragonObstacleCollision_reference d.x d.y o.x o.gapY o.gapSize ∧
      checkDragonObstacleCollision_binary64 d o = checkDragonObstacleCollision d o) ∧
    (∀ a b c g h : ℤ, |a| ≤ 2 ^ 50 → |b| ≤ 2 ^ 50 → |c| ≤ 2 ^ 50 → |g + h| ≤ 2 ^ 50 →
      d.x = (a : ℚ) / 2 ^ 20 → d.y = (b : ℚ) / 2 ^ 20 → o.x = (c : ℚ) / 2 ^ 20 →
      o.gapY = (g : ℚ) / 2 ^ 20 → o.gapSize = (h : ℚ) / 2 ^ 20 →
      checkDragonObstacleCollision_binary64 d o =
        dragonObstacleCollision_reference d.x d.y o.x o.gapY o.gapSize) := by
  have hexact : binary64 (d.x + 42) = d.x + 42 → binary64 (d.x - 42) = d.x - 42 →
      binary64 (o.x + 80) = o.x + 80 → binary64 (d.y - 42) = d.y - 42 →
      binary64 (d.y + 42) = d.y + 42 →
      binary64 (o.gapY + o.gapSize) = o.gapY + o.gapSize →
      checkDragonObstacleCollision_binary64 d o =
        dragonObstacleCollision_reference d.x d.y o.x o.gapY o.gapSize ∧
      checkDragonObstacleCollision_binary64 d o = checkDragonObstacleCollision d o := by
    intro e1 e2 e3 e4 e5 e6
    have hb := checkDragonObstacleCollision_binary64_iff d o
    rw [e1, e2, e3, e4, e5, e6] at hb
    constructor
    · rw [Bool.eq_iff_iff, hb, dragonObstacleCollision_reference_iff]
    · rw [Bool.eq_iff_iff, hb, checkDragonObstacleCollision_iff]
  refine ⟨binary64_effectiveWidth, checkDragonObstacleCollision_binary64_iff d o, ?_, hexact, ?_⟩
  · intro hx hg hb
    rw [checkDragonObstacleCollision_binary64_iff] at hb
    rw [dragonObstacleCollision_reference_iff]
    obtain ⟨⟨h1, h2⟩, h3⟩ := hb
    refine ⟨⟨?_, ?_⟩, ?_⟩
    · by_contra hc
      have := binary64_mono (not_lt.mp hc)
      rw [hx] at this
      exact absurd h1 (not_lt.mpr this)
    · by_contra hc
      have := binary64_mono (not_lt.mp hc)
      exact absurd h2 (not_lt.mpr this)
    · rcases h3 with h3 | h3
      · left
        by_contra hc
        have := binary64_mono (not_lt.mp hc)
        rw [hg] at this
        exact absurd h3 (not_lt.mpr this)
      · right
        by_contra hc
        have := binary64_mono (not_lt.mp hc)
        exact absurd h3 (not_lt.mpr this)
  · intro a b c g h ha hb hc hgh hdx hdy hox hgy hgs
    refine (hexact ?_ ?_ ?_ ?_ ?_ ?_).1
    · rw [hdx]
      exact_mod_cast binary64_grid_add a 42 ha (by norm_num)
    · rw [hdx]
      have := binary64_grid_add a (-42) ha (by norm_num)
      push_cast at this
      rw [← sub_eq_add_neg] at this
      exact this
    · rw [hox]
      exact_mod_cast binary64_grid_add c 80 hc (by norm_num)
    · rw [hdy]
      have := binary64_grid_add b (-42) hb (by norm_num)
      push_cast at this
      rw [← sub_eq_add_neg] at this
      exact this
    · rw [hdy]
      exact_mod_cast binary64_grid_add b 42 hb (by norm_num)
    · rw [hgy, hgs]
      have := binary64_grid_add (g + h) 0 hgh (by norm_num)
      push_cast at this
      rw [add_zero, add_div] at this
      exact this

/-- C4, counterexample: at `dragon.y = 506 + 2 ^ -44` under an obstacle whose
gap band is `[248, 548]` the condition of the claim holds (`x + 42 > ox`,
`x - 42 < ox + 80` and `y + 42 > gapY + gapSize`, by `2 ^ -44`), but the sum
`y + 42` rounds to 548, so `548 > 548` fails and the function returns false.
All the coordinates are binary64 values. -/
theorem checkDragonObstacleCollision_rounds_at_edge :
    binary64 edgeDragon.x = edgeDragon.x ∧ binary64 edgeDragon.y = edgeDragon.y ∧
    binary64 edgeObstacle.x = edgeObstacle.x ∧ binary64 edgeObstacle.gapY = edgeObstacle.gapY ∧
    binary64 edgeObstacle.gapSize = edgeObstacle.gapSize ∧
    (edgeDragon.x + 42 > edgeObstacle.x ∧ edgeDragon.x - 42 < edgeObstacle.x + 80) ∧
    edgeDragon.y + 42 > edgeObstacle.gapY + edgeObstacle.gapSize ∧
    dragonObstacleCollision_reference edgeDragon.x edgeDragon.y edgeObstacle.x
      edgeObstacle.gapY edgeObstacle.gapSize = true ∧
    checkDragonObstacleCollision edgeDragon edgeObstacle = true ∧
    binary64 (edgeDragon.y + 42) = 548 ∧
    binary64 (edgeObstacle.gapY + edgeObstacle.gapSize) = 548 ∧
    checkDragonObstacleCollision_binary64 edgeDragon edgeObstacle = false := by
  have hy : binary64 (506 + 1 / 2 ^ 44 : ℚ) = 506 + 1 / 2 ^ 44 :=
    binary64_of_int_mul _ (506 * 2 ^ 44 + 1) (-44) (by norm_num) (by norm_num) (by norm_num)
  have h150 : binary64 (150 : ℚ) = 150 := by exact_mod_cast binary64_intCast 150 (by norm_num)
  have h248 : binary64 (248 : ℚ) = 248 := by exact_mod_cast binary64_intCast 248 (by norm_num)
  have h300 : binary64 (300 : ℚ) = 300 := by exact_mod_cast binary64_intCast 300 (by norm_num)
  have h548 : binary64 (548 : ℚ) = 548 := by exact_mod_cast binary64_intCast 548 (by norm_num)
  have h192 : binary64 (192 : ℚ) = 192 := by exact_mod_cast binary64_intCast 192 (by norm_num)
  have hsum : binary64 (506 + 1 / 2 ^ 44 + 42 : ℚ) = 548 := by
    rw [binary64_of_tie_even _ 9 (548 * 2 ^ 43) (by norm_num) (by norm_num) (by norm_num)
      (by norm_num) (by norm_num) (by decide)]
    norm_num
  have hlow : binary64 (506 + 1 / 2 ^ 44 - 42 : ℚ) = 464 + 1 / 2 ^ 44 := by
    rw [binary64_of_int_mul _ (464 * 2 ^ 44 + 1) (-44) (by norm_num) (by norm_num)
      (by norm_num)]
    norm_num
  have hband : binary64 (248 + 300 : ℚ) = 548 := by
    norm_num
    exact h548
  have hfalse : checkDragonObstacleCollision_binary64 edgeDragon edgeObstacle = false := by
    rw [← Bool.not_eq_true, checkDragonObstacleCollision_binary64_iff]
    simp only [edgeDragon, edgeObstacle, hsum, hlow, hband]
    norm_num
  refine ⟨h150, hy, h150, h248, h300, by norm_num [edgeDragon, edgeObstacle],
    by norm_num [edgeDragon, edgeObstacle], ?_, ?_, hsum, hband, hfalse⟩
  · rw [dragonObstacleCollision_reference_iff]
    norm_num [edgeDragon, edgeObstacle]
  · rw [checkDragonObstacleCollision_iff]
    norm_num [edgeDragon, edgeObstacle]

theorem checkDragonObstacleCollision_binary64_spec_witness :
    freshRun.dragon.x = 150 ∧ freshRun.dragon.y = 300 ∧
    checkDragonObstacleCollision_binary64 freshRun.dragon
      { x := 170, gapY := 350, gapSize := 300, passed := false } = true ∧
    checkDragonObstacleCollision_binary64 freshRun.dragon
      { x := 170, gapY := 150, gapSize := 300, passed := false } = false := by
  have hx : freshRun.dragon.x = 150 := by decide!
  have hy : freshRun.dragon.y = 300 := by decide!
  have h1 := (checkDragonObstacleCollision_binary64_spec freshRun.dragon
    { x := 170, gapY := 350, gapSize := 300, passed := false }).2.2.2.2
    (150 * 2 ^ 20) (300 * 2 ^ 20) (170 * 2 ^ 20) (350 * 2 ^ 20) (300 * 2 ^ 20)
    (by norm_num) (by norm_num) (by norm_num) (by norm_num)
    (by rw [hx]; norm_num) (by rw [hy]; norm_num) (by norm_num) (by norm_num) (by norm_num)
  have h2 := (checkDragonObstacleCollision_binary64_spec freshRun.dragon
    { x := 170, gapY := 150, gapSize := 300, passed := false }).2.2.2.2
    (150 * 2 ^ 20) (300 * 2 ^ 20) (170 * 2 ^ 20) (150 * 2 ^ 20) (300 * 2 ^ 20)
    (by norm_num) (by norm_num) (by norm_num) (by norm_num)
    (by rw [hx]; norm_num) (by rw [hy]; norm_num) (by norm_num) (by norm_num) (by norm_num)
  refine ⟨hx, hy, ?_, ?_⟩
  · rw [h1, dragonObstacleCollision_reference_iff, hx, hy]
    norm_num
  · rw [h2, ← Bool.not_eq_true, dragonObstacleCollision_reference_iff, hx, hy]
    norm_num

/-! ## The nearest binary64 square root -/

theorem sqrt_floor_bounds (t : ℚ) (ht : 0 ≤ t) :
    ((Nat.sqrt ⌊t⌋₊ : ℕ) : ℚ) ^ 2 ≤ t ∧ t < ((Nat.sqrt ⌊t⌋₊ : ℕ) + 1 : ℚ) ^ 2 := by
  constructor
  · have h1 : (Nat.sqrt ⌊t⌋₊) ^ 2 ≤ ⌊t⌋₊ := Nat.sqrt_le' _
    have h2 : ((⌊t⌋₊ : ℕ) : ℚ) ≤ t := Nat.floor_le ht
    have h3 : (((Nat.sqrt ⌊t⌋₊) ^ 2 : ℕ) : ℚ) ≤ ((⌊t⌋₊ : ℕ) : ℚ) := by exact_mod_cast h1
    push_cast at h3
    linarith
  · have h1 : ⌊t⌋₊ < (Nat.sqrt ⌊t⌋₊).succ ^ 2 := Nat.lt_succ_sqrt' _
    have h2 : t < ((⌊t⌋₊ : ℕ) : ℚ) + 1 := Nat.lt_floor_add_one t
    have h3 : (((⌊t⌋₊ + 1 : ℕ)) : ℚ) ≤ (((Nat.sqrt ⌊t⌋₊).succ ^ 2 : ℕ) : ℚ) := by
      exact_mod_cast h1
    push_cast at h3
    linarith

theorem roundedSqrt_ge (t : ℚ) : Nat.sqrt ⌊t⌋₊ ≤ roundedSqrt t := by
  simp only [roundedSqrt]
  split_ifs <;> omega

theorem roundedSqrt_le (t : ℚ) : roundedSqrt t ≤ Nat.sqrt ⌊t⌋₊ + 1 := by
  simp only [roundedSqrt]
  split_ifs <;> omega

theorem le_roundedSqrt (t : ℚ) (K : ℕ) (h : (K : ℚ) ^ 2 ≤ t) : K ≤ roundedSqrt t := by
  have ht : 0 ≤ t := le_trans (by positivity) h
  obtain ⟨-, h2⟩ := sqrt_floor_bounds t ht
  have hlt : (K : ℚ) ^ 2 < ((Nat.sqrt ⌊t⌋₊ : ℕ) + 1 : ℚ) ^ 2 := lt_of_le_of_lt h h2
  have hK : (K : ℚ) < (Nat.sqrt ⌊t⌋₊ : ℕ) + 1 := by
    by_contra hc
    have := pow_le_pow_left₀ (by positivity : (0 : ℚ) ≤ (Nat.sqrt ⌊t⌋₊ : ℕ) + 1) (not_lt.mp hc) 2
    linarith
  have hK2 : K < Nat.sqrt ⌊t⌋₊ + 1 := by exact_mod_cast hK
  have := roundedSqrt_ge t
  omega

theorem roundedSqrt_le_of_lt (t : ℚ) (ht : 0 ≤ t) (K : ℕ) (h : t < (K : ℚ) ^ 2) :
    roundedSqrt t ≤ K := by
  obtain ⟨h1, -⟩ := sqrt_floor_bounds t ht
  have hlt : ((Nat.sqrt ⌊t⌋₊ : ℕ) : ℚ) ^ 2 < (K : ℚ) ^ 2 := lt_of_le_of_lt h1 h
  have hK : ((Nat.sqrt ⌊t⌋₊ : ℕ) : ℚ) < K := by
    by_contra hc
    have := pow_le_pow_left₀ (by positivity : (0 : ℚ) ≤ (K : ℚ)) (not_lt.mp hc) 2
    linarith
  have hK2 : Nat.sqrt ⌊t⌋₊ < K := by exact_mod_cast hK
  have := roundedSqrt_le t
  omega

/-- For an even `M`, the rounded root is below `M` exactly when the root is
below `M - 1/2`: the tie at `M - 1/2` goes up to `M`. -/
theorem roundedSqrt_lt_iff (t : ℚ) (ht : 0 ≤ t) (M : ℕ) (hM : M % 2 = 0) (hpos : 0 < M) :
    roundedSqrt t < M ↔ t < ((M : ℚ) - 1 / 2) ^ 2 := by
  obtain ⟨h1, h2⟩ := sqrt_floor_bounds t ht
  have hge := roundedSqrt_ge t
  have hle := roundedSqrt_le t
  have hM1 : (1 : ℚ) ≤ M := by exact_mod_cast hpos
  constructor
  · intro hlt
    by_contra hc
    have hc : ((M : ℚ) - 1 / 2) ^ 2 ≤ t := not_lt.mp hc
    have hn : M ≤ Nat.sqrt ⌊t⌋₊ + 1 := by
      by_contra hn
      have hn : Nat.sqrt ⌊t⌋₊ + 2 ≤ M := by omega
      have hq : ((Nat.sqrt ⌊t⌋₊ : ℕ) : ℚ) + 2 ≤ M := by exact_mod_cast hn
      have h0 : (0 : ℚ) ≤ (Nat.sqrt ⌊t⌋₊ : ℕ) := by positivity
      nlinarith
    have hn2 : Nat.sqrt ⌊t⌋₊ + 1 = M := by omega
    have hq : ((Nat.sqrt ⌊t⌋₊ : ℕ) : ℚ) + 1 / 2 = (M : ℚ) - 1 / 2 := by
      have : ((Nat.sqrt ⌊t⌋₊ + 1 : ℕ) : ℚ) = M := by exact_mod_cast hn2
      push_cast at this
      linarith
    have hrs : roundedSqrt t = M := by
      simp only [roundedSqrt]
      rw [hq, if_neg (not_lt.mpr hc)]
      split_ifs <;> omega
    omega
  · intro hlt
    have hn : Nat.sqrt ⌊t⌋₊ < M := by
      by_contra hn
      have hq : (M : ℚ) ≤ (Nat.sqrt ⌊t⌋₊ : ℕ) := by exact_mod_cast not_lt.mp hn
      nlinarith
    rcases Nat.lt_or_ge (Nat.sqrt ⌊t⌋₊ + 1) M with h | h
    · omega
    · have hn2 : Nat.sqrt ⌊t⌋₊ + 1 = M := by omega
      have hq : ((Nat.sqrt ⌊t⌋₊ : ℕ) : ℚ) + 1 / 2 = (M : ℚ) - 1 / 2 := by
        have : ((Nat.sqrt ⌊t⌋₊ + 1 : ℕ) : ℚ) = M := by exact_mod_cast hn2
        push_cast at this
        linarith
      have hrs : roundedSqrt t = Nat.sqrt ⌊t⌋₊ := by
        simp only [roundedSqrt]
        rw [hq, if_pos hlt]
      omega

theorem binary64_sqrt_of_pos (q : ℚ) (hq : 0 < q) :
    binary64_sqrt q =
      roundedSqrt (q / ((2 : ℚ) ^ (Int.log 4 q - 52) * (2 : ℚ) ^ (Int.log 4 q - 52))) *
        (2 : ℚ) ^ (Int.log 4 q - 52) := by
  unfold binary64_sqrt
  rw [if_neg (not_le.mpr hq)]

theorem two_zpow_mul_self (k : ℤ) : (2 : ℚ) ^ k * (2 : ℚ) ^ k = (4 : ℚ) ^ k := by
  rw [← mul_zpow]
  norm_num

/-- On an engine that rounds the norm to the nearest binary64 value, the value
is below 72.5 exactly when the exact root is below `72.5 - 2 ^ -47`, the
midpoint between 72.5 and the binary64 value before it. -/
theorem binary64_sqrt_lt_radius (q : ℚ) :
    binary64_sqrt q < 145 / 2 ↔ q < (145 / 2 - 1 / 2 ^ 47) ^ 2 := by
  rcases le_or_lt q 0 with hq | hq
  · have : binary64_sqrt q = 0 := by
      unfold binary64_sqrt
      rw [if_pos hq]
    rw [this]
    constructor
    · intro _
      exact lt_of_le_of_lt hq (by norm_num)
    · intro _
      norm_num
  · have hlo : ((4 : ℕ) : ℚ) ^ Int.log 4 q ≤ q := Int.zpow_log_le_self (by norm_num) hq
    have hhi : q < ((4 : ℕ) : ℚ) ^ (Int.log 4 q + 1) := Int.lt_zpow_succ_log_self (by norm_num) q
    push_cast at hlo hhi
    rw [binary64_sqrt_of_pos q hq, two_zpow_mul_self]
    have h4pos : (0 : ℚ) < (4 : ℚ) ^ (Int.log 4 q - 52) := by positivity
    have h2pos : (0 : ℚ) < (2 : ℚ) ^ (Int.log 4 q - 52) := by positivity
    have ht0 : 0 ≤ q / (4 : ℚ) ^ (Int.log 4 q - 52) := by positivity
    rcases lt_trichotomy (Int.log 4 q) 6 with he | he | he
    · -- the root is below 64
      have hq64 : q < 4096 := by
        have : (4 : ℚ) ^ (Int.log 4 q + 1) ≤ (4 : ℚ) ^ (6 : ℤ) :=
          zpow_le_zpow_right₀ (by norm_num) (by omega)
        have h46 : (4 : ℚ) ^ (6 : ℤ) = 4096 := by norm_num
        linarith
      have hr : roundedSqrt (q / (4 : ℚ) ^ (Int.log 4 q - 52)) ≤ 2 ^ 53 := by
        apply roundedSqrt_le_of_lt _ ht0
        rw [div_lt_iff₀ h4pos]
        have : (((2 ^ 53 : ℕ) : ℚ)) ^ 2 * (4 : ℚ) ^ (Int.log 4 q - 52) =
            (4 : ℚ) ^ (Int.log 4 q + 1) := by
          have h : (((2 ^ 53 : ℕ) : ℚ)) ^ 2 = (4 : ℚ) ^ (53 : ℤ) := by norm_num
          rw [h, ← zpow_add₀ (by norm_num : (4 : ℚ) ≠ 0)]
          congr 1
          ring
        rw [this]
        exact hhi
      have hr2 : (roundedSqrt (q / (4 : ℚ) ^ (Int.log 4 q - 52)) : ℚ) ≤ (2 : ℚ) ^ (53 : ℤ) := by
        have : ((roundedSqrt (q / (4 : ℚ) ^ (Int.log 4 q - 52)) : ℕ) : ℚ) ≤ ((2 ^ 53 : ℕ) : ℚ) := by
          exact_mod_cast hr
        calc _ ≤ ((2 ^ 53 : ℕ) : ℚ) := this
          _ = (2 : ℚ) ^ (53 : ℤ) := by norm_num
      have hval : (roundedSqrt (q / (4 : ℚ) ^ (Int.log 4 q - 52)) : ℚ) *
          (2 : ℚ) ^ (Int.log 4 q - 52) ≤ 64 := by
        calc _ ≤ (2 : ℚ) ^ (53 : ℤ) * (2 : ℚ) ^ (Int.log 4 q - 52) :=
              mul_le_mul_of_nonneg_right hr2 h2pos.le
          _ = (2 : ℚ) ^ (Int.log 4 q + 1) := by
              rw [← zpow_add₀ (by norm_num : (2 : ℚ) ≠ 0)]
              congr 1
              ring
          _ ≤ (2 : ℚ) ^ (6 : ℤ) := zpow_le_zpow_right₀ (by norm_num) (by omega)
          _ = 64 := by norm_num
      constructor
      · intro _
        exact lt_trans hq64 (by norm_num)
      · intro _
        exact lt_of_le_of_lt hval (by norm_num)
    · -- the root is in [64, 128): the spacing is 2 ^ -46
      rw [he]
      have hu : (2 : ℚ) ^ ((6 : ℤ) - 52) = 1 / 2 ^ 46 := by norm_num
      have hu4 : (4 : ℚ) ^ ((6 : ℤ) - 52) = 1 / 2 ^ 92 := by norm_num
      rw [hu, hu4]
      have hqt : q / (1 / 2 ^ 92) = q * 2 ^ 92 := by
        rw [div_div_eq_mul_div, div_one]
      rw [hqt]
      have hM := roundedSqrt_lt_iff (q * 2 ^ 92) (by positivity) (145 * 2 ^ 45) (by norm_num)
        (by norm_num)
      have hcast : ((145 * 2 ^ 45 : ℕ) : ℚ) = 145 * 2 ^ 45 := by norm_num
      rw [hcast] at hM
      have h1 : (roundedSqrt (q * 2 ^ 92) : ℚ) * (1 / 2 ^ 46) < 145 / 2 ↔
          roundedSqrt (q * 2 ^ 92) < 145 * 2 ^ 45 := by
        have hc : ((roundedSqrt (q * 2 ^ 92) : ℕ) : ℚ) < ((145 * 2 ^ 45 : ℕ) : ℚ) ↔
            roundedSqrt (q * 2 ^ 92) < 145 * 2 ^ 45 := Nat.cast_lt
        rw [← hc, hcast]
        generalize ((roundedSqrt (q * 2 ^ 92) : ℕ) : ℚ) = A
        constructor
        · intro h
          norm_num at h ⊢
          linarith
        · intro h
          norm_num at h ⊢
          linarith
      rw [h1, hM]
      constructor
      · intro h
        norm_num at h ⊢
        linarith
      · intro h
        norm_num at h ⊢
        linarith
    · -- the root is 128 or more
      have hq128 : (16384 : ℚ) ≤ q := by
        have : (4 : ℚ) ^ (7 : ℤ) ≤ (4 : ℚ) ^ Int.log 4 q :=
          zpow_le_zpow_right₀ (by norm_num) (by omega)
        have h47 : (4 : ℚ) ^ (7 : ℤ) = 16384 := by norm_num
        linarith
      have hr : 2 ^ 52 ≤ roundedSqrt (q / (4 : ℚ) ^ (Int.log 4 q - 52)) := by
        apply le_roundedSqrt
        rw [le_div_iff₀ h4pos]
        have : (((2 ^ 52 : ℕ) : ℚ)) ^ 2 * (4 : ℚ) ^ (Int.log 4 q - 52) =
            (4 : ℚ) ^ Int.log 4 q := by
          have h : (((2 ^ 52 : ℕ) : ℚ)) ^ 2 = (4 : ℚ) ^ (52 : ℤ) := by norm_num
          rw [h, ← zpow_add₀ (by norm_num : (4 : ℚ) ≠ 0)]
          congr 1
          ring
        rw [this]
        exact hlo
      have hr2 : (2 : ℚ) ^ (52 : ℤ) ≤ (roundedSqrt (q / (4 : ℚ) ^ (Int.log 4 q - 52)) : ℚ) := by
        have : ((2 ^ 52 : ℕ) : ℚ) ≤ ((roundedSqrt (q / (4 : ℚ) ^ (Int.log 4 q - 52)) : ℕ) : ℚ) := by
          exact_mod_cast hr
        calc (2 : ℚ) ^ (52 : ℤ) = ((2 ^ 52 : ℕ) : ℚ) := by norm_num
          _ ≤ _ := this
      have hval : (128 : ℚ) ≤ (roundedSqrt (q / (4 : ℚ) ^ (Int.log 4 q - 52)) : ℚ) *
          (2 : ℚ) ^ (Int.log 4 q - 52) := by
        calc (128 : ℚ) = (2 : ℚ) ^ (7 : ℤ) := by norm_num
          _ ≤ (2 : ℚ) ^ Int.log 4 q := zpow_le_zpow_right₀ (by norm_num) (by omega)
          _ = (2 : ℚ) ^ (52 : ℤ) * (2 : ℚ) ^ (Int.log 4 q - 52) := by
              rw [← zpow_add₀ (by norm_num : (2 : ℚ) ≠ 0)]
              congr 1
              ring
          _ ≤ _ := mul_le_mul_of_nonneg_right hr2 h2pos.le
      constructor
      · intro h
        exfalso
        linarith
      · intro h
        exfalso
        have : ((145 : ℚ) / 2 - 1 / 2 ^ 47) ^ 2 < 16384 := by norm_num
        linarith

/-! ## The collectible pass of `checkCollisions` in binary64 -/

theorem checkCollisions_collectibles_binary64_eq (hypot : ℚ → ℚ → ℚ) (n : Nat) (s : State)
    (hn : n ≤ s.collectibles.length) :
    ∃ hs snd, checkCollisions_collectibles_binary64 hypot n s = { s with
      collectibles :=
        (s.collectibles.take n).filter (fun c => !inContact_binary64 hypot s.dragon c) ++
          s.collectibles.drop n,
      score := s.score + (s.collectibles.take n).countP (inContact_binary64 hypot s.dragon),
      dragon := { s.dragon with
        tailLength := s.dragon.tailLength +
          (s.collectibles.take n).countP (inContact_binary64 hypot s.dragon) },
      highScore := hs,
      soundCooldowns := snd } := by
  induction n generalizing s with
  | zero => exact ⟨s.highScore, s.soundCooldowns, by simp [checkCollisions_collectibles_binary64]⟩
  | succ n ih =>
    have hlt : n < s.collectibles.length := hn
    have hget : s.collectibles[n]? = some s.collectibles[n] := List.getElem?_eq_getElem hlt
    have htake := take_succ_of_getElem? _ _ _ hget
    have hdrop := drop_of_getElem? _ _ _ hget
    rw [checkCollisions_collectibles_binary64, hget]
    simp only
    by_cases hc : inContact_binary64 hypot s.dragon s.collectibles[n] = true
    · have hc' : checkCircleCollision_binary64 hypot s.dragon.x s.dragon.y
          (binary64 (dragon_width / 2)) s.collectibles[n].x s.collectibles[n].y
          (binary64 (s.collectibles[n].size / 2)) = true := hc
      rw [if_pos hc']
      obtain ⟨hs0, snd0, h0⟩ := collectCollectible_eq s n
      have hlen : n ≤ (collectCollectible s n).collectibles.length := by
        rw [h0]
        simp only [List.length_eraseIdx, hlt, if_true]
        omega
      obtain ⟨hs1, snd1, h1⟩ := ih (collectCollectible s n) hlen
      refine ⟨hs1, snd1, ?_⟩
      rw [h1, h0]
      have hd : inContact_binary64 hypot
          { s.dragon with tailLength := s.dragon.tailLength + 1 } =
          inContact_binary64 hypot s.dragon := rfl
      simp only [hd, take_eraseIdx_self, drop_eraseIdx_self, State.mk.injEq, Dragon.mk.injEq,
        true_and, and_true]
      rw [htake]
      simp only [List.filter_append, List.countP_append, List.countP_cons, List.countP_nil,
        List.filter_cons, List.filter_nil, hc, if_true, Bool.not_true, Bool.false_eq_true,
        if_false, List.append_nil]
      exact ⟨by omega, by omega, trivial⟩
    · have hc' : ¬ checkCircleCollision_binary64 hypot s.dragon.x s.dragon.y
          (binary64 (dragon_width / 2)) s.collectibles[n].x s.collectibles[n].y
          (binary64 (s.collectibles[n].size / 2)) = true := hc
      rw [if_neg hc']
      obtain ⟨hs1, snd1, h1⟩ := ih s (by omega)
      refine ⟨hs1, snd1, ?_⟩
      rw [h1]
      simp only [State.mk.injEq, Dragon.mk.injEq, true_and, and_true]
      rw [htake, hdrop]
      simp only [Bool.not_eq_true] at hc
      simp only [List.filter_append, List.countP_append, List.countP_cons, List.countP_nil,
        List.filter_cons, List.filter_nil, hc, Bool.false_eq_true, if_false, Bool.not_false,
        if_true, List.append_assoc, List.singleton_append]
      simp

theorem checkCollisions_powerups_binary64_eq (hypot : ℚ → ℚ → ℚ) (n : Nat) (s : State) :
    ∃ ps ap pd gs sh snd, checkCollisions_powerups_binary64 hypot n s = { s with
      powerups := ps,
      activePowerup := ap,
      powerupDuration := pd,
      gameSpeed := gs,
      abilities := { s.abilities with shield := sh },
      soundCooldowns := snd } := by
  induction n generalizing s with
  | zero => exact ⟨_, _, _, _, _, _, rfl⟩
  | succ n ih =>
    rw [checkCollisions_powerups_binary64]
    cases s.powerups[n]? with
    | none => exact ih s
    | some p =>
      simp only
      split_ifs
      · obtain ⟨ps0, ap0, pd0, gs0, sh0, snd0, h0⟩ := collectPowerup_eq s n
        obtain ⟨ps1, ap1, pd1, gs1, sh1, snd1, h1⟩ := ih (collectPowerup s n)
        refine ⟨ps1, ap1, pd1, gs1, sh1, snd1, ?_⟩
        rw [h1, h0]
      · exact ih s

/-- The outcome of a non-fatal `checkCollisions` call in binary64 for the
score, the tail length and the collectibles. -/
theorem checkCollisions_binary64_of_not_fatal (hypot : ℚ → ℚ → ℚ) (s : State)
    (h : checkCollisions_fatal_binary64 s = false) :
    (checkCollisions_binary64 hypot s).score =
      s.score + s.collectibles.countP (inContact_binary64 hypot s.dragon) ∧
    (checkCollisions_binary64 hypot s).dragon.tailLength =
      s.dragon.tailLength + s.collectibles.countP (inContact_binary64 hypot s.dragon) ∧
    (checkCollisions_binary64 hypot s).collectibles =
      s.collectibles.filter (fun c => !inContact_binary64 hypot s.dragon c) := by
  obtain ⟨hs, snd, h1⟩ :=
    checkCollisions_collectibles_binary64_eq hypot s.collectibles.length s (le_refl _)
  obtain ⟨ps, ap, pd, gs, sh, snd2, h2⟩ := checkCollisions_powerups_binary64_eq hypot
    (checkCollisions_collectibles_binary64 hypot s.collectibles.length s).powerups.length
    (checkCollisions_collectibles_binary64 hypot s.collectibles.length s)
  have he : checkCollisions_binary64 hypot s =
      checkCollisions_powerups_binary64 hypot
        (checkCollisions_collectibles_binary64 hypot s.collectibles.length s).powerups.length
        (checkCollisions_collectibles_binary64 hypot s.collectibles.length s) := by
    simp [checkCollisions_binary64, h]
  refine ⟨?_, ?_, ?_⟩
  · rw [he, h2, h1]
    simp
  · rw [he, h2, h1]
    simp
  · rw [he, h2, h1]
    simp

theorem binary64_radius_sum : binary64 (binary64 (120 / 2) + binary64 (25 / 2)) = 145 / 2 := by
  have h60 : binary64 (120 / 2 : ℚ) = 60 := by
    have := binary64_intCast 60 (by norm_num)
    norm_num at this ⊢
    exact this
  have h25 : binary64 (25 / 2 : ℚ) = 25 / 2 :=
    binary64_of_int_mul _ 25 (-1) (by norm_num) (by norm_num) (by norm_num)
  rw [h60, h25]
  have : (60 : ℚ) + 25 / 2 = 145 / 2 := by norm_num
  rw [this]
  exact binary64_of_int_mul _ 145 (-1) (by norm_num) (by norm_num) (by norm_num)

/-- The contact test for a collectible of size 25 on an engine that rounds the
norm to the nearest binary64 value, when the two offsets are computed
exactly: the squared distance is compared with `(72.5 - 2 ^ -47) ^ 2`. -/
theorem inContact_binary64_nearest_iff (d : Dragon) (c : Collectible) (hsize : c.size = 25)
    (hx : binary64 (c.x - d.x) = c.x - d.x) (hy : binary64 (c.y - d.y) = c.y - d.y) :
    inContact_binary64 hypot_nearest d c = true ↔
      (c.x - d.x) * (c.x - d.x) + (c.y - d.y) * (c.y - d.y) < (145 / 2 - 1 / 2 ^ 47) ^ 2 := by
  unfold inContact_binary64 checkCircleCollision_binary64 hypot_nearest
  rw [decide_eq_true_iff, hx, hy, hsize]
  simp only [dragon_width]
  rw [binary64_radius_sum, binary64_sqrt_lt_radius]

theorem roundedSqrt_eq_of_between (t : ℚ) (ht : 0 ≤ t) (M : ℕ) (hM : M % 2 = 0) (hpos : 0 < M)
    (h1 : ((M : ℚ) - 1 / 2) ^ 2 ≤ t) (h2 : t < ((M : ℚ) + 1 / 2) ^ 2) : roundedSqrt t = M := by
  have hge : ¬ roundedSqrt t < M := by
    rw [roundedSqrt_lt_iff t ht M hM hpos]
    exact not_lt.mpr h1
  obtain ⟨hn1, -⟩ := sqrt_floor_bounds t ht
  have hle := roundedSqrt_le t
  have hn : Nat.sqrt ⌊t⌋₊ ≤ M := by
    by_contra hn
    have hq : (M : ℚ) + 1 ≤ (Nat.sqrt ⌊t⌋₊ : ℕ) := by exact_mod_cast not_le.mp hn
    have h0 : (0 : ℚ) ≤ M := by positivity
    nlinarith
  rcases Nat.lt_or_ge (Nat.sqrt ⌊t⌋₊) M with h | h
  · omega
  · have hnM : Nat.sqrt ⌊t⌋₊ = M := by omega
    simp only [roundedSqrt]
    rw [hnM, if_pos h2]

/-- The value of the nearest binary64 square root for a root in `[64, 128)`
that rounds to 72.5. -/
theorem binary64_sqrt_eq_radius (q : ℚ) (h1 : (145 / 2 - 1 / 2 ^ 47) ^ 2 ≤ q)
    (h2 : q < (145 / 2 + 1 / 2 ^ 47) ^ 2) : binary64_sqrt q = 145 / 2 := by
  have hq : 0 < q := lt_of_lt_of_le (by norm_num) h1
  have hlog : Int.log 4 q = 6 := by
    have hl1 : (6 : ℤ) ≤ Int.log 4 q := by
      rw [← Int.zpow_le_iff_le_log (by norm_num) hq]
      have : (((4 : ℕ) : ℚ)) ^ (6 : ℤ) = 4096 := by norm_num
      rw [this]
      exact le_trans (by norm_num) h1
    have hl2 : Int.log 4 q < 7 := by
      rw [← Int.lt_zpow_iff_log_lt (by norm_num) hq]
      have : (((4 : ℕ) : ℚ)) ^ (7 : ℤ) = 16384 := by norm_num
      rw [this]
      exact lt_trans h2 (by norm_num)
    omega
  rw [binary64_sqrt_of_pos q hq, two_zpow_mul_self, hlog]
  have hu : (2 : ℚ) ^ ((6 : ℤ) - 52) = 1 / 2 ^ 46 := by norm_num
  have hu4 : (4 : ℚ) ^ ((6 : ℤ) - 52) = 1 / 2 ^ 92 := by norm_num
  have hqt : q / (1 / 2 ^ 92) = q * 2 ^ 92 := by
    rw [div_div_eq_mul_div, div_one]
  rw [hu, hu4, hqt]
  have hcast : ((145 * 2 ^ 45 : ℕ) : ℚ) = 145 * 2 ^ 45 := by norm_num
  have hrs : roundedSqrt (q * 2 ^ 92) = 145 * 2 ^ 45 := by
    apply roundedSqrt_eq_of_between _ (by positivity) _ (by norm_num) (by norm_num)
    · rw [hcast]
      norm_num at h1 ⊢
      linarith
    · rw [hcast]
      norm_num at h2 ⊢
      linarith
  rw [hrs, hcast]
  norm_num

theorem inContact_binary64_nearest_eval (d : Dragon) (c : Collectible) (a b : ℚ)
    (hsize : c.size = 25) (ha : c.x - d.x = a) (hb : c.y - d.y = b)
    (hfa : binary64 a = a) (hfb : binary64 b = b) :
    inContact_binary64 hypot_nearest d c =
      decide (a * a + b * b < (145 / 2 - 1 / 2 ^ 47) ^ 2) := by
  rw [Bool.eq_iff_iff, decide_eq_true_iff,
    inContact_binary64_nearest_iff d c hsize (by rw [ha, hfa]) (by rw [hb, hfb]), ha, hb]

/-- C3, amended: a non-fatal call of `checkCollisions`, as the engine evaluates
it in binary64 with `hypot` for its `Math.hypot`. `score` and
`dragon.tailLength` each grow by exactly the number of collectibles for which
the contact test of the code holds, exactly those collectibles are removed
and the others keep their order; when the test holds for none, score, tail
length and collectibles are unchanged. The test is
`hypot(c.x - dragon.x, c.y - dragon.y) < 60 + c.size / 2` with the differences
and the sum rounded to binary64. On an engine that rounds the norm to the
nearest binary64 value, for a collectible of size 25 whose offsets are
computed exactly, the test holds exactly when the distance is below
`72.5 - 2 ^ -47`; so every collectible that is picked up is at distance less
than `dragon.width / 2 + size / 2`, and one that is not picked up is at
distance at least `72.5 - 2 ^ -47`. -/
theorem checkCollisions_binary64_collectibles_count (hypot : ℚ → ℚ → ℚ) (s : State)
    (h : checkCollisions_fatal_binary64 s = false) :
    (checkCollisions_binary64 hypot s).score =
      s.score + s.collectibles.countP (inContact_binary64 hypot s.dragon) ∧
    (checkCollisions_binary64 hypot s).dragon.tailLength =
      s.dragon.tailLength + s.collectibles.countP (inContact_binary64 hypot s.dragon) ∧
    (checkCollisions_binary64 hypot s).collectibles =
      s.collectibles.filter (fun c => !inContact_binary64 hypot s.dragon c) ∧
    ((∀ c ∈ s.collectibles, inContact_binary64 hypot s.dragon c = false) →
      (checkCollisions_binary64 hypot s).score = s.score ∧
      (checkCollisions_binary64 hypot s).dragon.tailLength = s.dragon.tailLength ∧
      (checkCollisions_binary64 hypot s).collectibles = s.collectibles) ∧
    (∀ c : Collectible, inContact_binary64 hypot s.dragon c = true ↔
      hypot (binary64 (c.x - s.dragon.x)) (binary64 (c.y - s.dragon.y)) <
        binary64 (60 + binary64 (c.size / 2))) ∧
    (∀ c : Collectible, c.size = 25 →
      binary64 (c.x - s.dragon.x) = c.x - s.dragon.x →
      binary64 (c.y - s.dragon.y) = c.y - s.dragon.y →
      (inContact_binary64 hypot_nearest s.dragon c = true ↔
        (c.x - s.dragon.x) * (c.x - s.dragon.x) + (c.y - s.dragon.y) * (c.y - s.dragon.y) <
          (145 / 2 - 1 / 2 ^ 47) ^ 2) ∧
      (inContact_binary64 hypot_nearest s.dragon c = true → inContact s.dragon c = true)) := by
  obtain ⟨hsc, htl, hcs⟩ := checkCollisions_binary64_of_not_fatal hypot s h
  refine ⟨hsc, htl, hcs, ?_, ?_, ?_⟩
  · intro hnone
    have hcount : s.collectibles.countP (inContact_binary64 hypot s.dragon) = 0 := by
      rw [List.countP_eq_zero]
      intro c hc
      simp [hnone c hc]
    refine ⟨by rw [hsc, hcount]; rfl, by rw [htl, hcount]; rfl, ?_⟩
    rw [hcs, List.filter_eq_self]
    intro c hc
    simp [hnone c hc]
  · intro c
    have h60 : binary64 (120 / 2 : ℚ) = 60 := by
      have := binary64_intCast 60 (by norm_num)
      norm_num at this ⊢
      exact this
    unfold inContact_binary64 checkCircleCollision_binary64
    rw [decide_eq_true_iff]
    simp only [dragon_width, h60]
  · intro c hsize hx hy
    have hiff := inContact_binary64_nearest_iff s.dragon c hsize hx hy
    refine ⟨hiff, ?_⟩
    intro hc
    have hlt := hiff.mp hc
    unfold inContact hypot_lt
    rw [decide_eq_true_iff, hsize]
    simp only [dragon_width]
    constructor
    · norm_num
    · have : ((145 : ℚ) / 2 - 1 / 2 ^ 47) ^ 2 < (120 / 2 + 25 / 2) * (120 / 2 + 25 / 2) := by
        norm_num
      linarith

theorem checkCollisions_binary64_collectibles_count_witness :
    checkCollisions_fatal_binary64 threeGems = false ∧
    (checkCollisions_binary64 hypot_nearest threeGems).score = 2 ∧
    (checkCollisions_binary64 hypot_nearest threeGems).dragon.tailLength = 2 ∧
    (checkCollisions_binary64 hypot_nearest threeGems).collectibles = [gemAt 700 300] := by
  have hfatal : checkCollisions_fatal_binary64 threeGems = false := by decide!
  have h := checkCollisions_binary64_collectibles_count hypot_nearest threeGems hfatal
  have hdx : threeGems.dragon.x = 150 := by decide!
  have hdy : threeGems.dragon.y = 300 := by decide!
  have hl : threeGems.collectibles = [gemAt 160 300, gemAt 700 300, gemAt 150 330] := rfl
  have hs : threeGems.score = 0 := by decide!
  have ht : threeGems.dragon.tailLength = 0 := by decide!
  have f0 : binary64 (0 : ℚ) = 0 := binary64_zero
  have f10 : binary64 (10 : ℚ) = 10 := by exact_mod_cast binary64_intCast 10 (by norm_num)
  have f30 : binary64 (30 : ℚ) = 30 := by exact_mod_cast binary64_intCast 30 (by norm_num)
  have f550 : binary64 (550 : ℚ) = 550 := by exact_mod_cast binary64_intCast 550 (by norm_num)
  have e1 : inContact_binary64 hypot_nearest threeGems.dragon (gemAt 160 300) = true := by
    rw [inContact_binary64_nearest_eval _ _ 10 0 rfl (by rw [hdx]; norm_num [gemAt])
      (by rw [hdy]; norm_num [gemAt]) f10 f0, decide_eq_true_iff]
    norm_num
  have e2 : inContact_binary64 hypot_nearest threeGems.dragon (gemAt 700 300) = false := by
    rw [inContact_binary64_nearest_eval _ _ 550 0 rfl (by rw [hdx]; norm_num [gemAt])
      (by rw [hdy]; norm_num [gemAt]) f550 f0, decide_eq_false_iff_not]
    norm_num
  have e3 : inContact_binary64 hypot_nearest threeGems.dragon (gemAt 150 330) = true := by
    rw [inContact_binary64_nearest_eval _ _ 0 30 rfl (by rw [hdx]; norm_num [gemAt])
      (by rw [hdy]; norm_num [gemAt]) f0 f30, decide_eq_true_iff]
    norm_num
  have hc : threeGems.collectibles.countP (inContact_binary64 hypot_nearest threeGems.dragon) =
      2 := by
    rw [hl]
    simp [List.countP_cons, e1, e2, e3]
  have hf : threeGems.collectibles.filter
      (fun c => !inContact_binary64 hypot_nearest threeGems.dragon c) = [gemAt 700 300] := by
    rw [hl]
    simp [List.filter_cons, e1, e2, e3]
  rw [hc, hf, hs, ht] at h
  exact ⟨hfatal, h.1, h.2.1, h.2.2.1⟩

/-- C3, counterexample: a collectible at distance less than
`dragon.width / 2 + size / 2 = 72.5` that is not picked up. In `edgeGem` the
dragon is at (150, 200) and the collectible at `(222, 208.5 - 2 ^ -45)`; all
coordinates are binary64 values and both offsets, 72 and `8.5 - 2 ^ -45`, are
computed exactly. The squared distance is below `72.5 ^ 2` by about
`17 * 2 ^ -45`, the norm rounds to 72.5, the strict comparison `72.5 < 72.5`
fails, and `checkCollisions` leaves score, tail length and collectibles as
they were, where the count of the claim is 1. The same at the offsets
`(58, 43.5 - 2 ^ -47)` of `edgeGemHigh`. -/
theorem checkCollisions_contact_rounds_at_edge :
    (edgeGem.dragon.x = 150 ∧ edgeGem.dragon.y = 200 ∧
      edgeGem.collectibles = [gemAt 222 (417 / 2 - 1 / 2 ^ 45)] ∧
      binary64 (417 / 2 - 1 / 2 ^ 45 : ℚ) = 417 / 2 - 1 / 2 ^ 45 ∧
      binary64 (222 - 150 : ℚ) = 72 ∧
      binary64 (417 / 2 - 1 / 2 ^ 45 - 200 : ℚ) = 17 / 2 - 1 / 2 ^ 45 ∧
      (72 : ℚ) * 72 + (17 / 2 - 1 / 2 ^ 45) * (17 / 2 - 1 / 2 ^ 45) < (145 / 2) * (145 / 2) ∧
      inContact edgeGem.dragon (gemAt 222 (417 / 2 - 1 / 2 ^ 45)) = true ∧
      edgeGem.collectibles.countP (inContact edgeGem.dragon) = 1 ∧
      hypot_nearest 72 (17 / 2 - 1 / 2 ^ 45) = 145 / 2 ∧
      inContact_binary64 hypot_nearest edgeGem.dragon
        (gemAt 222 (417 / 2 - 1 / 2 ^ 45)) = false ∧
      checkCollisions_fatal_binary64 edgeGem = false ∧
      (checkCollisions_binary64 hypot_nearest edgeGem).score = edgeGem.score ∧
      (checkCollisions_binary64 hypot_nearest edgeGem).dragon.tailLength =
        edgeGem.dragon.tailLength ∧
      (checkCollisions_binary64 hypot_nearest edgeGem).collectibles = edgeGem.collectibles ∧
      (checkCollisions edgeGem).score = edgeGem.score + 1) ∧
    (edgeGemHigh.dragon.x = 150 ∧ edgeGemHigh.dragon.y = 61 + 1 / 2 ^ 47 ∧
      edgeGemHigh.collectibles = [gemAt 208 (209 / 2)] ∧
      binary64 (61 + 1 / 2 ^ 47 : ℚ) = 61 + 1 / 2 ^ 47 ∧
      binary64 (208 - 150 : ℚ) = 58 ∧
      binary64 (209 / 2 - (61 + 1 / 2 ^ 47) : ℚ) = 87 / 2 - 1 / 2 ^ 47 ∧
      (58 : ℚ) * 58 + (87 / 2 - 1 / 2 ^ 47) * (87 / 2 - 1 / 2 ^ 47) < (145 / 2) * (145 / 2) ∧
      inContact edgeGemHigh.dragon (gemAt 208 (209 / 2)) = true ∧
      hypot_nearest 58 (87 / 2 - 1 / 2 ^ 47) = 145 / 2 ∧
      inContact_binary64 hypot_nearest edgeGemHigh.dragon (gemAt 208 (209 / 2)) = false ∧
      checkCollisions_fatal_binary64 edgeGemHigh = false ∧
      (checkCollisions_binary64 hypot_nearest edgeGemHigh).score = edgeGemHigh.score ∧
      (checkCollisions_binary64 hypot_nearest edgeGemHigh).collectibles =
        edgeGemHigh.collectibles ∧
      (checkCollisions edgeGemHigh).score = edgeGemHigh.score + 1) := by
  have f72 : binary64 (72 : ℚ) = 72 := by exact_mod_cast binary64_intCast 72 (by norm_num)
  have f58 : binary64 (58 : ℚ) = 58 := by exact_mod_cast binary64_intCast 58 (by norm_num)
  have fb : binary64 (17 / 2 - 1 / 2 ^ 45 : ℚ) = 17 / 2 - 1 / 2 ^ 45 :=
    binary64_of_int_mul _ (17 * 2 ^ 44 - 1) (-45) (by norm_num) (by norm_num) (by norm_num)
  have fb2 : binary64 (87 / 2 - 1 / 2 ^ 47 : ℚ) = 87 / 2 - 1 / 2 ^ 47 :=
    binary64_of_int_mul _ (87 * 2 ^ 46 - 1) (-47) (by norm_num) (by norm_num) (by norm_num)
  have fy : binary64 (417 / 2 - 1 / 2 ^ 45 : ℚ) = 417 / 2 - 1 / 2 ^ 45 :=
    binary64_of_int_mul _ (417 * 2 ^ 44 - 1) (-45) (by norm_num) (by norm_num) (by norm_num)
  have fy2 : binary64 (61 + 1 / 2 ^ 47 : ℚ) = 61 + 1 / 2 ^ 47 :=
    binary64_of_int_mul _ (61 * 2 ^ 47 + 1) (-47) (by norm_num) (by norm_num) (by norm_num)
  have hdx : edgeGem.dragon.x = 150 := by decide!
  have hdy : edgeGem.dragon.y = 200 := rfl
  have hdx2 : edgeGemHigh.dragon.x = 150 := by decide!
  have hdy2 : edgeGemHigh.dragon.y = 61 + 1 / 2 ^ 47 := rfl
  have hfatal : checkCollisions_fatal_binary64 edgeGem = false := by decide!
  have hfatal2 : checkCollisions_fatal_binary64 edgeGemHigh = false := by decide!
  have e1 : inContact_binary64 hypot_nearest edgeGem.dragon
      (gemAt 222 (417 / 2 - 1 / 2 ^ 45)) = false := by
    rw [inContact_binary64_nearest_eval _ _ 72 (17 / 2 - 1 / 2 ^ 45) rfl
      (by rw [hdx]; norm_num [gemAt]) (by rw [hdy]; norm_num [gemAt]) f72 fb,
      decide_eq_false_iff_not]
    norm_num
  have e2 : inContact_binary64 hypot_nearest edgeGemHigh.dragon (gemAt 208 (209 / 2)) = false := by
    rw [inContact_binary64_nearest_eval _ _ 58 (87 / 2 - 1 / 2 ^ 47) rfl
      (by rw [hdx2]; norm_num [gemAt]) (by rw [hdy2]; norm_num [gemAt]) f58 fb2,
      decide_eq_false_iff_not]
    norm_num
  have hl : edgeGem.collectibles = [gemAt 222 (417 / 2 - 1 / 2 ^ 45)] := rfl
  have hl2 : edgeGemHigh.collectibles = [gemAt 208 (209 / 2)] := rfl
  obtain ⟨hsc, htl, hcs⟩ := checkCollisions_binary64_of_not_fatal hypot_nearest edgeGem hfatal
  obtain ⟨hsc2, -, hcs2⟩ :=
    checkCollisions_binary64_of_not_fatal hypot_nearest edgeGemHigh hfatal2
  have hc : edgeGem.collectibles.countP (inContact_binary64 hypot_nearest edgeGem.dragon) =
      0 := by
    rw [List.countP_eq_zero]
    intro c hc
    rw [hl, List.mem_singleton] at hc
    rw [hc, e1]
    exact Bool.false_ne_true
  have hf : edgeGem.collectibles.filter
      (fun c => !inContact_binary64 hypot_nearest edgeGem.dragon c) = edgeGem.collectibles := by
    rw [List.filter_eq_self]
    intro c hc
    rw [hl, List.mem_singleton] at hc
    rw [hc, e1]
    rfl
  have hc2 : edgeGemHigh.collectibles.countP
      (inContact_binary64 hypot_nearest edgeGemHigh.dragon) = 0 := by
    rw [List.countP_eq_zero]
    intro c hc
    rw [hl2, List.mem_singleton] at hc
    rw [hc, e2]
    exact Bool.false_ne_true
  have hf2 : edgeGemHigh.collectibles.filter
      (fun c => !inContact_binary64 hypot_nearest edgeGemHigh.dragon c) =
      edgeGemHigh.collectibles := by
    rw [List.filter_eq_self]
    intro c hc
    rw [hl2, List.mem_singleton] at hc
    rw [hc, e2]
    rfl
  refine ⟨⟨hdx, hdy, hl, fy, ?_, ?_, by norm_num, by decide!, by decide!, ?_, e1, hfatal, ?_, ?_,
      ?_, by decide!⟩,
    ⟨hdx2, hdy2, hl2, fy2, ?_, ?_, by norm_num, by decide!, ?_, e2, hfatal2, ?_, ?_,
      by decide!⟩⟩
  · norm_num
    exact f72
  · have : (417 / 2 - 1 / 2 ^ 45 - 200 : ℚ) = 17 / 2 - 1 / 2 ^ 45 := by norm_num
    rw [this]
    exact fb
  · unfold hypot_nearest
    apply binary64_sqrt_eq_radius <;> norm_num
  · rw [hsc, hc]
    rfl
  · rw [htl, hc]
    rfl
  · rw [hcs, hf]
  · norm_num
    exact f58
  · have : (209 / 2 - (61 + 1 / 2 ^ 47) : ℚ) = 87 / 2 - 1 / 2 ^ 47 := by norm_num
    rw [this]
    exact fb2
  · unfold hypot_nearest
    apply binary64_sqrt_eq_radius <;> norm_num
  · rw [hsc2, hc2]
    rfl
  · rw [hcs2, hf2]

/-! ## The cooldown over whole ticks: where the count breaks -/

theorem fallRun_67_run : fallScript.run 67 0 fireShot = some fallRun_67 := by
  decide!

theorem fallRun_67_reachable : Reachable fallRun_67 :=
  fallScript.run_session _ _ _ _
    (Session.useFireBreath fireReady_reachable.1 fireReady_reachable.2) fallRun_67_run

/-- C9, counterexample: the cooldown does not always go down by one per tick.
After a successful `useShield` in the reachable state `shieldReady` the Shield
cooldown is 180 and one tick brings it to 179; the pickup of a shield power-up
then sets it back to 180, so that after two ticks it is 179 and not 178. The
same within a single tick: from `shieldUsedWithShieldAhead`, where a shield
power-up is in reach, one tick leaves the cooldown at 180 and not 179. For
Fire: after a successful `useFireBreath` in `fireReady`, 67 ticks of falling
bring the cooldown from 300 to 233; the next tick finds the dragon on the
bottom edge, ends the game and returns before `updateAbilities`, so that after
68 ticks the cooldown is 233 and not 232. -/
theorem cooldown_count_interrupted :
    (Reachable shieldReady ∧ shieldReady.gameState = GameState.playing ∧ shieldGate shieldReady ∧
      shieldUsed.abilities.shield.cooldown = 180 ∧
      (updateGame shieldUsed midDraws).gameState = GameState.playing ∧
      (updateGame shieldUsed midDraws).abilities.shield.cooldown = 179 ∧
      Reachable (activatePowerup (updateGame shieldUsed midDraws) PowerupType.shield) ∧
      (activatePowerup (updateGame shieldUsed midDraws)
        PowerupType.shield).abilities.shield.cooldown = 180 ∧
      (updateGame (activatePowerup (updateGame shieldUsed midDraws) PowerupType.shield)
        midDraws).abilities.shield.cooldown = 179 ∧
      (updateGame (activatePowerup (updateGame shieldUsed midDraws) PowerupType.shield)
        midDraws).abilities.shield.cooldown ≠ 180 - 2) ∧
    (shieldUsedWithShieldAhead.abilities.shield.cooldown = 180 ∧
      updateGame_completes shieldUsedWithShieldAhead = true ∧
      (updateGame shieldUsedWithShieldAhead midDraws).abilities.shield.cooldown = 180 ∧
      (updateGame shieldUsedWithShieldAhead midDraws).abilities.shield.cooldown ≠ 180 - 1 ∧
      (updateGame shieldUsedWithShieldAhead midDraws).activePowerup =
        some PowerupType.shield ∧
      (updateGame shieldUsedWithShieldAhead midDraws).powerups = []) ∧
    (Reachable fireReady ∧ fireGate fireReady ∧ fireShot = useFireBreath fireReady ∧
      fireShot.abilities.fire.cooldown = 300 ∧
      fallScript.run 67 0 fireShot = some fallRun_67 ∧
      Reachable fallRun_67 ∧ fallRun_67.gameState = GameState.playing ∧
      fallRun_67.abilities.fire.cooldown = 300 - 67 ∧
      updateGame_completes fallRun_67 = false ∧
      (updateGame fallRun_67 fallScript.draws).gameState = GameState.gameOver ∧
      (updateGame fallRun_67 fallScript.draws).abilities.fire.cooldown = 233 ∧
      (updateGame fallRun_67 fallScript.draws).abilities.fire.cooldown ≠ 300 - 68) := by
  have hused : Reachable shieldUsed :=
    Session.useShield shieldReady_reachable.1 shieldReady_reachable.2
  have husedp : shieldUsed.gameState = GameState.playing := by decide!
  have htick : Reachable (updateGame shieldUsed midDraws) := Session.tick midDraws hused husedp
  have htickp : (updateGame shieldUsed midDraws).gameState = GameState.playing := by decide!
  refine ⟨⟨shieldReady_reachable.1, shieldReady_reachable.2, by decide!, by decide!, htickp,
      by decide!, Session.pickupPowerup PowerupType.shield rfl htick htickp, by decide!,
      by decide!, by decide!⟩,
    ⟨by decide!, by decide!, by decide!, by decide!, by decide!, by decide!⟩,
    ⟨fireReady_reachable.1, by decide!, rfl, by decide!, fallRun_67_run, fallRun_67_reachable,
      by decide!, by decide!, by decide!, by decide!, by decide!, by decide!⟩⟩

end BabyDragon
